import Mathlib

/-! Quetoo game module: combat resolution (`g_combat.c`) and game rules
(`g_main.c`), with the server side of the game interface (`sv_game.c`) and the
location lookup of the client (`cl_loc.c`).

A shallow embedding of the damage path, of the vote, round, timer, limit and
cvar checks of the game module and of its frame function, of the loading of
the game module and the config strings of the server, and of the lookup of the
nearest location.

Conventions of the embedding:

* `int16_t` values are integers (`Int`); every store into an `int16_t` goes
  through `wrap16` (two's complement wrap-around).
* `vec_t` / `double` values are exact rationals (`ℚ`).  Floating-point
  rounding is modelled where `G_Damage` scales the damage by the handicap
  (`roundDouble`, round to nearest `double`, ties to even) and nowhere else.  A
  conversion of a floating value to `int16_t` truncates toward zero (`truncQ`)
  and then wraps (`toInt16`).
* Entity pointers are indices into `World.entities` (`g_game.entities`); a
  nullable pointer is an `Option`.
* Calls through the engine import table (`gi.*`) and through the `Pain` / `Die`
  function pointers are recorded, in order, in a trace of `Event`s; the bodies
  of the callbacks are not part of `g_combat.c` and are not modelled.
* `uint32_t` values are natural numbers; a subtraction or addition that can
  leave the range goes through `wrap32`.
* The functions of `g_main.c` return the new state with the calls they made, in
  order, as a list of `GameEvent`s; the functions of the game module that are
  not among the sources are the fields of `GameEnv`.
* The entity loop of `G_Frame`, whose end depends on the state, takes a `fuel`
  argument and returns `none` if it has not ended within it.
* The functions of `sv_game.c` return the new server state with the calls they
  made as a list of `SvEvent`s; a call of `Com_Error`, which does not return,
  ends the function.
-/

namespace Quetoo

/-! ## Machine integers and numeric conversions -/

/-- Two's complement wrap-around of an integer into the `int16_t` range. -/
def wrap16 (n : Int) : Int := (n + 32768) % 65536 - 32768

/-- Truncation of a rational toward zero, as in a C conversion to an integer type. -/
def truncQ (q : ℚ) : Int := Int.tdiv q.num (q.den : Int)

/-- Conversion of a floating value to `int16_t`: truncate, then wrap.  C leaves
the conversion of a value outside the `int16_t` range undefined; the model
wraps, and every statement that depends on such a conversion assumes the value
in range. -/
def toInt16 (q : ℚ) : Int := wrap16 (truncQ q)

/-- The power `2 ^ k` of two for an integer exponent `k`. -/
def pow2 (k : Int) : ℚ :=
  if 0 ≤ k then ((2 ^ k.toNat : Nat) : ℚ) else 1 / ((2 ^ (-k).toNat : Nat) : ℚ)

/-- The position of the highest set bit of `n` (0 for `n < 2`), by halving at
most `fuel` times. -/
def log2Fuel : Nat → Nat → Nat
  | 0, _ => 0
  | fuel + 1, n => if n ≥ 2 then log2Fuel fuel (n / 2) + 1 else 0

/-- The binary exponent of a rational `q ≠ 0`: the integer `e` with
`2 ^ e ≤ |q| < 2 ^ (e + 1)`. -/
def ilog2 (q : ℚ) : Int :=
  let k : Int := (log2Fuel q.num.natAbs q.num.natAbs : Int) - (log2Fuel q.den q.den : Int)
  if |q| < pow2 k then k - 1 else k

/-- Rounding of a rational to the nearest integer, a tie going to the even one. -/
def roundHalfEven (s : ℚ) : Int :=
  let f : Int := ⌊s⌋
  if s - f < 1 / 2 then f
  else if s - f > 1 / 2 then f + 1
  else if f % 2 = 0 then f else f + 1

/-- The result of an arithmetic operation in `double` whose exact value is `q`:
`q` rounded to the nearest number with a significand of 53 bits, ties to even
(IEEE 754 binary64 in the default rounding mode).  The exponent range of the
format is not modelled: no value that `G_Damage` computes from an `int16_t` and
a `vec_t` handicap leaves the range of the normal numbers. -/
def roundDouble (q : ℚ) : ℚ :=
  if q = 0 then 0
  else (roundHalfEven (q / pow2 (ilog2 q - 52)) : ℚ) * pow2 (ilog2 q - 52)

/-- Modelled from the spec: the `Clamp(x, lo, hi)` macro of the shared header, which is
not among the sources; the spec uses it as the usual clamp of `x` to `[lo, hi]`. -/
def Clamp (x lo hi : ℚ) : ℚ := if x < lo then lo else if x > hi then hi else x

/-- Modelled from the spec: the `MAX(a, b)` macro of the shared header. -/
def MAX (a b : ℚ) : ℚ := if a > b then a else b

/-! ## Vectors -/

/-- The type `vec3_t`. -/
structure Vec3 where
  x : ℚ := 0
  y : ℚ := 0
  z : ℚ := 0
deriving DecidableEq, Repr

/-- The constant `vec3_origin`. -/
def vec3_origin : Vec3 := ⟨0, 0, 0⟩

/-- Modelled from the spec: the `VectorAdd` macro of the shared header (componentwise sum). -/
def VectorAdd (a b : Vec3) : Vec3 := ⟨a.x + b.x, a.y + b.y, a.z + b.z⟩

/-- Modelled from the spec: the `VectorScale` macro of the shared header. -/
def VectorScale (a : Vec3) (s : ℚ) : Vec3 := ⟨a.x * s, a.y * s, a.z * s⟩

/-- Modelled from the spec: the `VectorMA` macro of the shared header, `a + s * b`. -/
def VectorMA (a : Vec3) (s : ℚ) (b : Vec3) : Vec3 :=
  ⟨a.x + s * b.x, a.y + s * b.y, a.z + s * b.z⟩

/-! ## Constants of `g_types.h` -/

def FL_GOD_MODE : Nat := 0x00000004

def DMG_RADIUS : Nat := 0x1
def DMG_ENERGY : Nat := 0x2
def DMG_BULLET : Nat := 0x4
def DMG_NO_ARMOR : Nat := 0x8
def DMG_NO_GOD : Nat := 0x10

def MOD_BFG_BLAST : Nat := 14
def MOD_TELEFRAG : Nat := 19
def MOD_FRIENDLY_FIRE : Nat := 0x8000000

def MOVE_TYPE_NONE : Nat := 0
def MOVE_TYPE_NO_CLIP : Nat := 1
def MOVE_TYPE_PUSH : Nat := 2
def MOVE_TYPE_STOP : Nat := 3
def MOVE_TYPE_WALK : Nat := 4
def MOVE_TYPE_FLY : Nat := 5
def MOVE_TYPE_BOUNCE : Nat := 6

/-- The enumeration `g_gameplay_t`. -/
inductive g_gameplay_t where
  | GAME_DEATHMATCH
  | GAME_INSTAGIB
  | GAME_ARENA
  | GAME_DUEL
deriving DecidableEq, Repr

/-- The value of a game mode as an integer (the position in the enumeration). -/
def g_gameplay_t.index : g_gameplay_t → Nat
  | .GAME_DEATHMATCH => 0
  | .GAME_INSTAGIB => 1
  | .GAME_ARENA => 2
  | .GAME_DUEL => 3

/-- The macro `QUAD_DAMAGE_FACTOR` of `g_combat.c`. -/
def QUAD_DAMAGE_FACTOR : ℚ := 5 / 2

/-- The macro `QUAD_KNOCKBACK_FACTOR` of `g_combat.c`. -/
def QUAD_KNOCKBACK_FACTOR : ℚ := 2

/-! ## Data model -/

/-- The fields of `g_armor_info_t` read by the damage path. -/
structure g_armor_info_t where
  normal_protection : ℚ
  energy_protection : ℚ
deriving DecidableEq, Repr

/-- The fields of `pm_state_t` written by the game module; `type` is the
movement type (`PM_NORMAL`, `PM_FREEZE`, ...). -/
structure pm_state_t where
  flags : Nat := 0
  time : Nat := 0
  type : Nat := 0
deriving DecidableEq, Repr

/-- The enumeration `g_vote_t`. -/
inductive g_vote_t where
  | VOTE_NO_OP
  | VOTE_YES
  | VOTE_NO
deriving DecidableEq, Repr

/-- The fields of `g_client_persistent_t` read by the damage path.  `team` is the
team pointer: `none` is `NULL`, otherwise the identity of the team. -/
structure g_client_persistent_t where
  handicap : ℚ := 100
  team : Option Nat := none
  spectator : Bool := false
  net_name : String := ""
  score : Int := 0
  captures : Int := 0
  ready : Bool := false
  vote : g_vote_t := .VOTE_NO_OP
  match_num : Nat := 0
  round_num : Nat := 0
deriving DecidableEq, Repr

/-- The fields of `g_client_locals_t` (with the `pm_state` of the player state)
used by the damage path. -/
structure g_client_t where
  persistent : g_client_persistent_t := {}
  inventory : List Int := []
  damage_armor : Int := 0
  damage_health : Int := 0
  damage_inflicted : Int := 0
  respawn_protection_time : Nat := 0
  pm_state : pm_state_t := {}
  muted : Bool := false
deriving DecidableEq, Repr

/-- The fields of `g_entity_t` / `g_entity_locals_t` used by the damage path.
`Pain` and `Die` say whether the function pointer is set. -/
structure g_entity_t where
  origin : Vec3 := {}
  client : Option g_client_t := none
  flags : Nat := 0
  move_type : Nat := 0
  velocity : Vec3 := {}
  avelocity : Vec3 := {}
  mass : ℚ := 0
  Pain : Bool := false
  Die : Bool := false
  health : Int := 0
  dead : Bool := false
  take_damage : Bool := false
  in_use : Bool := false
  angles : Vec3 := {}
  solid : Nat := 0
  abs_mins : Vec3 := {}
  abs_maxs : Vec3 := {}
  owner : Option Nat := none
  spawn_flags : Nat := 0
  item : Option Nat := none
deriving DecidableEq, Repr

/-- The fields of the singleton `g_level` used by the game module.  The
`uint32_t` fields are natural numbers; the operations that can wrap go through
`wrap32`.  `votes` is the array `votes[3]`, indexed by `g_vote_t`;
`timeout_caller` and `changemap` are pointers, `none` for `NULL`. -/
structure g_level_t where
  time : Nat := 0
  gameplay : g_gameplay_t := .GAME_DEATHMATCH
  teams : Bool := false
  ctf : Bool := false
  frame_num : Nat := 0
  name : String := ""
  «match» : Bool := false
  rounds : Bool := false
  frag_limit : Int := 0
  round_limit : Int := 0
  capture_limit : Int := 0
  time_limit : Nat := 0
  intermission_time : Nat := 0
  intermission_origin : Vec3 := {}
  intermission_angle : Vec3 := {}
  changemap : Option String := none
  warmup : Bool := false
  start_match : Bool := false
  match_time : Nat := 0
  match_num : Nat := 0
  start_round : Bool := false
  round_time : Nat := 0
  round_num : Nat := 0
  vote_cmd : String := ""
  votes : List Nat := [0, 0, 0]
  vote_time : Nat := 0
  match_status : Nat := 0
  timeout_caller : Option Nat := none
  timeout_time : Nat := 0
  timeout_frame : Nat := 0
  gravity : Int := 0
deriving DecidableEq, Repr

/-- The fields of `cvar_t` that the game module reads or writes. -/
structure cvar_t where
  string : String := ""
  value : ℚ := 0
  integer : Int := 0
  modified : Bool := false
deriving DecidableEq, Repr

/-- The fields of `g_team_t` used by the rule checks. -/
structure g_team_t where
  name : String := ""
  score : Int := 0
  captures : Int := 0
deriving DecidableEq, Repr

/-- The mutable game state: the entity array `g_game.entities` (the client of
slot `i` belongs to entity `i + 1`), the level singleton, the two teams, the
values of the cvars the rule checks read (`g_time_limit` and
`g_time_limit_integer` are the fields `value` and `integer` of the cvar
`g_time_limit` and `g_time_limit_modified` is its field `modified`; the cvars
that `G_CheckRules` reconciles with the level are of type `cvar_t`), the frame
constants of the import table, the static `last_time` of `G_FormatTime` and
`ge.num_entities`. -/
structure World where
  entities : List g_entity_t := []
  level : g_level_t := {}
  g_friendly_fire : ℚ := 0
  g_team_good : g_team_t := { name := "Good" }
  g_team_evil : g_team_t := { name := "Evil" }
  g_voting : ℚ := 1
  g_time_limit : ℚ := 0
  g_time_limit_integer : Int := 0
  g_timeout_time : Int := 0
  g_auto_join : ℚ := 0
  sv_max_clients : Int := 0
  frame_millis : Nat := 100
  frame_rate : Nat := 10
  last_time : Nat := 4294967295
  num_entities : Nat := 0
  g_gameplay : cvar_t := {}
  g_gravity : cvar_t := {}
  g_teams : cvar_t := {}
  g_ctf : cvar_t := {}
  g_match : cvar_t := {}
  g_rounds : cvar_t := {}
  g_cheats : cvar_t := {}
  g_frag_limit : cvar_t := {}
  g_round_limit : cvar_t := {}
  g_capture_limit : cvar_t := {}
  g_time_limit_modified : Bool := false
deriving DecidableEq, Repr

/-- The temp-entity types emitted by the damage path. -/
inductive g_temp_entity_t where
  | TE_BLOOD
  | TE_BULLET
  | TE_SPARKS
deriving DecidableEq, Repr

/-- Observable calls made by the damage path, in program order. -/
inductive Event where
  /-- The call `gi.WriteByte(SV_CMD_TEMP_ENTITY)`. -/
  | WriteByteCmd
  /-- The call `gi.WriteByte(type)`. -/
  | WriteByteType (type : g_temp_entity_t)
  /-- The call `gi.WritePosition(pos)`. -/
  | WritePosition (pos : Vec3)
  /-- The call `gi.WriteDir(dir)`. -/
  | WriteDir (dir : Vec3)
  /-- The call `gi.Multicast(pos, MULTICAST_PVS, NULL)`. -/
  | Multicast (pos : Vec3)
  /-- The call `target->locals.Pain(target, attacker, damage, knockback)`. -/
  | PainCall (self other : Nat) (damage knockback : Int)
  /-- The call `target->locals.Die(target, attacker, mod)`. -/
  | DieCall (self attacker : Nat) (mod : Nat)
  /-- The call `gi.Debug("No die function for %s\n", ...)`. -/
  | DebugNoDie (self : Nat)
  /-- The call `G_ClientDamageKick(target, dir, kick)`. -/
  | DamageKick (ent : Nat) (dir : Vec3) (kick : ℚ)
deriving DecidableEq, Repr

/-- The parts of the game module and of the shared library that the damage path
calls but that are not part of `g_combat.c`. -/
structure Env where
  /-- The function `G_ClientArmor` on an entity that has a client: the item index
  of the strongest armor the client holds in its inventory, `none` for `NULL`. -/
  G_ClientArmor : List Int → Option Nat
  /-- The function `G_ArmorInfo` on an armor item. -/
  G_ArmorInfo : Nat → g_armor_info_t
  /-- The function `G_IsStructural(ent, NULL)`. -/
  G_IsStructural : g_entity_t → Bool
  /-- The function `G_IsMeat`. -/
  G_IsMeat : g_entity_t → Bool
  /-- The function `VectorNormalize`, as the normalized vector it leaves in place. -/
  VectorNormalize : Vec3 → Vec3
  /-- The item index `g_media.items.quad_damage`. -/
  quad_damage : Nat
  /-- The flag `PMF_GIBLET`. -/
  PMF_GIBLET : Nat
  /-- The flag `PMF_TIME_PUSHED`. -/
  PMF_TIME_PUSHED : Nat

/-! ## `g_combat.c` -/

/-- The function `G_OnSameTeam` (lines 28-40). -/
def G_OnSameTeam (level : g_level_t) (ent1 ent2 : g_entity_t) : Bool :=
  match ent1.client, ent2.client with
  | some c1, some c2 =>
    if c1.persistent.spectator && c2.persistent.spectator then true
    else if !level.teams && !level.ctf then false
    else decide (c1.persistent.team = c2.persistent.team)
  | _, _ => false

/-- The body of the loop of `G_SpawnDamage`, run `count` times (lines 108-114). -/
def G_SpawnDamage_loop (type : g_temp_entity_t) (pos : Vec3) (normal : Option Vec3) :
    Nat → List Event
  | 0 => []
  | count + 1 =>
    [Event.WriteByteCmd, Event.WriteByteType type, Event.WritePosition pos,
      Event.WriteDir (normal.getD vec3_origin), Event.Multicast pos]
      ++ G_SpawnDamage_loop type pos normal count

/-- The function `G_SpawnDamage` (lines 100-115). -/
def G_SpawnDamage (type : g_temp_entity_t) (pos : Vec3) (normal : Option Vec3)
    (damage : Int) : List Event :=
  if damage < 1 then []
  else
    let count : Int := toInt16 (Clamp (Int.tdiv damage 50 : Int) 1 4)
    G_SpawnDamage_loop type pos normal count.toNat

/-- The function `G_CheckArmor` (lines 123-152): the entity after the call, the
amount absorbed and the calls made. -/
def G_CheckArmor (env : Env) (ent : g_entity_t) (pos : Vec3) (normal : Option Vec3)
    (damage : Int) (dflags : Nat) : g_entity_t × Int × List Event :=
  if dflags &&& DMG_NO_ARMOR ≠ 0 then (ent, 0, [])
  else
    match ent.client with
    | none => (ent, 0, [])
    | some client =>
      match env.G_ClientArmor client.inventory with
      | none => (ent, 0, [])
      | some armor =>
        let armor_info := env.G_ArmorInfo armor
        let quantity : Int := client.inventory.getD armor 0
        let saved : Int :=
          if dflags &&& DMG_ENERGY ≠ 0 then
            toInt16 (Clamp ((damage : ℚ) * armor_info.energy_protection) 0 (quantity : ℚ))
          else
            toInt16 (Clamp ((damage : ℚ) * armor_info.normal_protection) 0 (quantity : ℚ))
        let client1 : g_client_t :=
          { client with inventory := client.inventory.set armor (wrap16 (quantity - saved)) }
        ({ ent with client := some client1 }, saved, G_SpawnDamage .TE_BLOOD pos normal saved)

/-- The damage, knockback and means of death of a `G_Damage` call after the
attacker multipliers and the friendly-fire and self-damage rules. -/
structure DamageArgs where
  damage : Int
  knockback : Int
  mod : Nat
deriving DecidableEq, Repr

/-- Lines 198-205 of `G_Damage`: quad damage and handicap of the attacker.  The
products by `QUAD_DAMAGE_FACTOR` (2.5) and `QUAD_KNOCKBACK_FACTOR` (2.0) are
exact in `double`, an `int16_t` times either having at most 18 significant
bits.  On line 204 the handicap (a `vec_t`) is divided by `100.0` in `double`,
the damage is multiplied by the quotient in `double`, and the product is
truncated into the `int16_t`; both operations round. -/
def G_Damage_multipliers (env : Env) (attacker : g_entity_t) (damage knockback : Int) :
    Int × Int :=
  match attacker.client with
  | none => (damage, knockback)
  | some ac =>
    let dk : Int × Int :=
      if ac.inventory.getD env.quad_damage 0 ≠ 0 then
        (toInt16 ((damage : ℚ) * QUAD_DAMAGE_FACTOR),
          toInt16 ((knockback : ℚ) * QUAD_KNOCKBACK_FACTOR))
      else (damage, knockback)
    (toInt16 (roundDouble ((dk.1 : ℚ) * roundDouble (ac.persistent.handicap / 100))), dk.2)

/-- Lines 198-232 of `G_Damage`: the multipliers, then friendly fire avoidance,
then the suppression of self damage in instagib and arena.  `t` and `a` are the
indices of the target and of the attacker. -/
def G_Damage_rules (env : Env) (w : World) (t a : Nat) (target attacker : g_entity_t)
    (damage knockback : Int) (mod : Nat) : DamageArgs :=
  let dk := G_Damage_multipliers env attacker damage knockback
  let dm : Int × Nat :=
    if t ≠ a ∧ (w.level.teams ∨ w.level.ctf) then
      if G_OnSameTeam w.level target attacker then
        if mod = MOD_TELEFRAG then (dk.1, mod ||| MOD_FRIENDLY_FIRE)
        else if w.g_friendly_fire ≠ 0 then (dk.1, mod ||| MOD_FRIENDLY_FIRE)
        else (0, mod)
      else (dk.1, mod)
    else (dk.1, mod)
  let damage1 : Int :=
    if t = a then
      match w.level.gameplay with
      | .GAME_INSTAGIB => 0
      | .GAME_ARENA => 0
      | _ => dm.1
    else dm.1
  { damage := damage1, knockback := dk.2, mod := dm.2 }

/-- Lines 236-270 of `G_Damage`: the velocity change due to knockback.  `self` says
whether the target is the attacker. -/
def G_Damage_knockback (env : Env) (target : g_entity_t) (self : Bool) (dir : Vec3)
    (knockback : Int) : g_entity_t :=
  if knockback ≠ 0 ∧ target.move_type ≥ MOVE_TYPE_WALK then
    let ndir0 := env.VectorNormalize dir
    let ndir :=
      if ndir0.z ≥ -(1 / 4) then env.VectorNormalize { ndir0 with z := MAX (1 / 4) ndir0.z }
      else ndir0
    let mass := Clamp target.mass 1 1000
    let scale : ℚ := if self then 1200 else 800
    let knockback_vel := VectorScale ndir (scale * (knockback : ℚ) / mass)
    let velocity := VectorAdd target.velocity knockback_vel
    let giblet : Bool :=
      match target.client with
      | none => true
      | some c => decide (c.pm_state.flags &&& env.PMF_GIBLET ≠ 0)
    let avelocity :=
      if giblet then
        VectorMA target.avelocity (100 / mass) ⟨(knockback : ℚ), (knockback : ℚ), (knockback : ℚ)⟩
      else target.avelocity
    let client := target.client.map fun c =>
      { c with pm_state :=
          { c.pm_state with flags := c.pm_state.flags ||| env.PMF_TIME_PUSHED, time := 120 } }
    { target with velocity := velocity, avelocity := avelocity, client := client }
  else target

/-- Replaces the entity stored at index `i`. -/
def World.setEntity (w : World) (i : Nat) (e : g_entity_t) : World :=
  { w with entities := w.entities.set i e }

/-- Lines 311-335 of `G_Damage`: the pain callback and the per-frame damage
counters of the clients involved.  `target` is the target after the damage was
done, `t` and `a` the indices of target and attacker.  Every client entity has
a client structure of its own, so the test `attacker->client != client` is the
test `a ≠ t` on an attacker that has a client. -/
def G_Damage_feedback (w : World) (t a : Nat) (target : g_entity_t) (was_dead : Bool)
    (dir : Vec3) (damage_armor damage_health knockback : Int) : World × List Event :=
  if was_dead then (w.setEntity t target, [])
  else
    let pain : List Event :=
      if (damage_health ≠ 0 ∨ knockback ≠ 0) ∧ target.Pain then
        [Event.PainCall t a damage_health knockback]
      else []
    match target.client with
    | none => (w.setEntity t target, pain)
    | some client =>
      let client1 : g_client_t :=
        { client with
          damage_armor := wrap16 (client.damage_armor + damage_armor)
          damage_health := wrap16 (client.damage_health + damage_health) }
      let kick0 : ℚ := ((damage_armor + damage_health : Int) : ℚ) / 30
      let kick : ℚ := if kick0 > 1 then 1 else kick0
      let w1 := w.setEntity t { target with client := some client1 }
      let w2 : World :=
        if t ≠ a then
          match w1.entities[a]? with
          | some att =>
            match att.client with
            | some ac =>
              let ac1 : g_client_t :=
                { ac with damage_inflicted :=
                    wrap16 (ac.damage_inflicted + (damage_health + damage_armor)) }
              w1.setEntity a { att with client := some ac1 }
            | none => w1
          | none => w1
        else w1
      (w2, pain ++ [Event.DamageKick t dir kick])

/-- The locals of `G_Damage` after lines 272-282: the target after armor
absorption, `damage_armor`, `damage_health` and the calls made. -/
structure Absorbed where
  target : g_entity_t
  damage_armor : Int
  damage_health : Int
  events : List Event
deriving DecidableEq, Repr

/-- Lines 272-282 of `G_Damage`: god mode protection, or armor protection. -/
def G_Damage_absorb (env : Env) (target : g_entity_t) (pos normal : Vec3) (damage : Int)
    (dflags : Nat) : Absorbed :=
  if target.flags &&& FL_GOD_MODE ≠ 0 ∧ ¬ (dflags &&& DMG_NO_GOD ≠ 0) then
    { target := target, damage_armor := damage, damage_health := 0,
      events := G_SpawnDamage .TE_BLOOD pos (some normal) damage }
  else
    let ca := G_CheckArmor env target pos (some normal) damage dflags
    { target := ca.1, damage_armor := ca.2.1, damage_health := wrap16 (damage - ca.2.1),
      events := ca.2.2 }

/-- Lines 288-295 of `G_Damage`: the temp entities for damage done to health. -/
def G_Damage_impact (env : Env) (target : g_entity_t) (pos normal : Vec3)
    (damage_health : Int) (dflags : Nat) : List Event :=
  if env.G_IsStructural target then
    if dflags &&& DMG_BULLET ≠ 0 then G_SpawnDamage .TE_BULLET pos (some normal) damage_health
    else G_SpawnDamage .TE_SPARKS pos (some normal) damage_health
  else if env.G_IsMeat target then G_SpawnDamage .TE_BLOOD pos (some normal) damage_health
  else []

/-- Lines 191-336 of `G_Damage`, after the initial guards: `t` and `a` are the
indices of the target and of the attacker (the world entity if none was given),
`targ` and `att` the entities stored there. -/
def G_Damage_apply (env : Env) (w : World) (t a : Nat) (targ att : g_entity_t)
    (dir pos normal : Option Vec3) (damage knockback : Int) (dflags mod : Nat) :
    World × List Event :=
  let dir := dir.getD vec3_origin
  let pos := pos.getD targ.origin
  let normal := normal.getD vec3_origin
  let r := G_Damage_rules env w t a targ att damage knockback mod
  let targ1 := G_Damage_knockback env targ (decide (t = a)) dir r.knockback
  let ab := G_Damage_absorb env targ1 pos normal r.damage dflags
  let targ2 := ab.target
  let was_dead := targ2.dead
  -- do the damage
  if ab.damage_health ≠ 0 ∧ (targ2.health ≠ 0 ∨ targ2.dead) then
    let impact := G_Damage_impact env targ2 pos normal ab.damage_health dflags
    let targ3 := { targ2 with health := wrap16 (targ2.health - ab.damage_health) }
    if targ3.health ≤ 0 then
      (w.setEntity t { targ3 with dead := true },
        ab.events ++ impact ++
          [if targ3.Die then Event.DieCall t a r.mod else Event.DebugNoDie t])
    else
      let fb := G_Damage_feedback w t a targ3 was_dead dir ab.damage_armor ab.damage_health
        r.knockback
      (fb.1, ab.events ++ impact ++ fb.2)
  else
    let fb := G_Damage_feedback w t a targ2 was_dead dir ab.damage_armor ab.damage_health
      r.knockback
    (fb.1, ab.events ++ fb.2)

/-- Lines 186-189 of `G_Damage`: whether the target is a client under respawn
protection. -/
def respawnProtected (level : g_level_t) (target : g_entity_t) : Bool :=
  match target.client with
  | some c => decide (c.respawn_protection_time > level.time)
  | none => false

/-- The function `G_Damage` (lines 179-336).  The result is the world after the
call and the calls made, in order.  A pointer argument that is not `NULL` is
assumed to point into the entity array; for an index outside the array the
model changes nothing. -/
def G_Damage (env : Env) (w : World) (target inflictor attacker : Option Nat)
    (dir pos normal : Option Vec3) (damage knockback : Int) (dflags mod : Nat) :
    World × List Event :=
  match target with
  | none => (w, [])
  | some t =>
    match w.entities[t]? with
    | none => (w, [])
    | some targ =>
      if !targ.take_damage then (w, [])
      else if respawnProtected w.level targ then (w, [])
      else
        let _inflictor : Nat := inflictor.getD 0
        let a : Nat := attacker.getD 0
        match w.entities[a]? with
        | none => (w, [])
        | some att =>
          G_Damage_apply env w t a targ att dir pos normal damage knockback dflags mod

/-! ## `G_CanDamage` and `G_RadiusDamage` -/

/-- The fields of `cm_trace_t` read by `G_CanDamage`: the fraction of the way
travelled and the entity the trace ended on (`none` for `NULL`). -/
structure cm_trace_t where
  fraction : ℚ := 1
  ent : Option Nat := none
deriving DecidableEq, Repr

/-- The geometric services the radius damage path calls but that are not part
of `g_combat.c`. -/
structure Geometry where
  /-- The call `gi.Trace(start, end, NULL, NULL, skip, MASK_SOLID)`; `skip` is the
  index of the entity to skip. -/
  Trace : Vec3 → Vec3 → Nat → cm_trace_t
  /-- The enumeration value `SOLID_BSP`. -/
  SOLID_BSP : Nat
  /-- The length `VectorNormalize` returns. -/
  VectorLength : Vec3 → ℚ

/-- Modelled from the spec: the `VectorSubtract` macro of the shared header. -/
def VectorSubtract (a b : Vec3) : Vec3 := ⟨a.x - b.x, a.y - b.y, a.z - b.z⟩

/-- The midpoint traced to for a `SOLID_BSP` target (lines 52-53). -/
def G_CanDamage_center (targ : g_entity_t) : Vec3 :=
  VectorScale (VectorAdd targ.abs_mins targ.abs_maxs) (1 / 2)

/-- The five points traced to for a target that is not `SOLID_BSP` (lines 62-90):
the origin and the origin offset by 15 units on both horizontal axes. -/
def G_CanDamage_points (targ : g_entity_t) : List Vec3 :=
  [ targ.origin,
    { targ.origin with x := targ.origin.x + 15, y := targ.origin.y + 15 },
    { targ.origin with x := targ.origin.x + 15, y := targ.origin.y - 15 },
    { targ.origin with x := targ.origin.x - 15, y := targ.origin.y + 15 },
    { targ.origin with x := targ.origin.x - 15, y := targ.origin.y - 15 } ]

/-- Lines 62-94 of `G_CanDamage`: trace to the points in turn and stop at the
first trace with `fraction == 1.0`.  The result is the answer and the end
points of the traces made. -/
def G_CanDamage_scan (geo : Geometry) (start : Vec3) (skip : Nat) :
    List Vec3 → Bool × List Vec3
  | [] => (false, [])
  | dest :: rest =>
    if (geo.Trace start dest skip).fraction = 1 then (true, [dest])
    else
      let r := G_CanDamage_scan geo start skip rest
      (r.1, dest :: r.2)

/-- The function `G_CanDamage` (lines 46-95) for the target with index `t` and
the inflictor with index `i`: the answer and the end points of the traces made,
in order. -/
def G_CanDamage (geo : Geometry) (t : Nat) (targ : g_entity_t) (i : Nat)
    (inflictor : g_entity_t) : Bool × List Vec3 :=
  if targ.solid = geo.SOLID_BSP then
    let dest := G_CanDamage_center targ
    let tr := geo.Trace inflictor.origin dest i
    if tr.fraction = 1 then (true, [dest])
    else if tr.ent = some t then (true, [dest])
    else (false, [dest])
  else G_CanDamage_scan geo inflictor.origin i (G_CanDamage_points targ)

/-- The arguments of one `G_Damage` call made by `G_RadiusDamage`. -/
structure DamageCall where
  target : Nat
  inflictor : Nat
  attacker : Option Nat
  dir : Vec3
  damage : Int
  knockback : Int
  dflags : Nat
  mod : Nat
deriving DecidableEq, Repr

/-- Lines 349-374 of `G_RadiusDamage` for one entity `e` returned by the radius
query: `none` if the entity is skipped, otherwise the arguments of the
`G_Damage` call.  The `vec_t` locals `d` and `k` are converted to the `int16_t`
parameters of `G_Damage`. -/
def G_RadiusDamage_visit (env : Env) (geo : Geometry) (w : World) (inflictor : Nat)
    (attacker ignore : Option Nat) (damage knockback : Int) (mod : Nat) (e : Nat) :
    Option DamageCall :=
  if some e = ignore then none
  else
    match w.entities[e]?, w.entities[inflictor]? with
    | some ent, some infl =>
      if !ent.take_damage then none
      else
        let dir0 := VectorSubtract ent.origin infl.origin
        let dist := geo.VectorLength dir0
        let dir := env.VectorNormalize dir0
        let d0 : ℚ := (damage : ℚ) - 1 / 2 * dist
        let k : ℚ := (knockback : ℚ) - 1 / 2 * dist
        if d0 ≤ 0 ∧ k ≤ 0 then none
        else
          let d : ℚ :=
            if some e = attacker then
              if mod = MOD_BFG_BLAST then d0 * (1 / 4) else d0 * (1 / 2)
            else d0
          if !(G_CanDamage geo e ent inflictor infl).1 then none
          else
            some { target := e, inflictor := inflictor, attacker := attacker, dir := dir,
                   damage := toInt16 d, knockback := toInt16 k, dflags := DMG_RADIUS,
                   mod := mod }
    | _, _ => none

/-- The state of the loop of `G_RadiusDamage`: the world, the calls recorded by
the `G_Damage` calls made so far, and the arguments of those calls. -/
structure RadiusState where
  world : World
  events : List Event := []
  calls : List DamageCall := []

/-- One iteration of the loop of `G_RadiusDamage` (lines 346-375). -/
def G_RadiusDamage_step (env : Env) (geo : Geometry) (inflictor : Nat)
    (attacker ignore : Option Nat) (damage knockback : Int) (mod : Nat)
    (st : RadiusState) (e : Nat) : RadiusState :=
  match G_RadiusDamage_visit env geo st.world inflictor attacker ignore damage knockback mod e with
  | none => st
  | some c =>
    let r := G_Damage env st.world (some c.target) (some c.inflictor) c.attacker (some c.dir)
      none none c.damage c.knockback c.dflags c.mod
    { world := r.1, events := st.events ++ r.2, calls := st.calls ++ [c] }

/-- The function `G_RadiusDamage` (lines 341-376).  `found` is the sequence of
entities that the successive calls of `G_FindRadius` return for the origin of
the inflictor and `radius`; that query is not part of `g_combat.c`. -/
def G_RadiusDamage (env : Env) (geo : Geometry) (w : World) (inflictor : Nat)
    (attacker ignore : Option Nat) (damage knockback : Int) (_radius : ℚ) (mod : Nat)
    (found : List Nat) : RadiusState :=
  found.foldl (G_RadiusDamage_step env geo inflictor attacker ignore damage knockback mod)
    { world := w }

/-! ## `g_main.c`: constants, calls and the functions it relies on -/

/-- Wrap-around of an integer into the `uint32_t` range. -/
def wrap32 (n : Int) : Nat := (n % 4294967296).toNat

def MSTAT_WARMUP : Nat := 0
def MSTAT_PLAYING : Nat := 1 <<< 0
def MSTAT_TIMEOUT : Nat := 1 <<< 1
def MSTAT_COUNTDOWN : Nat := 1 <<< 2

def MAX_VOTE_TIME : Nat := 60000

/-- The macro `VOTE_MAJORITY`, 0.51. -/
def VOTE_MAJORITY : ℚ := 51 / 100

/-- The index of a vote in the array `g_level.votes`. -/
def g_vote_t.index : g_vote_t → Nat
  | .VOTE_NO_OP => 0
  | .VOTE_YES => 1
  | .VOTE_NO => 2

/-- The identity of the team `g_team_good`, as stored in a team pointer. -/
def TEAM_GOOD : Nat := 1

/-- The identity of the team `g_team_evil`, as stored in a team pointer. -/
def TEAM_EVIL : Nat := 2

def SF_ITEM_DROPPED : Nat := 0x00010000

/-! The config string indices of `g_types.h`, as offsets from `CS_GENERAL`
(whose value is not among the sources). -/

def CS_GAMEPLAY : Nat := 0
def CS_TEAMS : Nat := 1
def CS_CTF : Nat := 2
def CS_MATCH : Nat := 3
def CS_ROUNDS : Nat := 4
def CS_TEAM_GOOD : Nat := 5
def CS_TEAM_EVIL : Nat := 6
def CS_TIME : Nat := 7
def CS_ROUND : Nat := 8
def CS_VOTE : Nat := 9

/-- The sounds of `g_media.sounds` played by `g_main.c`. -/
inductive g_sound_t where
  | teleport
  | roar
  | countdown (j : Nat)
deriving DecidableEq, Repr

/-- Observable calls made by the functions of `g_main.c`, in program order: the
calls through the import table, the calls of functions of the game module that
are not part of `g_main.c`, and the entries of the functions of `g_main.c`
whose invocations the specification counts. -/
inductive GameEvent where
  /-- The call `gi.BroadcastPrint(PRINT_HIGH, msg)`. -/
  | BroadcastPrint (msg : String)
  /-- The call `gi.ClientPrint(ent, PRINT_HIGH, msg)`. -/
  | ClientPrint (ent : Nat) (msg : String)
  /-- The call `gi.ConfigString(index, value)`; `none` is `NULL`. -/
  | ConfigString (index : Nat) (value : Option String)
  /-- The call `gi.Sound(ent, sound, ATTEN_NONE)`. -/
  | Sound (ent : Nat) (sound : g_sound_t)
  /-- The call `gi.PositionedSound(origin, NULL, sound, ATTEN_NORM)`. -/
  | PositionedSound (origin : Vec3) (sound : g_sound_t)
  /-- The call `gi.AddCommandString(cmd)`. -/
  | AddCommandString (cmd : String)
  /-- The call `G_TeamCenterPrint(team, msg)`. -/
  | G_TeamCenterPrint (team : Nat) (msg : String)
  /-- The call `G_ClientRespawn(ent, false)`. -/
  | G_ClientRespawn (ent : Nat)
  /-- The call `G_ClientToIntermission(ent)`. -/
  | G_ClientToIntermission (ent : Nat)
  /-- The call `G_AddClientToTeam(ent, team_name)`. -/
  | G_AddClientToTeam (ent : Nat) (team_name : String)
  /-- The call `G_FreeEntity(ent)`. -/
  | G_FreeEntity (ent : Nat)
  /-- The call `G_ResetItem(ent)`. -/
  | G_ResetItem (ent : Nat)
  /-- An invocation of `G_BeginIntermission(map)`. -/
  | G_BeginIntermission (map : Option String)
  /-- An invocation of `G_EndLevel()`. -/
  | G_EndLevel
  /-- An invocation of `G_RestartGame(teamz)`. -/
  | G_RestartGame (teamz : Bool)
  /-- An invocation of `G_MuteClient(name, mute)`. -/
  | G_MuteClient (name : String) (mute : Bool)
  /-- An invocation of `G_CallTimeIn()`. -/
  | G_CallTimeIn
  /-- The call `gi.Print(msg)`. -/
  | Print (msg : String)
  /-- The call `G_ClientBeginFrame(ent)`. -/
  | G_ClientBeginFrame (ent : Nat)
  /-- The call `G_RunEntity(ent)`. -/
  | G_RunEntity (ent : Nat)
  /-- The call `G_EndClientFrames()`. -/
  | G_EndClientFrames
  /-- An invocation of `G_CheckVote()` by `G_Frame`. -/
  | G_CheckVote
  /-- An invocation of `G_CheckRules()` by `G_Frame`. -/
  | G_CheckRules
  /-- An invocation of `G_CheckMatchEnd()` by `G_Frame`. -/
  | G_CheckMatchEnd
  /-- An invocation of `G_CheckRoundStart()` by `G_Frame`. -/
  | G_CheckRoundStart
  /-- An invocation of `G_CheckRoundEnd()` by `G_Frame`. -/
  | G_CheckRoundEnd
deriving DecidableEq, Repr

/-- The functions of the game module and the constants that `g_main.c` uses but
that are not among the sources.  The functions that act on one entity are taken
as functions that rewrite that entity. -/
structure GameEnv where
  /-- The function `G_ClientRespawn(ent, false)`. -/
  G_ClientRespawn : g_entity_t → g_entity_t
  /-- The function `G_ClientToIntermission`. -/
  G_ClientToIntermission : g_entity_t → g_entity_t
  /-- The function `G_AddClientToTeam(ent, team_name)`. -/
  G_AddClientToTeam : String → g_entity_t → g_entity_t
  /-- The name of the team `G_SmallestTeam()` returns. -/
  G_SmallestTeam : World → String
  /-- The function `G_FreeEntity`. -/
  G_FreeEntity : g_entity_t → g_entity_t
  /-- The function `G_ResetItem`. -/
  G_ResetItem : g_entity_t → g_entity_t
  /-- The call `G_Find(NULL, EOFS(class_name), name)`: the index of the first
  entity of that class, `none` for `NULL`. -/
  G_Find : String → World → Option Nat
  /-- The name of the map `G_MapList_Next()` returns, `none` for `NULL`. -/
  G_MapList_Next : World → Option String
  /-- The function `G_ClientByName`: the index of the entity of the client of
  that name, `none` for `NULL`. -/
  G_ClientByName : String → World → Option Nat
  /-- The movement type `PM_NORMAL`. -/
  PM_NORMAL : Nat
  /-- The movement type `PM_FREEZE`. -/
  PM_FREEZE : Nat
  /-- The function `G_ClientBeginFrame`, called for the entity of that index. -/
  G_ClientBeginFrame : Nat → World → World
  /-- The function `G_RunEntity`, called for the entity of that index. -/
  G_RunEntity : Nat → World → World
  /-- The function `G_EndClientFrames`. -/
  G_EndClientFrames : World → World
  /-- The function `G_GameplayByName`. -/
  G_GameplayByName : String → g_gameplay_t
  /-- The function `G_GameplayName`. -/
  G_GameplayName : g_gameplay_t → String
  /-- The text that the conversion `%3.1f` of `printf` gives for a value. -/
  Format31 : ℚ → String

/-- Rewrites the client of an entity, if it has one. -/
def onClient (f : g_client_t → g_client_t) (e : g_entity_t) : g_entity_t :=
  { e with client := e.client.map f }

/-- The entities visited by the client loops
`for (i = 0; i < sv_max_clients->integer; i++)` that skip the slots not in use:
the indices `i + 1` of the entities in use, in order. -/
def clientSlots (w : World) : List Nat :=
  (List.range w.sv_max_clients.toNat).filterMap fun i =>
    match w.entities[i + 1]? with
    | some e => if e.in_use then some (i + 1) else none
    | none => none

/-- A client loop `for (i = 0; i < sv_max_clients->integer; i++)` whose body
skips the entity `i + 1` if it is not in use and otherwise rewrites that entity
only. -/
def mapClients (w : World) (f : g_entity_t → g_entity_t) : World :=
  { w with entities := w.entities.mapIdx fun j e =>
      if 1 ≤ j ∧ (j : Int) ≤ w.sv_max_clients ∧ e.in_use = true then f e else e }

/-! ## `g_main.c`: votes, intermission and restart -/

/-- The function `G_ResetVote` (lines 91-108). -/
def G_ResetVote (w : World) : World × List GameEvent :=
  let w1 := mapClients w (onClient fun c =>
    { c with persistent := { c.persistent with vote := .VOTE_NO_OP } })
  ({ w1 with level := { w1.level with votes := [0, 0, 0], vote_cmd := "", vote_time := 0 } },
    [.ConfigString CS_VOTE none])

/-- The function `G_ResetItems` (lines 113-132). -/
def G_ResetItems (genv : GameEnv) (w : World) : World × List GameEvent :=
  let visited : Nat → g_entity_t → Bool := fun i e =>
    decide (1 ≤ i ∧ i < w.num_entities) && e.in_use && e.item.isSome
  let entities := w.entities.mapIdx fun i e =>
    if visited i e then
      if e.spawn_flags &&& SF_ITEM_DROPPED ≠ 0 then genv.G_FreeEntity e else genv.G_ResetItem e
    else e
  let events := (w.entities.mapIdx fun i e =>
    if visited i e then
      if e.spawn_flags &&& SF_ITEM_DROPPED ≠ 0 then [GameEvent.G_FreeEntity i]
      else [GameEvent.G_ResetItem i]
    else []).flatten
  ({ w with entities := entities }, events)

/-- The function `G_MuteClient` (lines 204-211). -/
def G_MuteClient (genv : GameEnv) (name : String) (mute : Bool) (w : World) :
    World × List GameEvent :=
  match genv.G_ClientByName name w with
  | none => (w, [.G_MuteClient name mute])
  | some j =>
    match w.entities[j]? with
    | none => (w, [.G_MuteClient name mute])
    | some e =>
      (w.setEntity j (onClient (fun c => { c with muted := mute }) e),
        [.G_MuteClient name mute])

/-- The function `G_BeginIntermission` (lines 216-262).  A map without any of
the three spawn point classes (a `NULL` dereference in C) leaves the
intermission origin and angle as they were. -/
def G_BeginIntermission (genv : GameEnv) (map : Option String) (w : World) :
    World × List GameEvent :=
  if w.level.intermission_time ≠ 0 then (w, [.G_BeginIntermission map]) -- already activated
  else
    let w1 : World := { w with level := { w.level with intermission_time := w.level.time } }
    -- respawn any dead clients
    let dead : List Nat := (clientSlots w1).filter fun j =>
      match w1.entities[j]? with
      | some e => decide (e.health ≤ 0)
      | none => false
    let w2 := mapClients w1 fun e => if e.health ≤ 0 then genv.G_ClientRespawn e else e
    -- find an intermission spot
    let spot : Option Nat :=
      match genv.G_Find "info_player_intermission" w2 with
      | some j => some j
      | none =>
        match genv.G_Find "info_player_start" w2 with
        | some j => some j
        | none => genv.G_Find "info_player_deathmatch" w2
    let w3 : World :=
      match spot.bind fun j => w2.entities[j]? with
      | some ent =>
        { w2 with level := { w2.level with intermission_origin := ent.origin,
                                            intermission_angle := ent.angles } }
      | none => w2
    -- move all clients to the intermission point
    let w4 := mapClients w3 genv.G_ClientToIntermission
    -- stay on same level if not provided
    ({ w4 with level := { w4.level with changemap := some (map.getD w4.level.name) } },
      [GameEvent.G_BeginIntermission map] ++ dead.map GameEvent.G_ClientRespawn ++
        (clientSlots w3).map GameEvent.G_ClientToIntermission ++
        [GameEvent.PositionedSound w3.level.intermission_origin .roar])

/-- The function `G_EndLevel` (lines 267-279). -/
def G_EndLevel (genv : GameEnv) (w : World) : World × List GameEvent :=
  let map := genv.G_MapList_Next w
  let w1 : World := { w with level := { w.level with match_status := 0 } }
  -- always stay on the same map when in match mode
  let r :=
    match map with
    | some name =>
      if !w1.level.«match» then G_BeginIntermission genv (some name) w1
      else G_BeginIntermission genv none w1
    | none => G_BeginIntermission genv none w1
  (r.1, GameEvent.G_EndLevel :: r.2)

/-- The body of the client loop of `G_RestartGame` (lines 149-188) for the
entity `j`.  A client slot without a client (a `NULL` dereference in C) is
skipped. -/
def G_RestartGame_client (genv : GameEnv) (teamz : Bool) (acc : World × List GameEvent)
    (j : Nat) : World × List GameEvent :=
  let w := acc.1
  match w.entities[j]? with
  | none => acc
  | some ent =>
    if !ent.in_use then acc
    else
      match ent.client with
      | none => acc
      | some cl =>
        let p0 : g_client_persistent_t :=
          { cl.persistent with ready := false, score := 0, captures := 0 }
        let p1 : g_client_persistent_t := if teamz then { p0 with team := none } else p0
        -- determine spectator or team affiliations
        let p2 : g_client_persistent_t :=
          if w.level.«match» then
            { p1 with spectator := !decide (p1.match_num = w.level.match_num) }
          else if w.level.rounds then
            { p1 with spectator := !decide (p1.round_num = w.level.round_num) }
          else p1
        let ent2 : g_entity_t := { ent with client := some { cl with persistent := p2 } }
        let joined : g_entity_t × List GameEvent :=
          if w.level.teams ∨ w.level.ctf then
            if p2.team.isNone then
              if w.g_auto_join ≠ 0 ∧ w.level.gameplay ≠ .GAME_DUEL then
                let team_name := genv.G_SmallestTeam (w.setEntity j ent2)
                (genv.G_AddClientToTeam team_name ent2,
                  [GameEvent.G_AddClientToTeam j team_name])
              else
                (onClient (fun c => { c with persistent := { c.persistent with
                    spectator := true } }) ent2, [])
            else (ent2, [])
          else (ent2, [])
        (w.setEntity j (genv.G_ClientRespawn joined.1),
          acc.2 ++ joined.2 ++ [GameEvent.G_ClientRespawn j])

/-- The function `G_RestartGame` (lines 139-199). -/
def G_RestartGame (genv : GameEnv) (teamz : Bool) (w : World) : World × List GameEvent :=
  let l1 : g_level_t :=
    if w.level.match_time ≠ 0 then
      { w.level with match_num := wrap32 (w.level.match_num + 1) }
    else w.level
  let l2 : g_level_t :=
    if l1.round_time ≠ 0 then { l1 with round_num := wrap32 (l1.round_num + 1) } else l1
  let w1 : World := { w with level := l2 }
  -- reset clients
  let r := ((List.range w1.sv_max_clients.toNat).map (· + 1)).foldl
    (G_RestartGame_client genv teamz) (w1, [])
  let items := G_ResetItems genv r.1
  let w2 := items.1
  let w3 : World :=
    { w2 with
      level := { w2.level with match_time := 0, round_time := 0 }
      g_team_good := { w2.g_team_good with score := 0, captures := 0 }
      g_team_evil := { w2.g_team_evil with score := 0, captures := 0 } }
  (w3, [GameEvent.G_RestartGame teamz] ++ r.2 ++ items.2 ++
    [GameEvent.BroadcastPrint "Game restarted\n", GameEvent.Sound 0 .teleport])

/-- The number of client slots in use, the local `count` of `G_CheckVote`
(lines 299-303). -/
def clientCount (w : World) : Nat := (clientSlots w).length

/-- Lines 309-321 of `G_CheckVote`: the action of a vote that has passed. -/
def G_CheckVote_action (genv : GameEnv) (w : World) : World × List GameEvent :=
  let cmd := w.level.vote_cmd
  if "map ".toList.isPrefixOf cmd.toList then -- special case for map
    G_BeginIntermission genv (some (String.mk (cmd.toList.drop 4))) w
  else if cmd = "next_map" then G_EndLevel genv w
  else if cmd = "restart" then G_RestartGame genv false w
  else if "mute ".toList.isPrefixOf cmd.toList then
    G_MuteClient genv (String.mk (cmd.toList.drop 5)) true w
  else if "unmute ".toList.isPrefixOf cmd.toList then
    G_MuteClient genv (String.mk (cmd.toList.drop 7)) false w
  else (w, [GameEvent.AddCommandString cmd]) -- general case, just execute the command

/-- Lines 294-296 of `G_CheckVote`: the vote has expired. -/
def G_CheckVote_expire (w : World) : World × List GameEvent :=
  let r := G_ResetVote w
  (r.1, GameEvent.BroadcastPrint ("Vote \"" ++ w.level.vote_cmd ++ "\" expired\n") :: r.2)

/-- Lines 307-322 of `G_CheckVote`: the vote has passed. -/
def G_CheckVote_pass (genv : GameEnv) (w : World) : World × List GameEvent :=
  let a := G_CheckVote_action genv w
  let r := G_ResetVote a.1
  (r.1, GameEvent.BroadcastPrint ("Vote \"" ++ w.level.vote_cmd ++ "\" passed\n") ::
    (a.2 ++ r.2))

/-- Lines 324-325 of `G_CheckVote`: the vote has failed. -/
def G_CheckVote_fail (w : World) : World × List GameEvent :=
  let r := G_ResetVote w
  (r.1, GameEvent.BroadcastPrint ("Vote \"" ++ w.level.vote_cmd ++ "\" failed\n") :: r.2)

/-- Lines 299-326 of `G_CheckVote`: count the clients and compare the votes with
the majority. -/
def G_CheckVote_tally (genv : GameEnv) (w : World) : World × List GameEvent :=
  let count := clientCount w
  if ((w.level.votes.getD g_vote_t.VOTE_YES.index 0 : Nat) : ℚ) ≥ (count : ℚ) * VOTE_MAJORITY then
    G_CheckVote_pass genv w
  else if ((w.level.votes.getD g_vote_t.VOTE_NO.index 0 : Nat) : ℚ) ≥
      (count : ℚ) * VOTE_MAJORITY then
    G_CheckVote_fail w
  else (w, [])

/-- The function `G_CheckVote` (lines 284-327). -/
def G_CheckVote (genv : GameEnv) (w : World) : World × List GameEvent :=
  if w.g_voting = 0 then (w, [])
  else if w.level.vote_time = 0 then (w, [])
  else if wrap32 ((w.level.time : Int) - w.level.vote_time) > MAX_VOTE_TIME then
    G_CheckVote_expire w
  else G_CheckVote_tally genv w

/-! ## `g_main.c`: rounds -/

/-- The client of an entity in a client slot.  `G_Init` points every client slot
at its client; a slot without one reads as a zeroed client here. -/
def clientOf (e : g_entity_t) : g_client_t := e.client.getD {}

/-- The team a team pointer refers to. -/
def teamOf (w : World) (t : Nat) : g_team_t :=
  if t = TEAM_GOOD then w.g_team_good else w.g_team_evil

/-- The entities counted by the client loops of `G_CheckRoundStart`,
`G_CheckRoundEnd` and `G_CheckMatchEnd`: the client slots in use whose client is
not a spectator. -/
def activeClients (w : World) : List Nat :=
  (clientSlots w).filter fun j =>
    match w.entities[j]? with
    | some e => !(clientOf e).persistent.spectator
    | none => false

/-- The number of entities of the list whose client is on the good team
(`cl->locals.persistent.team == &g_team_good`). -/
def countGood (w : World) (js : List Nat) : Nat :=
  (js.filter fun j =>
    match w.entities[j]? with
    | some e => decide ((clientOf e).persistent.team = some TEAM_GOOD)
    | none => false).length

/-- The function `G_CheckRoundStart` (lines 333-377).  The field `teams` is a
`_Bool`, so `(int32_t) g_level.teams` is 0 or 1. -/
def G_CheckRoundStart (w : World) : World × List GameEvent :=
  if !w.level.rounds then (w, [])
  else if w.level.round_time ≠ 0 then (w, [])
  else
    let active := activeClients w
    let clients : Int := active.length
    let g : Int := if w.level.teams then countGood w active else 0
    let e : Int := if w.level.teams then active.length - countGood w active else 0
    if clients < 2 then (w, []) -- need at least 2 clients to trigger countdown
    else if w.level.teams ∧ (g = 0 ∨ e = 0) then (w, []) -- need at least 1 player per team
    else if (if w.level.teams then (1 : Int) else 0) = 2 ∧ g ≠ e then -- balanced teams required
      if w.level.frame_num % 100 = 0 then
        (w, [.BroadcastPrint "Teams must be balanced for round to start\n"])
      else (w, [])
    else
      ({ w with level := { w.level with round_time := wrap32 (w.level.time + 10000),
                                         start_round := true } },
        [.BroadcastPrint "Round starting in 10 seconds...\n"])

/-- The body of the client loop of `G_CheckRoundLimit` (lines 393-414) for the
entity `j`. -/
def G_CheckRoundLimit_client (genv : GameEnv) (acc : World × List GameEvent) (j : Nat) :
    World × List GameEvent :=
  let w := acc.1
  match w.entities[j]? with
  | none => acc
  | some ent =>
    if !ent.in_use then acc
    else if (clientOf ent).persistent.round_num ≠ w.level.round_num then
      acc -- they were intentionally spectating, skip them
    else
      let joined : g_entity_t × List GameEvent :=
        if w.level.teams ∨ w.level.ctf then -- rejoin a team
          let team_name :=
            match (clientOf ent).persistent.team with
            | some t => (teamOf w t).name
            | none => genv.G_SmallestTeam w
          (genv.G_AddClientToTeam team_name ent, [GameEvent.G_AddClientToTeam j team_name])
        else -- just rejoin the game
          (onClient (fun c => { c with persistent := { c.persistent with
              spectator := false } }) ent, [])
      (w.setEntity j (genv.G_ClientRespawn joined.1),
        acc.2 ++ joined.2 ++ [GameEvent.G_ClientRespawn j])

/-- The function `G_CheckRoundLimit` (lines 382-415). -/
def G_CheckRoundLimit (genv : GameEnv) (w : World) : World × List GameEvent :=
  if w.level.round_num ≥ wrap32 w.level.round_limit then -- enforce round_limit
    let r := G_EndLevel genv w
    (r.1, GameEvent.BroadcastPrint "Roundlimit hit\n" :: r.2)
  else -- or attempt to re-join previously active players
    ((List.range w.sv_max_clients.toNat).map (· + 1)).foldl
      (G_CheckRoundLimit_client genv) (w, [])

/-- The projectile scan of `G_CheckRoundEnd` (lines 463-481): true if the scan
returns from the function.  It reads the entities `i + 1` for
`i < ge.num_entities`; an index outside the list reads as an entity not in
use. -/
def G_CheckRoundEnd_scan (w : World) (winner : Nat) (winnerEnt : g_entity_t) : Bool :=
  (List.range w.num_entities).any fun i =>
    match w.entities[i + 1]? with
    | none => false
    | some p =>
      p.in_use &&
        match p.owner with
        | none => false
        | some o =>
          match (w.entities[o]?).bind fun oe => oe.client with
          | none => false
          | some cl =>
            if w.level.teams ∨ w.level.ctf then
              decide (cl.persistent.team ≠ (clientOf winnerEnt).persistent.team)
            else decide (o ≠ winner)

/-- One iteration of the projectile scan of `G_CheckRoundEnd` (lines 465-480),
for the loop index `i`: true if the iteration returns from the function.  It
reads the entity `i + 1`; an index outside the list reads as an entity not in
use. -/
def G_CheckRoundEnd_scan_body (w : World) (winner : Nat) (winnerEnt : g_entity_t)
    (i : Nat) : Bool :=
  match w.entities[i + 1]? with
  | none => false
  | some p =>
    p.in_use &&
      match p.owner with
      | none => false
      | some o =>
        match (w.entities[o]?).bind fun oe => oe.client with
        | none => false
        | some cl =>
          if w.level.teams ∨ w.level.ctf then
            decide (cl.persistent.team ≠ (clientOf winnerEnt).persistent.team)
          else decide (o ≠ winner)

/-- The projectile scan of `G_CheckRoundEnd` (lines 464-481) from the loop index
`i` on, with `n` iterations left until the index reaches `ge.num_entities`: the
indices of `g_game.entities` that it reads, in order, and whether it returns
from the function. -/
def G_CheckRoundEnd_scan_reads (w : World) (winner : Nat) (winnerEnt : g_entity_t) :
    Nat → Nat → List Nat × Bool
  | _, 0 => ([], false)
  | i, n + 1 =>
    if G_CheckRoundEnd_scan_body w winner winnerEnt i then ([i + 1], true)
    else
      let r := G_CheckRoundEnd_scan_reads w winner winnerEnt (i + 1) n
      ((i + 1) :: r.1, r.2)

/-- The function `G_CheckRoundEnd` (lines 420-494).  The name of a `NULL` team
(dereferenced in C) prints as the empty string. -/
def G_CheckRoundEnd (genv : GameEnv) (w : World) : World × List GameEvent :=
  if !w.level.rounds then (w, [])
  else if w.level.round_time = 0 ∨ w.level.round_time > w.level.time then
    (w, []) -- no round currently running
  else
    let active := activeClients w
    let clients : Nat := active.length
    let g : Nat := if w.level.teams then countGood w active else 0
    let e : Nat := if w.level.teams then active.length - countGood w active else 0
    match active.getLast? with
    | none => -- corner case where everyone was fragged
      let r := G_CheckRoundLimit genv { w with level := { w.level with round_time := 0 } }
      (r.1, GameEvent.BroadcastPrint "Tie!\n" :: r.2)
    | some winner =>
      let winnerEnt : g_entity_t := (w.entities[winner]?).getD {}
      if (w.level.teams ∨ w.level.ctf) ∧ (g > 0 ∧ e > 0) then
        (w, []) -- teams rounds continue if each team has a player
      else if ¬ (w.level.teams ∨ w.level.ctf) ∧ clients > 1 then
        (w, []) -- ffa continues if two players are alive
      else if G_CheckRoundEnd_scan w winner winnerEnt then
        (w, []) -- allow enemy projectiles to expire before declaring a winner
      else
        -- we have a winner
        let name : String :=
          if w.level.teams ∨ w.level.ctf then
            ((clientOf winnerEnt).persistent.team.map fun t => (teamOf w t).name).getD ""
          else (clientOf winnerEnt).persistent.net_name
        let r := G_CheckRoundLimit genv { w with level := { w.level with round_time := 0 } }
        (r.1, GameEvent.BroadcastPrint (name ++ " wins!\n") :: r.2)

/-! ## `g_main.c`: timers, timeouts and limits -/

/-- Modelled from the spec: the macro `G_PLAYING`, the test of the bit
`MSTAT_PLAYING` of `match_status`. -/
def G_PLAYING (w : World) : Bool := w.level.match_status &&& MSTAT_PLAYING != 0

/-- Modelled from the spec: the macro `G_TIMEOUT`, the test of the bit
`MSTAT_TIMEOUT` of `match_status`. -/
def G_TIMEOUT (w : World) : Bool := w.level.match_status &&& MSTAT_TIMEOUT != 0

/-- Modelled from the spec: the macro `G_COUNTDOWN`, the test of the bit
`MSTAT_COUNTDOWN` of `match_status`. -/
def G_COUNTDOWN (w : World) : Bool := w.level.match_status &&& MSTAT_COUNTDOWN != 0

/-- Modelled from the spec: the macro `G_WARMUP`, the test that `match_status`
is `MSTAT_WARMUP`. -/
def G_WARMUP (w : World) : Bool := w.level.match_status == MSTAT_WARMUP

/-- A decimal number padded on the left to two characters, as `%2u` (padding
with a blank) and `%02u` (padding with `0`) print it. -/
def pad2 (c : Char) (n : Nat) : String :=
  if n < 10 then String.mk [c] ++ toString n else toString n

/-- The function `G_FormatTime` (lines 541-559): the formatted time, and the
world with the static `last_time` updated. -/
def G_FormatTime (w : World) (time : Nat) : World × String :=
  let m := (time / 1000) / 60
  let s := (time / 1000) % 60
  -- highlight for countdowns
  let c := if time < 30 * 1000 ∧ time < w.last_time ∧ s &&& 1 ≠ 0 then "^2" else "^7"
  ({ w with last_time := time }, c ++ pad2 ' ' m ++ ":" ++ pad2 '0' s)

/-- The loop `for (int32_t i = 1; i < sv_max_clients->integer; i++)` of
`G_CallTimeOut` (lines 980-982) and of `G_CallTimeIn` (lines 993-995), which
writes `type` to the movement type of the client of each entity `i`. -/
def setMoveTypes (w : World) (type : Nat) : World :=
  { w with entities := w.entities.mapIdx fun i e =>
      if 1 ≤ i ∧ (i : Int) < w.sv_max_clients then
        onClient (fun c => { c with pm_state := { c.pm_state with type := type } }) e
      else e }

/-- The function `G_CallTimeOut` (lines 967-986), called for the entity
`ent`. -/
def G_CallTimeOut (genv : GameEnv) (ent : Nat) (w : World) : World × List GameEvent :=
  if w.g_timeout_time = 0 then (w, [.ClientPrint ent "Timeouts are disabled\n"])
  else
    let l : g_level_t :=
      { w.level with
        match_status := w.level.match_status ||| MSTAT_TIMEOUT
        timeout_caller := some ent
        timeout_time := wrap32 (w.level.time + w.g_timeout_time * 1000)
        timeout_frame := w.level.frame_num }
    -- lock everyone in place
    let w1 := setMoveTypes { w with level := l } genv.PM_FREEZE
    let f := G_FormatTime w1 (wrap32 (w.g_timeout_time * 1000))
    (f.1, [.BroadcastPrint ((clientOf ((w.entities[ent]?).getD {})).persistent.net_name ++
      " called a timeout, play with resume in " ++ f.2 ++ "\n")])

/-- The function `G_CallTimeIn` (lines 988-1001). -/
def G_CallTimeIn (genv : GameEnv) (w : World) : World × List GameEvent :=
  -- where we were before timeout
  let w1 : World := { w with level := { w.level with frame_num := w.level.timeout_frame } }
  -- unlock everyone
  let w2 := setMoveTypes w1 genv.PM_NORMAL
  ({ w2 with level := { w2.level with match_status := MSTAT_PLAYING, timeout_caller := none,
                                       timeout_time := 0, timeout_frame := 0 } },
    [.G_CallTimeIn])

/-- The local `time` of `G_RunTimers` after lines 1008-1027. -/
def G_RunTimers_time (l : g_level_t) : Nat :=
  if l.rounds then
    if l.round_time > l.time then wrap32 (l.round_time - l.time) -- show pre-game countdown
    else if l.round_time ≠ 0 then wrap32 (l.time - l.round_time) -- round started, count up
    else 0
  else if l.«match» then
    if l.match_time > l.time then wrap32 (l.match_time - l.time) -- show pre-game countdown
    else if l.match_time ≠ 0 then
      if l.time_limit ≠ 0 then wrap32 (l.time_limit - l.time) -- count down to time_limit
      else wrap32 (l.time - l.match_time) -- count up
    else 0
  else l.time

/-- The texts sent to both teams by a countdown at second `j`
(lines 1050-1051 and 1071-1072). -/
def G_RunTimers_announce (j : Nat) : List GameEvent :=
  let msg := (if j = 0 then "Fight!" else toString j) ++ "\n"
  [.G_TeamCenterPrint TEAM_GOOD msg, .G_TeamCenterPrint TEAM_EVIL msg]

/-- Lines 1038-1078 of `G_RunTimers`: the time update sent once per second;
`time` is the local of that name. -/
def G_RunTimers_update (genv : GameEnv) (w : World) (time : Nat) : World × List GameEvent :=
  if w.level.frame_num % w.frame_rate ≠ 0 then (w, [])
  else if G_COUNTDOWN w && !G_PLAYING w then -- match mode, everyone ready, show countdown
    let j := wrap32 (w.level.match_time - w.level.time) / 1000 % 60
    let f := G_FormatTime w (wrap32 (w.level.match_time - w.level.time))
    (f.1, [GameEvent.ConfigString CS_TIME (some ("Warmup " ++ f.2))] ++
      (if j ≤ 5 then
        (if j > 0 then [GameEvent.Sound 0 (.countdown j)] else []) ++ G_RunTimers_announce j
      else []))
  else if w.level.«match» && G_WARMUP w then -- not everyone ready yet
    let f := G_FormatTime w (wrap32 (w.g_time_limit_integer * 60 * 1000))
    (f.1, [.ConfigString CS_TIME (some ("Warmup " ++ f.2))])
  else if G_TIMEOUT w then -- mid match, player called timeout
    let j := wrap32 (w.level.timeout_time - w.level.time) / 1000
    let f := G_FormatTime w (wrap32 (w.level.timeout_time - w.level.time))
    let ev := [GameEvent.ConfigString CS_TIME (some ("Timeout " ++ f.2))]
    if j ≤ 10 then
      if j > 0 then (f.1, ev ++ [GameEvent.Sound 0 (.countdown j)] ++ G_RunTimers_announce j)
      else
        let r := G_CallTimeIn genv f.1
        (r.1, ev ++ r.2 ++ G_RunTimers_announce j)
    else (f.1, ev)
  else
    let f := G_FormatTime w time
    (f.1, [.ConfigString CS_TIME (some f.2)])

/-- The function `G_RunTimers` (lines 1006-1079). -/
def G_RunTimers (genv : GameEnv) (w : World) : World × List GameEvent :=
  let time := G_RunTimers_time w.level
  if w.level.time_limit ≠ 0 ∧ time ≥ w.level.time_limit then -- check time_limit
    let r := G_EndLevel genv w
    (r.1, GameEvent.BroadcastPrint "Time limit hit\n" :: r.2)
  else
    let time := if w.level.time_limit ≠ 0 then wrap32 (w.level.time_limit - w.level.time)
      else time -- count down
    G_RunTimers_update genv w time

/-- The respawn loop of lines 585-589 and 600-604 of `G_CheckRules`. -/
def G_CheckRules_respawn (genv : GameEnv) (w : World) : World × List GameEvent :=
  (mapClients w genv.G_ClientRespawn, (clientSlots w).map GameEvent.G_ClientRespawn)

/-- Lines 577-592 of `G_CheckRules`: players have readied, begin match. -/
def G_CheckRules_startMatch (genv : GameEnv) (w : World) : World × List GameEvent :=
  if w.level.start_match ∧ w.level.time ≥ w.level.match_time then
    let l : g_level_t :=
      { w.level with
        start_match := false
        warmup := false
        time_limit := wrap32 (truncQ (w.g_time_limit * 60 * 1000 + w.level.time))
        match_status := MSTAT_PLAYING }
    let r := G_CheckRules_respawn genv { w with level := l }
    (r.1, r.2 ++ [GameEvent.Sound 0 .teleport, GameEvent.BroadcastPrint "Match has started\n"])
  else (w, [])

/-- Lines 594-608 of `G_CheckRules`: pre-game expired, begin round. -/
def G_CheckRules_startRound (genv : GameEnv) (w : World) : World × List GameEvent :=
  if w.level.start_round ∧ w.level.time ≥ w.level.round_time then
    let l : g_level_t := { w.level with start_round := false, warmup := false }
    let r := G_CheckRules_respawn genv { w with level := l }
    (r.1, r.2 ++ [GameEvent.Sound 0 .teleport, GameEvent.BroadcastPrint "Round has started\n"])
  else (w, [])

/-- The condition under which the frag limit check of `G_CheckRules`
(lines 612-633) ends the level. -/
def fragLimitHit (w : World) : Bool :=
  !w.level.ctf && decide (w.level.frag_limit ≠ 0) &&
    if w.level.teams then -- check team scores
      decide (w.g_team_good.score ≥ w.level.frag_limit ∨
        w.g_team_evil.score ≥ w.level.frag_limit)
    else -- or individual scores
      (clientSlots w).any fun j =>
        decide ((clientOf ((w.entities[j]?).getD {})).persistent.score ≥ w.level.frag_limit)

/-- The condition under which the capture limit check of `G_CheckRules`
(lines 635-643) ends the level. -/
def captureLimitHit (w : World) : Bool :=
  w.level.ctf && decide (w.level.capture_limit ≠ 0) &&
    decide (w.g_team_good.captures ≥ w.level.capture_limit ∨
      w.g_team_evil.captures ≥ w.level.capture_limit)

/-- Lines 571-608 of `G_CheckRules`: the warmup flag and the start of a match
or of a round. -/
def G_CheckRules_start (genv : GameEnv) (w : World) : World × List GameEvent :=
  let l := w.level
  -- match mode, no match, or countdown underway
  let warmup1 : Bool := l.«match» && (l.match_time == 0 || decide (l.match_time > l.time))
  -- arena mode, no round, or countdown underway
  let warmup2 : Bool :=
    warmup1 || (l.rounds && (l.round_time == 0 || decide (l.round_time > l.time)))
  let w1 : World := { w with level := { l with warmup := warmup2 } }
  let r2 := G_CheckRules_startMatch genv w1
  let r3 := G_CheckRules_startRound genv r2.1
  (r3.1, r2.2 ++ r3.2)

/-- Lines 571-610 of `G_CheckRules`: everything that runs before the limit
checks, the call of `G_RunTimers` included. -/
def G_CheckRules_timers (genv : GameEnv) (w : World) : World × List GameEvent :=
  let r3 := G_CheckRules_start genv w
  let r4 := G_RunTimers genv r3.1
  (r4.1, r3.2 ++ r4.2)

/-- Lines 564-643 of `G_CheckRules`: the state and the calls made up to the cvar
checks that begin at line 645.  The Boolean is true if the function has returned
(lines 569, 619, 628 and 641) and false if control reaches line 645. -/
def G_CheckRules_limits (genv : GameEnv) (w : World) : World × List GameEvent × Bool :=
  if w.level.intermission_time ≠ 0 then (w, [], true)
  else
    let r4 := G_CheckRules_timers genv w
    if fragLimitHit r4.1 then
      let r := G_EndLevel genv r4.1
      (r.1, r4.2 ++ GameEvent.BroadcastPrint "Frag limit hit\n" :: r.2, true)
    else if captureLimitHit r4.1 then
      let r := G_EndLevel genv r4.1
      (r.1, r4.2 ++ GameEvent.BroadcastPrint "Capture limit hit\n" :: r.2, true)
    else (r4.1, r4.2, false)

/-! ## `g_main.c`: the end of a match -/

/-- The function `G_CheckMatchEnd` (lines 499-536). -/
def G_CheckMatchEnd (w : World) : World × List GameEvent :=
  if !w.level.«match» then (w, [])
  else if w.level.match_time = 0 ∨ w.level.match_time > w.level.time then
    (w, []) -- no match currently running
  else
    let active := activeClients w
    let clients : Int := active.length
    let g : Int := if w.level.teams ∨ w.level.ctf then countGood w active else 0
    let e : Int :=
      if w.level.teams ∨ w.level.ctf then active.length - countGood w active else 0
    if clients = 0 then -- everyone left
      ({ w with level := { w.level with match_time := 0 } },
        [.BroadcastPrint "No players left\n"])
    else if (w.level.teams ∨ w.level.ctf) ∧ (g = 0 ∨ e = 0) then
      ({ w with level := { w.level with match_time := 0 } },
        [.BroadcastPrint "Not enough players left\n"])
    else (w, [])

/-! ## `g_main.c`: the cvar checks of `G_CheckRules` -/

/-- The state of the cvar checks of `G_CheckRules` (lines 645-778): the world,
the calls made so far and the local `restart`. -/
structure CvarPass where
  world : World
  events : List GameEvent := []
  restart : Bool := false

/-- The text `enabled` or `disabled` of the announcements. -/
def enabledText (b : Bool) : String := if b then "enabled" else "disabled"

/-- The text that `%d` gives for a `_Bool`. -/
def boolText (b : Bool) : String := if b then "1" else "0"

/-- Lines 645-669 of `G_CheckRules`: change gameplay. -/
def G_CheckRules_gameplay (genv : GameEnv) (s : CvarPass) : CvarPass :=
  let w := s.world
  if w.g_gameplay.modified then
    let gameplay := genv.G_GameplayByName w.g_gameplay.string
    let w1 : World :=
      { w with
        g_gameplay := { w.g_gameplay with modified := false }
        level := { w.level with gameplay := gameplay } }
    let ev : List GameEvent :=
      [.ConfigString CS_GAMEPLAY (some (toString gameplay.index)),
        .BroadcastPrint ("Gameplay has changed to " ++ genv.G_GameplayName gameplay ++ "\n")]
    -- force all requirements for DUEL mode in a single server restart
    let w2 : World :=
      if gameplay = .GAME_DUEL ∧ w1.g_teams.integer = 0 then
        { w1 with g_teams := { w1.g_teams with integer := 1, modified := true } }
      else w1
    let w3 : World :=
      if gameplay = .GAME_DUEL ∧ w2.g_match.integer = 0 then
        { w2 with g_match := { w2.g_match with integer := 1, modified := true } }
      else w2
    { world := w3, events := s.events ++ ev, restart := true }
  else s

/-- Lines 671-675 of `G_CheckRules`: set gravity. -/
def G_CheckRules_gravity (s : CvarPass) : CvarPass :=
  let w := s.world
  if w.g_gravity.modified then
    { s with world :=
        { w with
          g_gravity := { w.g_gravity with modified := false }
          level := { w.level with gravity := wrap16 w.g_gravity.integer } } }
  else s

/-- Lines 677-693 of `G_CheckRules`: reset teams, scores. -/
def G_CheckRules_teams (s : CvarPass) : CvarPass :=
  let w := s.world
  if w.g_teams.modified then
    let w1 : World := { w with g_teams := { w.g_teams with modified := false } }
    -- teams are required for duel
    if w1.level.gameplay = .GAME_DUEL ∧ w1.g_teams.integer = 0 then
      { s with
        world := w1
        events := s.events ++
          [.Print "Teams can\x27t be disabled in DUEL mode, enabling...\n",
            .AddCommandString "set g_teams 1\n"] }
    else
      let teams : Bool := decide (w1.g_teams.integer ≠ 0)
      { world := { w1 with level := { w1.level with teams := teams } }
        events := s.events ++
          [.ConfigString CS_TEAMS (some (boolText teams)),
            .BroadcastPrint ("Teams have been " ++ enabledText teams ++ "\n")]
        restart := true }
  else s

/-- Lines 695-704 of `G_CheckRules`: capture the flag, reset teams, scores. -/
def G_CheckRules_ctf (s : CvarPass) : CvarPass :=
  let w := s.world
  if w.g_ctf.modified then
    let ctf : Bool := decide (w.g_ctf.integer ≠ 0)
    { world :=
        { w with
          g_ctf := { w.g_ctf with modified := false }
          level := { w.level with ctf := ctf } }
      events := s.events ++
        [.ConfigString CS_CTF (some (boolText ctf)),
          .BroadcastPrint ("CTF has been " ++ enabledText ctf ++ "\n")]
      restart := true }
  else s

/-- Lines 706-724 of `G_CheckRules`: match mode, reset scores. -/
def G_CheckRules_match (s : CvarPass) : CvarPass :=
  let w := s.world
  if w.g_match.modified then
    let w1 : World := { w with g_match := { w.g_match with modified := false } }
    if w1.level.gameplay = .GAME_DUEL ∧ w1.g_match.integer = 0 then
      { s with
        world := w1
        events := s.events ++
          [.Print "Matchs can\x27t be disabled in DUEL mode, enabling...\n",
            .AddCommandString "set g_match 1\n"] }
    else
      let m : Bool := decide (w1.g_match.integer ≠ 0)
      { world :=
          { w1 with level := { w1.level with «match» := m, warmup := m, -- toggle warmup
                                              match_status := MSTAT_WARMUP } }
        events := s.events ++
          [.ConfigString CS_MATCH (some (boolText m)),
            .BroadcastPrint ("Match has been " ++ enabledText m ++ "\n")]
        restart := true }
  else s

/-- Lines 726-738 of `G_CheckRules`: rounds, reset scores. -/
def G_CheckRules_rounds (s : CvarPass) : CvarPass :=
  let w := s.world
  if w.g_rounds.modified then
    let rounds : Bool := decide (w.g_rounds.integer ≠ 0)
    { world :=
        { w with
          g_rounds := { w.g_rounds with modified := false }
          level := { w.level with rounds := rounds, warmup := rounds } } -- toggle warmup
      events := s.events ++
        [.ConfigString CS_ROUNDS (some (boolText rounds)),
          .BroadcastPrint ("Rounds have been " ++ enabledText rounds ++ "\n")]
      restart := true }
  else s

/-- Lines 740-745 of `G_CheckRules`: notify when cheats changes. -/
def G_CheckRules_cheats (s : CvarPass) : CvarPass :=
  let w := s.world
  if w.g_cheats.modified then
    { s with
      world := { w with g_cheats := { w.g_cheats with modified := false } }
      events := s.events ++
        [.BroadcastPrint ("Cheats have been " ++
          enabledText (decide (w.g_cheats.integer ≠ 0)) ++ "\n")] }
  else s

/-- Lines 747-752 of `G_CheckRules`: the frag limit. -/
def G_CheckRules_frag_limit_cvar (s : CvarPass) : CvarPass :=
  let w := s.world
  if w.g_frag_limit.modified then
    { s with
      world :=
        { w with
          g_frag_limit := { w.g_frag_limit with modified := false }
          level := { w.level with frag_limit := w.g_frag_limit.integer } }
      events := s.events ++
        [.BroadcastPrint ("Frag limit has been changed to " ++
          toString w.g_frag_limit.integer ++ "\n")] }
  else s

/-- Lines 754-759 of `G_CheckRules`: the round limit. -/
def G_CheckRules_round_limit_cvar (s : CvarPass) : CvarPass :=
  let w := s.world
  if w.g_round_limit.modified then
    { s with
      world :=
        { w with
          g_round_limit := { w.g_round_limit with modified := false }
          level := { w.level with round_limit := w.g_round_limit.integer } }
      events := s.events ++
        [.BroadcastPrint ("Round limit has been changed to " ++
          toString w.g_round_limit.integer ++ "\n")] }
  else s

/-- Lines 761-767 of `G_CheckRules`: the capture limit. -/
def G_CheckRules_capture_limit_cvar (s : CvarPass) : CvarPass :=
  let w := s.world
  if w.g_capture_limit.modified then
    { s with
      world :=
        { w with
          g_capture_limit := { w.g_capture_limit with modified := false }
          level := { w.level with capture_limit := w.g_capture_limit.integer } }
      events := s.events ++
        [.BroadcastPrint ("Capture limit has been changed to " ++
          toString w.g_capture_limit.integer ++ "\n")] }
  else s

/-- Lines 769-774 of `G_CheckRules`: the time limit, in minutes, stored in
milliseconds. -/
def G_CheckRules_time_limit_cvar (genv : GameEnv) (s : CvarPass) : CvarPass :=
  let w := s.world
  if w.g_time_limit_modified then
    { s with
      world :=
        { w with
          g_time_limit_modified := false
          level := { w.level with time_limit := wrap32 (truncQ (w.g_time_limit * 60 * 1000)) } }
      events := s.events ++
        [.BroadcastPrint ("Time limit has been changed to " ++
          genv.Format31 w.g_time_limit ++ "\n")] }
  else s

/-- Lines 645-774 of `G_CheckRules`: the cvar checks, in order. -/
def G_CheckRules_reconcile (genv : GameEnv) (w : World) : CvarPass :=
  G_CheckRules_time_limit_cvar genv
    (G_CheckRules_capture_limit_cvar
      (G_CheckRules_round_limit_cvar
        (G_CheckRules_frag_limit_cvar
          (G_CheckRules_cheats
            (G_CheckRules_rounds
              (G_CheckRules_match
                (G_CheckRules_ctf
                  (G_CheckRules_teams
                    (G_CheckRules_gravity
                      (G_CheckRules_gameplay genv { world := w }))))))))))

/-- Lines 645-778 of `G_CheckRules`: the cvar checks and the restart. -/
def G_CheckRules_cvars (genv : GameEnv) (w : World) : World × List GameEvent :=
  let s := G_CheckRules_reconcile genv w
  if s.restart then
    let r := G_RestartGame genv true s.world -- reset all clients
    (r.1, s.events ++ r.2)
  else (s.world, s.events)

/-- The function `G_CheckRules` (lines 564-778). -/
def G_CheckRules (genv : GameEnv) (w : World) : World × List GameEvent :=
  let r := G_CheckRules_limits genv w
  if r.2.2 then (r.1, r.2.1)
  else
    let c := G_CheckRules_cvars genv r.1
    (c.1, r.2.1 ++ c.2)

/-! ## `g_main.c`: the frame -/

/-- The macro `INTERMISSION`, the intermission duration in milliseconds. -/
def INTERMISSION : Nat := 10 * 1000

/-- The function `G_ExitLevel` (lines 783-791).  A `NULL` `changemap` prints as
the empty string. -/
def G_ExitLevel (genv : GameEnv) (w : World) : World × List GameEvent :=
  let w1 : World := { w with level := { w.level with changemap := none, intermission_time := 0 } }
  (genv.G_EndClientFrames w1,
    [.AddCommandString ("map " ++ w.level.changemap.getD "" ++ "\n"), .G_EndClientFrames])

/-- The entity loop of `G_Frame` (lines 814-828) from index `i` on; `fuel` bounds
the number of iterations that remain, and the result is `none` if the loop has
not ended within them.  The index is a `uint16_t`; `ge.num_entities` and the
entity are read anew in each iteration, an index beyond the modelled array is
passed over, and `g_level.current_entity` is not modelled. -/
def G_Frame_entities (genv : GameEnv) : Nat → Nat → World × List GameEvent →
    Option (World × List GameEvent)
  | 0, _, _ => none
  | fuel + 1, i, acc =>
    if i < acc.1.num_entities then
      let next := (i + 1) % 65536
      match acc.1.entities[i]? with
      | none => G_Frame_entities genv fuel next acc
      | some ent =>
        if !ent.in_use then G_Frame_entities genv fuel next acc
        else if ent.client.isSome then
          G_Frame_entities genv fuel next
            (genv.G_ClientBeginFrame i acc.1, acc.2 ++ [.G_ClientBeginFrame i])
        else
          G_Frame_entities genv fuel next
            (genv.G_RunEntity i acc.1, acc.2 ++ [.G_RunEntity i])
    else some acc

/-- Lines 830-846 of `G_Frame`: the global checks, in order, then
`G_EndClientFrames`. -/
def G_Frame_checks (genv : GameEnv) (w : World) : World × List GameEvent :=
  let r2 := G_CheckVote genv w -- see if a vote has passed
  let r3 := G_CheckRules genv r2.1 -- inspect and enforce gameplay rules
  let r4 := G_CheckMatchEnd r3.1 -- see if a match should end
  let r5 := G_CheckRoundStart r4.1 -- see if an arena round should start
  let r6 := G_CheckRoundEnd genv r5.1 -- see if an arena round should end
  (genv.G_EndClientFrames r6.1,
    [GameEvent.G_CheckVote] ++ r2.2 ++ [GameEvent.G_CheckRules] ++ r3.2 ++
      [GameEvent.G_CheckMatchEnd] ++ r4.2 ++ [GameEvent.G_CheckRoundStart] ++ r5.2 ++
      [GameEvent.G_CheckRoundEnd] ++ r6.2 ++ [GameEvent.G_EndClientFrames])

/-- Lines 800-801 of `G_Frame`: the frame counter and the level clock. -/
def G_Frame_clock (w : World) : World :=
  let frame_num := wrap32 (w.level.frame_num + 1)
  { w with level := { w.level with frame_num := frame_num,
                                    time := wrap32 (frame_num * w.frame_millis) } }

/-- The function `G_Frame` (lines 798-847); `fuel` bounds the number of
iterations of the entity loop, and the result is `none` if the loop has not
ended within them. -/
def G_Frame (genv : GameEnv) (fuel : Nat) (w : World) : Option (World × List GameEvent) :=
  let w1 := G_Frame_clock w
  -- check for level change after running intermission
  if w1.level.intermission_time ≠ 0 ∧
      w1.level.time > w1.level.intermission_time + INTERMISSION then
    some (G_ExitLevel genv w1)
  else
    let r1 : Option (World × List GameEvent) :=
      if !G_TIMEOUT w1 then G_Frame_entities genv fuel 0 (w1, []) else some (w1, [])
    r1.map fun r1 =>
      let r := G_Frame_checks genv r1.1
      (r.1, r1.2 ++ r.2)

/-! ## `sv_game.c` -/

/-- The fields of the export table `g_export_t` that the server reads when it
loads the game; the function pointers are not modelled. -/
structure g_export_t where
  api_version : Int := 0
  protocol : Int := 0
  num_entities : Nat := 0
deriving DecidableEq, Repr

/-- The fields of the import table `g_import_t` that `Sv_InitGame` computes; the
function pointers are not modelled. -/
structure g_import_t where
  frame_rate : Nat := 0
  frame_millis : Nat := 0
  frame_seconds : ℚ := 0
deriving DecidableEq, Repr

/-- The macro `PROTOCOL_MINOR` of `g_types.h`. -/
def PROTOCOL_MINOR : Int := 1010

/-- The function `G_LoadGame` (lines 1088-1115) of `g_main.c`: the world with
the frame constants of the table `gi` copied and the export table cleared, and
the export table returned.  `GAME_API_VERSION` is not among the sources. -/
def G_LoadGame (GAME_API_VERSION : Int) (imp : g_import_t) (w : World) : World × g_export_t :=
  ({ w with frame_rate := imp.frame_rate, frame_millis := imp.frame_millis, num_entities := 0 },
    { api_version := GAME_API_VERSION, protocol := PROTOCOL_MINOR, num_entities := 0 })

/-- The error codes passed to `Com_Error` by `sv_game.c`. -/
inductive err_t where
  | ERR_DROP
  | ERR_FATAL
deriving DecidableEq, Repr

/-- What is written to the buffer `sv.multicast`. -/
inductive NetWrite where
  | Byte (c : Int)
  | Short (c : Int)
  | String (s : String)
deriving DecidableEq, Repr

/-- Observable calls made by the functions of `sv_game.c`, in program order. -/
inductive SvEvent where
  /-- The call `Com_Print(msg)`. -/
  | Com_Print (msg : String)
  /-- The call `Com_Warn(msg)`. -/
  | Com_Warn (msg : String)
  /-- The call `Com_Error(code, msg)`, which does not return. -/
  | Com_Error (code : err_t) (msg : String)
  /-- The call `Sys_LoadLibrary("game", &game_handle, "G_LoadGame", &import)`. -/
  | Sys_LoadLibrary (imp : g_import_t)
  /-- The call `svs.game->Init()`. -/
  | Init
  /-- The call `Com_InitSubsystem(QUETOO_GAME)`. -/
  | Com_InitSubsystem
  /-- The call `Sv_Multicast(vec3_origin, MULTICAST_ALL_R)`, with the contents of
  the buffer `sv.multicast` at the time of the call. -/
  | Sv_Multicast (buffer : List NetWrite)
deriving DecidableEq, Repr

/-- The field of `svs` used by `Sv_InitGame`: the loaded game, `none` for
`NULL`, and the frame rate. -/
structure sv_static_t where
  game : Option g_export_t := none
  frame_rate : Nat := 0
deriving DecidableEq, Repr

/-- Lines 226-236 of `Sv_InitGame`: the frame constants of the import table. -/
def Sv_InitGame_import (svs : sv_static_t) : g_import_t :=
  { frame_rate := svs.frame_rate
    frame_millis := 1000 / svs.frame_rate
    frame_seconds := 1 / (svs.frame_rate : ℚ) }

/-- The function `Sv_InitGame` (lines 223-312).  `Com_Error` does not return (the
wrapper `Sv_GameError`, which ends with it, is declared `noreturn`), so the
function ends with that call.  `Sys_LoadLibrary` and `GAME_API_VERSION` are not
among the sources; the first is given as the table it returns for the import
table, `none` for `NULL`. -/
def Sv_InitGame (GAME_API_VERSION : Int) (Sys_LoadLibrary : g_import_t → Option g_export_t)
    (svs : sv_static_t) : sv_static_t × List SvEvent :=
  if svs.game.isSome then (svs, [.Com_Error .ERR_FATAL "Game already loaded"])
  else
    let imp : g_import_t := Sv_InitGame_import svs
    let ev : List SvEvent := [.Com_Print "Game initialization...\n", .Sys_LoadLibrary imp]
    let svs1 : sv_static_t := { svs with game := Sys_LoadLibrary imp }
    match svs1.game with
    | none => (svs1, ev ++ [.Com_Error .ERR_DROP "Failed to load game module\n"])
    | some game =>
      if game.api_version ≠ GAME_API_VERSION then
        (svs1, ev ++ [.Com_Error .ERR_DROP ("Game is version " ++ toString game.api_version ++
          ", not " ++ toString GAME_API_VERSION ++ "\n")])
      else
        (svs1, ev ++ [.Init, .Com_Print "Game initialized, starting...\n", .Com_InitSubsystem])

/-- The constants of the server that `Sv_ConfigString` uses and that are not
among the sources. -/
structure SvConsts where
  /-- The macro `MAX_CONFIG_STRINGS`. -/
  MAX_CONFIG_STRINGS : Nat
  /-- The macro `MAX_STRING_CHARS`, the size of a config string. -/
  MAX_STRING_CHARS : Nat
  /-- The server state `SV_LOADING`. -/
  SV_LOADING : Nat
  /-- The server command `SV_CMD_CONFIG_STRING`. -/
  SV_CMD_CONFIG_STRING : Int

/-- The fields of `sv` used by `Sv_ConfigString`: the server state, the config
strings and the multicast buffer. -/
structure sv_server_t where
  state : Nat := 0
  config_strings : List String := []
  multicast : List NetWrite := []
deriving DecidableEq, Repr

/-- The function `g_strlcpy(dst, src, size)`: the string stored in `dst`, at most
`size - 1` characters of `src`. -/
def g_strlcpy (src : String) (size : Nat) : String := String.mk (src.toList.take (size - 1))

/-- The function `Sv_ConfigString` (lines 71-97).  A config string outside the
list reads as the empty string; what `Sv_Multicast` does to the buffer is not
modelled. -/
def Sv_ConfigString (c : SvConsts) (sv : sv_server_t) (index : Nat) (val : Option String) :
    sv_server_t × List SvEvent :=
  if index ≥ c.MAX_CONFIG_STRINGS then
    (sv, [.Com_Warn ("Bad index " ++ toString index ++ "\n")])
  else
    let val := val.getD ""
    -- make sure it is actually changed
    if sv.config_strings.getD index "" = val then (sv, [])
    else
      -- change the string in sv.config_strings
      let sv1 : sv_server_t :=
        { sv with config_strings := sv.config_strings.set index (g_strlcpy val c.MAX_STRING_CHARS) }
      if sv1.state ≠ c.SV_LOADING then -- send the update to everyone
        let buffer : List NetWrite :=
          [.Byte c.SV_CMD_CONFIG_STRING, .Short index, .String val]
        ({ sv1 with multicast := buffer }, [.Sv_Multicast buffer])
      else (sv1, [])

/-! ## `cl_loc.c` -/

/-- The type `loc_t` of `cl_loc.c`: a point and its description. -/
structure loc_t where
  loc : Vec3 := {}
  desc : String := ""
deriving DecidableEq, Repr

/-- The loop of `Cl_Location` (lines 130-137) over the locations that remain,
the first of which has the index `i`; the state is the pair of the locals
`mindist` and `j`.  `VectorLength` is not among the sources. -/
def Cl_Location_loop (VectorLength : Vec3 → ℚ) (nearto : Vec3) :
    List loc_t → Nat → ℚ × Nat → ℚ × Nat
  | [], _, st => st
  | l :: rest, i, st =>
    let dist := VectorLength (VectorSubtract nearto l.loc)
    if dist < st.1 then Cl_Location_loop VectorLength nearto rest (i + 1) (dist, i) -- closest yet
    else Cl_Location_loop VectorLength nearto rest (i + 1) st

/-- The function `Cl_Location` (lines 120-140); `locations` holds the entries
`0` to `numlocations - 1` of the array of that name. -/
def Cl_Location (VectorLength : Vec3 → ℚ) (locations : List loc_t) (nearto : Vec3) : String :=
  if locations.length = 0 then ""
  else
    let r := Cl_Location_loop VectorLength nearto locations 0 (999999, 0)
    ((locations[r.2]?).map fun l => l.desc).getD ""

/-! ## A concrete configuration for evaluating the code -/

/-- An environment in which item 1 is the jacket armor (protection 0.30 against
kinetic and 0.25 against energy damage), item 0 the quad damage, every
entity is meat and vectors are left unnormalized. -/
def env0 : Env where
  G_ClientArmor := fun inventory => if inventory.getD 1 0 ≠ 0 then some 1 else none
  G_ArmorInfo := fun _ => { normal_protection := 3 / 10, energy_protection := 1 / 4 }
  G_IsStructural := fun _ => false
  G_IsMeat := fun _ => true
  VectorNormalize := fun v => v
  quad_damage := 0
  PMF_GIBLET := 0x400
  PMF_TIME_PUSHED := 0x20

/-! ## Counting callback invocations in a trace -/

/-- Whether an event is one of the message writes of `G_SpawnDamage`. -/
def Event.isWrite : Event → Bool
  | .WriteByteCmd => true
  | .WriteByteType _ => true
  | .WritePosition _ => true
  | .WriteDir _ => true
  | .Multicast _ => true
  | _ => false


/-- Number of invocations of a `Pain` callback in a trace. -/
def painCalls (tr : List Event) : Nat :=
  tr.countP fun e => match e with
    | .PainCall _ _ _ _ => true
    | _ => false

/-- Number of invocations of a `Die` callback in a trace. -/
def dieCalls (tr : List Event) : Nat :=
  tr.countP fun e => match e with
    | .DieCall _ _ _ => true
    | _ => false

/-- Number of temp-entity multicasts in a trace. -/
def multicasts (tr : List Event) : Nat :=
  tr.countP fun e => match e with
    | .Multicast _ => true
    | _ => false

/-- A client entity with 100 health and 50 units of jacket armor. -/
def client0 : g_entity_t :=
  { client := some { inventory := [0, 50] }, health := 100, take_damage := true,
    Pain := true, Die := true, move_type := MOVE_TYPE_WALK, mass := 200 }

/-- A world with the world entity (entity 0) and the client `client0` (entity 1). -/
def w0 : World := { entities := [{}, client0] }

/-- A world at time 1000 whose client (entity 1) is respawn protected until time 5000. -/
def w_protected : World :=
  { entities :=
      [ {},
        { client := some { respawn_protection_time := 5000 }, health := 100,
          take_damage := true, Pain := true, Die := true } ],
    level := { time := 1000 } }

/-- In `w0`, entity 1 after a call and the trace. -/
def after1 (r : World × List Event) : Option g_entity_t × List Event := (r.1.entities[1]?, r.2)

/-- The value of the local `saved` of `G_CheckArmor` (lines 142-145) for an armor
item with charge `quantity`. -/
def armorSaved (env : Env) (armor : Nat) (quantity damage : Int) (dflags : Nat) : Int :=
  if dflags &&& DMG_ENERGY ≠ 0 then
    toInt16 (Clamp ((damage : ℚ) * (env.G_ArmorInfo armor).energy_protection) 0 (quantity : ℚ))
  else
    toInt16 (Clamp ((damage : ℚ) * (env.G_ArmorInfo armor).normal_protection) 0 (quantity : ℚ))

/-- The entity after line 147 of `G_CheckArmor`: the charge of the armor item of
client `c` lowered by `saved`. -/
def armorEntity (ent : g_entity_t) (c : g_client_t) (armor : Nat) (saved : Int) : g_entity_t :=
  let client1 : g_client_t :=
    { c with inventory := c.inventory.set armor (wrap16 (c.inventory.getD armor 0 - saved)) }
  { ent with client := some client1 }

/-- The value of the local `damage_health` of a `G_Damage` call that passes the
initial guards (lines 272-282); armor absorption reads the flags and the
inventory of the target, which knockback leaves alone. -/
def damageHealth (env : Env) (w : World) (t a : Nat) (targ att : g_entity_t)
    (pos normal : Option Vec3) (damage knockback : Int) (dflags mod : Nat) : Int :=
  (G_Damage_absorb env targ (pos.getD targ.origin) (normal.getD vec3_origin)
    (G_Damage_rules env w t a targ att damage knockback mod).damage dflags).damage_health

/-- The value of the local `damage_armor` of a `G_Damage` call that passes the
initial guards (lines 272-282). -/
def damageArmor (env : Env) (w : World) (t a : Nat) (targ att : g_entity_t)
    (pos normal : Option Vec3) (damage knockback : Int) (dflags mod : Nat) : Int :=
  (G_Damage_absorb env targ (pos.getD targ.origin) (normal.getD vec3_origin)
    (G_Damage_rules env w t a targ att damage knockback mod).damage dflags).damage_armor

/-- Whether a `G_Damage` call takes the death branch of lines 287-308: health
damage `dh` is done to the target and leaves its health at or below zero. -/
def isFatal (targ : g_entity_t) (dh : Int) : Prop :=
  dh ≠ 0 ∧ (targ.health ≠ 0 ∨ targ.dead = true) ∧ wrap16 (targ.health - dh) ≤ 0

instance (targ : g_entity_t) (dh : Int) : Decidable (isFatal targ dh) := by
  unfold isFatal
  infer_instance

/-- Lines 321-322 of `G_Damage`: the per-frame damage counters of the client of
the target. -/
def creditDamage (target : g_entity_t) (da dh : Int) : g_entity_t :=
  { target with client := target.client.map fun c =>
      { c with damage_armor := wrap16 (c.damage_armor + da)
               damage_health := wrap16 (c.damage_health + dh) } }

/-- The target as `G_Damage` leaves it after a call that passes the guards, in
terms of the armor absorption computed on the target before knockback. -/
def targetAfter (env : Env) (targ : g_entity_t) (self : Bool) (dir pos normal : Vec3)
    (d k : Int) (dflags : Nat) : g_entity_t :=
  let ab := G_Damage_absorb env targ pos normal d dflags
  let targ2 := G_Damage_knockback env ab.target self dir k
  if ab.damage_health ≠ 0 ∧ (targ.health ≠ 0 ∨ targ.dead = true) then
    let targ3 := { targ2 with health := wrap16 (targ.health - ab.damage_health) }
    if wrap16 (targ.health - ab.damage_health) ≤ 0 then { targ3 with dead := true }
    else if targ.dead then targ3
    else creditDamage targ3 ab.damage_armor ab.damage_health
  else if targ.dead then targ2
  else creditDamage targ2 ab.damage_armor ab.damage_health

/-- The charge of the armor item the entity holds (`G_ClientArmor`), zero if it
holds none or has no client. -/
def armorCharge (env : Env) (e : g_entity_t) : Int :=
  match e.client with
  | none => 0
  | some c =>
    match env.G_ClientArmor c.inventory with
    | none => 0
    | some armor => c.inventory.getD armor 0

/-- The protection coefficient `G_CheckArmor` applies (lines 142-145):
`energy_protection` when `DMG_ENERGY` is set, `normal_protection` otherwise. -/
def protection (env : Env) (armor : Nat) (dflags : Nat) : ℚ :=
  if dflags &&& DMG_ENERGY ≠ 0 then (env.G_ArmorInfo armor).energy_protection
  else (env.G_ArmorInfo armor).normal_protection

/-- A client attacker that holds the quad damage (item 0 of `env0`) and has the
default handicap of 100. -/
def quadAttacker : g_entity_t := { client := some { inventory := [1, 0] } }

/-- The world `w0` with `quadAttacker` added as entity 2. -/
def w_quad : World := { entities := [{}, client0, quadAttacker] }

/-- An attacker that is a client with a handicap of 29 and no quad damage. -/
def handicapAttacker : g_entity_t :=
  { client := some { inventory := [0, 0], persistent := { handicap := 29 } } }

/-- A client in god mode with 100 health and 50 units of jacket armor. -/
def godClient : g_entity_t :=
  { client := some { inventory := [0, 50] }, flags := FL_GOD_MODE, health := 100,
    take_damage := true, Pain := true, Die := true }

/-- A world with the world entity and the client `godClient` (entity 1). -/
def w_god : World := { entities := [{}, godClient] }

/-- Two clients on team 1 and a client on team 2. -/
def teamMate (team : Nat) : g_entity_t :=
  { client := some { persistent := { team := some team }, inventory := [0, 50] },
    health := 100, take_damage := true, Pain := true, Die := true }

/-- A team game without friendly fire: entities 1 and 2 are on team 1, entity 3
is on team 2. -/
def w_team : World :=
  { entities := [{}, teamMate 1, teamMate 1, teamMate 2], level := { teams := true } }

/-- The team game `w_team` with friendly fire enabled. -/
def w_team_ff : World := { w_team with g_friendly_fire := 1 }

/-- The per-frame damage counters of the client of an entity: `damage_armor`,
`damage_health` and `damage_inflicted`. -/
def damageCounters (e : g_entity_t) : Option (Int × Int × Int) :=
  e.client.map fun c => (c.damage_armor, c.damage_health, c.damage_inflicted)

/-- A wooden crate: no client, no `Die` callback, 20 health. -/
def crate : g_entity_t := { health := 20, take_damage := true }

/-- The crate after the client has destroyed it with 25 damage. -/
def crateDestroyed : g_entity_t := { crate with health := -5, dead := true }

/-- A world with the world entity, the client `client0` and the crate. -/
def w_crate : World := { entities := [{}, client0, crate] }

/-- The corpse of a client: dead, health -10, still damageable. -/
def corpse : g_entity_t :=
  { client := some {}, health := -10, dead := true, take_damage := true,
    Pain := true, Die := true }

/-- A world with the world entity and the corpse (entity 1). -/
def w_corpse : World := { entities := [{}, corpse] }

/-- The client `client0` after 60 kinetic damage: 18 absorbed by the armor, 42
taken from health. -/
def client0After : g_entity_t :=
  { client := some { inventory := [0, 32], damage_armor := 18, damage_health := 42 },
    health := 58, take_damage := true, Pain := true, Die := true,
    move_type := MOVE_TYPE_WALK, mass := 200 }

/-- A geometry in which every trace is stopped half way by the entity `hit`;
lengths are measured along the axes. -/
def geoHit (hit : Nat) : Geometry where
  Trace := fun _ _ _ => { fraction := 1 / 2, ent := some hit }
  SOLID_BSP := 3
  VectorLength := fun v => |v.x| + |v.y| + |v.z|

/-- A geometry without obstacles: every trace is unobstructed; lengths are
measured along the axes (exact for axis-aligned vectors). -/
def geoClear : Geometry where
  Trace := fun _ _ _ => { fraction := 1, ent := none }
  SOLID_BSP := 3
  VectorLength := fun v => |v.x| + |v.y| + |v.z|

/-- A brush model (`SOLID_BSP`) spanning the box from (0, 0, 0) to (64, 64, 64). -/
def brushModel : g_entity_t :=
  { solid := 3, abs_maxs := ⟨64, 64, 64⟩, health := 50, take_damage := true }

/-- The fields of an entity that `G_RadiusDamage` and `G_CanDamage` read:
origin, `take_damage`, solid type and absolute bounds. -/
def placement (e : g_entity_t) : Vec3 × Bool × Nat × Vec3 × Vec3 :=
  (e.origin, e.take_damage, e.solid, e.abs_mins, e.abs_maxs)

/-- The factor `G_RadiusDamage` applies to the damage of the entity `e` (lines
364-369): a quarter for the attacker hit by its own BFG blast, a half for the
attacker otherwise, one for any other entity. -/
def selfDamageScale (attacker : Option Nat) (mod : Nat) (e : Nat) : ℚ :=
  if some e = attacker then (if mod = MOD_BFG_BLAST then 1 / 4 else 1 / 2) else 1

/-- A world for radius damage: the world entity at the origin (the inflictor),
the client `client0` moved 40 units along the x axis, and the crate moved 300
units along the y axis. -/
def w_blast : World :=
  { entities := [{}, { client0 with origin := ⟨40, 0, 0⟩ }, { crate with origin := ⟨0, 300, 0⟩ }] }

/-- The one `G_Damage` call of a blast of damage 120 and knockback 120 at the
origin of `w_blast`: the client, 40 units away, gets damage 100 and knockback 100. -/
def blastCall : DamageCall :=
  { target := 1, inflictor := 0, attacker := none, dir := ⟨40, 0, 0⟩, damage := 100,
    knockback := 100, dflags := DMG_RADIUS, mod := 0 }

/-! ## Configurations of `g_main.c` for evaluating the code -/

/-- A configuration of the functions that are not among the sources: respawning,
moving to the intermission and joining a team leave the entity as it is,
the smallest team is the good team, a freed entity is no longer in use, the map
has no spawn point, the map list is empty and no client is found by name; the
frame functions of the entities leave the world as it is, the game modes are
named `deathmatch`, `instagib`, `arena` and `duel` (any other name is
deathmatch) and numbers are printed as fractions. -/
def genv0 : GameEnv where
  G_ClientRespawn := id
  G_ClientToIntermission := id
  G_AddClientToTeam := fun _ e => e
  G_SmallestTeam := fun w => w.g_team_good.name
  G_FreeEntity := fun e => { e with in_use := false }
  G_ResetItem := id
  G_Find := fun _ _ => none
  G_MapList_Next := fun _ => none
  G_ClientByName := fun _ _ => none
  PM_NORMAL := 0
  PM_FREEZE := 3
  G_ClientBeginFrame := fun _ w => w
  G_RunEntity := fun _ w => w
  G_EndClientFrames := id
  G_GameplayByName := fun s =>
    if s = "instagib" then .GAME_INSTAGIB
    else if s = "arena" then .GAME_ARENA
    else if s = "duel" then .GAME_DUEL
    else .GAME_DEATHMATCH
  G_GameplayName := fun g =>
    match g with
    | .GAME_DEATHMATCH => "deathmatch"
    | .GAME_INSTAGIB => "instagib"
    | .GAME_ARENA => "arena"
    | .GAME_DUEL => "duel"
  Format31 := fun q => toString q.num ++ "/" ++ toString q.den

/-- A connected client with 100 health on the given team and with the given
score. -/
def player (team : Option Nat) (score : Int) : g_entity_t :=
  { in_use := true, health := 100,
    client := some { persistent := { team := team, score := score } } }

/-- The announcement that the current vote has passed (line 307). -/
def passedMessage (w : World) : GameEvent :=
  .BroadcastPrint ("Vote \"" ++ w.level.vote_cmd ++ "\" passed\n")

/-- The announcement that the current vote has expired (line 294). -/
def expiredMessage (w : World) : GameEvent :=
  .BroadcastPrint ("Vote \"" ++ w.level.vote_cmd ++ "\" expired\n")

/-- The number of yes votes, `g_level.votes[VOTE_YES]`. -/
def yesVotes (w : World) : Nat := w.level.votes.getD g_vote_t.VOTE_YES.index 0

/-- Three connected clients, a vote to restart called 60000 ms ago, two yes
votes and one undecided. -/
def w_vote : World :=
  { entities := [{}, player none 0, player none 0, player none 0]
    sv_max_clients := 3
    level := { time := 61000, vote_time := 1000, vote_cmd := "restart", votes := [1, 2, 0] } }

/-- The vote of `w_vote` 99000 ms after it was called, with voting switched off
in the meantime. -/
def w_vote_off : World :=
  { entities := [{}, player none 0, player none 0, player none 0]
    sv_max_clients := 3
    g_voting := 0
    level := { time := 100000, vote_time := 1000, vote_cmd := "restart", votes := [1, 2, 0] } }

/-- Three connected clients who all voted yes, 60001 ms after the vote was
called. -/
def w_vote_late : World :=
  { entities := [{}, player none 0, player none 0, player none 0]
    sv_max_clients := 3
    level := { time := 61001, vote_time := 1000, vote_cmd := "restart", votes := [0, 3, 0] } }

/-- The number of invocations of `G_EndLevel` in a sequence of calls. -/
def endLevelCalls (evs : List GameEvent) : Nat := evs.count GameEvent.G_EndLevel

/-- The score of the client of the entity `j`. -/
def scoreOf (w : World) (j : Nat) : Int :=
  (clientOf ((w.entities[j]?).getD {})).persistent.score

/-- The level fields read by the frag limit check, with the clock and the
intermission time. -/
def rulesOf (w : World) : Bool × Bool × Int × Nat × Nat :=
  (w.level.teams, w.level.ctf, w.level.frag_limit, w.level.time, w.level.intermission_time)

/-- Free-for-all with a frag limit of 30 and no time limit: the first client has
just reached 30 frags. -/
def w_frag : World :=
  { entities := [{}, player none 30, player none 12]
    sv_max_clients := 2
    level := { time := 1000, frag_limit := 30 } }

/-- Free-for-all with a frag limit of 30 and a time limit that expires in the
frame in which the client reaches 30 frags. -/
def w_limits : World :=
  { entities := [{}, player none 30]
    sv_max_clients := 1
    level := { time := 1000, time_limit := 1000, frag_limit := 30 } }

/-- An intermission that began at 1000 ms, during which the only client has
voted yes on `next_map`. -/
def w_next_map : World :=
  { entities := [{}, player none 30]
    sv_max_clients := 1
    level := { time := 2000, intermission_time := 1000, vote_time := 1500,
               vote_cmd := "next_map", votes := [0, 1, 0] } }

/-- A running round of capture the flag with the `teams` flag off: one client
on each team, no projectile in flight. -/
def w_ctf_round : World :=
  { entities := [{}, player (some TEAM_GOOD) 0, player (some TEAM_EVIL) 0]
    sv_max_clients := 2
    num_entities := 3
    level := { time := 5000, rounds := true, ctf := true, round_time := 1000,
               round_limit := 10 } }

/-- The round of `w_ctf_round` with the `teams` flag on as well. -/
def w_teams_round : World :=
  { w_ctf_round with level := { w_ctf_round.level with teams := true } }

/-- Rounds in team mode before the first round: two clients on the good team,
one on the evil team. -/
def w_unbalanced : World :=
  { entities := [{}, player (some TEAM_GOOD) 0, player (some TEAM_GOOD) 0,
                 player (some TEAM_EVIL) 0]
    sv_max_clients := 3
    num_entities := 4
    level := { time := 5000, rounds := true, teams := true } }

/-- A server with two client slots, both in use, during play, with a timeout
length of 120 seconds. -/
def w_timeout : World :=
  { entities := [{}, player none 0, player none 0]
    sv_max_clients := 2
    g_timeout_time := 120
    level := { time := 5000, frame_num := 50, match_status := MSTAT_PLAYING } }

/-- An entity whose client has the movement type `PM_FREEZE`. -/
def frozen (e : g_entity_t) : g_entity_t :=
  onClient (fun c => { c with pm_state := { c.pm_state with type := genv0.PM_FREEZE } }) e

/-- The end of a timeout of 120 seconds called at frame 50: both clients are
frozen and no time remains. -/
def w_frozen : World :=
  { entities := [{}, frozen (player none 0), frozen (player none 0)]
    sv_max_clients := 2
    g_timeout_time := 120
    level := { time := 125000, frame_num := 1250,
               match_status := MSTAT_PLAYING ||| MSTAT_TIMEOUT,
               timeout_caller := some 1, timeout_time := 125000, timeout_frame := 50 } }

/-- The movement type of the client of every entity, in index order (0 for an
entity without a client). -/
def moveTypes (w : World) : List Nat := w.entities.map fun e => (clientOf e).pm_state.type

/-- The world with the gameplay mode replaced. -/
def withGameplay (w : World) (g : g_gameplay_t) : World :=
  { w with level := { w.level with gameplay := g } }

/-- The linear and angular velocity of an entity. -/
def motion (e : g_entity_t) : Vec3 × Vec3 := (e.velocity, e.avelocity)

/-- A world in instagib mode with the client `client0` (entity 1). -/
def w_instagib : World :=
  { entities := [{}, client0], level := { gameplay := .GAME_INSTAGIB } }

/-- The client `client0` after 200 damage without knockback: the armor is used
up and the client is dead. -/
def client0Killed : g_entity_t :=
  { client := some { inventory := [0, 0] }, health := -50, dead := true, take_damage := true,
    Pain := true, Die := true, move_type := MOVE_TYPE_WALK, mass := 200 }

/-- The number of entities of the list whose client is on the evil team. -/
def countEvil (w : World) (js : List Nat) : Nat :=
  (js.filter fun j =>
    match w.entities[j]? with
    | some e => decide ((clientOf e).persistent.team = some TEAM_EVIL)
    | none => false).length

/-- The condition under which a match ends for lack of players: match mode is
on, a match is running, and either no client in use is playing or, in team or
CTF mode, one of the two teams has no client in use that is playing. -/
def matchEnded (w : World) : Prop :=
  w.level.«match» = true ∧ 0 < w.level.match_time ∧ w.level.match_time ≤ w.level.time ∧
    (activeClients w = [] ∨
      ((w.level.teams = true ∨ w.level.ctf = true) ∧
        (countGood w (activeClients w) = 0 ∨ countEvil w (activeClients w) = 0)))

/-- In team or CTF mode every playing client is on one of the two teams.
Outside these modes nothing is required: the clients of a free-for-all game
have no team. -/
def allOnTeams (w : World) : Prop :=
  (w.level.teams = true ∨ w.level.ctf = true) →
    ∀ j ∈ activeClients w, ∀ e, w.entities[j]? = some e →
      (clientOf e).persistent.team = some TEAM_GOOD ∨
        (clientOf e).persistent.team = some TEAM_EVIL

/-- A running match in team mode in which the only playing client is on the
good team. -/
def w_match_end : World :=
  { entities := [{}, player (some TEAM_GOOD) 3]
    sv_max_clients := 1
    num_entities := 2
    level := { time := 5000, «match» := true, teams := true, match_time := 1000 } }

/-- A running free-for-all match with two playing clients, neither of which
has a team. -/
def w_match_ffa : World :=
  { entities := [{}, player none 3, player none 1]
    sv_max_clients := 2
    num_entities := 3
    level := { time := 5000, «match» := true, match_time := 1000 } }

/-- A running free-for-all match that every client has left. -/
def w_match_ffa_empty : World :=
  { entities := [{}]
    sv_max_clients := 2
    num_entities := 1
    level := { time := 5000, «match» := true, match_time := 1000 } }

/-- Whether a call is a `Sv_Multicast`. -/
def SvEvent.isMulticast : SvEvent → Bool
  | .Sv_Multicast _ => true
  | _ => false

/-- A server at 10 frames per second without a game. -/
def svs0 : sv_static_t := { frame_rate := 10 }

/-- Server constants for evaluating `Sv_ConfigString`. -/
def svc0 : SvConsts :=
  { MAX_CONFIG_STRINGS := 4, MAX_STRING_CHARS := 8, SV_LOADING := 1, SV_CMD_CONFIG_STRING := 13 }

/-- A running server with four config strings. -/
def sv0 : sv_server_t := { state := 2, config_strings := ["a", "b", "c", "d"] }

/-- The cvar checks of `G_CheckRules`, in program order. -/
def cvarBlocks (genv : GameEnv) : List (CvarPass → CvarPass) :=
  [G_CheckRules_gameplay genv, G_CheckRules_gravity, G_CheckRules_teams, G_CheckRules_ctf,
    G_CheckRules_match, G_CheckRules_rounds, G_CheckRules_cheats, G_CheckRules_frag_limit_cvar,
    G_CheckRules_round_limit_cvar, G_CheckRules_capture_limit_cvar,
    G_CheckRules_time_limit_cvar genv]

/-- Runs a sequence of cvar checks. -/
def runBlocks (Bs : List (CvarPass → CvarPass)) (s : CvarPass) : CvarPass :=
  Bs.foldl (fun s B => B s) s

/-- The `modified` flags of the cvars that `G_CheckRules` examines, in the order
of the checks. -/
def modifiedFlags (w : World) : List Bool :=
  [w.g_gameplay.modified, w.g_gravity.modified, w.g_teams.modified, w.g_ctf.modified,
    w.g_match.modified, w.g_rounds.modified, w.g_cheats.modified, w.g_frag_limit.modified,
    w.g_round_limit.modified, w.g_capture_limit.modified, w.g_time_limit_modified]

/-- Whether a call is a print, a config string or a console command. -/
def GameEvent.isNotice : GameEvent → Bool
  | .BroadcastPrint _ => true
  | .Print _ => true
  | .ConfigString _ _ => true
  | .AddCommandString _ => true
  | _ => false

/-- The gameplay mode in force when the cvar checks reach `g_teams` and
`g_match`: the new one if `g_gameplay` was modified. -/
def gameplayAfter (genv : GameEnv) (w : World) : g_gameplay_t :=
  if w.g_gameplay.modified then genv.G_GameplayByName w.g_gameplay.string else w.level.gameplay

/-- A cvar that was modified and whose new value is accepted: `g_teams` and
`g_match` can not be set to 0 in duel mode. -/
def accepted (genv : GameEnv) (w : World) (c : cvar_t) : Prop :=
  c.modified = true ∧ ¬ (gameplayAfter genv w = .GAME_DUEL ∧ c.integer = 0)

instance (genv : GameEnv) (w : World) (c : cvar_t) : Decidable (accepted genv w c) := by
  unfold accepted
  infer_instance

/-- At least one of `g_gameplay`, `g_teams`, `g_ctf`, `g_match`, `g_rounds` was
modified and its new value accepted. -/
def restartNeeded (genv : GameEnv) (w : World) : Prop :=
  w.g_gameplay.modified = true ∨ accepted genv w w.g_teams ∨ w.g_ctf.modified = true ∨
    accepted genv w w.g_match ∨ w.g_rounds.modified = true

instance (genv : GameEnv) (w : World) : Decidable (restartNeeded genv w) := by
  unfold restartNeeded
  infer_instance

/-- The state that the cvar checks of `G_CheckRules` do not write: the entities,
the clock, the timers and the frame constants. -/
def plainView (w : World) :
    List g_entity_t × Nat × Nat × Nat × Int × Nat × Nat × Nat × Nat × Nat × Nat × Nat :=
  (w.entities, w.level.time, w.level.frame_num, w.level.intermission_time, w.sv_max_clients,
    w.num_entities, w.frame_millis, w.frame_rate, w.level.timeout_frame, w.level.timeout_time,
    w.level.match_time, w.level.round_time)

/-- The state read and written by the check of `g_teams`. -/
def teamsView (w : World) : cvar_t × Bool × g_gameplay_t :=
  (w.g_teams, w.level.teams, w.level.gameplay)

/-- The state read and written by the check of `g_match`. -/
def matchView (w : World) : cvar_t × Bool × g_gameplay_t × Nat :=
  (w.g_match, w.level.«match», w.level.gameplay, w.level.match_status)

/-- The state read and written by the check of `g_ctf`. -/
def ctfView (w : World) : cvar_t × Bool := (w.g_ctf, w.level.ctf)

/-- The state read and written by the check of `g_rounds`. -/
def roundsView (w : World) : cvar_t × Bool := (w.g_rounds, w.level.rounds)

/-- The state read and written by the checks of the four limits. -/
def limitsView (w : World) :
    (cvar_t × Int) × (cvar_t × Int) × (cvar_t × Int) × (Bool × ℚ × Nat) :=
  ((w.g_frag_limit, w.level.frag_limit), (w.g_round_limit, w.level.round_limit),
    (w.g_capture_limit, w.level.capture_limit),
    (w.g_time_limit_modified, w.g_time_limit, w.level.time_limit))

/-- The effect of the check of `g_teams` (lines 677-693) on the state it reads
and writes. -/
def teamsStep (v : cvar_t × Bool × g_gameplay_t) : cvar_t × Bool × g_gameplay_t :=
  if v.1.modified then
    if v.2.2 = .GAME_DUEL ∧ v.1.integer = 0 then ({ v.1 with modified := false }, v.2.1, v.2.2)
    else ({ v.1 with modified := false }, decide (v.1.integer ≠ 0), v.2.2)
  else v

/-- The effect of the check of `g_match` (lines 706-724) on the state it reads
and writes. -/
def matchStep (v : cvar_t × Bool × g_gameplay_t × Nat) : cvar_t × Bool × g_gameplay_t × Nat :=
  if v.1.modified then
    if v.2.2.1 = .GAME_DUEL ∧ v.1.integer = 0 then
      ({ v.1 with modified := false }, v.2.1, v.2.2.1, v.2.2.2)
    else ({ v.1 with modified := false }, decide (v.1.integer ≠ 0), v.2.2.1, MSTAT_WARMUP)
  else v

/-- The cvar `g_teams` or `g_match` after the check of `g_gameplay`
(lines 656-668): forced to 1 if the new gameplay is duel and it was 0. -/
def forcedCvar (genv : GameEnv) (w : World) (c : cvar_t) : cvar_t :=
  if w.g_gameplay.modified = true ∧ genv.G_GameplayByName w.g_gameplay.string = .GAME_DUEL ∧
      c.integer = 0 then
    { c with integer := 1, modified := true }
  else c

/-- The effect of the checks of the four limits (lines 747-774) on the state
they read and write. -/
def limitsStep (v : (cvar_t × Int) × (cvar_t × Int) × (cvar_t × Int) × (Bool × ℚ × Nat)) :
    (cvar_t × Int) × (cvar_t × Int) × (cvar_t × Int) × (Bool × ℚ × Nat) :=
  ((if v.1.1.modified then ({ v.1.1 with modified := false }, v.1.1.integer) else v.1),
    (if v.2.1.1.modified then ({ v.2.1.1 with modified := false }, v.2.1.1.integer) else v.2.1),
    (if v.2.2.1.1.modified then ({ v.2.2.1.1 with modified := false }, v.2.2.1.1.integer)
      else v.2.2.1),
    (if v.2.2.2.1 then (false, v.2.2.2.2.1, wrap32 (truncQ (v.2.2.2.2.1 * 60 * 1000)))
      else v.2.2.2))

/-- The level after `G_RestartGame` (lines 141-145 and 192): the match and round
numbers are advanced if a match or round was running, and the match and round
times are cleared. -/
def restartedLevel (l : g_level_t) : g_level_t :=
  { l with
    match_num := if l.match_time ≠ 0 then wrap32 (l.match_num + 1) else l.match_num
    round_num := if l.round_time ≠ 0 then wrap32 (l.round_num + 1) else l.round_num
    match_time := 0
    round_time := 0 }


/-- A free-for-all in which `g_frag_limit` was set to 20 and nothing else was
modified. -/
def w_frag_cvar : World :=
  { entities := [{}, player none 5, player none 7]
    sv_max_clients := 2
    num_entities := 3
    g_frag_limit := { string := "20", value := 20, integer := 20, modified := true }
    level := { time := 1000, frame_num := 10, frag_limit := 30 } }

/-- A deathmatch whose map has teams and match mode off although the cvars
`g_teams` and `g_match` are 1 and unmodified, in which `g_gameplay` was set to
duel. -/
def w_duel_cvar : World :=
  { entities := [{}, player none 5, player none 7]
    sv_max_clients := 2
    num_entities := 3
    g_gameplay := { string := "duel", modified := true }
    g_teams := { string := "1", value := 1, integer := 1 }
    g_match := { string := "1", value := 1, integer := 1 }
    level := { time := 1000, frame_num := 10 } }

/-- A deathmatch with the cvars `g_teams` and `g_match` at 0, in which
`g_gameplay` was set to duel. -/
def w_duel_forced : World :=
  { entities := [{}, player none 5, player none 7]
    sv_max_clients := 2
    num_entities := 3
    g_gameplay := { string := "duel", modified := true }
    level := { time := 1000, frame_num := 10 } }

/-- Whether a call is one of the calls that `G_Frame` makes itself: a frame
function of an entity, a global check or `G_EndClientFrames`. -/
def GameEvent.isFrameCall : GameEvent → Bool
  | .G_ClientBeginFrame _ => true
  | .G_RunEntity _ => true
  | .G_CheckVote => true
  | .G_CheckRules => true
  | .G_CheckMatchEnd => true
  | .G_CheckRoundStart => true
  | .G_CheckRoundEnd => true
  | .G_EndClientFrames => true
  | _ => false

/-- A sequence of calls without any of the calls that `G_Frame` makes itself. -/
def noFrameCalls (evs : List GameEvent) : Prop := ∀ ev ∈ evs, ev.isFrameCall = false

/-- A match status that was left alone, cleared or set to `MSTAT_PLAYING`. -/
def statusKept (old new : Nat) : Prop := new = old ∨ new = 0 ∨ new = MSTAT_PLAYING

/-- At most one of the bits `MSTAT_PLAYING`, `MSTAT_TIMEOUT` and
`MSTAT_COUNTDOWN` of a match status is set. -/
def exclusiveStatus (s : Nat) : Prop :=
  s &&& 7 = 0 ∨ s &&& 7 = MSTAT_PLAYING ∨ s &&& 7 = MSTAT_TIMEOUT ∨ s &&& 7 = MSTAT_COUNTDOWN

instance (s : Nat) : Decidable (exclusiveStatus s) := by
  unfold exclusiveStatus
  infer_instance

/-- The index of the entity whose frame function a call runs. -/
def GameEvent.passIndex : GameEvent → Option Nat
  | .G_ClientBeginFrame i => some i
  | .G_RunEntity i => some i
  | _ => none

/-- The entities that receive a pass, in the order of the calls. -/
def passes (evs : List GameEvent) : List Nat := evs.filterMap GameEvent.passIndex

/-- The calls that `G_Frame` makes itself, in the order in which it makes
them. -/
def frameCalls (evs : List GameEvent) : List GameEvent := evs.filter GameEvent.isFrameCall

/-- The call, if any, that the entity loop of `G_Frame` makes when its index is
`i` and the world is `w`. -/
def passOf (w : World) (i : Nat) : List GameEvent :=
  if i < w.num_entities then
    match w.entities[i]? with
    | none => []
    | some ent =>
      if !ent.in_use then []
      else if ent.client.isSome then [.G_ClientBeginFrame i]
      else [.G_RunEntity i]
  else []

/-- The frame functions of the entities keep `ge.num_entities` at or below
`bound`. -/
def entitiesBounded (genv : GameEnv) (bound : Nat) : Prop :=
  ∀ (i : Nat) (w : World), w.num_entities ≤ bound →
    (genv.G_ClientBeginFrame i w).num_entities ≤ bound ∧
      (genv.G_RunEntity i w).num_entities ≤ bound

/-- The frame functions of the entities and `G_EndClientFrames` leave the level
clock alone. -/
def clockKept (genv : GameEnv) : Prop :=
  ∀ (w : World), (genv.G_EndClientFrames w).level.time = w.level.time ∧
    ∀ i : Nat, (genv.G_ClientBeginFrame i w).level.time = w.level.time ∧
      (genv.G_RunEntity i w).level.time = w.level.time

/-- The test of lines 804-805 of `G_Frame`, made on the world after lines
800-801: the frame exits the level. -/
def exitsLevel (w : World) : Prop :=
  (G_Frame_clock w).level.intermission_time ≠ 0 ∧
    (G_Frame_clock w).level.time > (G_Frame_clock w).level.intermission_time + INTERMISSION

instance (w : World) : Decidable (exitsLevel w) := by
  unfold exitsLevel
  infer_instance

/-- The world after `n` successive calls of `G_Frame`. -/
def G_Frame_repeat (genv : GameEnv) (fuel : Nat) : Nat → World → Option World
  | 0, w => some w
  | n + 1, w => (G_Frame genv fuel w).bind fun r => G_Frame_repeat genv fuel n r.1

/-- The world `w_timeout` with a timeout length of one second and three
entities, the world entity in use. -/
def w_short : World :=
  { w_timeout with
    entities := [{ in_use := true }, player none 0, player none 0]
    num_entities := 3
    g_timeout_time := 1 }

/-- The world `w_short` one frame after its client 1 has called a timeout. -/
def w_paused : World := ((G_Frame genv0 4 (G_CallTimeOut genv0 1 w_short).1).map Prod.fst).getD {}

/-- A world during play whose world entity is not in use. -/
def w_no_world : World :=
  { entities := [{}, player none 0, { in_use := true }]
    num_entities := 3
    sv_max_clients := 1
    level := { time := 5000, frame_num := 50, match_status := MSTAT_PLAYING } }

/-- The direction `ndir` of lines 240-247 of `G_Damage`: the normalized
direction, which, unless its z component is below -0.25, has that component
raised to at least 0.25 and is normalized again. -/
def knockbackDir (env : Env) (dir : Vec3) : Vec3 :=
  if (env.VectorNormalize dir).z ≥ -(1 / 4) then
    env.VectorNormalize
      { env.VectorNormalize dir with z := MAX (1 / 4) (env.VectorNormalize dir).z }
  else env.VectorNormalize dir

/-- The client of `w0` after the world has hit it with knockback 100 along the x
axis and no damage. -/
def client0Pushed : g_entity_t :=
  ((G_Damage env0 w0 (some 1) none none (some ⟨1, 0, 0⟩) none none 0 100 0 0).1.entities[1]?).getD {}

/-- A world for a distant blast: the world entity at the origin (the
inflictor), the crate (20 health) 50 units and the client `client0` (100
health, 50 units of jacket armor) 60 units away along the x axis. -/
def w_far : World :=
  { entities := [{}, { crate with origin := ⟨50, 0, 0⟩ }, { client0 with origin := ⟨60, 0, 0⟩ }] }

/-- The announcement that the current vote has failed (line 324). -/
def failedMessage (w : World) : GameEvent :=
  .BroadcastPrint ("Vote \"" ++ w.level.vote_cmd ++ "\" failed\n")

/-- A vote for a console command that nobody has voted on, 10 seconds after it
was called, on a server whose three client slots are no longer in use. -/
def w_vote_empty : World :=
  { entities := [{}, {}, {}, {}]
    sv_max_clients := 3
    level := { time := 11000, vote_time := 1000, vote_cmd := "g_match 1", votes := [0, 0, 0] } }

/-- The vote of `w_vote_empty` with the three clients connected, none of whom
has voted. -/
def w_vote_idle : World :=
  { w_vote_empty with entities := [{}, player none 0, player none 0, player none 0] }

/-- The vote of `w_vote` with three yes votes and the command `cmd`. -/
def w_vote_cmd (cmd : String) : World :=
  { w_vote with level := { w_vote.level with vote_cmd := cmd, votes := [0, 3, 0] } }

/-- A level in intermission since 4000 ms, to be followed by the map
`edge`. -/
def w_intermission : World :=
  { entities := [{}, { player none 0 with health := 0 }, player none 0]
    sv_max_clients := 2
    level := { time := 9000, intermission_time := 4000, changemap := some "edge",
               intermission_origin := ⟨1, 2, 3⟩, intermission_angle := ⟨0, 90, 0⟩,
               name := "torn" } }

/-- An arena round in progress on a server with one client slot: the world
entity, the only client and a rocket that this client owns.  Three entities are
in use, `ge.num_entities` is 3 and the entity list has that length. -/
def w_scan : World :=
  { entities := [{ in_use := true }, player none 0, { in_use := true, owner := some 1 }]
    num_entities := 3
    sv_max_clients := 1
    level := { rounds := true, round_time := 1000, time := 5000, round_limit := 10 } }

/-- Arena mode between two rounds, 5 seconds into the level, with a time limit
of one second. -/
def w_round_limit : World :=
  { entities := [{}, player none 0, player none 0]
    sv_max_clients := 2
    level := { rounds := true, round_time := 0, time := 5000, frame_num := 50,
               time_limit := 1000 } }

/-- A match that has been running since 1000 ms, in the frame in which the
level time reaches the time limit of 61000 ms. -/
def w_match_limit : World :=
  { entities := [{}, player none 0, player none 0]
    sv_max_clients := 2
    level := { «match» := true, match_time := 1000, time := 61000, frame_num := 610,
               time_limit := 61000, match_status := MSTAT_PLAYING } }

/-- A level without match or arena mode, 5 seconds old, with a time limit of
one minute. -/
def w_plain_limit : World :=
  { entities := [{}, player none 0, player none 0]
    sv_max_clients := 2
    level := { time := 5000, frame_num := 50, time_limit := 60000 } }

/-- The distance from the query point to a location, as `Cl_Location` computes
it. -/
def locDist (VectorLength : Vec3 → ℚ) (nearto : Vec3) (l : loc_t) : ℚ :=
  VectorLength (VectorSubtract nearto l.loc)

/-- Two locations on the x axis, one and two million units from the origin;
the farther one comes first. -/
def locs_far : List loc_t :=
  [{ loc := ⟨2000000, 0, 0⟩, desc := "far" }, { loc := ⟨1000000, 0, 0⟩, desc := "near" }]

/-- Three locations on the x axis, 10, 3 and 3 units from the origin. -/
def locs_near : List loc_t :=
  [{ loc := ⟨10, 0, 0⟩, desc := "hall" }, { loc := ⟨3, 0, 0⟩, desc := "door" },
    { loc := ⟨-3, 0, 0⟩, desc := "stairs" }]

/-! ## Numeric lemmas -/

theorem wrap16_eq_self {n : Int} (h1 : -32768 ≤ n) (h2 : n ≤ 32767) : wrap16 n = n := by
  unfold wrap16
  omega

theorem wrap16_range (n : Int) : -32768 ≤ wrap16 n ∧ wrap16 n ≤ 32767 := by
  unfold wrap16
  omega

theorem truncQ_of_nonneg {x : ℚ} (h : 0 ≤ x) : truncQ x = ⌊x⌋ := by
  unfold truncQ
  rw [Rat.floor_def]
  exact Int.tdiv_eq_ediv (Rat.num_nonneg.mpr h) (Int.ofNat_nonneg _)

theorem truncQ_neg (x : ℚ) : truncQ (-x) = -truncQ x := by
  unfold truncQ
  simp [Rat.neg_num, Rat.neg_den]

theorem truncQ_intCast (n : Int) : truncQ (n : ℚ) = n := by
  unfold truncQ
  simp

theorem truncQ_zero : truncQ 0 = 0 := by
  simpa using truncQ_intCast 0

theorem truncQ_nonneg {x : ℚ} (h : 0 ≤ x) : 0 ≤ truncQ x := by
  rw [truncQ_of_nonneg h]
  exact Int.floor_nonneg.mpr h

theorem truncQ_le_of_le_intCast {x : ℚ} {n : Int} (h0 : 0 ≤ x) (h : x ≤ n) : truncQ x ≤ n := by
  rw [truncQ_of_nonneg h0]
  have := Int.floor_le_floor h
  simpa using this

/-- Truncation toward zero never increases the absolute value past an integer bound. -/
theorem truncQ_abs_le {x : ℚ} {n : Int} (h1 : -(n : ℚ) ≤ x) (h2 : x ≤ n) :
    -n ≤ truncQ x ∧ truncQ x ≤ n := by
  rcases le_total 0 x with h0 | h0
  · have hn : (0 : ℚ) ≤ n := h0.trans h2
    have hn' : (0 : Int) ≤ n := by exact_mod_cast hn
    exact ⟨by have := truncQ_nonneg h0; omega, truncQ_le_of_le_intCast h0 h2⟩
  · have h0' : 0 ≤ -x := by linarith
    have hx : -x ≤ n := by linarith
    have e : truncQ x = -truncQ (-x) := by rw [truncQ_neg]; simp
    have a := truncQ_nonneg h0'
    have b := truncQ_le_of_le_intCast h0' hx
    have hn : (0 : ℚ) ≤ n := h0'.trans hx
    have hn' : (0 : Int) ≤ n := by exact_mod_cast hn
    rw [e]
    constructor <;> omega

theorem Clamp_range {x lo hi : ℚ} (h : lo ≤ hi) : lo ≤ Clamp x lo hi ∧ Clamp x lo hi ≤ hi := by
  unfold Clamp
  split_ifs with h1 h2
  · exact ⟨le_refl _, h⟩
  · exact ⟨h, le_refl _⟩
  · exact ⟨not_lt.mp h1, not_lt.mp h2⟩

/-- A clamp to `[0, q]` converted to `int16_t` stays in `[0, q]`. -/
theorem toInt16_Clamp_range (x : ℚ) {q : Int} (h0 : 0 ≤ q) (h1 : q ≤ 32767) :
    0 ≤ toInt16 (Clamp x 0 q) ∧ toInt16 (Clamp x 0 q) ≤ q := by
  have hq : (0 : ℚ) ≤ q := by exact_mod_cast h0
  obtain ⟨a, b⟩ := Clamp_range (x := x) hq
  have a' := truncQ_nonneg a
  have b' := truncQ_le_of_le_intCast a b
  unfold toInt16
  rw [wrap16_eq_self (by omega) (by omega)]
  exact ⟨a', b'⟩

/-- For a non-negative product the clamp-and-truncate of `G_CheckArmor` is a minimum. -/
theorem toInt16_Clamp_eq_min {x : ℚ} {q : Int} (hx : 0 ≤ x) (h0 : 0 ≤ q) (h1 : q ≤ 32767) :
    toInt16 (Clamp x 0 q) = min (truncQ x) q := by
  have hq : (0 : ℚ) ≤ q := by exact_mod_cast h0
  have r := toInt16_Clamp_range x h0 h1
  unfold toInt16 at r ⊢
  have e : truncQ (Clamp x 0 q) = min (truncQ x) q := by
    unfold Clamp
    rw [if_neg (not_lt.mpr hx)]
    split_ifs with h
    · rw [truncQ_intCast]
      have : q ≤ truncQ x := by
        rw [truncQ_of_nonneg hx]
        exact Int.le_floor.mpr h.le
      omega
    · have : truncQ x ≤ q := truncQ_le_of_le_intCast hx (not_lt.mp h)
      omega
  rw [e]
  have t0 := truncQ_nonneg hx
  exact wrap16_eq_self (by omega) (by omega)

/-! ### Rounding to `double` -/

theorem pow2_eq (k : Int) : pow2 k = (2 : ℚ) ^ k := by
  unfold pow2
  split_ifs with h
  · obtain ⟨n, rfl⟩ := Int.eq_ofNat_of_zero_le h
    simp
  · push_neg at h
    obtain ⟨n, hn⟩ := Int.exists_eq_neg_ofNat (le_of_lt h)
    subst hn
    simp [zpow_neg]

theorem pow2_pos (k : Int) : 0 < pow2 k := by
  rw [pow2_eq]
  positivity

/-- With enough fuel `log2Fuel` is the position of the highest set bit. -/
theorem log2Fuel_spec : ∀ (fuel n : Nat), 1 ≤ n → n ≤ fuel →
    2 ^ log2Fuel fuel n ≤ n ∧ n < 2 ^ (log2Fuel fuel n + 1)
  | 0, n, h1, h2 => by omega
  | fuel + 1, n, h1, h2 => by
    unfold log2Fuel
    split_ifs with h
    · obtain ⟨a, b⟩ := log2Fuel_spec fuel (n / 2) (by omega) (by omega)
      rw [pow_succ, pow_succ]
      constructor <;> omega
    · simp
      omega

/-- The binary exponent found by `ilog2` is not above the exponent of `q`. -/
theorem ilog2_le {q : ℚ} (hq : q ≠ 0) : pow2 (ilog2 q) ≤ |q| := by
  have hN : 1 ≤ q.num.natAbs := by
    have : q.num ≠ 0 := Rat.num_ne_zero.mpr hq
    omega
  have hD : 1 ≤ q.den := q.den_pos
  obtain ⟨a1, a2⟩ := log2Fuel_spec _ _ hN le_rfl
  obtain ⟨b1, b2⟩ := log2Fuel_spec _ _ hD le_rfl
  have habs : |q| = (q.num.natAbs : ℚ) / (q.den : ℚ) := by
    conv_lhs => rw [← Rat.num_div_den q]
    rw [abs_div, Nat.cast_natAbs, Int.cast_abs]
    simp
  have hDq : (0 : ℚ) < q.den := by exact_mod_cast hD
  unfold ilog2
  dsimp only
  split_ifs with h
  · rw [pow2_eq, habs, le_div_iff₀ hDq]
    rw [show ((log2Fuel q.num.natAbs q.num.natAbs : Int) - (log2Fuel q.den q.den : Int) - 1) =
      (log2Fuel q.num.natAbs q.num.natAbs : Int) - ((log2Fuel q.den q.den + 1 : Nat) : Int) by
        push_cast; ring]
    rw [zpow_sub₀ (by norm_num), zpow_natCast, zpow_natCast, div_mul_eq_mul_div,
      div_le_iff₀ (by positivity)]
    have a1' : ((2 : ℚ) ^ log2Fuel q.num.natAbs q.num.natAbs) ≤ q.num.natAbs := by
      exact_mod_cast a1
    have b2' : (q.den : ℚ) ≤ (2 : ℚ) ^ (log2Fuel q.den q.den + 1) := by
      exact_mod_cast b2.le
    exact mul_le_mul a1' b2' hDq.le (by positivity)
  · exact not_lt.mp h

/-- The binary exponent found by `ilog2` is not below the exponent of `q`. -/
theorem ilog2_lt {q : ℚ} (hq : q ≠ 0) : |q| < pow2 (ilog2 q + 1) := by
  have hN : 1 ≤ q.num.natAbs := by
    have : q.num ≠ 0 := Rat.num_ne_zero.mpr hq
    omega
  have hD : 1 ≤ q.den := q.den_pos
  obtain ⟨a1, a2⟩ := log2Fuel_spec _ _ hN le_rfl
  obtain ⟨b1, b2⟩ := log2Fuel_spec _ _ hD le_rfl
  have habs : |q| = (q.num.natAbs : ℚ) / (q.den : ℚ) := by
    conv_lhs => rw [← Rat.num_div_den q]
    rw [abs_div, Nat.cast_natAbs, Int.cast_abs]
    simp
  have hDq : (0 : ℚ) < q.den := by exact_mod_cast hD
  unfold ilog2
  dsimp only
  split_ifs with h
  · simpa using h
  · rw [pow2_eq, habs, div_lt_iff₀ hDq]
    rw [show ((log2Fuel q.num.natAbs q.num.natAbs : Int) - (log2Fuel q.den q.den : Int) + 1) =
      ((log2Fuel q.num.natAbs q.num.natAbs + 1 : Nat) : Int) - ((log2Fuel q.den q.den : Nat) : Int) by
        push_cast; ring]
    rw [zpow_sub₀ (by norm_num), zpow_natCast, zpow_natCast, div_mul_eq_mul_div,
      lt_div_iff₀ (by positivity)]
    have a2' : (q.num.natAbs : ℚ) < (2 : ℚ) ^ (log2Fuel q.num.natAbs q.num.natAbs + 1) := by
      exact_mod_cast a2
    have b1' : ((2 : ℚ) ^ log2Fuel q.den q.den) ≤ (q.den : ℚ) := by
      exact_mod_cast b1
    exact mul_lt_mul a2' b1' (by positivity) (by positivity)

/-- Rounding to the nearest integer moves a value by at most one half. -/
theorem roundHalfEven_near (s : ℚ) : |(roundHalfEven s : ℚ) - s| ≤ 1 / 2 := by
  have h1 := Int.floor_le s
  have h2 := Int.lt_floor_add_one s
  unfold roundHalfEven
  dsimp only
  rw [abs_le]
  split_ifs with a b c
  · constructor <;> linarith
  · push_cast
    constructor <;> linarith
  · have e : s - ⌊s⌋ = 1 / 2 := le_antisymm (not_lt.mp b) (not_lt.mp a)
    constructor <;> linarith
  · have e : s - ⌊s⌋ = 1 / 2 := le_antisymm (not_lt.mp b) (not_lt.mp a)
    push_cast
    constructor <;> linarith

/-- The relative error of a rounding to `double` is at most `2 ^ (-53)`. -/
theorem roundDouble_near (q : ℚ) : |roundDouble q - q| ≤ |q| / 2 ^ 53 := by
  unfold roundDouble
  split_ifs with hq
  · simp [hq]
  · have hp := pow2_pos (ilog2 q - 52)
    have hr := roundHalfEven_near (q / pow2 (ilog2 q - 52))
    have hl := ilog2_le hq
    have e : pow2 (ilog2 q - 52) = pow2 (ilog2 q) / 2 ^ 52 := by
      rw [pow2_eq, pow2_eq, zpow_sub₀ (by norm_num)]
      norm_num
    have d : (roundHalfEven (q / pow2 (ilog2 q - 52)) : ℚ) * pow2 (ilog2 q - 52) - q =
        ((roundHalfEven (q / pow2 (ilog2 q - 52)) : ℚ) - q / pow2 (ilog2 q - 52)) *
          pow2 (ilog2 q - 52) := by
      field_simp
    rw [d, abs_mul, abs_of_pos hp]
    calc |(roundHalfEven (q / pow2 (ilog2 q - 52)) : ℚ) - q / pow2 (ilog2 q - 52)| *
          pow2 (ilog2 q - 52)
        ≤ 1 / 2 * pow2 (ilog2 q - 52) := mul_le_mul_of_nonneg_right hr hp.le
      _ = pow2 (ilog2 q) / 2 ^ 53 := by rw [e]; ring
      _ ≤ |q| / 2 ^ 53 := by
        apply div_le_div_of_nonneg_right hl
        positivity

theorem truncQ_nonpos {x : ℚ} (h : x ≤ 0) : truncQ x ≤ 0 := by
  have e : truncQ x = -truncQ (-x) := by rw [truncQ_neg]; simp
  have := truncQ_nonneg (x := -x) (by linarith)
  omega

/-- Truncation toward zero is monotone. -/
theorem truncQ_mono {x y : ℚ} (h : x ≤ y) : truncQ x ≤ truncQ y := by
  rcases le_total 0 x with hx | hx
  · rw [truncQ_of_nonneg hx, truncQ_of_nonneg (hx.trans h)]
    exact Int.floor_le_floor h
  · rcases le_total 0 y with hy | hy
    · exact (truncQ_nonpos hx).trans (truncQ_nonneg hy)
    · have ex : truncQ x = -truncQ (-x) := by rw [truncQ_neg]; simp
      have ey : truncQ y = -truncQ (-y) := by rw [truncQ_neg]; simp
      rw [ex, ey, truncQ_of_nonneg (by linarith), truncQ_of_nonneg (by linarith)]
      have := Int.floor_le_floor (a := -y) (b := -x) (by linarith)
      omega

theorem truncQ_of_nonpos {x : ℚ} (h : x ≤ 0) : truncQ x = ⌈x⌉ := by
  have e : truncQ x = -truncQ (-x) := by rw [truncQ_neg]; simp
  rw [e, truncQ_of_nonneg (by linarith), Int.floor_neg]
  simp

/-- Truncation toward zero of a value one larger is at most one larger. -/
theorem truncQ_add_one_le (x : ℚ) : truncQ (x + 1) ≤ truncQ x + 1 := by
  rcases le_total 0 x with hx | hx
  · rw [truncQ_of_nonneg hx, truncQ_of_nonneg (by linarith), Int.floor_add_one]
  · rw [truncQ_of_nonpos hx]
    rcases le_total 0 (x + 1) with hy | hy
    · rw [truncQ_of_nonneg hy, Int.floor_add_one]
      have := Int.floor_le_ceil x
      omega
    · rw [truncQ_of_nonpos hy, Int.ceil_add_one]

/-- Two values that differ by at most one have truncations that differ by at
most one. -/
theorem truncQ_near {x y : ℚ} (h : |x - y| ≤ 1) : |truncQ x - truncQ y| ≤ 1 := by
  obtain ⟨a, b⟩ := abs_le.mp h
  have h1 := (truncQ_mono (x := x) (y := y + 1) (by linarith)).trans (truncQ_add_one_le y)
  have h2 := (truncQ_mono (x := y) (y := x + 1) (by linarith)).trans (truncQ_add_one_le x)
  rw [abs_le]
  constructor <;> omega

/-- A value close to a positive multiple `m / 100` of one hundredth that is not
an integer has the same integer part. -/
theorem truncQ_eq_of_near_pos {y : ℚ} {m : Int} (hm0 : 0 < m) (hm : ¬ (100 : Int) ∣ m)
    (hy : |y - (m : ℚ) / 100| < 1 / 100) : truncQ y = truncQ ((m : ℚ) / 100) := by
  obtain ⟨a, b⟩ := abs_lt.mp hy
  have hr0 : 0 < m % 100 := by omega
  have hr1 : m % 100 < 100 := by omega
  have hk : 0 ≤ m / 100 := by omega
  have hdecomp : (m : ℚ) = 100 * ((m / 100 : Int) : ℚ) + ((m % 100 : Int) : ℚ) := by
    have := Int.ediv_add_emod m 100
    exact_mod_cast this.symm
  have r0 : (1 : ℚ) ≤ ((m % 100 : Int) : ℚ) := by exact_mod_cast hr0
  have r1 : ((m % 100 : Int) : ℚ) ≤ 99 := by
    have : m % 100 ≤ 99 := by omega
    exact_mod_cast this
  have k0 : (0 : ℚ) ≤ ((m / 100 : Int) : ℚ) := by exact_mod_cast hk
  have he0 : (0 : ℚ) ≤ (m : ℚ) / 100 := by
    have : (0 : ℚ) < m := by exact_mod_cast hm0
    positivity
  have hy0 : 0 ≤ y := by linarith
  rw [truncQ_of_nonneg hy0, truncQ_of_nonneg he0]
  have e1 : ⌊y⌋ = m / 100 := by
    rw [Int.floor_eq_iff]
    constructor <;> linarith
  have e2 : ⌊(m : ℚ) / 100⌋ = m / 100 := by
    rw [Int.floor_eq_iff]
    constructor <;> linarith
  rw [e1, e2]

/-- A value close to a multiple `m / 100` of one hundredth that is not an
integer has the same truncation. -/
theorem truncQ_eq_of_near {y : ℚ} {m : Int} (hm : ¬ (100 : Int) ∣ m)
    (hy : |y - (m : ℚ) / 100| < 1 / 100) : truncQ y = truncQ ((m : ℚ) / 100) := by
  rcases lt_trichotomy 0 m with h | h | h
  · exact truncQ_eq_of_near_pos h hm hy
  · subst h
    exact absurd (dvd_zero _) hm
  · have hm2 : ¬ (100 : Int) ∣ -m := by
      rwa [dvd_neg]
    have hy2 : |(-y) - ((-m : Int) : ℚ) / 100| < 1 / 100 := by
      have : (-y) - ((-m : Int) : ℚ) / 100 = -(y - (m : ℚ) / 100) := by
        push_cast
        ring
      rw [this, abs_neg]
      exact hy
    have := truncQ_eq_of_near_pos (y := -y) (m := -m) (by omega) hm2 hy2
    rw [truncQ_neg] at this
    have e : ((-m : Int) : ℚ) / 100 = -((m : ℚ) / 100) := by
      push_cast
      ring
    rw [e, truncQ_neg] at this
    omega

/-! ## The initial guards of `G_Damage` -/

/-- C1: a `G_Damage` call whose target cannot take damage, or whose target is a
client under respawn protection, returns with the whole world unchanged (so no
field of the target changes) and makes no call at all: no `Pain`, no `Die`, no
temp-entity broadcast. -/
theorem G_Damage_guarded_noop (env : Env) (w : World) (t : Nat) (targ : g_entity_t)
    (inflictor attacker : Option Nat) (dir pos normal : Option Vec3)
    (damage knockback : Int) (dflags mod : Nat)
    (ht : w.entities[t]? = some targ)
    (hg : targ.take_damage = false ∨
      ∃ c, targ.client = some c ∧ c.respawn_protection_time > w.level.time) :
    G_Damage env w (some t) inflictor attacker dir pos normal damage knockback dflags mod
      = (w, []) := by
  unfold G_Damage
  simp only [ht]
  rcases hg with h | ⟨c, hc, hp⟩
  · simp [h]
  · by_cases h : targ.take_damage = false
    · simp [h]
    · simp [h, respawnProtected, hc, hp]

/-- Witness for C1: a client protected until time 5000 is hit at time 1000 with
quad-sized damage and knockback; nothing changes and nothing is emitted. -/
theorem G_Damage_guarded_noop_witness :
    G_Damage env0 w_protected (some 1) none none none none none 250 100 0 0
      = (w_protected, []) :=
  G_Damage_guarded_noop env0 w_protected 1 _ none none none none none 250 100 0 0 rfl
    (Or.inr ⟨_, rfl, by decide⟩)

/-! ## Traces -/

theorem painCalls_append (a b : List Event) : painCalls (a ++ b) = painCalls a + painCalls b := by
  simp [painCalls]

theorem dieCalls_append (a b : List Event) : dieCalls (a ++ b) = dieCalls a + dieCalls b := by
  simp [dieCalls]

theorem painCalls_of_writes {l : List Event} (h : ∀ e ∈ l, e.isWrite = true) :
    painCalls l = 0 := by
  unfold painCalls
  rw [List.countP_eq_zero]
  intro e he
  have := h e he
  cases e <;> simp_all [Event.isWrite]

theorem dieCalls_of_writes {l : List Event} (h : ∀ e ∈ l, e.isWrite = true) :
    dieCalls l = 0 := by
  unfold dieCalls
  rw [List.countP_eq_zero]
  intro e he
  have := h e he
  cases e <;> simp_all [Event.isWrite]

theorem G_SpawnDamage_loop_writes (type : g_temp_entity_t) (pos : Vec3) (normal : Option Vec3)
    (count : Nat) : ∀ e ∈ G_SpawnDamage_loop type pos normal count, e.isWrite = true := by
  induction count with
  | zero => simp [G_SpawnDamage_loop]
  | succ n ih =>
    intro e he
    simp only [G_SpawnDamage_loop, List.mem_append, List.mem_cons] at he
    rcases he with (h | h | h | h | h | h) | h
    · subst h; rfl
    · subst h; rfl
    · subst h; rfl
    · subst h; rfl
    · subst h; rfl
    · simp at h
    · exact ih e h

theorem G_SpawnDamage_writes (type : g_temp_entity_t) (pos : Vec3) (normal : Option Vec3)
    (damage : Int) : ∀ e ∈ G_SpawnDamage type pos normal damage, e.isWrite = true := by
  unfold G_SpawnDamage
  split_ifs
  · simp
  · exact G_SpawnDamage_loop_writes _ _ _ _

theorem G_SpawnDamage_nonpos (type : g_temp_entity_t) (pos : Vec3) (normal : Option Vec3)
    {damage : Int} (h : damage ≤ 0) : G_SpawnDamage type pos normal damage = [] := by
  unfold G_SpawnDamage
  rw [if_pos (by omega)]

/-- The result of `G_CheckArmor` when the client holds an armor item. -/
theorem G_CheckArmor_eq (env : Env) (ent : g_entity_t) (pos : Vec3) (normal : Option Vec3)
    (damage : Int) (dflags : Nat) {c : g_client_t} {armor : Nat}
    (hna : dflags &&& DMG_NO_ARMOR = 0) (hc : ent.client = some c)
    (harm : env.G_ClientArmor c.inventory = some armor) :
    G_CheckArmor env ent pos normal damage dflags =
      (armorEntity ent c armor (armorSaved env armor (c.inventory.getD armor 0) damage dflags),
        armorSaved env armor (c.inventory.getD armor 0) damage dflags,
        G_SpawnDamage .TE_BLOOD pos normal
          (armorSaved env armor (c.inventory.getD armor 0) damage dflags)) := by
  unfold G_CheckArmor armorSaved armorEntity
  rw [if_neg (by simp [hna])]
  simp only [hc, harm]

/-- When no armor applies, `G_CheckArmor` absorbs nothing and changes nothing. -/
theorem G_CheckArmor_none (env : Env) (ent : g_entity_t) (pos : Vec3) (normal : Option Vec3)
    (damage : Int) (dflags : Nat)
    (h : dflags &&& DMG_NO_ARMOR ≠ 0 ∨ ent.client = none ∨
      ∃ c, ent.client = some c ∧ env.G_ClientArmor c.inventory = none) :
    G_CheckArmor env ent pos normal damage dflags = (ent, 0, []) := by
  unfold G_CheckArmor
  by_cases hna : dflags &&& DMG_NO_ARMOR ≠ 0
  · rw [if_pos hna]
  · rw [if_neg hna]
    rcases h with h | h | ⟨c, hc, h⟩
    · exact absurd h hna
    · simp only [h]
    · simp only [hc, h]

/-- The case analysis of `G_CheckArmor`: either no armor applies, or the armor the
client holds absorbs. -/
theorem G_CheckArmor_cases (env : Env) (ent : g_entity_t) (dflags : Nat) :
    (dflags &&& DMG_NO_ARMOR ≠ 0 ∨ ent.client = none ∨
      ∃ c, ent.client = some c ∧ env.G_ClientArmor c.inventory = none) ∨
    (dflags &&& DMG_NO_ARMOR = 0 ∧
      ∃ c armor, ent.client = some c ∧ env.G_ClientArmor c.inventory = some armor) := by
  by_cases hna : dflags &&& DMG_NO_ARMOR = 0
  · cases hc : ent.client with
    | none => exact Or.inl (Or.inr (Or.inl rfl))
    | some c =>
      cases harm : env.G_ClientArmor c.inventory with
      | none => exact Or.inl (Or.inr (Or.inr ⟨c, rfl, harm⟩))
      | some armor => exact Or.inr ⟨hna, c, armor, rfl, harm⟩
  · exact Or.inl (Or.inl hna)

theorem G_CheckArmor_writes (env : Env) (ent : g_entity_t) (pos : Vec3) (normal : Option Vec3)
    (damage : Int) (dflags : Nat) :
    ∀ e ∈ (G_CheckArmor env ent pos normal damage dflags).2.2, e.isWrite = true := by
  rcases G_CheckArmor_cases env ent dflags with h | ⟨hna, c, armor, hc, harm⟩
  · rw [G_CheckArmor_none env ent pos normal damage dflags h]
    simp
  · rw [G_CheckArmor_eq env ent pos normal damage dflags hna hc harm]
    exact G_SpawnDamage_writes _ _ _ _

theorem G_Damage_absorb_writes (env : Env) (target : g_entity_t) (pos normal : Vec3)
    (damage : Int) (dflags : Nat) :
    ∀ e ∈ (G_Damage_absorb env target pos normal damage dflags).events, e.isWrite = true := by
  unfold G_Damage_absorb
  split_ifs
  · exact G_SpawnDamage_writes _ _ _ _
  · exact G_CheckArmor_writes _ _ _ _ _ _

theorem G_Damage_impact_writes (env : Env) (target : g_entity_t) (pos normal : Vec3)
    (damage_health : Int) (dflags : Nat) :
    ∀ e ∈ G_Damage_impact env target pos normal damage_health dflags, e.isWrite = true := by
  unfold G_Damage_impact
  split_ifs
  · exact G_SpawnDamage_writes _ _ _ _
  · exact G_SpawnDamage_writes _ _ _ _
  · exact G_SpawnDamage_writes _ _ _ _
  · simp

/-! ## Frame lemmas: what knockback and armor absorption leave alone -/

@[simp] theorem G_Damage_knockback_health (env : Env) (e : g_entity_t) (self : Bool) (dir : Vec3)
    (k : Int) : (G_Damage_knockback env e self dir k).health = e.health := by
  unfold G_Damage_knockback
  by_cases h : k ≠ 0 ∧ e.move_type ≥ MOVE_TYPE_WALK
  · rw [if_pos h]
  · rw [if_neg h]

@[simp] theorem G_Damage_knockback_dead (env : Env) (e : g_entity_t) (self : Bool) (dir : Vec3)
    (k : Int) : (G_Damage_knockback env e self dir k).dead = e.dead := by
  unfold G_Damage_knockback
  by_cases h : k ≠ 0 ∧ e.move_type ≥ MOVE_TYPE_WALK
  · rw [if_pos h]
  · rw [if_neg h]

@[simp] theorem G_Damage_knockback_flags (env : Env) (e : g_entity_t) (self : Bool) (dir : Vec3)
    (k : Int) : (G_Damage_knockback env e self dir k).flags = e.flags := by
  unfold G_Damage_knockback
  by_cases h : k ≠ 0 ∧ e.move_type ≥ MOVE_TYPE_WALK
  · rw [if_pos h]
  · rw [if_neg h]

@[simp] theorem G_Damage_knockback_Pain (env : Env) (e : g_entity_t) (self : Bool) (dir : Vec3)
    (k : Int) : (G_Damage_knockback env e self dir k).Pain = e.Pain := by
  unfold G_Damage_knockback
  by_cases h : k ≠ 0 ∧ e.move_type ≥ MOVE_TYPE_WALK
  · rw [if_pos h]
  · rw [if_neg h]

@[simp] theorem G_Damage_knockback_Die (env : Env) (e : g_entity_t) (self : Bool) (dir : Vec3)
    (k : Int) : (G_Damage_knockback env e self dir k).Die = e.Die := by
  unfold G_Damage_knockback
  by_cases h : k ≠ 0 ∧ e.move_type ≥ MOVE_TYPE_WALK
  · rw [if_pos h]
  · rw [if_neg h]

theorem G_Damage_knockback_of_not (env : Env) (e : g_entity_t) (self : Bool) (dir : Vec3)
    (k : Int) (h : ¬ (k ≠ 0 ∧ e.move_type ≥ MOVE_TYPE_WALK)) :
    G_Damage_knockback env e self dir k = e := by
  unfold G_Damage_knockback
  rw [if_neg h]

theorem G_Damage_knockback_client_of (env : Env) (e : g_entity_t) (self : Bool) (dir : Vec3)
    (k : Int) (h : k ≠ 0 ∧ e.move_type ≥ MOVE_TYPE_WALK) :
    (G_Damage_knockback env e self dir k).client = e.client.map fun c =>
      { c with pm_state :=
          { c.pm_state with flags := c.pm_state.flags ||| env.PMF_TIME_PUSHED, time := 120 } } := by
  unfold G_Damage_knockback
  rw [if_pos h]

/-- Knockback touches only the `pm_state` of the client of the target. -/
theorem G_Damage_knockback_client (env : Env) (e : g_entity_t) (self : Bool) (dir : Vec3)
    (k : Int) : ∃ f : pm_state_t → pm_state_t,
      (G_Damage_knockback env e self dir k).client =
        e.client.map fun c => { c with pm_state := f c.pm_state } := by
  by_cases h : k ≠ 0 ∧ e.move_type ≥ MOVE_TYPE_WALK
  · exact ⟨fun pm => { pm with flags := pm.flags ||| env.PMF_TIME_PUSHED, time := 120 },
      G_Damage_knockback_client_of env e self dir k h⟩
  · refine ⟨id, ?_⟩
    rw [G_Damage_knockback_of_not env e self dir k h]
    cases e.client <;> rfl

/-- Knockback and the lowering of the armor charge touch different fields. -/
theorem G_Damage_knockback_armorEntity (env : Env) (e : g_entity_t) (self : Bool) (dir : Vec3)
    (k : Int) (c : g_client_t) (armor : Nat) (saved : Int) (hc : e.client = some c)
    (c1 : g_client_t) (hc1 : (G_Damage_knockback env e self dir k).client = some c1) :
    armorEntity (G_Damage_knockback env e self dir k) c1 armor saved =
      G_Damage_knockback env (armorEntity e c armor saved) self dir k := by
  by_cases h : k ≠ 0 ∧ e.move_type ≥ MOVE_TYPE_WALK
  · rw [G_Damage_knockback_client_of env e self dir k h, hc] at hc1
    simp only [Option.map_some', Option.some.injEq] at hc1
    subst hc1
    have h2 : k ≠ 0 ∧ (armorEntity e c armor saved).move_type ≥ MOVE_TYPE_WALK := h
    unfold G_Damage_knockback
    rw [if_pos h, if_pos h2]
    simp [armorEntity, hc]
  · have h2 : ¬ (k ≠ 0 ∧ (armorEntity e c armor saved).move_type ≥ MOVE_TYPE_WALK) := h
    rw [G_Damage_knockback_of_not env _ self dir k h2]
    rw [G_Damage_knockback_of_not env e self dir k h] at hc1 ⊢
    rw [hc] at hc1
    simp only [Option.some.injEq] at hc1
    subst hc1
    rfl

/-- Armor absorption commutes with knockback: the amounts and the calls are
those computed on the target before knockback. -/
theorem G_Damage_absorb_knockback (env : Env) (e : g_entity_t) (self : Bool) (dir : Vec3)
    (k : Int) (pos normal : Vec3) (damage : Int) (dflags : Nat) :
    G_Damage_absorb env (G_Damage_knockback env e self dir k) pos normal damage dflags =
      { G_Damage_absorb env e pos normal damage dflags with
        target := G_Damage_knockback env
          (G_Damage_absorb env e pos normal damage dflags).target self dir k } := by
  unfold G_Damage_absorb
  rw [G_Damage_knockback_flags]
  split_ifs with hg
  · rfl
  · obtain ⟨f, hf⟩ := G_Damage_knockback_client env e self dir k
    rcases G_CheckArmor_cases env e dflags with h | ⟨hna, c, armor, hc, harm⟩
    · rw [G_CheckArmor_none env e _ _ _ _ h]
      have h' : dflags &&& DMG_NO_ARMOR ≠ 0 ∨
          (G_Damage_knockback env e self dir k).client = none ∨
          ∃ c, (G_Damage_knockback env e self dir k).client = some c ∧
            env.G_ClientArmor c.inventory = none := by
        rcases h with h | h | ⟨c, hc, h⟩
        · exact Or.inl h
        · exact Or.inr (Or.inl (by rw [hf, h]; rfl))
        · exact Or.inr (Or.inr ⟨{ c with pm_state := f c.pm_state }, by rw [hf, hc]; rfl, h⟩)
      rw [G_CheckArmor_none env _ _ _ _ _ h']
    · have hc1 : (G_Damage_knockback env e self dir k).client =
          some { c with pm_state := f c.pm_state } := by rw [hf, hc]; rfl
      rw [G_CheckArmor_eq env e _ _ _ _ hna hc harm,
        G_CheckArmor_eq env _ _ _ _ _ hna hc1 harm]
      simp only
      rw [G_Damage_knockback_armorEntity env e self dir k c armor _ hc _ hc1]

/-- The target after `G_CheckArmor` is the target itself or the target with its
armor charge lowered. -/
theorem G_CheckArmor_target_cases (env : Env) (ent : g_entity_t) (pos : Vec3)
    (normal : Option Vec3) (damage : Int) (dflags : Nat) :
    (G_CheckArmor env ent pos normal damage dflags).1 = ent ∨
      ∃ c armor saved, ent.client = some c ∧
        (G_CheckArmor env ent pos normal damage dflags).1 = armorEntity ent c armor saved := by
  rcases G_CheckArmor_cases env ent dflags with h | ⟨hna, c, armor, hc, harm⟩
  · rw [G_CheckArmor_none env ent pos normal damage dflags h]
    exact Or.inl rfl
  · rw [G_CheckArmor_eq env ent pos normal damage dflags hna hc harm]
    exact Or.inr ⟨c, armor, _, hc, rfl⟩

theorem G_Damage_absorb_target_cases (env : Env) (e : g_entity_t) (pos normal : Vec3)
    (damage : Int) (dflags : Nat) :
    (G_Damage_absorb env e pos normal damage dflags).target = e ∨
      ∃ c armor saved, e.client = some c ∧
        (G_Damage_absorb env e pos normal damage dflags).target = armorEntity e c armor saved := by
  unfold G_Damage_absorb
  split_ifs
  · exact Or.inl rfl
  · exact G_CheckArmor_target_cases env e pos (some normal) damage dflags

@[simp] theorem G_Damage_absorb_health (env : Env) (e : g_entity_t) (pos normal : Vec3)
    (damage : Int) (dflags : Nat) :
    (G_Damage_absorb env e pos normal damage dflags).target.health = e.health := by
  rcases G_Damage_absorb_target_cases env e pos normal damage dflags with h | ⟨c, ar, sv, _, h⟩
  · rw [h]
  · rw [h]
    rfl

@[simp] theorem G_Damage_absorb_dead (env : Env) (e : g_entity_t) (pos normal : Vec3)
    (damage : Int) (dflags : Nat) :
    (G_Damage_absorb env e pos normal damage dflags).target.dead = e.dead := by
  rcases G_Damage_absorb_target_cases env e pos normal damage dflags with h | ⟨c, ar, sv, _, h⟩
  · rw [h]
  · rw [h]
    rfl

@[simp] theorem G_Damage_absorb_Pain (env : Env) (e : g_entity_t) (pos normal : Vec3)
    (damage : Int) (dflags : Nat) :
    (G_Damage_absorb env e pos normal damage dflags).target.Pain = e.Pain := by
  rcases G_Damage_absorb_target_cases env e pos normal damage dflags with h | ⟨c, ar, sv, _, h⟩
  · rw [h]
  · rw [h]
    rfl

@[simp] theorem G_Damage_absorb_Die (env : Env) (e : g_entity_t) (pos normal : Vec3)
    (damage : Int) (dflags : Nat) :
    (G_Damage_absorb env e pos normal damage dflags).target.Die = e.Die := by
  rcases G_Damage_absorb_target_cases env e pos normal damage dflags with h | ⟨c, ar, sv, _, h⟩
  · rw [h]
  · rw [h]
    rfl

/-! ## The tail of `G_Damage`: pain callback and damage counters -/

theorem setEntity_getElem?_self (w : World) (t : Nat) (e : g_entity_t)
    (h : t < w.entities.length) : (w.setEntity t e).entities[t]? = some e := by
  simp [World.setEntity, List.getElem?_set, h]

theorem setEntity_getElem?_ne (w : World) {t i : Nat} (e : g_entity_t) (h : t ≠ i) :
    (w.setEntity t e).entities[i]? = w.entities[i]? := by
  simp [World.setEntity, List.getElem?_set_ne h]

theorem setEntity_length (w : World) (t : Nat) (e : g_entity_t) :
    (w.setEntity t e).entities.length = w.entities.length := by
  simp [World.setEntity]

/-- The target stored by the tail of `G_Damage`: unchanged but for the per-frame
damage counters of its client, and those only if the target was not already dead. -/
theorem G_Damage_feedback_target (w : World) (t a : Nat) (target : g_entity_t)
    (was_dead : Bool) (dir : Vec3) (da dh k : Int) (h : t < w.entities.length) :
    (G_Damage_feedback w t a target was_dead dir da dh k).1.entities[t]? =
      some (if was_dead then target else creditDamage target da dh) := by
  unfold G_Damage_feedback creditDamage
  cases was_dead with
  | true => simp [setEntity_getElem?_self w t target h]
  | false =>
    simp only [Bool.false_eq_true, if_false]
    cases hc : target.client with
    | none =>
      simp only [Option.map_none']
      rw [setEntity_getElem?_self w t _ h]
      congr 1
      cases target
      simp_all
    | some c =>
      simp only [Option.map_some']
      by_cases hta : t = a
      · simp only [hta, ne_eq, not_true_eq_false, if_false]
        subst hta
        exact setEntity_getElem?_self w t _ h
      · simp only [ne_eq, hta, not_false_eq_true, if_true]
        split
        · split
          · rw [setEntity_getElem?_ne _ _ (Ne.symm hta)]
            exact setEntity_getElem?_self w t _ h
          · exact setEntity_getElem?_self w t _ h
        · exact setEntity_getElem?_self w t _ h

theorem G_Damage_feedback_painCalls (w : World) (t a : Nat) (target : g_entity_t)
    (was_dead : Bool) (dir : Vec3) (da dh k : Int) :
    painCalls (G_Damage_feedback w t a target was_dead dir da dh k).2 =
      if was_dead = false ∧ (dh ≠ 0 ∨ k ≠ 0) ∧ target.Pain = true then 1 else 0 := by
  unfold G_Damage_feedback
  cases was_dead with
  | true => simp [painCalls]
  | false =>
    simp only [Bool.false_eq_true, if_false, true_and]
    by_cases hp : (dh ≠ 0 ∨ k ≠ 0) ∧ target.Pain = true
    · rw [if_pos hp, if_pos hp]
      cases target.client <;> simp [painCalls]
    · rw [if_neg hp, if_neg hp]
      cases target.client <;> simp [painCalls]

theorem G_Damage_feedback_dieCalls (w : World) (t a : Nat) (target : g_entity_t)
    (was_dead : Bool) (dir : Vec3) (da dh k : Int) :
    dieCalls (G_Damage_feedback w t a target was_dead dir da dh k).2 = 0 := by
  unfold G_Damage_feedback
  cases was_dead with
  | true => simp [dieCalls]
  | false =>
    simp only [Bool.false_eq_true, if_false]
    by_cases hp : (dh ≠ 0 ∨ k ≠ 0) ∧ target.Pain = true
    · rw [if_pos hp]
      cases target.client <;> simp [dieCalls]
    · rw [if_neg hp]
      cases target.client <;> simp [dieCalls]

/-! ## `G_Damage` after the guards -/

/-- A call that passes the initial guards runs lines 191-336. -/
theorem G_Damage_eq_apply (env : Env) (w : World) (t : Nat) (targ att : g_entity_t)
    (inflictor attacker : Option Nat) (dir pos normal : Option Vec3)
    (damage knockback : Int) (dflags mod : Nat)
    (ht : w.entities[t]? = some targ) (htd : targ.take_damage = true)
    (hrp : respawnProtected w.level targ = false)
    (ha : w.entities[attacker.getD 0]? = some att) :
    G_Damage env w (some t) inflictor attacker dir pos normal damage knockback dflags mod =
      G_Damage_apply env w t (attacker.getD 0) targ att dir pos normal damage knockback
        dflags mod := by
  unfold G_Damage
  simp only [ht, htd, hrp, Bool.not_true, Bool.false_eq_true, if_false, ha]

/-- A call that fails a guard, or names an attacker outside the entity array,
changes nothing and calls nothing. -/
theorem G_Damage_eq_noop_or_apply (env : Env) (w : World) (target inflictor attacker : Option Nat)
    (dir pos normal : Option Vec3) (damage knockback : Int) (dflags mod : Nat) :
    G_Damage env w target inflictor attacker dir pos normal damage knockback dflags mod = (w, []) ∨
    ∃ t targ att, target = some t ∧ w.entities[t]? = some targ ∧ targ.take_damage = true ∧
      respawnProtected w.level targ = false ∧
      w.entities[attacker.getD 0]? = some att ∧
      G_Damage env w target inflictor attacker dir pos normal damage knockback dflags mod =
        G_Damage_apply env w t (attacker.getD 0) targ att dir pos normal damage knockback
          dflags mod := by
  cases target with
  | none => exact Or.inl rfl
  | some t =>
    cases ht : w.entities[t]? with
    | none => left; unfold G_Damage; simp [ht]
    | some targ =>
      by_cases htd : targ.take_damage = true
      · by_cases hrp : respawnProtected w.level targ = false
        · rcases Option.eq_none_or_eq_some (w.entities[attacker.getD 0]?) with ha | ⟨att, ha⟩
          · left
            unfold G_Damage
            simp only [ht, ha]
            split_ifs <;> rfl
          · exact Or.inr ⟨t, targ, att, rfl, ht, htd, hrp, ha,
              G_Damage_eq_apply env w t targ att inflictor attacker dir pos normal damage
                knockback dflags mod ht htd hrp ha⟩
        · left
          unfold G_Damage
          simp [ht, htd, hrp]
      · left
        unfold G_Damage
        simp [ht, htd]

/-- The target after a call that passes the guards. -/
theorem G_Damage_apply_target (env : Env) (w : World) (t a : Nat) (targ att : g_entity_t)
    (dir pos normal : Option Vec3) (damage knockback : Int) (dflags mod : Nat)
    (ht : w.entities[t]? = some targ) :
    (G_Damage_apply env w t a targ att dir pos normal damage knockback dflags mod).1.entities[t]?
      = some (targetAfter env targ (decide (t = a)) (dir.getD vec3_origin)
          (pos.getD targ.origin) (normal.getD vec3_origin)
          (G_Damage_rules env w t a targ att damage knockback mod).damage
          (G_Damage_rules env w t a targ att damage knockback mod).knockback dflags) := by
  have hlt : t < w.entities.length := by
    rcases Nat.lt_or_ge t w.entities.length with h | h
    · exact h
    · rw [List.getElem?_eq_none h] at ht
      cases ht
  unfold G_Damage_apply targetAfter
  simp only [G_Damage_absorb_knockback, G_Damage_knockback_health, G_Damage_knockback_dead,
    G_Damage_absorb_health, G_Damage_absorb_dead]
  by_cases h1 : (G_Damage_absorb env targ (pos.getD targ.origin) (normal.getD vec3_origin)
      (G_Damage_rules env w t a targ att damage knockback mod).damage dflags).damage_health ≠ 0 ∧
      (targ.health ≠ 0 ∨ targ.dead = true)
  · rw [if_pos h1, if_pos h1]
    by_cases h2 : wrap16 (targ.health - (G_Damage_absorb env targ (pos.getD targ.origin)
        (normal.getD vec3_origin)
        (G_Damage_rules env w t a targ att damage knockback mod).damage dflags).damage_health) ≤ 0
    · rw [if_pos h2, if_pos h2]
      exact setEntity_getElem?_self w t _ hlt
    · rw [if_neg h2, if_neg h2, G_Damage_feedback_target _ _ _ _ _ _ _ _ _ hlt]
  · rw [if_neg h1, if_neg h1, G_Damage_feedback_target _ _ _ _ _ _ _ _ _ hlt]

theorem G_Damage_feedback_not_die (w : World) (t a : Nat) (target : g_entity_t)
    (was_dead : Bool) (dir : Vec3) (da dh k : Int) :
    ∀ e ∈ (G_Damage_feedback w t a target was_dead dir da dh k).2,
      (∀ s x m, e ≠ Event.DieCall s x m) ∧ ∀ s, e ≠ Event.DebugNoDie s := by
  unfold G_Damage_feedback
  intro e he
  cases was_dead with
  | true => simp at he
  | false =>
    simp only [Bool.false_eq_true, if_false] at he
    have key : e ∈ [Event.PainCall t a dh k] ∨ (∃ d q, e = Event.DamageKick t d q) →
        (∀ s x m, e ≠ Event.DieCall s x m) ∧ ∀ s, e ≠ Event.DebugNoDie s := by
      rintro (h | ⟨d, q, h⟩)
      · simp only [List.mem_singleton] at h
        subst h
        simp
      · subst h
        simp
    by_cases hp : (dh ≠ 0 ∨ k ≠ 0) ∧ target.Pain = true
    · rw [if_pos hp] at he
      cases hc : target.client with
      | none =>
        rw [hc] at he
        exact key (Or.inl he)
      | some c =>
        rw [hc] at he
        simp only [List.mem_append, List.mem_singleton] at he
        rcases he with h | h
        · exact key (Or.inl (by simpa using h))
        · exact key (Or.inr ⟨_, _, h⟩)
    · rw [if_neg hp] at he
      cases hc : target.client with
      | none =>
        rw [hc] at he
        simp at he
      | some c =>
        rw [hc] at he
        simp only [List.nil_append, List.mem_singleton] at he
        exact key (Or.inr ⟨_, _, he⟩)

theorem writes_not_die {l : List Event} (h : ∀ e ∈ l, e.isWrite = true) :
    ∀ e ∈ l, (∀ s x m, e ≠ Event.DieCall s x m) ∧ ∀ s, e ≠ Event.DebugNoDie s := by
  intro e he
  have := h e he
  cases e <;> simp_all [Event.isWrite]

/-- The number of `Pain` invocations of a call that passes the guards. -/
theorem G_Damage_apply_painCalls (env : Env) (w : World) (t a : Nat) (targ att : g_entity_t)
    (dir pos normal : Option Vec3) (damage knockback : Int) (dflags mod : Nat) :
    painCalls (G_Damage_apply env w t a targ att dir pos normal damage knockback dflags mod).2 =
      if isFatal targ (damageHealth env w t a targ att pos normal damage knockback dflags mod)
      then 0
      else if targ.dead = false ∧
          (damageHealth env w t a targ att pos normal damage knockback dflags mod ≠ 0 ∨
            (G_Damage_rules env w t a targ att damage knockback mod).knockback ≠ 0) ∧
          targ.Pain = true then 1 else 0 := by
  unfold G_Damage_apply damageHealth
  simp only [G_Damage_absorb_knockback, G_Damage_knockback_health, G_Damage_knockback_dead,
    G_Damage_absorb_health, G_Damage_absorb_dead]
  generalize G_Damage_rules env w t a targ att damage knockback mod = r
  have hw := painCalls_of_writes (G_Damage_absorb_writes env targ (pos.getD targ.origin)
    (normal.getD vec3_origin) r.damage dflags)
  have hP := G_Damage_absorb_Pain env targ (pos.getD targ.origin)
    (normal.getD vec3_origin) r.damage dflags
  generalize G_Damage_absorb env targ (pos.getD targ.origin) (normal.getD vec3_origin)
    r.damage dflags = ab at hw hP ⊢
  by_cases h1 : ab.damage_health ≠ 0 ∧ (targ.health ≠ 0 ∨ targ.dead = true)
  · by_cases h2 : wrap16 (targ.health - ab.damage_health) ≤ 0
    · have hF : isFatal targ ab.damage_health := ⟨h1.1, h1.2, h2⟩
      rw [if_pos h1, if_pos h2, if_pos hF]
      simp only [painCalls_append, hw, painCalls_of_writes (G_Damage_impact_writes _ _ _ _ _ _)]
      by_cases hd : ab.target.Die = true <;> simp [painCalls, hd]
    · have hF : ¬ isFatal targ ab.damage_health := fun h => h2 h.2.2
      rw [if_pos h1, if_neg h2, if_neg hF]
      simp only [painCalls_append, hw, painCalls_of_writes (G_Damage_impact_writes _ _ _ _ _ _),
        G_Damage_feedback_painCalls, G_Damage_knockback_Pain, hP, zero_add]
  · have hF : ¬ isFatal targ ab.damage_health := fun h => h1 ⟨h.1, h.2.1⟩
    rw [if_neg h1, if_neg hF]
    simp only [painCalls_append, hw, G_Damage_feedback_painCalls, G_Damage_knockback_Pain,
      hP, zero_add]

/-- The number of `Die` invocations of a call that passes the guards. -/
theorem G_Damage_apply_dieCalls (env : Env) (w : World) (t a : Nat) (targ att : g_entity_t)
    (dir pos normal : Option Vec3) (damage knockback : Int) (dflags mod : Nat) :
    dieCalls (G_Damage_apply env w t a targ att dir pos normal damage knockback dflags mod).2 =
      if isFatal targ (damageHealth env w t a targ att pos normal damage knockback dflags mod) ∧
        targ.Die = true then 1 else 0 := by
  unfold G_Damage_apply damageHealth
  simp only [G_Damage_absorb_knockback, G_Damage_knockback_health, G_Damage_knockback_dead,
    G_Damage_absorb_health, G_Damage_absorb_dead, G_Damage_knockback_Die, G_Damage_absorb_Die]
  generalize G_Damage_rules env w t a targ att damage knockback mod = r
  have hw := dieCalls_of_writes (G_Damage_absorb_writes env targ (pos.getD targ.origin)
    (normal.getD vec3_origin) r.damage dflags)
  generalize G_Damage_absorb env targ (pos.getD targ.origin) (normal.getD vec3_origin)
    r.damage dflags = ab at hw ⊢
  by_cases h1 : ab.damage_health ≠ 0 ∧ (targ.health ≠ 0 ∨ targ.dead = true)
  · by_cases h2 : wrap16 (targ.health - ab.damage_health) ≤ 0
    · have hF : isFatal targ ab.damage_health := ⟨h1.1, h1.2, h2⟩
      rw [if_pos h1, if_pos h2]
      simp only [dieCalls_append, hw, dieCalls_of_writes (G_Damage_impact_writes _ _ _ _ _ _),
        zero_add]
      by_cases hd : targ.Die = true
      · rw [if_pos hd, if_pos ⟨hF, hd⟩]
        simp [dieCalls]
      · rw [if_neg hd, if_neg (fun h => hd h.2)]
        simp [dieCalls]
    · have hF : ¬ isFatal targ ab.damage_health := fun h => h2 h.2.2
      rw [if_pos h1, if_neg h2, if_neg (fun h => hF h.1)]
      simp only [dieCalls_append, hw, dieCalls_of_writes (G_Damage_impact_writes _ _ _ _ _ _),
        G_Damage_feedback_dieCalls]
  · have hF : ¬ isFatal targ ab.damage_health := fun h => h1 ⟨h.1, h.2.1⟩
    rw [if_neg h1, if_neg (fun h => hF h.1)]
    simp only [dieCalls_append, hw, G_Damage_feedback_dieCalls]

/-- The `Die` invocations and missing-callback log entries of a call that passes the guards. -/
theorem G_Damage_apply_die_mem (env : Env) (w : World) (t a : Nat) (targ att : g_entity_t)
    (dir pos normal : Option Vec3) (damage knockback : Int) (dflags mod : Nat) (e : Event)
    (he : e ∈ (G_Damage_apply env w t a targ att dir pos normal damage knockback dflags mod).2)
    (hk : (∃ s x m, e = Event.DieCall s x m) ∨ ∃ s, e = Event.DebugNoDie s) :
    isFatal targ (damageHealth env w t a targ att pos normal damage knockback dflags mod) ∧
      e = if targ.Die then
        Event.DieCall t a (G_Damage_rules env w t a targ att damage knockback mod).mod
        else Event.DebugNoDie t := by
  have key : (∀ s x m, e ≠ Event.DieCall s x m) ∧ (∀ s, e ≠ Event.DebugNoDie s) → False := by
    rintro ⟨h1, h2⟩
    rcases hk with ⟨s, x, m, h⟩ | ⟨s, h⟩
    · exact h1 s x m h
    · exact h2 s h
  unfold G_Damage_apply at he
  unfold damageHealth
  simp only [G_Damage_absorb_knockback, G_Damage_knockback_health, G_Damage_knockback_dead,
    G_Damage_absorb_health, G_Damage_absorb_dead, G_Damage_knockback_Die,
    G_Damage_absorb_Die] at he
  generalize G_Damage_rules env w t a targ att damage knockback mod = r at he ⊢
  have hw := writes_not_die (G_Damage_absorb_writes env targ (pos.getD targ.origin)
    (normal.getD vec3_origin) r.damage dflags)
  generalize G_Damage_absorb env targ (pos.getD targ.origin) (normal.getD vec3_origin)
    r.damage dflags = ab at hw he ⊢
  by_cases h1 : ab.damage_health ≠ 0 ∧ (targ.health ≠ 0 ∨ targ.dead = true)
  · rw [if_pos h1] at he
    by_cases h2 : wrap16 (targ.health - ab.damage_health) ≤ 0
    · rw [if_pos h2] at he
      simp only [List.mem_append, List.mem_singleton] at he
      rcases he with (he | he) | he
      · exact (key (hw e he)).elim
      · exact (key (writes_not_die (G_Damage_impact_writes _ _ _ _ _ _) e he)).elim
      · exact ⟨⟨h1.1, h1.2, h2⟩, he⟩
    · rw [if_neg h2] at he
      simp only [List.mem_append] at he
      rcases he with (he | he) | he
      · exact (key (hw e he)).elim
      · exact (key (writes_not_die (G_Damage_impact_writes _ _ _ _ _ _) e he)).elim
      · exact (key (G_Damage_feedback_not_die _ _ _ _ _ _ _ _ _ e he)).elim
  · rw [if_neg h1] at he
    simp only [List.mem_append] at he
    rcases he with he | he
    · exact (key (hw e he)).elim
    · exact (key (G_Damage_feedback_not_die _ _ _ _ _ _ _ _ _ e he)).elim

/-- In the death branch the `Die` invocation (or the log entry) is in the trace. -/
theorem G_Damage_apply_fatal_mem (env : Env) (w : World) (t a : Nat) (targ att : g_entity_t)
    (dir pos normal : Option Vec3) (damage knockback : Int) (dflags mod : Nat)
    (hf : isFatal targ (damageHealth env w t a targ att pos normal damage knockback dflags mod)) :
    (if targ.Die then
        Event.DieCall t a (G_Damage_rules env w t a targ att damage knockback mod).mod
        else Event.DebugNoDie t) ∈
      (G_Damage_apply env w t a targ att dir pos normal damage knockback dflags mod).2 := by
  unfold isFatal damageHealth at hf
  unfold G_Damage_apply
  simp only [G_Damage_absorb_knockback, G_Damage_knockback_health, G_Damage_knockback_dead,
    G_Damage_absorb_health, G_Damage_absorb_dead, G_Damage_knockback_Die,
    G_Damage_absorb_Die]
  rw [if_pos ⟨hf.1, hf.2.1⟩, if_pos hf.2.2]
  simp

/-! ## Projections of the target after the call -/

theorem targetAfter_health (env : Env) (targ : g_entity_t) (self : Bool) (dir pos normal : Vec3)
    (d k : Int) (dflags : Nat) :
    (targetAfter env targ self dir pos normal d k dflags).health =
      if (G_Damage_absorb env targ pos normal d dflags).damage_health ≠ 0 ∧
          (targ.health ≠ 0 ∨ targ.dead = true) then
        wrap16 (targ.health - (G_Damage_absorb env targ pos normal d dflags).damage_health)
      else targ.health := by
  unfold targetAfter
  simp only
  split_ifs <;> simp [creditDamage]

theorem targetAfter_dead (env : Env) (targ : g_entity_t) (self : Bool) (dir pos normal : Vec3)
    (d k : Int) (dflags : Nat) :
    (targetAfter env targ self dir pos normal d k dflags).dead =
      (targ.dead ||
        decide (isFatal targ (G_Damage_absorb env targ pos normal d dflags).damage_health)) := by
  unfold targetAfter isFatal
  simp only
  split_ifs <;> simp_all [creditDamage]

theorem targetAfter_inventory (env : Env) (targ : g_entity_t) (self : Bool)
    (dir pos normal : Vec3) (d k : Int) (dflags : Nat) :
    (targetAfter env targ self dir pos normal d k dflags).client.map (·.inventory) =
      (G_Damage_absorb env targ pos normal d dflags).target.client.map (·.inventory) := by
  obtain ⟨f, hf⟩ := G_Damage_knockback_client env
    (G_Damage_absorb env targ pos normal d dflags).target self dir k
  unfold targetAfter
  simp only
  split_ifs <;> simp only [creditDamage, hf, Option.map_map] <;> rfl

/-- The per-frame damage counters of the target grow by `damage_armor` and
`damage_health` unless the target was dead or dies. -/
theorem targetAfter_counters (env : Env) (targ : g_entity_t) (self : Bool)
    (dir pos normal : Vec3) (d k : Int) (dflags : Nat) :
    (targetAfter env targ self dir pos normal d k dflags).client.map
        (fun c => (c.damage_armor, c.damage_health)) =
      targ.client.map fun c =>
        if targ.dead = true ∨
            isFatal targ (G_Damage_absorb env targ pos normal d dflags).damage_health then
          (c.damage_armor, c.damage_health)
        else
          (wrap16 (c.damage_armor + (G_Damage_absorb env targ pos normal d dflags).damage_armor),
            wrap16 (c.damage_health +
              (G_Damage_absorb env targ pos normal d dflags).damage_health)) := by
  obtain ⟨f, hf⟩ := G_Damage_knockback_client env
    (G_Damage_absorb env targ pos normal d dflags).target self dir k
  have hc : (G_Damage_absorb env targ pos normal d dflags).target.client.map
      (fun c => (c.damage_armor, c.damage_health)) =
      targ.client.map (fun c => (c.damage_armor, c.damage_health)) := by
    rcases G_Damage_absorb_target_cases env targ pos normal d dflags with h | ⟨c, ar, sv, hc, h⟩
    · rw [h]
    · rw [h, hc]
      rfl
  have hk : ∀ g : Int × Int → Int × Int,
      (G_Damage_knockback env (G_Damage_absorb env targ pos normal d dflags).target self dir
        k).client.map (fun c => g (c.damage_armor, c.damage_health)) =
      targ.client.map (fun c => g (c.damage_armor, c.damage_health)) := by
    intro g
    have := congrArg (Option.map g) hc
    simp only [Option.map_map] at this
    rw [hf, Option.map_map]
    exact this
  have hcredit := hk fun p =>
    (wrap16 (p.1 + (G_Damage_absorb env targ pos normal d dflags).damage_armor),
      wrap16 (p.2 + (G_Damage_absorb env targ pos normal d dflags).damage_health))
  unfold targetAfter
  simp only
  by_cases h1 : (G_Damage_absorb env targ pos normal d dflags).damage_health ≠ 0 ∧
      (targ.health ≠ 0 ∨ targ.dead = true)
  · rw [if_pos h1]
    by_cases h2 : wrap16 (targ.health -
        (G_Damage_absorb env targ pos normal d dflags).damage_health) ≤ 0
    · have hF : targ.dead = true ∨
          isFatal targ (G_Damage_absorb env targ pos normal d dflags).damage_health :=
        Or.inr ⟨h1.1, h1.2, h2⟩
      rw [if_pos h2]
      simp only [if_pos hF]
      exact hk id
    · rw [if_neg h2]
      by_cases h3 : targ.dead = true
      · rw [if_pos h3]
        simp only [if_pos (Or.inl h3 : targ.dead = true ∨
          isFatal targ (G_Damage_absorb env targ pos normal d dflags).damage_health)]
        exact hk id
      · have hF : ¬ (targ.dead = true ∨
            isFatal targ (G_Damage_absorb env targ pos normal d dflags).damage_health) := by
          rintro (h | h)
          · exact h3 h
          · exact h2 h.2.2
        rw [if_neg h3]
        simp only [if_neg hF, creditDamage, Option.map_map]
        exact hcredit
  · rw [if_neg h1]
    by_cases h3 : targ.dead = true
    · rw [if_pos h3]
      simp only [if_pos (Or.inl h3 : targ.dead = true ∨
        isFatal targ (G_Damage_absorb env targ pos normal d dflags).damage_health)]
      exact hk id
    · have hF : ¬ (targ.dead = true ∨
          isFatal targ (G_Damage_absorb env targ pos normal d dflags).damage_health) := by
        rintro (h | h)
        · exact h3 h
        · exact h1 ⟨h.1, h.2.1⟩
      rw [if_neg h3]
      simp only [if_neg hF, creditDamage, Option.map_map]
      exact hcredit

/-- In the death branch the world changes at the target only. -/
theorem G_Damage_apply_fatal_world (env : Env) (w : World) (t a : Nat) (targ att : g_entity_t)
    (dir pos normal : Option Vec3) (damage knockback : Int) (dflags mod : Nat)
    (hf : isFatal targ (damageHealth env w t a targ att pos normal damage knockback dflags mod)) :
    (G_Damage_apply env w t a targ att dir pos normal damage knockback dflags mod).1 =
      w.setEntity t (targetAfter env targ (decide (t = a)) (dir.getD vec3_origin)
          (pos.getD targ.origin) (normal.getD vec3_origin)
          (G_Damage_rules env w t a targ att damage knockback mod).damage
          (G_Damage_rules env w t a targ att damage knockback mod).knockback dflags) := by
  unfold isFatal damageHealth at hf
  unfold G_Damage_apply targetAfter
  simp only [G_Damage_absorb_knockback, G_Damage_knockback_health, G_Damage_knockback_dead,
    G_Damage_absorb_health, G_Damage_absorb_dead]
  simp only [if_pos (And.intro hf.1 hf.2.1), if_pos hf.2.2]

/-- In the death branch no per-frame damage counter of the target changes. -/
theorem targetAfter_fatal_counters (env : Env) (targ : g_entity_t) (self : Bool)
    (dir pos normal : Vec3) (d k : Int) (dflags : Nat)
    (hf : isFatal targ (G_Damage_absorb env targ pos normal d dflags).damage_health) :
    damageCounters (targetAfter env targ self dir pos normal d k dflags) =
      damageCounters targ := by
  obtain ⟨f, hk⟩ := G_Damage_knockback_client env
    (G_Damage_absorb env targ pos normal d dflags).target self dir k
  have hc : damageCounters (G_Damage_absorb env targ pos normal d dflags).target =
      damageCounters targ := by
    rcases G_Damage_absorb_target_cases env targ pos normal d dflags with h | ⟨c, ar, sv, hc, h⟩
    · rw [h]
    · rw [h]
      unfold damageCounters
      rw [hc]
      rfl
  unfold isFatal at hf
  unfold targetAfter
  simp only
  rw [if_pos (And.intro hf.1 hf.2.1), if_pos hf.2.2, ← hc]
  unfold damageCounters
  simp only [hk, Option.map_map]
  rfl

/-! ## Armor absorption: numeric facts -/

theorem list_set_getD_self (l : List Int) (i : Nat) : l.set i (l.getD i 0) = l := by
  rcases Nat.lt_or_ge i l.length with h | h
  · apply List.ext_getElem?
    intro j
    by_cases hij : i = j
    · subst hij
      simp [List.getElem?_set_self h, List.getD_eq_getElem?_getD, List.getElem?_eq_getElem h]
    · simp [List.getElem?_set_ne hij]
  · exact List.set_eq_of_length_le h

theorem armorSaved_zero (env : Env) (armor : Nat) {q : Int} (dflags : Nat) (hq : 0 ≤ q) :
    armorSaved env armor q 0 dflags = 0 := by
  have hq' : ¬ ((0 : ℚ) > q) := by
    have : (0 : ℚ) ≤ q := by exact_mod_cast hq
    exact not_lt.mpr this
  unfold armorSaved toInt16 Clamp
  simp only [Int.cast_zero, zero_mul, lt_self_iff_false, if_false, hq', truncQ_zero, ite_self]
  rfl

theorem armorEntity_zero (e : g_entity_t) (c : g_client_t) (armor : Nat)
    (hc : e.client = some c) (h1 : -32768 ≤ c.inventory.getD armor 0)
    (h2 : c.inventory.getD armor 0 ≤ 32767) : armorEntity e c armor 0 = e := by
  unfold armorEntity
  simp only [sub_zero, wrap16_eq_self h1 h2, list_set_getD_self]
  cases e
  simp_all

/-- With zero damage nothing is absorbed and nothing is left for health. -/
theorem G_Damage_absorb_zero (env : Env) (e : g_entity_t) (pos normal : Vec3) (dflags : Nat)
    (hq : 0 ≤ armorCharge env e) :
    (G_Damage_absorb env e pos normal 0 dflags).damage_armor = 0 ∧
      (G_Damage_absorb env e pos normal 0 dflags).damage_health = 0 := by
  unfold G_Damage_absorb
  split_ifs
  · exact ⟨rfl, rfl⟩
  · rcases G_CheckArmor_cases env e dflags with h | ⟨hna, c, armor, hc, harm⟩
    · rw [G_CheckArmor_none env e _ _ _ _ h]
      exact ⟨rfl, rfl⟩
    · rw [G_CheckArmor_eq env e _ _ _ _ hna hc harm]
      have hq' : 0 ≤ c.inventory.getD armor 0 := by
        simpa [armorCharge, hc, harm] using hq
      rw [armorSaved_zero env armor dflags hq']
      exact ⟨rfl, rfl⟩

/-- With zero damage the target, its armor charge included, is left as it was. -/
theorem G_Damage_absorb_zero_target (env : Env) (e : g_entity_t) (pos normal : Vec3)
    (dflags : Nat) (hq : 0 ≤ armorCharge env e) (hq2 : armorCharge env e ≤ 32767) :
    (G_Damage_absorb env e pos normal 0 dflags).target = e := by
  unfold G_Damage_absorb
  split_ifs
  · rfl
  · rcases G_CheckArmor_cases env e dflags with h | ⟨hna, c, armor, hc, harm⟩
    · rw [G_CheckArmor_none env e _ _ _ _ h]
    · rw [G_CheckArmor_eq env e _ _ _ _ hna hc harm]
      have hq' : 0 ≤ c.inventory.getD armor 0 := by
        simpa [armorCharge, hc, harm] using hq
      have hq2' : c.inventory.getD armor 0 ≤ 32767 := by
        simpa [armorCharge, hc, harm] using hq2
      rw [armorSaved_zero env armor dflags hq']
      exact armorEntity_zero e c armor hc (by omega) hq2'

theorem armorSaved_eq (env : Env) (armor : Nat) (q d : Int) (dflags : Nat) :
    armorSaved env armor q d dflags =
      toInt16 (Clamp ((d : ℚ) * protection env armor dflags) 0 (q : ℚ)) := by
  unfold armorSaved protection
  split_ifs <;> rfl

theorem armorSaved_range (env : Env) (armor : Nat) {q : Int} (d : Int) (dflags : Nat)
    (h0 : 0 ≤ q) (h1 : q ≤ 32767) :
    0 ≤ armorSaved env armor q d dflags ∧ armorSaved env armor q d dflags ≤ q := by
  rw [armorSaved_eq]
  exact toInt16_Clamp_range _ h0 h1

theorem armorSaved_eq_min (env : Env) (armor : Nat) {q d : Int} (dflags : Nat)
    (hp : 0 ≤ protection env armor dflags) (hd : 0 ≤ d) (h0 : 0 ≤ q) (h1 : q ≤ 32767) :
    armorSaved env armor q d dflags =
      min (truncQ ((d : ℚ) * protection env armor dflags)) q := by
  rw [armorSaved_eq]
  exact toInt16_Clamp_eq_min (mul_nonneg (by exact_mod_cast hd) hp) h0 h1

/-- Without god mode protection, the armor the client holds absorbs. -/
theorem G_Damage_absorb_armor (env : Env) (e : g_entity_t) (pos normal : Vec3) (d : Int)
    (dflags : Nat) {c : g_client_t} {armor : Nat}
    (hgod : ¬ (e.flags &&& FL_GOD_MODE ≠ 0 ∧ ¬ (dflags &&& DMG_NO_GOD ≠ 0)))
    (hna : dflags &&& DMG_NO_ARMOR = 0) (hc : e.client = some c)
    (harm : env.G_ClientArmor c.inventory = some armor) :
    G_Damage_absorb env e pos normal d dflags =
      { target := armorEntity e c armor (armorSaved env armor (c.inventory.getD armor 0) d dflags)
        damage_armor := armorSaved env armor (c.inventory.getD armor 0) d dflags
        damage_health := wrap16 (d - armorSaved env armor (c.inventory.getD armor 0) d dflags)
        events := G_SpawnDamage .TE_BLOOD pos (some normal)
          (armorSaved env armor (c.inventory.getD armor 0) d dflags) } := by
  unfold G_Damage_absorb
  rw [if_neg hgod, G_CheckArmor_eq env e _ _ _ _ hna hc harm]

theorem armorEntity_charge (e : g_entity_t) (c : g_client_t) (armor : Nat) (saved : Int)
    (hlen : armor < c.inventory.length) :
    (armorEntity e c armor saved).client.map (fun c => c.inventory.getD armor 0) =
      some (wrap16 (c.inventory.getD armor 0 - saved)) := by
  simp [armorEntity, List.getElem?_set_self hlen]

/-- Truncation toward zero of a value within the `int16_t` range stays within it. -/
theorem truncQ_int16 {x : ℚ} (h1 : -32768 ≤ x) (h2 : x ≤ 32767) :
    -32768 ≤ truncQ x ∧ truncQ x ≤ 32767 := by
  rcases le_total 0 x with h0 | h0
  · have a := truncQ_nonneg h0
    have b := truncQ_le_of_le_intCast (n := 32767) h0 (by simpa using h2)
    omega
  · have h0' : 0 ≤ -x := by linarith
    have e : truncQ x = -truncQ (-x) := by rw [truncQ_neg]; simp
    have a := truncQ_nonneg h0'
    have b := truncQ_le_of_le_intCast (n := 32768) h0' (by push_cast; linarith)
    omega

/-- Truncation toward zero of a value strictly within `(-(n+1), n+1)` lies in `[-n, n]`. -/
theorem truncQ_abs_lt {x : ℚ} {n : Int} (h1 : -(n : ℚ) - 1 < x) (h2 : x < n + 1) :
    -n ≤ truncQ x ∧ truncQ x ≤ n := by
  have hfl : ∀ y : ℚ, 0 ≤ y → y < n + 1 → 0 ≤ truncQ y ∧ truncQ y ≤ n := by
    intro y hy hyn
    refine ⟨truncQ_nonneg hy, ?_⟩
    rw [truncQ_of_nonneg hy]
    have : ⌊y⌋ < n + 1 := by
      rw [Int.floor_lt]
      push_cast
      exact hyn
    omega
  rcases le_total 0 x with h0 | h0
  · have := hfl x h0 h2
    omega
  · have e : truncQ x = -truncQ (-x) := by rw [truncQ_neg]; simp
    have := hfl (-x) (by linarith) (by linarith)
    omega

/-! ## The friendly fire and self damage rules -/

theorem G_Damage_rules_teammate (env : Env) (w : World) (t a : Nat) (targ att : g_entity_t)
    (damage knockback : Int) (mod : Nat) (hne : t ≠ a)
    (hteams : w.level.teams = true ∨ w.level.ctf = true)
    (hsame : G_OnSameTeam w.level targ att = true) (hmod : mod ≠ MOD_TELEFRAG) :
    (w.g_friendly_fire = 0 →
      (G_Damage_rules env w t a targ att damage knockback mod).damage = 0 ∧
      (G_Damage_rules env w t a targ att damage knockback mod).mod = mod) ∧
    (w.g_friendly_fire ≠ 0 →
      (G_Damage_rules env w t a targ att damage knockback mod).damage =
        (G_Damage_multipliers env att damage knockback).1 ∧
      (G_Damage_rules env w t a targ att damage knockback mod).mod =
        mod ||| MOD_FRIENDLY_FIRE) := by
  unfold G_Damage_rules
  simp only [ne_eq, hne, not_false_eq_true, hteams, and_self, if_true, hsame, hmod, if_false]
  constructor
  · intro hff
    simp [hff]
  · intro hff
    simp [hff]

theorem G_Damage_rules_not_teammate (env : Env) (w : World) (t a : Nat) (targ att : g_entity_t)
    (damage knockback : Int) (mod : Nat) (hne : t ≠ a)
    (hsame : G_OnSameTeam w.level targ att = false) :
    (G_Damage_rules env w t a targ att damage knockback mod).damage =
        (G_Damage_multipliers env att damage knockback).1 ∧
      (G_Damage_rules env w t a targ att damage knockback mod).mod = mod := by
  unfold G_Damage_rules
  simp only [ne_eq, hne, not_false_eq_true, true_and, hsame, Bool.false_eq_true, if_false,
    ite_self]

theorem or_friendly_fire_bit (mod : Nat) :
    (mod ||| MOD_FRIENDLY_FIRE) &&& MOD_FRIENDLY_FIRE = MOD_FRIENDLY_FIRE := by
  apply Nat.eq_of_testBit_eq
  intro i
  simp only [Nat.testBit_and, Nat.testBit_or]
  cases mod.testBit i <;> cases MOD_FRIENDLY_FIRE.testBit i <;> rfl

/-! ## Damage that is zero after the multipliers and rules -/

/-- Counterexample to C2 as stated.  In `w0` the client has a `Pain` callback.
A call with damage 0 and knockback 10 passes the guards with post-rules damage
`0 ≤ 0`, and `Pain` is invoked once; a call with damage -5 passes the guards
with post-rules damage `-5 ≤ 0`, and the health of the target rises from 100 to
105. -/
theorem G_Damage_nonpositive_counterexample :
    ((G_Damage_rules env0 w0 1 0 client0 {} 0 10 0).damage ≤ 0 ∧
      painCalls (G_Damage env0 w0 (some 1) none none none none none 0 10 0 0).2 = 1) ∧
    ((G_Damage_rules env0 w0 1 0 client0 {} (-5) 0 0).damage ≤ 0 ∧
      (G_Damage env0 w0 (some 1) none none none none none (-5) 0 0 0).1.entities[1]?.map
        (·.health) = some 105) := by
  decide!

/-- C2 (amended): for a call that passes the initial guards and whose damage is
exactly zero after the quad and handicap multipliers and the friendly-fire and
self-damage rules, made on a target whose armor charge is not negative, the
health of the target is unchanged, `Die` is not invoked, and `Pain` is invoked
exactly once if the knockback is non-zero, a `Pain` callback is registered and
the target was not already dead, and not at all otherwise. -/
theorem G_Damage_zero_damage (env : Env) (w : World) (t : Nat) (targ att : g_entity_t)
    (inflictor attacker : Option Nat) (dir pos normal : Option Vec3)
    (damage knockback : Int) (dflags mod : Nat)
    (ht : w.entities[t]? = some targ) (htd : targ.take_damage = true)
    (hrp : respawnProtected w.level targ = false)
    (ha : w.entities[attacker.getD 0]? = some att)
    (hq : 0 ≤ armorCharge env targ)
    (hd : (G_Damage_rules env w t (attacker.getD 0) targ att damage knockback mod).damage = 0) :
    (G_Damage env w (some t) inflictor attacker dir pos normal damage knockback dflags
        mod).1.entities[t]?.map (·.health) = some targ.health ∧
    dieCalls (G_Damage env w (some t) inflictor attacker dir pos normal damage knockback dflags
        mod).2 = 0 ∧
    painCalls (G_Damage env w (some t) inflictor attacker dir pos normal damage knockback dflags
        mod).2 =
      if (G_Damage_rules env w t (attacker.getD 0) targ att damage knockback mod).knockback ≠ 0 ∧
          targ.Pain = true ∧ targ.dead = false then 1 else 0 := by
  have hz := (G_Damage_absorb_zero env targ (pos.getD targ.origin) (normal.getD vec3_origin)
    dflags hq).2
  have hdh : damageHealth env w t (attacker.getD 0) targ att pos normal damage knockback
      dflags mod = 0 := by
    unfold damageHealth
    rw [hd]
    exact hz
  have hnf : ¬ isFatal targ 0 := fun h => h.1 rfl
  rw [G_Damage_eq_apply env w t targ att inflictor attacker dir pos normal damage knockback
    dflags mod ht htd hrp ha]
  refine ⟨?_, ?_, ?_⟩
  · rw [G_Damage_apply_target env w t _ targ att dir pos normal damage knockback dflags mod ht,
      Option.map_some', targetAfter_health, hd, hz]
    simp
  · rw [G_Damage_apply_dieCalls, hdh, if_neg (fun h => hnf h.1)]
  · rw [G_Damage_apply_painCalls, hdh, if_neg hnf]
    by_cases hk : (G_Damage_rules env w t (attacker.getD 0) targ att damage knockback
        mod).knockback ≠ 0
    · by_cases hp : targ.Pain = true <;> by_cases hdd : targ.dead = false <;> simp [hk, hp, hdd]
    · simp [hk]

/-- Witness for C2 (amended): zero damage with knockback 10 on the client of `w0`. -/
theorem G_Damage_zero_damage_witness :
    (G_Damage env0 w0 (some 1) none none none none none 0 10 0 0).1.entities[1]?.map
        (·.health) = some client0.health ∧
    dieCalls (G_Damage env0 w0 (some 1) none none none none none 0 10 0 0).2 = 0 ∧
    painCalls (G_Damage env0 w0 (some 1) none none none none none 0 10 0 0).2 =
      if (G_Damage_rules env0 w0 1 ((none : Option Nat).getD 0) client0 {} 0 10 0).knockback ≠ 0 ∧
          client0.Pain = true ∧ client0.dead = false then 1 else 0 :=
  G_Damage_zero_damage env0 w0 1 client0 {} none none none none none 0 10 0 0
    rfl rfl rfl rfl (by decide!) (by decide!)

/-! ## Armor absorption before health -/

/-- C3: a client target without god mode holds armor with charge `q ≥ 0` and
protection coefficient `p` in `[0, 1]` (the energy coefficient when `DMG_ENERGY`
is set, the normal one otherwise), the flags lack `DMG_NO_ARMOR`, and the
post-multiplier damage `d > 0` is not fatal.  Then the armor absorbs
`saved = min (trunc (d * p)) q`: `damage_armor = saved`,
`damage_health = d - saved`, their sum is `d`, the armor charge drops to
`q - saved` and the health drops by exactly `d - saved`. -/
theorem G_Damage_armor_absorbs (env : Env) (w : World) (t : Nat) (targ att : g_entity_t)
    (c : g_client_t) (armor : Nat) (inflictor attacker : Option Nat)
    (dir pos normal : Option Vec3) (damage knockback : Int) (dflags mod : Nat)
    (d q saved : Int) (p : ℚ)
    (ht : w.entities[t]? = some targ) (htd : targ.take_damage = true)
    (hrp : respawnProtected w.level targ = false)
    (ha : w.entities[attacker.getD 0]? = some att)
    (hc : targ.client = some c) (hgod : targ.flags &&& FL_GOD_MODE = 0)
    (harm : env.G_ClientArmor c.inventory = some armor) (hlen : armor < c.inventory.length)
    (hq : c.inventory.getD armor 0 = q) (hq0 : 0 ≤ q) (hq1 : q ≤ 32767)
    (hna : dflags &&& DMG_NO_ARMOR = 0)
    (hp : protection env armor dflags = p) (hp0 : 0 ≤ p) (hp1 : p ≤ 1)
    (hd : (G_Damage_rules env w t (attacker.getD 0) targ att damage knockback mod).damage = d)
    (hd0 : 0 < d)
    (hsaved : saved = min (truncQ ((d : ℚ) * p)) q)
    (hh : targ.health ≤ 32767) (hnf : 0 < targ.health - (d - saved)) :
    damageArmor env w t (attacker.getD 0) targ att pos normal damage knockback dflags mod
        = saved ∧
    damageHealth env w t (attacker.getD 0) targ att pos normal damage knockback dflags mod
        = d - saved ∧
    damageArmor env w t (attacker.getD 0) targ att pos normal damage knockback dflags mod +
      damageHealth env w t (attacker.getD 0) targ att pos normal damage knockback dflags mod
        = d ∧
    (G_Damage env w (some t) inflictor attacker dir pos normal damage knockback dflags
        mod).1.entities[t]?.map (·.health) = some (targ.health - (d - saved)) ∧
    (G_Damage env w (some t) inflictor attacker dir pos normal damage knockback dflags
        mod).1.entities[t]?.bind (fun e => e.client.map fun c => c.inventory.getD armor 0)
        = some (q - saved) := by
  have hgod' : ¬ (targ.flags &&& FL_GOD_MODE ≠ 0 ∧ ¬ (dflags &&& DMG_NO_GOD ≠ 0)) :=
    fun h => h.1 hgod
  have hab := G_Damage_absorb_armor env targ (pos.getD targ.origin) (normal.getD vec3_origin)
    d dflags hgod' hna hc harm
  have hsv : armorSaved env armor q d dflags = saved := by
    rw [hsaved, ← hp]
    exact armorSaved_eq_min env armor dflags (hp ▸ hp0) hd0.le hq0 hq1
  rw [hq, hsv] at hab
  have hs0 : 0 ≤ saved := by
    rw [← hsv]
    exact (armorSaved_range env armor d dflags hq0 hq1).1
  have hsq : saved ≤ q := by
    rw [← hsv]
    exact (armorSaved_range env armor d dflags hq0 hq1).2
  have hsd : saved ≤ d := by
    have h1 : truncQ ((d : ℚ) * p) ≤ d := by
      have hdq : (0 : ℚ) ≤ d := by exact_mod_cast hd0.le
      exact truncQ_le_of_le_intCast (mul_nonneg hdq hp0) (by nlinarith)
    rw [hsaved]
    exact (min_le_left _ _).trans h1
  have hwdh : wrap16 (d - saved) = d - saved := wrap16_eq_self (by omega) (by omega)
  have hda : damageArmor env w t (attacker.getD 0) targ att pos normal damage knockback
      dflags mod = saved := by
    unfold damageArmor
    rw [hd, hab]
  have hdh : damageHealth env w t (attacker.getD 0) targ att pos normal damage knockback
      dflags mod = d - saved := by
    unfold damageHealth
    rw [hd, hab]
    exact hwdh
  rw [G_Damage_eq_apply env w t targ att inflictor attacker dir pos normal damage knockback
    dflags mod ht htd hrp ha,
    G_Damage_apply_target env w t _ targ att dir pos normal damage knockback dflags mod ht]
  refine ⟨hda, hdh, by rw [hda, hdh]; ring, ?_, ?_⟩
  · rw [Option.map_some', targetAfter_health, hd, hab]
    simp only [hwdh]
    by_cases hz : d - saved = 0
    · simp [hz]
    · have hhp : targ.health ≠ 0 := by omega
      rw [if_pos ⟨hz, Or.inl hhp⟩, wrap16_eq_self (by omega) (by omega)]
  · rw [Option.some_bind]
    have hinv := targetAfter_inventory env targ (decide (t = attacker.getD 0))
      (dir.getD vec3_origin) (pos.getD targ.origin) (normal.getD vec3_origin) d
      (G_Damage_rules env w t (attacker.getD 0) targ att damage knockback mod).knockback dflags
    have hch := armorEntity_charge targ c armor saved hlen
    rw [hab] at hinv
    rw [hd]
    have := congrArg (Option.map fun (l : List Int) => l.getD armor 0) hinv
    simp only [Option.map_map] at this
    rw [hq, wrap16_eq_self (by omega) (by omega)] at hch
    exact this.trans hch

/-- Witness for C3: health 100, jacket armor 50 with coefficient 0.30, kinetic
damage 60: the armor absorbs 18, the health drops to 58 and the armor charge to 32. -/
theorem G_Damage_armor_absorbs_witness :
    damageArmor env0 w0 1 0 client0 {} none none 60 0 0 0 = 18 ∧
    damageHealth env0 w0 1 0 client0 {} none none 60 0 0 0 = 60 - 18 ∧
    damageArmor env0 w0 1 0 client0 {} none none 60 0 0 0 +
      damageHealth env0 w0 1 0 client0 {} none none 60 0 0 0 = 60 ∧
    (G_Damage env0 w0 (some 1) none none none none none 60 0 0 0).1.entities[1]?.map
        (·.health) = some (100 - (60 - 18)) ∧
    (G_Damage env0 w0 (some 1) none none none none none 60 0 0 0).1.entities[1]?.bind
        (fun e => e.client.map fun c => c.inventory.getD 1 0) = some (50 - 18) :=
  G_Damage_armor_absorbs env0 w0 1 client0 {} { inventory := [0, 50] } 1 none none none none
    none 60 0 0 0 60 50 18 (3 / 10) rfl rfl rfl rfl rfl (by decide) (by decide!) (by decide)
    (by decide) (by decide) (by decide) (by decide) (by decide!)
    (by norm_num) (by norm_num) (by decide!) (by decide) (by decide!) (by decide) (by decide)

/-- C4: `G_CheckArmor` never drives an armor charge negative.  For every damage
and every flag set, when the client holds an armor item with charge
`0 ≤ q ≤ 32767`, the absorbed amount satisfies `0 ≤ saved ≤ q` and the
inventory entry after the call is `q - saved ≥ 0`. -/
theorem G_CheckArmor_charge_nonneg (env : Env) (ent : g_entity_t) (c : g_client_t)
    (armor : Nat) (pos : Vec3) (normal : Option Vec3) (damage : Int) (dflags : Nat) (q : Int)
    (hc : ent.client = some c) (harm : env.G_ClientArmor c.inventory = some armor)
    (hlen : armor < c.inventory.length) (hq : c.inventory.getD armor 0 = q)
    (hq0 : 0 ≤ q) (hq1 : q ≤ 32767) :
    0 ≤ (G_CheckArmor env ent pos normal damage dflags).2.1 ∧
    (G_CheckArmor env ent pos normal damage dflags).2.1 ≤ q ∧
    (G_CheckArmor env ent pos normal damage dflags).1.client.map
        (fun c => c.inventory.getD armor 0) =
      some (q - (G_CheckArmor env ent pos normal damage dflags).2.1) ∧
    0 ≤ q - (G_CheckArmor env ent pos normal damage dflags).2.1 := by
  by_cases hna : dflags &&& DMG_NO_ARMOR = 0
  · rw [G_CheckArmor_eq env ent pos normal damage dflags hna hc harm]
    simp only
    rw [hq]
    obtain ⟨h0, h1⟩ := armorSaved_range env armor damage dflags hq0 hq1
    refine ⟨h0, h1, ?_, by omega⟩
    rw [armorEntity_charge ent c armor _ hlen, hq, wrap16_eq_self (by omega) (by omega)]
  · rw [G_CheckArmor_none env ent pos normal damage dflags (Or.inl hna)]
    simp only [hc, Option.map_some', sub_zero, hq]
    exact ⟨le_refl _, hq0, trivial, hq0⟩

/-- Witness for C4: 60 kinetic damage against 50 units of jacket armor. -/
theorem G_CheckArmor_charge_nonneg_witness :
    0 ≤ (G_CheckArmor env0 client0 {} none 60 0).2.1 ∧
    (G_CheckArmor env0 client0 {} none 60 0).2.1 ≤ 50 ∧
    (G_CheckArmor env0 client0 {} none 60 0).1.client.map (fun c => c.inventory.getD 1 0) =
      some (50 - (G_CheckArmor env0 client0 {} none 60 0).2.1) ∧
    0 ≤ 50 - (G_CheckArmor env0 client0 {} none 60 0).2.1 :=
  G_CheckArmor_charge_nonneg env0 client0 { inventory := [0, 50] } 1 {} none 60 0 50
    rfl (by decide) (by decide) (by decide) (by decide) (by decide)

/-! ## Quad damage and handicap -/

/-- The damage scaled by a handicap in `[0, 100]` in `double`, before it is
truncated, is within `2 ^ (-36)` of the exact product. -/
theorem handicap_scale_near {x : Int} {h : ℚ} (hx0 : -32768 ≤ x) (hx1 : x ≤ 32767)
    (h0 : 0 ≤ h) (h1 : h ≤ 100) :
    |roundDouble ((x : ℚ) * roundDouble (h / 100)) - (x : ℚ) * h / 100| ≤ 1 / 2 ^ 36 := by
  have ha0 : (0 : ℚ) ≤ h / 100 := by positivity
  have ha1 : h / 100 ≤ 1 := by linarith
  have hxa : |(x : ℚ)| ≤ 32768 := by
    rw [abs_le]
    constructor
    · exact_mod_cast hx0
    · have : x ≤ 32768 := by omega
      exact_mod_cast this
  have e1 : |roundDouble (h / 100) - h / 100| ≤ 1 / 2 ^ 53 := by
    refine (roundDouble_near (h / 100)).trans ?_
    rw [abs_of_nonneg ha0]
    apply div_le_div_of_nonneg_right ha1
    positivity
  have e2 : |(x : ℚ) * roundDouble (h / 100) - (x : ℚ) * (h / 100)| ≤ 32768 / 2 ^ 53 := by
    rw [← mul_sub, abs_mul]
    calc |(x : ℚ)| * |roundDouble (h / 100) - h / 100| ≤ 32768 * (1 / 2 ^ 53) :=
          mul_le_mul hxa e1 (abs_nonneg _) (by norm_num)
      _ = 32768 / 2 ^ 53 := by ring
  have e3 : |(x : ℚ) * (h / 100)| ≤ 32768 := by
    rw [abs_mul, abs_of_nonneg ha0]
    calc |(x : ℚ)| * (h / 100) ≤ 32768 * 1 := mul_le_mul hxa ha1 ha0 (by norm_num)
      _ = 32768 := by ring
  have e4 : |(x : ℚ) * roundDouble (h / 100)| ≤ 32769 := by
    have := abs_add ((x : ℚ) * roundDouble (h / 100) - (x : ℚ) * (h / 100)) ((x : ℚ) * (h / 100))
    rw [sub_add_cancel] at this
    have e : (32768 : ℚ) / 2 ^ 53 ≤ 1 := by norm_num
    linarith
  have e5 : |roundDouble ((x : ℚ) * roundDouble (h / 100)) - (x : ℚ) * roundDouble (h / 100)| ≤
      32769 / 2 ^ 53 := by
    refine (roundDouble_near _).trans ?_
    apply div_le_div_of_nonneg_right e4
    positivity
  have e6 := abs_add
    (roundDouble ((x : ℚ) * roundDouble (h / 100)) - (x : ℚ) * roundDouble (h / 100))
    ((x : ℚ) * roundDouble (h / 100) - (x : ℚ) * (h / 100))
  rw [sub_add_sub_cancel] at e6
  have e7 : (x : ℚ) * h / 100 = (x : ℚ) * (h / 100) := by ring
  rw [e7]
  have e8 : (32769 : ℚ) / 2 ^ 53 + 32768 / 2 ^ 53 ≤ 1 / 2 ^ 36 := by norm_num
  linarith

/-- The damage scaled by a handicap in `[0, 100]` still fits the `int16_t`. -/
theorem handicap_scale_range {x : Int} {h : ℚ} (hx0 : -32768 ≤ x) (hx1 : x ≤ 32767)
    (h0 : 0 ≤ h) (h1 : h ≤ 100) :
    toInt16 (roundDouble ((x : ℚ) * roundDouble (h / 100))) =
      truncQ (roundDouble ((x : ℚ) * roundDouble (h / 100))) := by
  obtain ⟨a, b⟩ := abs_le.mp (handicap_scale_near hx0 hx1 h0 h1)
  have ha0 : (0 : ℚ) ≤ h / 100 := by positivity
  have ha1 : h / 100 ≤ 1 := by linarith
  have x0 : (-32768 : ℚ) ≤ x := by exact_mod_cast hx0
  have x1 : (x : ℚ) ≤ 32767 := by exact_mod_cast hx1
  have p0 : (-32768 : ℚ) ≤ (x : ℚ) * h / 100 := by
    rw [show (x : ℚ) * h / 100 = (x : ℚ) * (h / 100) by ring]
    nlinarith
  have p1 : (x : ℚ) * h / 100 ≤ 32767 := by
    rw [show (x : ℚ) * h / 100 = (x : ℚ) * (h / 100) by ring]
    nlinarith
  have lo : -32768 ≤ truncQ (roundDouble ((x : ℚ) * roundDouble (h / 100))) := by
    have := truncQ_mono (x := -32768 - 1 / 2 ^ 36)
      (y := roundDouble ((x : ℚ) * roundDouble (h / 100))) (by linarith)
    have e : truncQ (-32768 - 1 / 2 ^ 36) = -32768 := by decide!
    omega
  have hi : truncQ (roundDouble ((x : ℚ) * roundDouble (h / 100))) ≤ 32767 := by
    have := truncQ_mono (x := roundDouble ((x : ℚ) * roundDouble (h / 100)))
      (y := 32767 + 1 / 2 ^ 36) (by linarith)
    have e : truncQ (32767 + 1 / 2 ^ 36) = 32767 := by decide!
    omega
  exact wrap16_eq_self lo hi

/-- The scaling of an `int16_t` damage `x` by a handicap `h` in `[0, 100]` on
line 204: the truncated `double` product differs from the truncated exact
product by at most one, and not at all when the handicap is an integer and the
exact product is not. -/
theorem handicap_scale_spec {x : Int} {h : ℚ} (hx0 : -32768 ≤ x) (hx1 : x ≤ 32767)
    (h0 : 0 ≤ h) (h1 : h ≤ 100) :
    |truncQ (roundDouble ((x : ℚ) * roundDouble (h / 100))) - truncQ ((x : ℚ) * h / 100)| ≤ 1 ∧
    (∀ n : Int, h = (n : ℚ) → ¬ (100 : Int) ∣ x * n →
      truncQ (roundDouble ((x : ℚ) * roundDouble (h / 100))) = truncQ ((x : ℚ) * h / 100)) := by
  have near := handicap_scale_near hx0 hx1 h0 h1
  refine ⟨truncQ_near (near.trans (by norm_num)), ?_⟩
  intro n hn hdiv
  have e : (x : ℚ) * h / 100 = ((x * n : Int) : ℚ) / 100 := by
    rw [hn]
    push_cast
    ring
  rw [e] at near ⊢
  exact truncQ_eq_of_near hdiv (lt_of_le_of_lt near (by norm_num))

/-- Counterexample to C5 as stated.  An attacker with quad damage and handicap
100 deals damage 1: the effective damage is 2, not `2.5 * 1 * 100 / 100`, and
a target hit with it (armor bypassed) goes from 100 health to 98.  An attacker
without quad damage and with handicap 29 deals damage 100: the effective damage
is 28, not `100 * 29 / 100`, the `double` product being just below 29. -/
theorem G_Damage_multipliers_counterexample :
    ((G_Damage_multipliers env0 quadAttacker 1 0).1 : ℚ) ≠ 5 / 2 * 1 * (100 / 100) ∧
    (G_Damage_multipliers env0 quadAttacker 1 0).1 = 2 ∧
    (G_Damage env0 w_quad (some 1) none (some 2) none none none 1 0 DMG_NO_ARMOR
      0).1.entities[1]?.map (·.health) = some 98 ∧
    ((G_Damage_multipliers env0 handicapAttacker 100 0).1 : ℚ) ≠ 100 * (29 / 100) ∧
    (G_Damage_multipliers env0 handicapAttacker 100 0).1 = 28 := by
  have h : (G_Damage_multipliers env0 quadAttacker 1 0).1 = 2 := by decide!
  have k : (G_Damage_multipliers env0 handicapAttacker 100 0).1 = 28 := by decide!
  refine ⟨?_, h, by decide!, ?_, k⟩
  · rw [h]
    norm_num
  · rw [k]
    norm_num

/-- C5 (amended): for an attacker that is a client with handicap `h` in
`[0, 100]`.  With the quad damage item the effective damage is
`trunc (fl (x * fl (h / 100)))` for `x = trunc (2.5 * damage)`, where `fl`
rounds to the nearest `double` and `trunc` truncates toward zero at each store
into the `int16_t`, and the effective knockback is exactly `2 * knockback`, as
long as both quad products fit the `int16_t` (`|damage| ≤ 13107`,
`-16384 ≤ knockback ≤ 16383`).  Without it the effective damage is
`trunc (fl (damage * fl (h / 100)))`, for every `int16_t` damage, and the
knockback is unchanged.  In both cases the effective damage differs from
`trunc (x * h / 100)` by at most one, and it is equal to it when the handicap
is an integer `n` and `x * n` is not a multiple of 100. -/
theorem G_Damage_multipliers_rounded (env : Env) (attacker : g_entity_t) (ac : g_client_t)
    (damage knockback : Int) (h : ℚ)
    (hac : attacker.client = some ac) (hh : ac.persistent.handicap = h)
    (h0 : 0 ≤ h) (h1 : h ≤ 100) :
    (ac.inventory.getD env.quad_damage 0 ≠ 0 →
      -13107 ≤ damage → damage ≤ 13107 → -16384 ≤ knockback → knockback ≤ 16383 →
      G_Damage_multipliers env attacker damage knockback =
        (truncQ (roundDouble ((truncQ ((damage : ℚ) * (5 / 2)) : ℚ) * roundDouble (h / 100))),
          2 * knockback) ∧
      |(G_Damage_multipliers env attacker damage knockback).1 -
        truncQ ((truncQ ((damage : ℚ) * (5 / 2)) : ℚ) * h / 100)| ≤ 1 ∧
      (∀ n : Int, h = (n : ℚ) → ¬ (100 : Int) ∣ truncQ ((damage : ℚ) * (5 / 2)) * n →
        (G_Damage_multipliers env attacker damage knockback).1 =
          truncQ ((truncQ ((damage : ℚ) * (5 / 2)) : ℚ) * h / 100))) ∧
    (ac.inventory.getD env.quad_damage 0 = 0 →
      -32768 ≤ damage → damage ≤ 32767 →
      G_Damage_multipliers env attacker damage knockback =
        (truncQ (roundDouble ((damage : ℚ) * roundDouble (h / 100))), knockback) ∧
      |(G_Damage_multipliers env attacker damage knockback).1 -
        truncQ ((damage : ℚ) * h / 100)| ≤ 1 ∧
      (∀ n : Int, h = (n : ℚ) → ¬ (100 : Int) ∣ damage * n →
        (G_Damage_multipliers env attacker damage knockback).1 =
          truncQ ((damage : ℚ) * h / 100))) := by
  constructor
  · intro hquad hd0 hd1 hk0 hk1
    have a : (-13107 : ℚ) ≤ damage := by exact_mod_cast hd0
    have b : (damage : ℚ) ≤ 13107 := by exact_mod_cast hd1
    obtain ⟨r0, r1⟩ := truncQ_abs_lt (x := (damage : ℚ) * (5 / 2)) (n := 32767)
      (by push_cast; linarith) (by push_cast; linarith)
    have e1 : toInt16 ((damage : ℚ) * QUAD_DAMAGE_FACTOR) = truncQ ((damage : ℚ) * (5 / 2)) :=
      wrap16_eq_self (by unfold QUAD_DAMAGE_FACTOR; omega) (by unfold QUAD_DAMAGE_FACTOR; omega)
    have e2 : toInt16 ((knockback : ℚ) * QUAD_KNOCKBACK_FACTOR) = 2 * knockback := by
      have : (knockback : ℚ) * QUAD_KNOCKBACK_FACTOR = ((2 * knockback : Int) : ℚ) := by
        unfold QUAD_KNOCKBACK_FACTOR
        push_cast
        ring
      unfold toInt16
      rw [this, truncQ_intCast]
      exact wrap16_eq_self (by omega) (by omega)
    have hm : G_Damage_multipliers env attacker damage knockback =
        (truncQ (roundDouble ((truncQ ((damage : ℚ) * (5 / 2)) : ℚ) * roundDouble (h / 100))),
          2 * knockback) := by
      unfold G_Damage_multipliers
      simp only [hac, if_pos hquad, e1, e2, hh]
      rw [handicap_scale_range (by omega) (by omega) h0 h1]
    obtain ⟨s1, s2⟩ := handicap_scale_spec (x := truncQ ((damage : ℚ) * (5 / 2)))
      (by omega) (by omega) h0 h1
    rw [hm]
    exact ⟨rfl, s1, s2⟩
  · intro hquad hd0 hd1
    have hm : G_Damage_multipliers env attacker damage knockback =
        (truncQ (roundDouble ((damage : ℚ) * roundDouble (h / 100))), knockback) := by
      unfold G_Damage_multipliers
      simp only [hac, hquad, ne_eq, not_true_eq_false, if_false, hh]
      rw [handicap_scale_range hd0 hd1 h0 h1]
    obtain ⟨s1, s2⟩ := handicap_scale_spec (x := damage) hd0 hd1 h0 h1
    rw [hm]
    exact ⟨rfl, s1, s2⟩

/-- Witness for C5 (amended): handicap 29 without quad damage on damage 10 and
knockback 10 gives `trunc (fl (10 * fl 0.29)) = trunc 2.9 = 2` and 10. -/
theorem G_Damage_multipliers_rounded_witness :
    G_Damage_multipliers env0 handicapAttacker 10 10 =
      (truncQ (roundDouble (((10 : Int) : ℚ) * roundDouble (29 / 100))), 10) ∧
    |(G_Damage_multipliers env0 handicapAttacker 10 10).1 -
      truncQ (((10 : Int) : ℚ) * 29 / 100)| ≤ 1 ∧
    (G_Damage_multipliers env0 handicapAttacker 10 10).1 =
      truncQ (((10 : Int) : ℚ) * 29 / 100) :=
  have t := (G_Damage_multipliers_rounded env0 handicapAttacker
    { inventory := [0, 0], persistent := { handicap := 29 } } 10 10 29 rfl rfl
    (by norm_num) (by norm_num)).2 (by decide) (by decide) (by decide)
  ⟨t.1, t.2.1, t.2.2 29 (by norm_num) (by decide)⟩

/-! ## God mode and `DMG_NO_GOD` -/

/-- C6 (the code at the failing input): a client in god mode with 100 health and
50 units of jacket armor is hit with 60 damage carrying `DMG_NO_GOD`.  The
armor still absorbs 18: `damage_armor = 18`, `damage_health = 42`, the health
drops to 58 and the armor charge to 32, where the claim requires
`damage_armor = 0`, `damage_health = 60`, health 40 and armor charge 50. -/
theorem G_Damage_no_god_armor_absorbs :
    damageArmor env0 w_god 1 0 godClient {} none none 60 0 DMG_NO_GOD 0 = 18 ∧
    damageHealth env0 w_god 1 0 godClient {} none none 60 0 DMG_NO_GOD 0 = 42 ∧
    (G_Damage env0 w_god (some 1) none none none none none 60 0 DMG_NO_GOD
      0).1.entities[1]?.map (·.health) = some 58 ∧
    (G_Damage env0 w_god (some 1) none none none none none 60 0 DMG_NO_GOD
      0).1.entities[1]?.bind (fun e => e.client.map fun c => c.inventory.getD 1 0) =
        some 32 := by
  decide!

/-! ## Friendly fire -/

/-- C7: teams or CTF is on, the target is not the attacker, `G_OnSameTeam` holds
and the means of death is not `MOD_TELEFRAG` (the armor charge of the target
being a valid non-negative `int16_t`).  If `g_friendly_fire` is 0 the call
inflicts exactly zero damage: the health and the inventory of the target are
unchanged and `Die` is not invoked.  If `g_friendly_fire` is non-zero the damage
is the quad and handicap scaled damage, the same that a target which is not a
teammate receives, and the means of death, also the one handed to `Die`,
carries the `MOD_FRIENDLY_FIRE` bit. -/
theorem G_Damage_friendly_fire (env : Env) (w : World) (t : Nat) (targ att : g_entity_t)
    (inflictor attacker : Option Nat) (dir pos normal : Option Vec3)
    (damage knockback : Int) (dflags mod : Nat)
    (ht : w.entities[t]? = some targ) (ha : w.entities[attacker.getD 0]? = some att)
    (hne : t ≠ attacker.getD 0)
    (hteams : w.level.teams = true ∨ w.level.ctf = true)
    (hsame : G_OnSameTeam w.level targ att = true) (hmod : mod ≠ MOD_TELEFRAG)
    (hq0 : 0 ≤ armorCharge env targ) (hq1 : armorCharge env targ ≤ 32767) :
    (w.g_friendly_fire = 0 →
      (G_Damage env w (some t) inflictor attacker dir pos normal damage knockback dflags
        mod).1.entities[t]?.map (·.health) = some targ.health ∧
      (G_Damage env w (some t) inflictor attacker dir pos normal damage knockback dflags
        mod).1.entities[t]?.map (fun e => e.client.map (·.inventory)) =
          some (targ.client.map (·.inventory)) ∧
      dieCalls (G_Damage env w (some t) inflictor attacker dir pos normal damage knockback
        dflags mod).2 = 0) ∧
    (w.g_friendly_fire ≠ 0 →
      (G_Damage_rules env w t (attacker.getD 0) targ att damage knockback mod).damage =
        (G_Damage_multipliers env att damage knockback).1 ∧
      (∀ other : g_entity_t, G_OnSameTeam w.level other att = false →
        (G_Damage_rules env w t (attacker.getD 0) other att damage knockback mod).damage =
          (G_Damage_rules env w t (attacker.getD 0) targ att damage knockback mod).damage) ∧
      (G_Damage_rules env w t (attacker.getD 0) targ att damage knockback mod).mod
        &&& MOD_FRIENDLY_FIRE = MOD_FRIENDLY_FIRE ∧
      ∀ s x m, Event.DieCall s x m ∈ (G_Damage env w (some t) inflictor attacker dir pos
        normal damage knockback dflags mod).2 → m &&& MOD_FRIENDLY_FIRE = MOD_FRIENDLY_FIRE) := by
  obtain ⟨hoff, hon⟩ := G_Damage_rules_teammate env w t (attacker.getD 0) targ att damage
    knockback mod hne hteams hsame hmod
  rcases G_Damage_eq_noop_or_apply env w (some t) inflictor attacker dir pos normal damage
    knockback dflags mod with hnoop | ⟨t', targ', att', ht', htarg', _, _, hatt', happ⟩
  · rw [hnoop]
    constructor
    · intro _
      simp [ht, dieCalls]
    · intro hff
      refine ⟨(hon hff).1, ?_, ?_, ?_⟩
      · intro other ho
        rw [(G_Damage_rules_not_teammate env w t _ other att damage knockback mod hne ho).1,
          (hon hff).1]
      · rw [(hon hff).2]
        exact or_friendly_fire_bit mod
      · intro s x m hm
        simp at hm
  · cases ht'
    rw [ht] at htarg'
    cases htarg'
    rw [ha] at hatt'
    cases hatt'
    rw [happ]
    constructor
    · intro hff
      obtain ⟨hd, _⟩ := hoff hff
      have hz := G_Damage_absorb_zero env targ (pos.getD targ.origin)
        (normal.getD vec3_origin) dflags hq0
      have hzt := G_Damage_absorb_zero_target env targ (pos.getD targ.origin)
        (normal.getD vec3_origin) dflags hq0 hq1
      have hdh : damageHealth env w t (attacker.getD 0) targ att pos normal damage knockback
          dflags mod = 0 := by
        unfold damageHealth
        rw [hd]
        exact hz.2
      have hnf : ¬ isFatal targ 0 := fun h => h.1 rfl
      rw [G_Damage_apply_target env w t _ targ att dir pos normal damage knockback dflags mod ht]
      refine ⟨?_, ?_, ?_⟩
      · rw [Option.map_some', targetAfter_health, hd, hz.2]
        simp
      · rw [Option.map_some', targetAfter_inventory, hd, hzt]
      · rw [G_Damage_apply_dieCalls, hdh, if_neg (fun h => hnf h.1)]
    · intro hff
      refine ⟨(hon hff).1, ?_, ?_, ?_⟩
      · intro other ho
        rw [(G_Damage_rules_not_teammate env w t _ other att damage knockback mod hne ho).1,
          (hon hff).1]
      · rw [(hon hff).2]
        exact or_friendly_fire_bit mod
      · intro s x m hm
        obtain ⟨_, he⟩ := G_Damage_apply_die_mem env w t _ targ att dir pos normal damage
          knockback dflags mod _ hm (Or.inl ⟨s, x, m, rfl⟩)
        by_cases hD : targ.Die = true
        · rw [if_pos hD] at he
          cases he
          rw [(hon hff).2]
          exact or_friendly_fire_bit mod
        · rw [if_neg hD] at he
          cases he

/-- Witness for C7: in the team game, entity 2 attacks its teammate entity 1 with
60 damage, first with friendly fire off, then with friendly fire on. -/
theorem G_Damage_friendly_fire_witness :
    ((G_Damage env0 w_team (some 1) none (some 2) none none none 60 0 0 0).1.entities[1]?.map
        (·.health) = some (teamMate 1).health ∧
      (G_Damage env0 w_team (some 1) none (some 2) none none none 60 0 0 0).1.entities[1]?.map
        (fun e => e.client.map (·.inventory)) = some ((teamMate 1).client.map (·.inventory)) ∧
      dieCalls (G_Damage env0 w_team (some 1) none (some 2) none none none 60 0 0 0).2 = 0) ∧
    (G_Damage_rules env0 w_team_ff 1 2 (teamMate 1) (teamMate 1) 60 0 0).damage =
      (G_Damage_multipliers env0 (teamMate 1) 60 0).1 :=
  ⟨(G_Damage_friendly_fire env0 w_team 1 (teamMate 1) (teamMate 1) none (some 2) none none
      none 60 0 0 0 rfl rfl (by decide) (by decide) (by decide) (by decide) (by decide)
      (by decide)).1 rfl,
    ((G_Damage_friendly_fire env0 w_team_ff 1 (teamMate 1) (teamMate 1) none (some 2) none none
      none 60 0 0 0 rfl rfl (by decide) (by decide) (by decide) (by decide) (by decide)
      (by decide)).2 (by decide)).1⟩

/-! ## Death -/

/-- C8: when `G_Damage` takes a live target (`health > 0`, whatever its `dead`
flag) to a health at or below zero, it sets `dead = true`, invokes `Die` exactly once, with
the attacker and the means of death, if one is registered, and only logs if
none is; it invokes no `Pain` and changes no per-frame damage counter of any
client. -/
theorem G_Damage_death (env : Env) (w : World) (t : Nat) (targ att targ' : g_entity_t)
    (inflictor attacker : Option Nat) (dir pos normal : Option Vec3)
    (damage knockback : Int) (dflags mod : Nat)
    (ht : w.entities[t]? = some targ) (ha : w.entities[attacker.getD 0]? = some att)
    (hpos : 0 < targ.health)
    (ht' : (G_Damage env w (some t) inflictor attacker dir pos normal damage knockback dflags
      mod).1.entities[t]? = some targ')
    (hle : targ'.health ≤ 0) :
    targ'.dead = true ∧
    dieCalls (G_Damage env w (some t) inflictor attacker dir pos normal damage knockback dflags
      mod).2 = (if targ.Die then 1 else 0) ∧
    (targ.Die = true → Event.DieCall t (attacker.getD 0)
        (G_Damage_rules env w t (attacker.getD 0) targ att damage knockback mod).mod ∈
      (G_Damage env w (some t) inflictor attacker dir pos normal damage knockback dflags
        mod).2) ∧
    (targ.Die = false → Event.DebugNoDie t ∈
      (G_Damage env w (some t) inflictor attacker dir pos normal damage knockback dflags
        mod).2) ∧
    painCalls (G_Damage env w (some t) inflictor attacker dir pos normal damage knockback
      dflags mod).2 = 0 ∧
    ∀ i : Nat, (G_Damage env w (some t) inflictor attacker dir pos normal damage knockback
      dflags mod).1.entities[i]?.map damageCounters = w.entities[i]?.map damageCounters := by
  have hlt : t < w.entities.length := by
    rcases Nat.lt_or_ge t w.entities.length with h | h
    · exact h
    · rw [List.getElem?_eq_none h] at ht
      cases ht
  rcases G_Damage_eq_noop_or_apply env w (some t) inflictor attacker dir pos normal damage
    knockback dflags mod with hnoop | ⟨t', targ1, att1, ht1, htarg1, _, _, hatt1, happ⟩
  · rw [hnoop, ht] at ht'
    cases ht'
    omega
  · cases ht1
    rw [ht] at htarg1
    cases htarg1
    rw [ha] at hatt1
    cases hatt1
    rw [happ] at ht' ⊢
    rw [G_Damage_apply_target env w t _ targ att dir pos normal damage knockback dflags mod ht]
      at ht'
    cases ht'
    have hf : isFatal targ (damageHealth env w t (attacker.getD 0) targ att pos normal damage
        knockback dflags mod) := by
      rw [targetAfter_health] at hle
      unfold isFatal damageHealth
      by_cases h1 : (G_Damage_absorb env targ (pos.getD targ.origin) (normal.getD vec3_origin)
          (G_Damage_rules env w t (attacker.getD 0) targ att damage knockback mod).damage
          dflags).damage_health ≠ 0 ∧ (targ.health ≠ 0 ∨ targ.dead = true)
      · rw [if_pos h1] at hle
        exact ⟨h1.1, h1.2, hle⟩
      · rw [if_neg h1] at hle
        omega
    refine ⟨?_, ?_, ?_, ?_, ?_, ?_⟩
    · rw [targetAfter_dead]
      have : isFatal targ (G_Damage_absorb env targ (pos.getD targ.origin)
          (normal.getD vec3_origin)
          (G_Damage_rules env w t (attacker.getD 0) targ att damage knockback mod).damage
          dflags).damage_health := hf
      simp [this]
    · rw [G_Damage_apply_dieCalls]
      by_cases hD : targ.Die = true
      · rw [if_pos ⟨hf, hD⟩, if_pos hD]
      · rw [if_neg (fun h => hD h.2), if_neg hD]
    · intro hD
      have := G_Damage_apply_fatal_mem env w t (attacker.getD 0) targ att dir pos normal damage
        knockback dflags mod hf
      rwa [if_pos hD] at this
    · intro hD
      have := G_Damage_apply_fatal_mem env w t (attacker.getD 0) targ att dir pos normal damage
        knockback dflags mod hf
      rwa [if_neg (by simp [hD])] at this
    · rw [G_Damage_apply_painCalls, if_pos hf]
    · intro i
      rw [G_Damage_apply_fatal_world env w t _ targ att dir pos normal damage knockback dflags
        mod hf]
      by_cases hi : t = i
      · subst hi
        rw [setEntity_getElem?_self w t _ hlt, ht, Option.map_some', Option.map_some',
          targetAfter_fatal_counters _ _ _ _ _ _ _ _ _ hf]
      · rw [setEntity_getElem?_ne w _ hi]

/-- Witness for C8: the crate (20 health, no `Die` callback) is hit with 25
damage by the client, with means of death 7; the damage counters of the
attacking client (entity 1) stay as they were. -/
theorem G_Damage_death_witness :
    crateDestroyed.dead = true ∧
    dieCalls (G_Damage env0 w_crate (some 2) none (some 1) none none none 25 0 0 7).2 =
      (if crate.Die then 1 else 0) ∧
    (crate.Die = false → Event.DebugNoDie 2 ∈
      (G_Damage env0 w_crate (some 2) none (some 1) none none none 25 0 0 7).2) ∧
    painCalls (G_Damage env0 w_crate (some 2) none (some 1) none none none 25 0 0 7).2 = 0 ∧
    (G_Damage env0 w_crate (some 2) none (some 1) none none none 25 0 0
      7).1.entities[1]?.map damageCounters = w_crate.entities[1]?.map damageCounters :=
  (fun h => ⟨h.1, h.2.1, h.2.2.2.1, h.2.2.2.2.1, h.2.2.2.2.2 1⟩)
    (G_Damage_death env0 w_crate 2 crate client0 crateDestroyed none (some 1) none none none
      25 0 0 7 rfl rfl (by decide) (by decide!) (by decide))

/-! ## Targets that are already dead -/

/-- Counterexample to C9 as stated: the corpse (dead, health -10, `Die`
registered) is hit with 20 damage; the health goes to -30 and `Die` is invoked
again. -/
theorem G_Damage_dead_target_counterexample :
    corpse.dead = true ∧
    dieCalls (G_Damage env0 w_corpse (some 1) none none none none none 20 0 0 0).2 = 1 ∧
    (G_Damage env0 w_corpse (some 1) none none none none none 20 0 0 0).1.entities[1]?.map
      (·.health) = some (-30) := by
  decide!

/-- C9 (amended): for a target that is already dead when `G_Damage` is called,
`Pain` is never invoked, for every damage, knockback and flag value; `Die` is
invoked at most once, and it is invoked again exactly when the call passes the
guards, a `Die` callback is registered, the health damage is non-zero and the
health after subtracting it is at or below zero. -/
theorem G_Damage_dead_target (env : Env) (w : World) (t : Nat) (targ : g_entity_t)
    (inflictor attacker : Option Nat) (dir pos normal : Option Vec3)
    (damage knockback : Int) (dflags mod : Nat)
    (ht : w.entities[t]? = some targ) (hdead : targ.dead = true) :
    painCalls (G_Damage env w (some t) inflictor attacker dir pos normal damage knockback
      dflags mod).2 = 0 ∧
    dieCalls (G_Damage env w (some t) inflictor attacker dir pos normal damage knockback
      dflags mod).2 ≤ 1 ∧
    ∀ att, w.entities[attacker.getD 0]? = some att → targ.take_damage = true →
      respawnProtected w.level targ = false →
      (dieCalls (G_Damage env w (some t) inflictor attacker dir pos normal damage knockback
          dflags mod).2 = 1 ↔
        targ.Die = true ∧
        damageHealth env w t (attacker.getD 0) targ att pos normal damage knockback dflags
          mod ≠ 0 ∧
        wrap16 (targ.health - damageHealth env w t (attacker.getD 0) targ att pos normal damage
          knockback dflags mod) ≤ 0) := by
  refine ⟨?_, ?_, ?_⟩
  · rcases G_Damage_eq_noop_or_apply env w (some t) inflictor attacker dir pos normal damage
      knockback dflags mod with hnoop | ⟨t', targ1, att1, ht1, htarg1, _, _, _, happ⟩
    · rw [hnoop]
      rfl
    · cases ht1
      rw [ht] at htarg1
      cases htarg1
      rw [happ, G_Damage_apply_painCalls]
      split_ifs with h1 h2
      · rfl
      · rw [hdead] at h2
        exact absurd h2.1 (by simp)
      · rfl
  · rcases G_Damage_eq_noop_or_apply env w (some t) inflictor attacker dir pos normal damage
      knockback dflags mod with hnoop | ⟨t', targ1, att1, ht1, htarg1, _, _, _, happ⟩
    · rw [hnoop]
      simp [dieCalls]
    · rw [happ, G_Damage_apply_dieCalls]
      split_ifs <;> omega
  · intro att ha htd hrp
    rw [G_Damage_eq_apply env w t targ att inflictor attacker dir pos normal damage knockback
      dflags mod ht htd hrp ha, G_Damage_apply_dieCalls]
    constructor
    · intro h
      by_cases hc : isFatal targ (damageHealth env w t (attacker.getD 0) targ att pos normal
          damage knockback dflags mod) ∧ targ.Die = true
      · exact ⟨hc.2, hc.1.1, hc.1.2.2⟩
      · rw [if_neg hc] at h
        omega
    · rintro ⟨hD, h1, h2⟩
      rw [if_pos ⟨⟨h1, Or.inr hdead, h2⟩, hD⟩]

/-- Witness for C9 (amended): the corpse hit with 20 damage and 5 knockback by
the world entity. -/
theorem G_Damage_dead_target_witness :
    painCalls (G_Damage env0 w_corpse (some 1) none none none none none 20 5 0 0).2 = 0 ∧
    dieCalls (G_Damage env0 w_corpse (some 1) none none none none none 20 5 0 0).2 ≤ 1 ∧
    (dieCalls (G_Damage env0 w_corpse (some 1) none none none none none 20 5 0 0).2 = 1 ↔
      corpse.Die = true ∧
      damageHealth env0 w_corpse 1 ((none : Option Nat).getD 0) corpse {} none none 20 5 0
        0 ≠ 0 ∧
      wrap16 (corpse.health - damageHealth env0 w_corpse 1 ((none : Option Nat).getD 0) corpse
        {} none none 20 5 0 0) ≤ 0) :=
  (fun h => ⟨h.1, h.2.1, h.2.2 {} rfl rfl rfl⟩)
    (G_Damage_dead_target env0 w_corpse 1 corpse none none none none none 20 5 0 0 rfl rfl)

/-! ## The pain callback -/

/-- Counterexample to C10 as stated: the client in god mode (not dead, `Pain`
registered) is hit with damage 10 and knockback 0.  The call passes the guards,
the post-multiplier damage is 10, the target does not die, and `Pain` is not
invoked. -/
theorem G_Damage_pain_counterexample :
    (G_Damage_rules env0 w_god 1 0 godClient {} 10 0 0).damage = 10 ∧
    godClient.take_damage = true ∧ respawnProtected w_god.level godClient = false ∧
    godClient.Pain = true ∧ godClient.dead = false ∧
    (G_Damage env0 w_god (some 1) none none none none none 10 0 0 0).1.entities[1]?.map
      (·.dead) = some false ∧
    painCalls (G_Damage env0 w_god (some 1) none none none none none 10 0 0 0).2 = 0 := by
  decide!

/-- C10 (amended): for a call that passes the initial guards on a target that
was not dead and does not die from it, the `Pain` callback is invoked exactly
once if one is registered and the health damage (the post-multiplier damage
less what god mode or armor absorbed) or the knockback is non-zero, and is not
invoked otherwise. -/
theorem G_Damage_pain (env : Env) (w : World) (t : Nat) (targ att targ' : g_entity_t)
    (inflictor attacker : Option Nat) (dir pos normal : Option Vec3)
    (damage knockback : Int) (dflags mod : Nat)
    (ht : w.entities[t]? = some targ) (htd : targ.take_damage = true)
    (hrp : respawnProtected w.level targ = false)
    (ha : w.entities[attacker.getD 0]? = some att)
    (hlive : targ.dead = false)
    (ht' : (G_Damage env w (some t) inflictor attacker dir pos normal damage knockback dflags
      mod).1.entities[t]? = some targ')
    (hsurv : targ'.dead = false) :
    painCalls (G_Damage env w (some t) inflictor attacker dir pos normal damage knockback
      dflags mod).2 =
      if (damageHealth env w t (attacker.getD 0) targ att pos normal damage knockback dflags
            mod ≠ 0 ∨
          (G_Damage_rules env w t (attacker.getD 0) targ att damage knockback mod).knockback
            ≠ 0) ∧ targ.Pain = true then 1 else 0 := by
  rw [G_Damage_eq_apply env w t targ att inflictor attacker dir pos normal damage knockback
    dflags mod ht htd hrp ha] at ht' ⊢
  rw [G_Damage_apply_target env w t _ targ att dir pos normal damage knockback dflags mod ht]
    at ht'
  cases ht'
  rw [targetAfter_dead, hlive] at hsurv
  have hnf : ¬ isFatal targ (damageHealth env w t (attacker.getD 0) targ att pos normal damage
      knockback dflags mod) := by
    intro h
    have h' : isFatal targ (G_Damage_absorb env targ (pos.getD targ.origin)
        (normal.getD vec3_origin)
        (G_Damage_rules env w t (attacker.getD 0) targ att damage knockback mod).damage
        dflags).damage_health := h
    simp [h'] at hsurv
  rw [G_Damage_apply_painCalls, if_neg hnf]
  simp only [hlive, true_and]

/-- Witness for C10 (amended): the client of `w0` is hit with 60 damage, of which
42 reach its health; `Pain` is invoked once. -/
theorem G_Damage_pain_witness :
    painCalls (G_Damage env0 w0 (some 1) none none none none none 60 0 0 0).2 =
      if (damageHealth env0 w0 1 ((none : Option Nat).getD 0) client0 {} none none 60 0 0 0 ≠ 0 ∨
          (G_Damage_rules env0 w0 1 ((none : Option Nat).getD 0) client0 {} 60 0 0).knockback
            ≠ 0) ∧ client0.Pain = true then 1 else 0 :=
  G_Damage_pain env0 w0 1 client0 {} client0After none none none none none 60 0 0 0
    rfl rfl rfl rfl rfl (by decide!) rfl

/-! ## `G_CanDamage` -/

theorem G_CanDamage_scan_iff (geo : Geometry) (start : Vec3) (skip : Nat) (pts : List Vec3) :
    (G_CanDamage_scan geo start skip pts).1 = true ↔
      ∃ dest ∈ pts, (geo.Trace start dest skip).fraction = 1 := by
  induction pts with
  | nil => simp [G_CanDamage_scan]
  | cons dest rest ih =>
    unfold G_CanDamage_scan
    by_cases h : (geo.Trace start dest skip).fraction = 1
    · rw [if_pos h]
      simp [h]
    · rw [if_neg h]
      simp only [ih, List.mem_cons, exists_eq_or_imp, h, false_or]

/-- Counterexample to C13 as stated: the client of `w0` is not `SOLID_BSP`; each
of the five traces from the world origin is stopped half way and ends on the
client itself (entity 1), yet `G_CanDamage` answers false. -/
theorem G_CanDamage_counterexample :
    client0.solid ≠ (geoHit 1).SOLID_BSP ∧
    (∀ dest ∈ G_CanDamage_points client0,
      ((geoHit 1).Trace ({} : g_entity_t).origin dest 0).ent = some 1) ∧
    (G_CanDamage (geoHit 1) 1 client0 0 {}).1 = false := by
  refine ⟨by decide, ?_, by decide!⟩
  intro dest _
  rfl

/-- C13 (amended): for a target whose solid type is not `SOLID_BSP`,
`G_CanDamage` answers true if and only if at least one of the five traces from
the origin of the inflictor (to the origin of the target and to the four points
offset by 15 units either way on the x and y axes) is unobstructed
(`fraction = 1`); a trace that ends on the target does not count.  For a
`SOLID_BSP` target exactly one trace is made, to the midpoint of `abs_mins` and
`abs_maxs`, and the answer is true if and only if that trace is unobstructed or
ends on the target itself. -/
theorem G_CanDamage_iff (geo : Geometry) (t : Nat) (targ : g_entity_t) (i : Nat)
    (inflictor : g_entity_t) :
    (targ.solid ≠ geo.SOLID_BSP →
      ((G_CanDamage geo t targ i inflictor).1 = true ↔
        ∃ dest ∈ G_CanDamage_points targ,
          (geo.Trace inflictor.origin dest i).fraction = 1)) ∧
    (targ.solid = geo.SOLID_BSP →
      (G_CanDamage geo t targ i inflictor).2 = [G_CanDamage_center targ] ∧
      ((G_CanDamage geo t targ i inflictor).1 = true ↔
        (geo.Trace inflictor.origin (G_CanDamage_center targ) i).fraction = 1 ∨
        (geo.Trace inflictor.origin (G_CanDamage_center targ) i).ent = some t)) := by
  constructor
  · intro h
    unfold G_CanDamage
    rw [if_neg h]
    exact G_CanDamage_scan_iff geo inflictor.origin i (G_CanDamage_points targ)
  · intro h
    unfold G_CanDamage
    rw [if_pos h]
    by_cases h1 : (geo.Trace inflictor.origin (G_CanDamage_center targ) i).fraction = 1
    · simp [h1]
    · by_cases h2 : (geo.Trace inflictor.origin (G_CanDamage_center targ) i).ent = some t
      · simp [h1, h2]
      · simp [h1, h2]

/-- Witness for C13 (amended): the client of `w0` without obstacles, and the
brush model (entity 2) whose only trace ends on the brush model itself. -/
theorem G_CanDamage_iff_witness :
    ((G_CanDamage geoClear 1 client0 0 {}).1 = true ↔
      ∃ dest ∈ G_CanDamage_points client0,
        (geoClear.Trace ({} : g_entity_t).origin dest 0).fraction = 1) ∧
    ((G_CanDamage (geoHit 2) 2 brushModel 0 {}).2 = [G_CanDamage_center brushModel] ∧
      ((G_CanDamage (geoHit 2) 2 brushModel 0 {}).1 = true ↔
        ((geoHit 2).Trace ({} : g_entity_t).origin (G_CanDamage_center brushModel) 0).fraction
          = 1 ∨
        ((geoHit 2).Trace ({} : g_entity_t).origin (G_CanDamage_center brushModel) 0).ent
          = some 2)) :=
  ⟨(G_CanDamage_iff geoClear 1 client0 0 {}).1 (by decide),
    (G_CanDamage_iff (geoHit 2) 2 brushModel 0 {}).2 (by decide)⟩

/-! ## `G_Damage` leaves the placement of every entity alone -/

theorem setEntity_map_placement (w : World) (i : Nat) (e : g_entity_t)
    (hp : ∀ old, w.entities[i]? = some old → placement e = placement old) :
    (w.setEntity i e).entities.map placement = w.entities.map placement := by
  apply List.ext_getElem?
  intro j
  simp only [World.setEntity, List.getElem?_map, List.getElem?_set]
  by_cases hij : i = j
  · subst hij
    by_cases hlt : i < w.entities.length
    · simp only [hlt, if_true, and_self]
      rw [List.getElem?_eq_getElem hlt]
      simp only [Option.map_some', Option.some.injEq]
      exact hp _ (List.getElem?_eq_getElem hlt)
    · simp [hlt, List.getElem?_eq_none (Nat.le_of_not_lt hlt)]
  · simp [hij]

theorem G_Damage_knockback_placement (env : Env) (e : g_entity_t) (self : Bool) (dir : Vec3)
    (k : Int) : placement (G_Damage_knockback env e self dir k) = placement e := by
  unfold G_Damage_knockback
  by_cases h : k ≠ 0 ∧ e.move_type ≥ MOVE_TYPE_WALK
  · rw [if_pos h]
    rfl
  · rw [if_neg h]

theorem G_Damage_absorb_placement (env : Env) (e : g_entity_t) (pos normal : Vec3)
    (damage : Int) (dflags : Nat) :
    placement (G_Damage_absorb env e pos normal damage dflags).target = placement e := by
  rcases G_Damage_absorb_target_cases env e pos normal damage dflags with h | ⟨c, ar, sv, _, h⟩
  · rw [h]
  · rw [h]
    rfl

theorem G_Damage_feedback_placement (w : World) (t a : Nat) (target : g_entity_t)
    (was_dead : Bool) (dir : Vec3) (da dh k : Int)
    (hp : ∀ old, w.entities[t]? = some old → placement target = placement old) :
    (G_Damage_feedback w t a target was_dead dir da dh k).1.entities.map placement =
      w.entities.map placement := by
  unfold G_Damage_feedback
  cases was_dead with
  | true => exact setEntity_map_placement w t target hp
  | false =>
    simp only [Bool.false_eq_true, if_false]
    cases hc : target.client with
    | none => exact setEntity_map_placement w t target hp
    | some c =>
      simp only
      have h1 : ∀ e' : g_entity_t, placement e' = placement target →
          (w.setEntity t e').entities.map placement = w.entities.map placement := by
        intro e' he'
        exact setEntity_map_placement w t e' (fun old ho => he'.trans (hp old ho))
      by_cases hta : t ≠ a
      · rw [if_pos hta]
        split
        · rename_i att hatt
          split
          · rw [setEntity_map_placement _ a _ (fun old ho => by
              rw [hatt] at ho
              cases ho
              rfl)]
            exact h1 _ rfl
          · exact h1 _ rfl
        · exact h1 _ rfl
      · rw [if_neg hta]
        exact h1 _ rfl

theorem G_Damage_apply_placement (env : Env) (w : World) (t a : Nat) (targ att : g_entity_t)
    (dir pos normal : Option Vec3) (damage knockback : Int) (dflags mod : Nat)
    (ht : w.entities[t]? = some targ) :
    (G_Damage_apply env w t a targ att dir pos normal damage knockback dflags
      mod).1.entities.map placement = w.entities.map placement := by
  have hp : ∀ (e' : g_entity_t), placement e' = placement targ →
      ∀ old, w.entities[t]? = some old → placement e' = placement old := by
    intro e' he' old ho
    rw [ht] at ho
    cases ho
    exact he'
  have h2 := fun (d k : Int) (dir' pos' normal' : Vec3) =>
    (G_Damage_absorb_placement env (G_Damage_knockback env targ (decide (t = a)) dir' k) pos'
      normal' d dflags).trans (G_Damage_knockback_placement env targ (decide (t = a)) dir' k)
  unfold G_Damage_apply
  simp only
  split_ifs
  · exact setEntity_map_placement w t _ (hp _ (h2 _ _ _ _ _))
  · exact setEntity_map_placement w t _ (hp _ (h2 _ _ _ _ _))
  · exact G_Damage_feedback_placement w t a _ _ _ _ _ _ (hp _ (h2 _ _ _ _ _))
  · exact G_Damage_feedback_placement w t a _ _ _ _ _ _ (hp _ (h2 _ _ _ _ _))

/-- The function `G_Damage` changes neither the origin, nor `take_damage`, nor the
solid type, nor the bounds of any entity. -/
theorem G_Damage_placement (env : Env) (w : World) (target inflictor attacker : Option Nat)
    (dir pos normal : Option Vec3) (damage knockback : Int) (dflags mod : Nat) :
    (G_Damage env w target inflictor attacker dir pos normal damage knockback dflags
      mod).1.entities.map placement = w.entities.map placement := by
  rcases G_Damage_eq_noop_or_apply env w target inflictor attacker dir pos normal damage
    knockback dflags mod with hnoop | ⟨t, targ, att, _, ht, _, _, _, happ⟩
  · rw [hnoop]
  · rw [happ]
    exact G_Damage_apply_placement env w t _ targ att dir pos normal damage knockback dflags
      mod ht

/-! ## `G_RadiusDamage` -/

theorem G_CanDamage_congr (geo : Geometry) (t i : Nat) {targ targ' infl infl' : g_entity_t}
    (h1 : placement targ = placement targ') (h2 : placement infl = placement infl') :
    G_CanDamage geo t targ i infl = G_CanDamage geo t targ' i infl' := by
  simp only [placement, Prod.mk.injEq] at h1 h2
  obtain ⟨a1, _, a3, a4, a5⟩ := h1
  obtain ⟨b1, _⟩ := h2
  simp only [G_CanDamage, G_CanDamage_center, G_CanDamage_points, a1, a3, a4, a5, b1]

/-- The decision taken for an entity depends on the placements only. -/
theorem G_RadiusDamage_visit_congr (env : Env) (geo : Geometry) {w w' : World}
    (inflictor : Nat) (attacker ignore : Option Nat) (damage knockback : Int) (mod : Nat)
    (e : Nat) (h : w.entities.map placement = w'.entities.map placement) :
    G_RadiusDamage_visit env geo w inflictor attacker ignore damage knockback mod e =
      G_RadiusDamage_visit env geo w' inflictor attacker ignore damage knockback mod e := by
  have hget : ∀ j : Nat, w.entities[j]?.map placement = w'.entities[j]?.map placement := by
    intro j
    rw [← List.getElem?_map, ← List.getElem?_map, h]
  unfold G_RadiusDamage_visit
  by_cases hi : some e = ignore
  · rw [if_pos hi, if_pos hi]
  · rw [if_neg hi, if_neg hi]
    have he := hget e
    have hin := hget inflictor
    cases h1 : w.entities[e]? with
    | none =>
      rw [h1] at he
      cases h1' : w'.entities[e]? with
      | none => rfl
      | some x => rw [h1'] at he; cases he
    | some ent =>
      rw [h1] at he
      cases h1' : w'.entities[e]? with
      | none => rw [h1'] at he; cases he
      | some ent' =>
        rw [h1'] at he
        simp only [Option.map_some', Option.some.injEq] at he
        cases h2 : w.entities[inflictor]? with
        | none =>
          rw [h2] at hin
          cases h2' : w'.entities[inflictor]? with
          | none => rfl
          | some x => rw [h2'] at hin; cases hin
        | some infl =>
          rw [h2] at hin
          cases h2' : w'.entities[inflictor]? with
          | none => rw [h2'] at hin; cases hin
          | some infl' =>
            rw [h2'] at hin
            simp only [Option.map_some', Option.some.injEq] at hin
            have hc := G_CanDamage_congr geo e inflictor he hin
            simp only [placement, Prod.mk.injEq] at he hin
            obtain ⟨a1, a2, _⟩ := he
            obtain ⟨b1, _⟩ := hin
            simp only [a1, a2, b1, hc]

/-- Every `G_Damage` call of `G_RadiusDamage` is the one decided for an entity of
the radius query on the placements of the initial world. -/
theorem G_RadiusDamage_loop (env : Env) (geo : Geometry) (w : World) (inflictor : Nat)
    (attacker ignore : Option Nat) (damage knockback : Int) (mod : Nat) (found : List Nat)
    (st : RadiusState) (hw : st.world.entities.map placement = w.entities.map placement)
    (hc : ∀ c ∈ st.calls, ∃ e, G_RadiusDamage_visit env geo w inflictor attacker ignore damage
      knockback mod e = some c) :
    ∀ c ∈ (found.foldl
        (G_RadiusDamage_step env geo inflictor attacker ignore damage knockback mod) st).calls,
      ∃ e, G_RadiusDamage_visit env geo w inflictor attacker ignore damage knockback mod e
        = some c := by
  induction found generalizing st with
  | nil => simpa using hc
  | cons e rest ih =>
    rw [List.foldl_cons]
    apply ih
    · unfold G_RadiusDamage_step
      cases hv : G_RadiusDamage_visit env geo st.world inflictor attacker ignore damage
          knockback mod e with
      | none => exact hw
      | some c =>
        simp only
        rw [G_Damage_placement]
        exact hw
    · unfold G_RadiusDamage_step
      cases hv : G_RadiusDamage_visit env geo st.world inflictor attacker ignore damage
          knockback mod e with
      | none => exact hc
      | some c =>
        simp only
        intro c' hc'
        rw [List.mem_append, List.mem_singleton] at hc'
        rcases hc' with h | h
        · exact hc c' h
        · subst h
          exact ⟨e, by rw [← G_RadiusDamage_visit_congr env geo inflictor attacker ignore
            damage knockback mod e hw]; exact hv⟩

/-- What a decision to damage an entity says about it. -/
theorem G_RadiusDamage_visit_some (env : Env) (geo : Geometry) (w : World) (inflictor : Nat)
    (attacker ignore : Option Nat) (damage knockback : Int) (mod : Nat) (e : Nat)
    (c : DamageCall)
    (h : G_RadiusDamage_visit env geo w inflictor attacker ignore damage knockback mod e
      = some c) :
    ∃ ent infl, w.entities[e]? = some ent ∧ w.entities[inflictor]? = some infl ∧
      c.target = e ∧ some e ≠ ignore ∧ ent.take_damage = true ∧
      ¬ ((damage : ℚ) - 1 / 2 * geo.VectorLength (VectorSubtract ent.origin infl.origin) ≤ 0 ∧
        (knockback : ℚ) - 1 / 2 * geo.VectorLength (VectorSubtract ent.origin infl.origin) ≤ 0) ∧
      (G_CanDamage geo e ent inflictor infl).1 = true ∧
      c.damage = toInt16 (((damage : ℚ) -
        1 / 2 * geo.VectorLength (VectorSubtract ent.origin infl.origin)) *
          selfDamageScale attacker mod e) ∧
      c.knockback = toInt16 ((knockback : ℚ) -
        1 / 2 * geo.VectorLength (VectorSubtract ent.origin infl.origin)) ∧
      c.dflags = DMG_RADIUS ∧ c.mod = mod ∧ c.attacker = attacker ∧ c.inflictor = inflictor := by
  unfold G_RadiusDamage_visit at h
  by_cases hi : some e = ignore
  · rw [if_pos hi] at h
    cases h
  · rw [if_neg hi] at h
    cases h1 : w.entities[e]? with
    | none => rw [h1] at h; cases h
    | some ent =>
      cases h2 : w.entities[inflictor]? with
      | none => rw [h1, h2] at h; cases h
      | some infl =>
        rw [h1, h2] at h
        simp only at h
        by_cases htd : ent.take_damage = true
        · simp only [htd, Bool.not_true, Bool.false_eq_true, if_false] at h
          by_cases hfar : (damage : ℚ) - 1 / 2 * geo.VectorLength
              (VectorSubtract ent.origin infl.origin) ≤ 0 ∧ (knockback : ℚ) - 1 / 2 *
              geo.VectorLength (VectorSubtract ent.origin infl.origin) ≤ 0
          · rw [if_pos hfar] at h
            cases h
          · rw [if_neg hfar] at h
            by_cases hcan : (G_CanDamage geo e ent inflictor infl).1 = true
            · simp only [hcan, Bool.not_true, Bool.false_eq_true, if_false,
                Option.some.injEq] at h
              subst h
              refine ⟨ent, infl, rfl, rfl, rfl, hi, htd, hfar, hcan, ?_, rfl, rfl, rfl, rfl, rfl⟩
              simp only [selfDamageScale]
              split_ifs <;> simp
            · simp [hcan] at h
        · simp [htd] at h

/-- C11: `G_RadiusDamage` never calls `G_Damage` on an entity whose distance from
the origin of the inflictor is at least `max(damage, knockback) / 0.5`: every
entity it passes to `G_Damage` is strictly nearer, for every damage, knockback,
radius and every sequence of entities returned by the radius query. -/
theorem G_RadiusDamage_range (env : Env) (geo : Geometry) (w : World) (inflictor : Nat)
    (attacker ignore : Option Nat) (damage knockback : Int) (radius : ℚ) (mod : Nat)
    (found : List Nat) (c : DamageCall)
    (hc : c ∈ (G_RadiusDamage env geo w inflictor attacker ignore damage knockback radius mod
      found).calls)
    (ent infl : g_entity_t) (hent : w.entities[c.target]? = some ent)
    (hinfl : w.entities[inflictor]? = some infl) :
    geo.VectorLength (VectorSubtract ent.origin infl.origin) <
      max (damage : ℚ) (knockback : ℚ) / (1 / 2) := by
  obtain ⟨e, he⟩ := G_RadiusDamage_loop env geo w inflictor attacker ignore damage knockback
    mod found { world := w } rfl (by simp) c hc
  obtain ⟨ent', infl', h1, h2, h3, _, _, hfar, _⟩ := G_RadiusDamage_visit_some env geo w
    inflictor attacker ignore damage knockback mod e c he
  subst h3
  rw [hent] at h1
  rw [hinfl] at h2
  cases h1
  cases h2
  have hmax1 : (damage : ℚ) ≤ max (damage : ℚ) (knockback : ℚ) := le_max_left _ _
  have hmax2 : (knockback : ℚ) ≤ max (damage : ℚ) (knockback : ℚ) := le_max_right _ _
  rw [div_eq_mul_inv]
  norm_num
  by_contra hge
  apply hfar
  constructor <;> linarith

/-- Witness for C11: a blast of damage 120 and knockback 120 at the origin of
`w_blast`; the only call is on the client, 40 units away (the crate is 300 units
away), and 40 is below 120 / 0.5. -/
theorem G_RadiusDamage_range_witness :
    (G_RadiusDamage env0 geoClear w_blast 0 none none 120 120 500 0 [1, 2]).calls
      = [blastCall] ∧
    geoClear.VectorLength (VectorSubtract (⟨40, 0, 0⟩ : Vec3) ({} : g_entity_t).origin) <
      max ((120 : Int) : ℚ) ((120 : Int) : ℚ) / (1 / 2) :=
  ⟨by decide!,
    G_RadiusDamage_range env0 geoClear w_blast 0 none none 120 120 500 0 [1, 2] blastCall
      (by decide!) { client0 with origin := ⟨40, 0, 0⟩ } {} rfl rfl⟩

/-- C12: every entity that `G_RadiusDamage` passes to `G_Damage`, at distance
`dist` from the inflictor, gets the damage argument `s * (damage - 0.5 * dist)`
converted to `int16_t`, with `s` a quarter for the attacker under
`MOD_BFG_BLAST`, a half for the attacker otherwise and one for any other entity,
and the knockback argument `knockback - 0.5 * dist` converted to `int16_t`,
never scaled; the flags are exactly `DMG_RADIUS`; the entity is not the ignored
one, can take damage and passes `G_CanDamage`.  For non-negative `int16_t`
damage and knockback the conversions are truncations toward zero. -/
theorem G_RadiusDamage_arguments (env : Env) (geo : Geometry) (w : World) (inflictor : Nat)
    (attacker ignore : Option Nat) (damage knockback : Int) (radius : ℚ) (mod : Nat)
    (found : List Nat) (c : DamageCall)
    (hc : c ∈ (G_RadiusDamage env geo w inflictor attacker ignore damage knockback radius mod
      found).calls) :
    ∃ ent infl, w.entities[c.target]? = some ent ∧ w.entities[inflictor]? = some infl ∧
      c.damage = toInt16 (((damage : ℚ) -
        1 / 2 * geo.VectorLength (VectorSubtract ent.origin infl.origin)) *
          selfDamageScale attacker mod c.target) ∧
      c.knockback = toInt16 ((knockback : ℚ) -
        1 / 2 * geo.VectorLength (VectorSubtract ent.origin infl.origin)) ∧
      c.dflags = DMG_RADIUS ∧ some c.target ≠ ignore ∧ ent.take_damage = true ∧
      (G_CanDamage geo c.target ent inflictor infl).1 = true ∧
      ((∀ v, 0 ≤ geo.VectorLength v) → 0 ≤ damage → damage ≤ 32767 → 0 ≤ knockback →
        knockback ≤ 32767 →
        c.damage = truncQ (((damage : ℚ) -
          1 / 2 * geo.VectorLength (VectorSubtract ent.origin infl.origin)) *
            selfDamageScale attacker mod c.target) ∧
        c.knockback = truncQ ((knockback : ℚ) -
          1 / 2 * geo.VectorLength (VectorSubtract ent.origin infl.origin))) := by
  obtain ⟨e, he⟩ := G_RadiusDamage_loop env geo w inflictor attacker ignore damage knockback
    mod found { world := w } rfl (by simp) c hc
  obtain ⟨ent, infl, h1, h2, h3, hig, htd, hfar, hcan, hd, hk, hfl, _⟩ :=
    G_RadiusDamage_visit_some env geo w inflictor attacker ignore damage knockback mod e c he
  subst h3
  refine ⟨ent, infl, h1, h2, hd, hk, hfl, hig, htd, hcan, ?_⟩
  intro hlen hd0 hd1 hk0 hk1
  have hL := hlen (VectorSubtract ent.origin infl.origin)
  generalize geo.VectorLength (VectorSubtract ent.origin infl.origin) = L at *
  have a0 : (0 : ℚ) ≤ damage := by exact_mod_cast hd0
  have a1 : (damage : ℚ) ≤ 32767 := by exact_mod_cast hd1
  have b0 : (0 : ℚ) ≤ knockback := by exact_mod_cast hk0
  have b1 : (knockback : ℚ) ≤ 32767 := by exact_mod_cast hk1
  have hnear : 1 / 2 * L < 32767 := by
    by_contra hge
    apply hfar
    constructor <;> linarith
  have hs : selfDamageScale attacker mod c.target = 1 / 4 ∨
      selfDamageScale attacker mod c.target = 1 / 2 ∨
      selfDamageScale attacker mod c.target = 1 := by
    unfold selfDamageScale
    split_ifs <;> simp
  constructor
  · rw [hd]
    have hr : (-32768 : ℚ) ≤ ((damage : ℚ) - 1 / 2 * L) * selfDamageScale attacker mod c.target ∧
        ((damage : ℚ) - 1 / 2 * L) * selfDamageScale attacker mod c.target ≤ 32767 := by
      rcases hs with h | h | h <;> rw [h] <;> constructor <;> linarith
    obtain ⟨r0, r1⟩ := truncQ_int16 hr.1 hr.2
    exact wrap16_eq_self r0 r1
  · rw [hk]
    obtain ⟨r0, r1⟩ := truncQ_int16 (x := (knockback : ℚ) - 1 / 2 * L) (by linarith)
      (by linarith)
    exact wrap16_eq_self r0 r1

/-- Witness for C12: the blast of `w_blast`; the client, 40 units away, gets
damage `120 - 20 = 100` and knockback 100 with the flags `DMG_RADIUS`. -/
theorem G_RadiusDamage_arguments_witness :
    ∃ ent infl, w_blast.entities[blastCall.target]? = some ent ∧
      w_blast.entities[0]? = some infl ∧
      blastCall.damage = toInt16 ((((120 : Int) : ℚ) -
        1 / 2 * geoClear.VectorLength (VectorSubtract ent.origin infl.origin)) *
          selfDamageScale none 0 blastCall.target) ∧
      blastCall.knockback = toInt16 (((120 : Int) : ℚ) -
        1 / 2 * geoClear.VectorLength (VectorSubtract ent.origin infl.origin)) ∧
      blastCall.dflags = DMG_RADIUS ∧ some blastCall.target ≠ (none : Option Nat) ∧
      ent.take_damage = true ∧
      (G_CanDamage geoClear blastCall.target ent 0 infl).1 = true ∧
      ((∀ v, 0 ≤ geoClear.VectorLength v) → (0 : Int) ≤ 120 → (120 : Int) ≤ 32767 →
        (0 : Int) ≤ 120 → (120 : Int) ≤ 32767 →
        blastCall.damage = truncQ ((((120 : Int) : ℚ) -
          1 / 2 * geoClear.VectorLength (VectorSubtract ent.origin infl.origin)) *
            selfDamageScale none 0 blastCall.target) ∧
        blastCall.knockback = truncQ (((120 : Int) : ℚ) -
          1 / 2 * geoClear.VectorLength (VectorSubtract ent.origin infl.origin))) :=
  G_RadiusDamage_arguments env0 geoClear w_blast 0 none none 120 120 500 0 [1, 2] blastCall
    (by decide!)

/-! ## `G_CheckVote`: the majority -/

/-- The announcements of a failed and of a passed vote differ. -/
theorem vote_message_ne (cmd : String) :
    ("Vote \"" ++ cmd ++ "\" failed\n") ≠ ("Vote \"" ++ cmd ++ "\" passed\n") := by
  intro h
  have h1 := congrArg String.data h
  simp only [String.data_append, List.append_assoc] at h1
  have h2 := List.append_cancel_left (List.append_cancel_left h1)
  revert h2
  decide

/-- The comparison `votes >= count * VOTE_MAJORITY` of `G_CheckVote`, read as a
comparison with the rounded-up majority. -/
theorem majority_iff_ceil (yes count : Nat) :
    ((yes : ℚ) ≥ (count : ℚ) * VOTE_MAJORITY) ↔ ⌈VOTE_MAJORITY * (count : ℚ)⌉ ≤ (yes : ℤ) := by
  rw [Int.ceil_le, mul_comm]
  simp

/-- The entity `j` after a client loop. -/
theorem mapClients_getElem? (w : World) (f : g_entity_t → g_entity_t) (j : Nat) :
    (mapClients w f).entities[j]? =
      (w.entities[j]?).map fun e =>
        if 1 ≤ j ∧ (j : Int) ≤ w.sv_max_clients ∧ e.in_use = true then f e else e := by
  unfold mapClients
  simp only [List.getElem?_mapIdx]

/-- The client slots in use are the entities 1 to `sv_max_clients` that are in
use. -/
theorem mem_clientSlots (w : World) (j : Nat) :
    j ∈ clientSlots w ↔
      1 ≤ j ∧ (j : Int) ≤ w.sv_max_clients ∧ ∃ e, w.entities[j]? = some e ∧ e.in_use = true := by
  unfold clientSlots
  simp only [List.mem_filterMap, List.mem_range]
  constructor
  · rintro ⟨i, hi, h⟩
    rcases Option.eq_none_or_eq_some (w.entities[i + 1]?) with he | ⟨e, he⟩
    · rw [he] at h
      simp at h
    · rw [he] at h
      by_cases hu : e.in_use = true
      · simp only [hu, if_true, Option.some.injEq] at h
        subst h
        refine ⟨by omega, by omega, e, he, hu⟩
      · simp [hu] at h
  · rintro ⟨h1, h2, e, he, hu⟩
    refine ⟨j - 1, by omega, ?_⟩
    have : j - 1 + 1 = j := by omega
    rw [this, he]
    simp [hu]

/-- C14: with voting enabled and a vote that has been active for at most
60000 ms, `G_CheckVote` announces the vote as passed if and only if
`votes[VOTE_YES] >= ceil(0.51 * count)`, `count` being the number of client
slots in use; it then runs the vote action and `G_ResetVote` (the votes are
`[0, 0, 0]`, the command is empty and the vote time is 0 afterwards); with
fewer yes votes it either does nothing or announces the vote as failed. -/
theorem G_CheckVote_majority (genv : GameEnv) (w : World)
    (hv : w.g_voting ≠ 0) (ht : w.level.vote_time ≠ 0)
    (he : wrap32 ((w.level.time : Int) - w.level.vote_time) ≤ MAX_VOTE_TIME) :
    ((G_CheckVote genv w).2.head? = some (passedMessage w) ↔
      ⌈VOTE_MAJORITY * (clientCount w : ℚ)⌉ ≤ (yesVotes w : ℤ)) ∧
    (⌈VOTE_MAJORITY * (clientCount w : ℚ)⌉ ≤ (yesVotes w : ℤ) →
      G_CheckVote genv w = G_CheckVote_pass genv w) ∧
    ((yesVotes w : ℤ) < ⌈VOTE_MAJORITY * (clientCount w : ℚ)⌉ →
      G_CheckVote genv w = (w, []) ∨ G_CheckVote genv w = G_CheckVote_fail w) ∧
    (G_CheckVote_pass genv w).2 =
      passedMessage w :: ((G_CheckVote_action genv w).2 ++ [.ConfigString CS_VOTE none]) ∧
    (G_CheckVote_pass genv w).1 = (G_ResetVote (G_CheckVote_action genv w).1).1 ∧
    (G_CheckVote_pass genv w).1.level.votes = [0, 0, 0] ∧
    (G_CheckVote_pass genv w).1.level.vote_cmd = "" ∧
    (G_CheckVote_pass genv w).1.level.vote_time = 0 := by
  have hexp : ¬ wrap32 ((w.level.time : Int) - w.level.vote_time) > MAX_VOTE_TIME :=
    Nat.not_lt.mpr he
  have hT : G_CheckVote genv w = G_CheckVote_tally genv w := by
    unfold G_CheckVote
    rw [if_neg hv, if_neg ht, if_neg hexp]
  have hiff := majority_iff_ceil (yesVotes w) (clientCount w)
  have hpass : ⌈VOTE_MAJORITY * (clientCount w : ℚ)⌉ ≤ (yesVotes w : ℤ) →
      G_CheckVote_tally genv w = G_CheckVote_pass genv w := by
    intro h
    unfold G_CheckVote_tally
    exact if_pos (hiff.mpr h)
  have hnot : ¬ ⌈VOTE_MAJORITY * (clientCount w : ℚ)⌉ ≤ (yesVotes w : ℤ) →
      G_CheckVote_tally genv w = (w, []) ∨ G_CheckVote_tally genv w = G_CheckVote_fail w := by
    intro h
    have h1 : ¬ ((yesVotes w : ℚ) ≥ (clientCount w : ℚ) * VOTE_MAJORITY) :=
      fun h2 => h (hiff.mp h2)
    unfold G_CheckVote_tally
    by_cases hno : ((w.level.votes.getD g_vote_t.VOTE_NO.index 0 : Nat) : ℚ) ≥
        (clientCount w : ℚ) * VOTE_MAJORITY
    · right
      show (if (yesVotes w : ℚ) ≥ _ then _ else _) = _
      rw [if_neg h1, if_pos hno]
    · left
      show (if (yesVotes w : ℚ) ≥ _ then _ else _) = _
      rw [if_neg h1, if_neg hno]
  refine ⟨?_, fun h => hT.trans (hpass h), fun h => ?_, rfl, rfl, rfl, rfl, rfl⟩
  · rw [hT]
    constructor
    · intro h
      by_contra hc
      rcases hnot hc with h1 | h1
      · rw [h1] at h
        simp at h
      · rw [h1] at h
        simp only [G_CheckVote_fail, List.head?_cons, Option.some.injEq, passedMessage,
          GameEvent.BroadcastPrint.injEq] at h
        exact vote_message_ne _ h
    · intro h
      rw [hpass h]
      rfl
  · rw [hT]
    exact hnot (not_le.mpr h)

/-- Witness for C14: three clients in use and two yes votes, exactly 60000 ms
after the vote was called: the vote passes. -/
theorem G_CheckVote_majority_witness :
    w_vote.g_voting ≠ 0 ∧ w_vote.level.vote_time ≠ 0 ∧
    wrap32 ((w_vote.level.time : Int) - w_vote.level.vote_time) ≤ MAX_VOTE_TIME ∧
    clientCount w_vote = 3 ∧ yesVotes w_vote = 2 ∧
    ((G_CheckVote genv0 w_vote).2.head? = some (passedMessage w_vote) ↔
      ⌈VOTE_MAJORITY * (clientCount w_vote : ℚ)⌉ ≤ (yesVotes w_vote : ℤ)) ∧
    (G_CheckVote genv0 w_vote).2.head? = some (passedMessage w_vote) :=
  ⟨by decide!, by decide, by decide, by decide, by decide,
    (G_CheckVote_majority genv0 w_vote (by decide!) (by decide) (by decide)).1, by decide!⟩

/-! ## `G_CheckVote`: expiry -/

/-- Counterexample to C15 as stated: a vote is active and more than 60000 ms
have elapsed, but voting has been switched off: `G_CheckVote` returns at its
first guard, whatever the functions outside `g_main.c` do, and the vote stays
as it was, with its votes, its command and its vote time. -/
theorem G_CheckVote_expiry_counterexample :
    w_vote_off.level.vote_time ≠ 0 ∧
    wrap32 ((w_vote_off.level.time : Int) - w_vote_off.level.vote_time) > MAX_VOTE_TIME ∧
    w_vote_off.level.votes ≠ [0, 0, 0] ∧
    ∀ genv : GameEnv, G_CheckVote genv w_vote_off = (w_vote_off, []) := by
  refine ⟨by decide, by decide, by decide, fun genv => ?_⟩
  unfold G_CheckVote
  rw [if_pos (by decide! : w_vote_off.g_voting = 0)]

/-- C15 (amended): with voting enabled and a vote active, if
`g_level.time - vote_time > 60000` then `G_CheckVote` expires the vote: it
announces the expiry and runs `G_ResetVote` and nothing else, so the vote
command is not executed whatever the votes are; afterwards the votes are
`[0, 0, 0]`, the command is empty, the vote time is 0 and the vote of every
client in use is `VOTE_NO_OP`.  At exactly 60000 ms the vote is not expired: the
votes are counted. -/
theorem G_CheckVote_expiry (genv : GameEnv) (w : World)
    (hv : w.g_voting ≠ 0) (ht : w.level.vote_time ≠ 0) :
    (wrap32 ((w.level.time : Int) - w.level.vote_time) > MAX_VOTE_TIME →
      G_CheckVote genv w = G_CheckVote_expire w ∧
      (G_CheckVote genv w).2 = [expiredMessage w, .ConfigString CS_VOTE none] ∧
      (G_CheckVote genv w).1.level =
        { w.level with votes := [0, 0, 0], vote_cmd := "", vote_time := 0 } ∧
      (∀ j ∈ clientSlots w, ∃ e, (G_CheckVote genv w).1.entities[j]? = some e ∧
        e.in_use = true ∧ (clientOf e).persistent.vote = .VOTE_NO_OP)) ∧
    (wrap32 ((w.level.time : Int) - w.level.vote_time) = MAX_VOTE_TIME →
      G_CheckVote genv w = G_CheckVote_tally genv w) := by
  constructor
  · intro h
    have hE : G_CheckVote genv w = G_CheckVote_expire w := by
      unfold G_CheckVote
      rw [if_neg hv, if_neg ht, if_pos h]
    refine ⟨hE, by rw [hE]; rfl, by rw [hE]; rfl, ?_⟩
    intro j hj
    rw [hE]
    obtain ⟨h1, h2, e, he, hu⟩ := (mem_clientSlots w j).mp hj
    have hget : (G_CheckVote_expire w).1.entities[j]? =
        (mapClients w (onClient fun c =>
          { c with persistent := { c.persistent with vote := .VOTE_NO_OP } })).entities[j]? := rfl
    rw [hget, mapClients_getElem?, he]
    simp only [Option.map_some', if_pos (And.intro h1 (And.intro h2 hu))]
    refine ⟨_, rfl, hu, ?_⟩
    unfold clientOf onClient
    cases e.client <;> rfl
  · intro h
    unfold G_CheckVote
    rw [if_neg hv, if_neg ht, if_neg (by rw [h]; exact Nat.lt_irrefl _)]

/-- Witness for C15 (amended): three clients who all voted yes, 60001 ms after
the vote was called: the vote expires and the votes are cleared. -/
theorem G_CheckVote_expiry_witness :
    w_vote_late.g_voting ≠ 0 ∧ w_vote_late.level.vote_time ≠ 0 ∧
    wrap32 ((w_vote_late.level.time : Int) - w_vote_late.level.vote_time) > MAX_VOTE_TIME ∧
    yesVotes w_vote_late = 3 ∧
    G_CheckVote genv0 w_vote_late = G_CheckVote_expire w_vote_late ∧
    (G_CheckVote genv0 w_vote_late).1.level.votes = [0, 0, 0] :=
  ⟨by decide!, by decide, by decide, by decide,
    ((G_CheckVote_expiry genv0 w_vote_late (by decide!) (by decide)).1 (by decide)).1,
    by decide!⟩

/-! ## `G_CheckRules`: the frag limit and `G_EndLevel` -/

/-- Invocations of `G_EndLevel` add up over consecutive calls. -/
theorem endLevelCalls_append (a b : List GameEvent) :
    endLevelCalls (a ++ b) = endLevelCalls a + endLevelCalls b := by
  unfold endLevelCalls
  exact List.count_append _ _ _

/-- A sequence of calls without `G_EndLevel` counts zero invocations. -/
theorem endLevelCalls_eq_zero {evs : List GameEvent}
    (h : GameEvent.G_EndLevel ∉ evs) : endLevelCalls evs = 0 :=
  List.count_eq_zero.mpr h

/-- The function `G_BeginIntermission` does not invoke `G_EndLevel`. -/
theorem G_BeginIntermission_endLevelCalls (genv : GameEnv) (map : Option String) (w : World) :
    endLevelCalls (G_BeginIntermission genv map w).2 = 0 := by
  apply endLevelCalls_eq_zero
  unfold G_BeginIntermission
  by_cases h : w.level.intermission_time ≠ 0
  · rw [if_pos h]
    simp
  · rw [if_neg h]
    simp

/-- The calls of `G_EndLevel`: its own entry, then calls that are not
invocations of `G_EndLevel`. -/
theorem G_EndLevel_events (genv : GameEnv) (w : World) :
    ∃ evs, (G_EndLevel genv w).2 = GameEvent.G_EndLevel :: evs ∧ endLevelCalls evs = 0 := by
  unfold G_EndLevel
  exact ⟨_, rfl, by
    dsimp only
    split
    · split <;> exact G_BeginIntermission_endLevelCalls _ _ _
    · exact G_BeginIntermission_endLevelCalls _ _ _⟩

/-- One call of `G_EndLevel` is one invocation. -/
theorem G_EndLevel_endLevelCalls (genv : GameEnv) (w : World) :
    endLevelCalls (G_EndLevel genv w).2 = 1 := by
  obtain ⟨evs, h, h0⟩ := G_EndLevel_events genv w
  rw [h]
  unfold endLevelCalls at h0 ⊢
  rw [List.count_cons_self, h0]

/-- The function `G_BeginIntermission` leaves the clock alone and starts the
intermission at the current time unless one is active. -/
theorem G_BeginIntermission_time (genv : GameEnv) (map : Option String) (w : World) :
    (G_BeginIntermission genv map w).1.level.time = w.level.time ∧
    (G_BeginIntermission genv map w).1.level.intermission_time =
      if w.level.intermission_time ≠ 0 then w.level.intermission_time else w.level.time := by
  unfold G_BeginIntermission
  by_cases h : w.level.intermission_time ≠ 0
  · rw [if_pos h, if_pos h]
    exact ⟨rfl, rfl⟩
  · rw [if_neg h, if_neg h]
    dsimp only [mapClients]
    split <;> exact ⟨rfl, rfl⟩

/-- The function `G_EndLevel` leaves the clock alone and starts the intermission
at the current time unless one is active. -/
theorem G_EndLevel_time (genv : GameEnv) (w : World) :
    (G_EndLevel genv w).1.level.time = w.level.time ∧
    (G_EndLevel genv w).1.level.intermission_time =
      if w.level.intermission_time ≠ 0 then w.level.intermission_time else w.level.time := by
  unfold G_EndLevel
  dsimp only
  split
  · split <;> exact G_BeginIntermission_time _ _ _
  · exact G_BeginIntermission_time _ _ _

/-- The function `G_EndLevel` leaves the team flags and the frag limit alone. -/
theorem G_EndLevel_rules (genv : GameEnv) (w : World) :
    (rulesOf (G_EndLevel genv w).1).1 = w.level.teams ∧
    (rulesOf (G_EndLevel genv w).1).2.1 = w.level.ctf ∧
    (rulesOf (G_EndLevel genv w).1).2.2.1 = w.level.frag_limit := by
  unfold G_EndLevel G_BeginIntermission
  dsimp only
  split
  · split_ifs
    all_goals first
      | exact ⟨rfl, rfl, rfl⟩
      | (dsimp only [mapClients]; split <;> exact ⟨rfl, rfl, rfl⟩)
  · split_ifs
    all_goals first
      | exact ⟨rfl, rfl, rfl⟩
      | (dsimp only [mapClients]; split <;> exact ⟨rfl, rfl, rfl⟩)

/-- The time update of `G_RunTimers` leaves the rule fields, the clock and the
intermission time alone. -/
theorem G_RunTimers_update_rules (genv : GameEnv) (w : World) (time : Nat) :
    rulesOf (G_RunTimers_update genv w time).1 = rulesOf w := by
  unfold G_RunTimers_update
  dsimp only
  split_ifs <;> rfl

/-- The time update of `G_RunTimers` does not invoke `G_EndLevel`. -/
theorem G_RunTimers_update_endLevelCalls (genv : GameEnv) (w : World) (time : Nat) :
    endLevelCalls (G_RunTimers_update genv w time).2 = 0 := by
  apply endLevelCalls_eq_zero
  unfold G_RunTimers_update
  dsimp only
  split_ifs <;> simp [G_RunTimers_announce, G_CallTimeIn]

/-- The start of a match or round leaves the rule fields, the clock and the
intermission time alone. -/
theorem G_CheckRules_start_rules (genv : GameEnv) (w : World) :
    rulesOf (G_CheckRules_start genv w).1 = rulesOf w := by
  unfold G_CheckRules_start G_CheckRules_startRound G_CheckRules_startMatch
  dsimp only
  split_ifs <;> rfl

/-- The start of a match or round does not invoke `G_EndLevel`. -/
theorem G_CheckRules_start_endLevelCalls (genv : GameEnv) (w : World) :
    endLevelCalls (G_CheckRules_start genv w).2 = 0 := by
  apply endLevelCalls_eq_zero
  unfold G_CheckRules_start G_CheckRules_startRound G_CheckRules_startMatch G_CheckRules_respawn
  dsimp only
  split_ifs <;> simp

/-- Without a match start pending, lines 571-608 of `G_CheckRules` leave the
time limit alone. -/
theorem G_CheckRules_start_time_limit (genv : GameEnv) (w : World)
    (h : w.level.start_match = false) :
    (G_CheckRules_start genv w).1.level.time_limit = w.level.time_limit := by
  unfold G_CheckRules_start G_CheckRules_startRound G_CheckRules_startMatch
  dsimp only
  split_ifs <;> first | rfl | simp_all

/-- The function `G_RunTimers` leaves the rule fields and the clock alone, starts
an intermission only at the current time, and invokes `G_EndLevel` at most
once, and not at all without a time limit. -/
theorem G_RunTimers_facts (genv : GameEnv) (w : World) :
    (G_RunTimers genv w).1.level.teams = w.level.teams ∧
    (G_RunTimers genv w).1.level.ctf = w.level.ctf ∧
    (G_RunTimers genv w).1.level.frag_limit = w.level.frag_limit ∧
    (G_RunTimers genv w).1.level.time = w.level.time ∧
    ((G_RunTimers genv w).1.level.intermission_time = w.level.intermission_time ∨
      (G_RunTimers genv w).1.level.intermission_time = w.level.time) ∧
    endLevelCalls (G_RunTimers genv w).2 ≤ 1 ∧
    (w.level.time_limit = 0 → endLevelCalls (G_RunTimers genv w).2 = 0) := by
  unfold G_RunTimers
  dsimp only
  by_cases h : w.level.time_limit ≠ 0 ∧ G_RunTimers_time w.level ≥ w.level.time_limit
  · rw [if_pos h]
    dsimp only
    have hr := G_EndLevel_rules genv w
    have ht := G_EndLevel_time genv w
    have hc := G_EndLevel_endLevelCalls genv w
    refine ⟨hr.1, hr.2.1, hr.2.2, ht.1, ?_, ?_, fun h0 => absurd h0 h.1⟩
    · rw [ht.2]
      by_cases hi : w.level.intermission_time ≠ 0
      · left; rw [if_pos hi]
      · right; rw [if_neg hi]
    · have : endLevelCalls (GameEvent.BroadcastPrint "Time limit hit\n" ::
          (G_EndLevel genv w).2) = endLevelCalls (G_EndLevel genv w).2 := by
        unfold endLevelCalls
        exact List.count_cons_of_ne (by simp) _
      rw [this, hc]
  · rw [if_neg h]
    have hu := G_RunTimers_update_rules genv w
      (if w.level.time_limit ≠ 0 then wrap32 (↑w.level.time_limit - ↑w.level.time)
        else G_RunTimers_time w.level)
    have hc := G_RunTimers_update_endLevelCalls genv w
      (if w.level.time_limit ≠ 0 then wrap32 (↑w.level.time_limit - ↑w.level.time)
        else G_RunTimers_time w.level)
    simp only [rulesOf, Prod.mk.injEq] at hu
    exact ⟨hu.1, hu.2.1, hu.2.2.1, hu.2.2.2.1, Or.inl hu.2.2.2.2,
      by rw [hc]; exact Nat.zero_le _, fun _ => hc⟩

/-- Lines 571-610 of `G_CheckRules` leave the rule fields and the clock alone,
start an intermission only at the current time, and invoke `G_EndLevel` at most
once, and not at all without a time limit and a pending match start. -/
theorem G_CheckRules_timers_facts (genv : GameEnv) (w : World) :
    (G_CheckRules_timers genv w).1.level.teams = w.level.teams ∧
    (G_CheckRules_timers genv w).1.level.ctf = w.level.ctf ∧
    (G_CheckRules_timers genv w).1.level.frag_limit = w.level.frag_limit ∧
    (G_CheckRules_timers genv w).1.level.time = w.level.time ∧
    ((G_CheckRules_timers genv w).1.level.intermission_time = w.level.intermission_time ∨
      (G_CheckRules_timers genv w).1.level.intermission_time = w.level.time) ∧
    endLevelCalls (G_CheckRules_timers genv w).2 ≤ 1 ∧
    (w.level.time_limit = 0 → w.level.start_match = false →
      endLevelCalls (G_CheckRules_timers genv w).2 = 0) := by
  have hs := G_CheckRules_start_rules genv w
  have hc := G_CheckRules_start_endLevelCalls genv w
  have hr := G_RunTimers_facts genv (G_CheckRules_start genv w).1
  simp only [rulesOf, Prod.mk.injEq] at hs
  unfold G_CheckRules_timers
  dsimp only
  rw [endLevelCalls_append, hc, Nat.zero_add]
  refine ⟨hr.1.trans hs.1, hr.2.1.trans hs.2.1, hr.2.2.1.trans hs.2.2.1,
    hr.2.2.2.1.trans hs.2.2.2.1, ?_, hr.2.2.2.2.2.1, ?_⟩
  · rcases hr.2.2.2.2.1 with h | h
    · left; exact h.trans hs.2.2.2.2
    · right; exact h.trans hs.2.2.2.1
  · intro h0 hm
    exact hr.2.2.2.2.2.2 ((G_CheckRules_start_time_limit genv w hm).trans h0)

/-- Counterexample to C16 as stated: free-for-all with a frag limit of 30, no
intermission, and a client in use whose score is 30, in the frame in which the
time limit expires as well: `G_CheckRules` invokes `G_EndLevel` twice (from
`G_RunTimers` and from the frag limit check).  And while an intermission is
active, a passed `next_map` vote makes `G_CheckVote` invoke `G_EndLevel` once
more. -/
theorem G_CheckRules_frag_limit_counterexample :
    w_limits.level.teams = false ∧ w_limits.level.ctf = false ∧
    w_limits.level.frag_limit = 30 ∧ w_limits.level.intermission_time = 0 ∧
    (∃ j ∈ clientSlots w_limits, scoreOf w_limits j ≥ 30) ∧
    endLevelCalls (G_CheckRules_limits genv0 w_limits).2.1 = 2 ∧
    w_next_map.level.intermission_time ≠ 0 ∧
    endLevelCalls (G_CheckVote genv0 w_next_map).2 = 1 := by
  decide!

/-- C16 (amended): with team mode off, CTF off, a frag limit `L > 0` and no
intermission active, a pass of `G_CheckRules` whose frag limit check finds a
client in use with a score of at least `L` returns from that check and invokes
`G_EndLevel` once there, on top of at most one invocation made by `G_RunTimers`
earlier in the pass; without a time limit and a pending match start that is
exactly one invocation.  If the level time is not 0 the intermission has begun
at the level time afterwards, and while an intermission is active
`G_CheckRules` returns at once and invokes nothing. -/
theorem G_CheckRules_frag_limit (genv : GameEnv) (w : World)
    (h0 : w.level.intermission_time = 0) (hteams : w.level.teams = false)
    (hctf : w.level.ctf = false) (hL : 0 < w.level.frag_limit)
    (hhit : ∃ j ∈ clientSlots (G_CheckRules_timers genv w).1,
      scoreOf (G_CheckRules_timers genv w).1 j ≥ w.level.frag_limit) :
    (G_CheckRules_limits genv w).2.2 = true ∧
    endLevelCalls (G_CheckRules_limits genv w).2.1 =
      endLevelCalls (G_CheckRules_timers genv w).2 + 1 ∧
    endLevelCalls (G_CheckRules_timers genv w).2 ≤ 1 ∧
    (w.level.time_limit = 0 → w.level.start_match = false →
      endLevelCalls (G_CheckRules_limits genv w).2.1 = 1) ∧
    (w.level.time ≠ 0 →
      (G_CheckRules_limits genv w).1.level.intermission_time = w.level.time) ∧
    (∀ w2 : World, w2.level.intermission_time ≠ 0 →
      G_CheckRules_limits genv w2 = (w2, [], true)) := by
  have hf := G_CheckRules_timers_facts genv w
  have hfrag : fragLimitHit (G_CheckRules_timers genv w).1 = true := by
    obtain ⟨j, hj, hs⟩ := hhit
    unfold fragLimitHit
    rw [hf.1, hf.2.1, hf.2.2.1, hteams, hctf]
    simp only [Bool.not_false, Bool.true_and, Bool.and_eq_true, decide_eq_true_eq,
      Bool.false_eq_true, if_false, List.any_eq_true]
    exact ⟨ne_of_gt hL, j, hj, hs⟩
  have hlim : G_CheckRules_limits genv w =
      ((G_EndLevel genv (G_CheckRules_timers genv w).1).1,
        (G_CheckRules_timers genv w).2 ++
          GameEvent.BroadcastPrint "Frag limit hit\n" ::
            (G_EndLevel genv (G_CheckRules_timers genv w).1).2, true) := by
    unfold G_CheckRules_limits
    rw [if_neg (by rw [h0]; exact fun h => h rfl)]
    dsimp only
    rw [if_pos hfrag]
  have hcount : endLevelCalls (G_CheckRules_limits genv w).2.1 =
      endLevelCalls (G_CheckRules_timers genv w).2 + 1 := by
    rw [hlim]
    dsimp only
    rw [endLevelCalls_append]
    have : endLevelCalls (GameEvent.BroadcastPrint "Frag limit hit\n" ::
        (G_EndLevel genv (G_CheckRules_timers genv w).1).2) =
        endLevelCalls (G_EndLevel genv (G_CheckRules_timers genv w).1).2 := by
      unfold endLevelCalls
      exact List.count_cons_of_ne (by simp) _
    rw [this, G_EndLevel_endLevelCalls]
  refine ⟨by rw [hlim], hcount, hf.2.2.2.2.2.1, ?_, ?_, ?_⟩
  · intro ht hm
    rw [hcount, hf.2.2.2.2.2.2 ht hm]
  · intro ht
    rw [hlim]
    dsimp only
    rw [(G_EndLevel_time genv _).2, hf.2.2.2.1]
    rcases hf.2.2.2.2.1 with h | h
    · rw [h, h0]
      simp
    · rw [h]
      simp [ht]
  · intro w2 h2
    unfold G_CheckRules_limits
    rw [if_pos h2]

/-- Witness for C16 (amended): free-for-all with a frag limit of 30 and no time
limit, the first client at 30 frags: one invocation of `G_EndLevel`, and the
intermission begins at the level time. -/
theorem G_CheckRules_frag_limit_witness :
    w_frag.level.intermission_time = 0 ∧ w_frag.level.teams = false ∧
    w_frag.level.ctf = false ∧ 0 < w_frag.level.frag_limit ∧
    (∃ j ∈ clientSlots (G_CheckRules_timers genv0 w_frag).1,
      scoreOf (G_CheckRules_timers genv0 w_frag).1 j ≥ w_frag.level.frag_limit) ∧
    endLevelCalls (G_CheckRules_limits genv0 w_frag).2.1 = 1 ∧
    (G_CheckRules_limits genv0 w_frag).1.level.intermission_time = 1000 :=
  (fun h => ⟨rfl, rfl, rfl, by decide, by decide!, h.2.2.2.1 rfl rfl, h.2.2.2.2.1 (by decide)⟩)
    (G_CheckRules_frag_limit genv0 w_frag rfl rfl rfl (by decide) (by decide!))

/-! ## `G_CheckRoundEnd` and `G_CheckRoundStart` -/

/-- C17: the code at the failing input.  A round of capture the flag is running
with the `teams` flag off and one client in use and not spectating on each
team: `G_CheckRoundEnd` counts no client for either team, declares the evil team
the winner and clears `round_time`.  With the `teams` flag on as well, the same
round goes on. -/
theorem G_CheckRoundEnd_ctf_without_teams :
    w_ctf_round.level.rounds = true ∧ w_ctf_round.level.ctf = true ∧
    w_ctf_round.level.teams = false ∧
    0 < w_ctf_round.level.round_time ∧ w_ctf_round.level.round_time ≤ w_ctf_round.level.time ∧
    activeClients w_ctf_round = [1, 2] ∧
    countGood w_ctf_round (activeClients w_ctf_round) = 1 ∧
    (G_CheckRoundEnd genv0 w_ctf_round).1.level.round_time = 0 ∧
    (G_CheckRoundEnd genv0 w_ctf_round).2.head? = some (.BroadcastPrint "Evil wins!\n") ∧
    G_CheckRoundEnd genv0 w_teams_round = (w_teams_round, []) := by
  decide!

/-- C18: the code at the failing input.  Rounds in team mode, no round started,
two clients on the good team against one on the evil team: `G_CheckRoundStart`
starts the countdown, because the balance test compares the Boolean `teams`
with 2. -/
theorem G_CheckRoundStart_unbalanced :
    w_unbalanced.level.rounds = true ∧ w_unbalanced.level.teams = true ∧
    w_unbalanced.level.round_time = 0 ∧
    activeClients w_unbalanced = [1, 2, 3] ∧
    countGood w_unbalanced (activeClients w_unbalanced) = 2 ∧
    (G_CheckRoundStart w_unbalanced).1.level.round_time = w_unbalanced.level.time + 10000 ∧
    (G_CheckRoundStart w_unbalanced).1.level.start_round = true ∧
    (G_CheckRoundStart w_unbalanced).2 =
      [.BroadcastPrint "Round starting in 10 seconds...\n"] := by
  decide!

/-! ## Timeouts -/

/-- C19: the code at the failing input.  Two client slots, both in use, and a
timeout length of 120 seconds: after `G_CallTimeOut` the level fields are as
claimed, the client of entity 1 is frozen, but the client of entity 2 (the last
client slot) still has the movement type `PM_NORMAL`. -/
theorem G_CallTimeOut_last_client :
    w_timeout.sv_max_clients = 2 ∧ w_timeout.g_timeout_time = 120 ∧
    moveTypes w_timeout = [0, genv0.PM_NORMAL, genv0.PM_NORMAL] ∧
    moveTypes (G_CallTimeOut genv0 1 w_timeout).1 = [0, genv0.PM_FREEZE, genv0.PM_NORMAL] ∧
    genv0.PM_NORMAL ≠ genv0.PM_FREEZE ∧
    (G_CallTimeOut genv0 1 w_timeout).1.level.match_status = MSTAT_PLAYING ||| MSTAT_TIMEOUT ∧
    (G_CallTimeOut genv0 1 w_timeout).1.level.timeout_caller = some 1 ∧
    (G_CallTimeOut genv0 1 w_timeout).1.level.timeout_time =
      w_timeout.level.time + 1000 * 120 ∧
    (G_CallTimeOut genv0 1 w_timeout).1.level.timeout_frame = w_timeout.level.frame_num := by
  decide!

/-- C20: the code at the failing input.  Two client slots, both frozen, at the
end of a timeout of 120 seconds called at frame 50: `G_RunTimers` calls
`G_CallTimeIn`, which restores the frame number 50 and clears the timeout
fields, and unfreezes the client of entity 1, but the client of entity 2 (the
last client slot) still has the movement type `PM_FREEZE`. -/
theorem G_CallTimeIn_last_client :
    w_frozen.sv_max_clients = 2 ∧
    moveTypes w_frozen = [0, genv0.PM_FREEZE, genv0.PM_FREEZE] ∧
    moveTypes (G_CallTimeIn genv0 w_frozen).1 = [0, genv0.PM_NORMAL, genv0.PM_FREEZE] ∧
    genv0.PM_NORMAL ≠ genv0.PM_FREEZE ∧
    (G_CallTimeIn genv0 w_frozen).1.level.frame_num = w_frozen.level.timeout_frame ∧
    (G_CallTimeIn genv0 w_frozen).1.level.timeout_time = 0 ∧
    (G_CallTimeIn genv0 w_frozen).1.level.timeout_frame = 0 ∧
    (G_CallTimeIn genv0 w_frozen).1.level.timeout_caller = none ∧
    GameEvent.G_CallTimeIn ∈ (G_RunTimers genv0 w_frozen).2 ∧
    (G_RunTimers genv0 w_frozen).1.level.frame_num = w_frozen.level.timeout_frame ∧
    moveTypes (G_RunTimers genv0 w_frozen).1 = [0, genv0.PM_NORMAL, genv0.PM_FREEZE] := by
  decide!

/-! ## The invariant that a target without health is dead -/

/-- C23: `G_Damage` preserves the invariant that `health <= 0` implies `dead`:
if it holds for the target before the call, it holds for the target in the
state in which the call returns or hands control to the `Die` callback, for
every damage, knockback and flag value. -/
theorem G_Damage_dead_invariant (env : Env) (w : World) (t : Nat) (targ targ' : g_entity_t)
    (inflictor attacker : Option Nat) (dir pos normal : Option Vec3)
    (damage knockback : Int) (dflags mod : Nat)
    (ht : w.entities[t]? = some targ)
    (hinv : targ.health ≤ 0 → targ.dead = true)
    (ht' : (G_Damage env w (some t) inflictor attacker dir pos normal damage knockback dflags
      mod).1.entities[t]? = some targ') :
    targ'.health ≤ 0 → targ'.dead = true := by
  rcases G_Damage_eq_noop_or_apply env w (some t) inflictor attacker dir pos normal damage
    knockback dflags mod with hnoop | ⟨t1, targ1, att1, ht1, htarg1, _, _, _, happ⟩
  · rw [hnoop, ht] at ht'
    cases ht'
    exact hinv
  · cases ht1
    rw [ht] at htarg1
    cases htarg1
    rw [happ, G_Damage_apply_target env w t _ targ att1 dir pos normal damage knockback dflags
      mod ht] at ht'
    cases ht'
    rw [targetAfter_health, targetAfter_dead]
    intro hle
    by_cases hc : (G_Damage_absorb env targ (pos.getD targ.origin) (normal.getD vec3_origin)
        (G_Damage_rules env w t (attacker.getD 0) targ att1 damage knockback mod).damage
        dflags).damage_health ≠ 0 ∧ (targ.health ≠ 0 ∨ targ.dead = true)
    · rw [if_pos hc] at hle
      have hf : isFatal targ (G_Damage_absorb env targ (pos.getD targ.origin)
          (normal.getD vec3_origin)
          (G_Damage_rules env w t (attacker.getD 0) targ att1 damage knockback mod).damage
          dflags).damage_health := ⟨hc.1, hc.2, hle⟩
      simp [hf]
    · rw [if_neg hc] at hle
      simp [hinv hle]

/-- Witness for C23: 200 damage on the live client of `w0`, which dies. -/
theorem G_Damage_dead_invariant_witness :
    (client0.health ≤ 0 → client0.dead = true) ∧
    (G_Damage env0 w0 (some 1) none none none none none 200 0 0 0).1.entities[1]? =
      some client0Killed ∧
    client0Killed.health ≤ 0 ∧ client0Killed.dead = true :=
  ⟨by decide, by decide!, by decide,
    G_Damage_dead_invariant env0 w0 1 client0 client0Killed none none none none none 200 0 0 0
      rfl (by decide) (by decide!) (by decide)⟩

/-! ## Self damage in instagib and arena -/

/-- The velocity and the angular velocity of the target after a call that passes
the guards are those that knockback gives it. -/
theorem targetAfter_motion (env : Env) (targ : g_entity_t) (self : Bool) (dir pos normal : Vec3)
    (d k : Int) (dflags : Nat) :
    motion (targetAfter env targ self dir pos normal d k dflags) =
      motion (G_Damage_knockback env targ self dir k) := by
  have hk : motion (G_Damage_knockback env
      (G_Damage_absorb env targ pos normal d dflags).target self dir k) =
      motion (G_Damage_knockback env targ self dir k) := by
    rcases G_Damage_absorb_target_cases env targ pos normal d dflags with h | ⟨c, armor, saved, hc, h⟩
    · rw [h]
    · rw [h]
      unfold G_Damage_knockback armorEntity motion
      simp only [hc]
      split_ifs <;> rfl
  rw [← hk]
  unfold targetAfter creditDamage motion
  dsimp only
  split_ifs <;> rfl

/-- The knockback of a call does not depend on the gameplay mode. -/
theorem G_Damage_rules_knockback_gameplay (env : Env) (w : World) (g : g_gameplay_t)
    (t a : Nat) (targ att : g_entity_t) (damage knockback : Int) (mod : Nat) :
    (G_Damage_rules env (withGameplay w g) t a targ att damage knockback mod).knockback =
      (G_Damage_rules env w t a targ att damage knockback mod).knockback := rfl

/-- The suppression of self damage (lines 222-232). -/
theorem G_Damage_rules_self (env : Env) (w : World) (t : Nat) (targ att : g_entity_t)
    (damage knockback : Int) (mod : Nat) :
    (G_Damage_rules env w t t targ att damage knockback mod).damage =
      match w.level.gameplay with
      | .GAME_INSTAGIB => 0
      | .GAME_ARENA => 0
      | _ => (G_Damage_multipliers env att damage knockback).1 := by
  unfold G_Damage_rules
  simp only [ne_eq, not_true_eq_false, false_and, if_false, if_true]

/-- A call on a target that takes no damage or is under respawn protection
changes nothing. -/
theorem G_Damage_guard (env : Env) (w : World) (t : Nat) (targ : g_entity_t)
    (inflictor attacker : Option Nat) (dir pos normal : Option Vec3)
    (damage knockback : Int) (dflags mod : Nat)
    (ht : w.entities[t]? = some targ)
    (h : targ.take_damage = false ∨ respawnProtected w.level targ = true) :
    G_Damage env w (some t) inflictor attacker dir pos normal damage knockback dflags mod =
      (w, []) := by
  unfold G_Damage
  simp only [ht]
  rcases h with h | h
  · simp [h]
  · by_cases h1 : targ.take_damage = true
    · simp [h1, h]
    · simp [h1]

/-- C30: the target is the attacker and its armor charge is a valid non-negative
`int16_t`.  In instagib and arena the call inflicts zero damage: the health and
the inventory of the target are unchanged and `Die` is not invoked.  In every
gameplay mode the velocity and the angular velocity of the target after the
call are the same, those given by the knockback of lines 236-270 with the
quad-scaled knockback.  In deathmatch and duel the damage is the quad and
handicap scaled damage, not suppressed. -/
theorem G_Damage_self_damage (env : Env) (w : World) (t : Nat) (targ : g_entity_t)
    (inflictor attacker : Option Nat) (dir pos normal : Option Vec3)
    (damage knockback : Int) (dflags mod : Nat)
    (ht : w.entities[t]? = some targ) (hself : attacker.getD 0 = t)
    (hq0 : 0 ≤ armorCharge env targ) (hq1 : armorCharge env targ ≤ 32767) :
    (w.level.gameplay = .GAME_INSTAGIB ∨ w.level.gameplay = .GAME_ARENA →
      (G_Damage_rules env w t t targ targ damage knockback mod).damage = 0 ∧
      (G_Damage env w (some t) inflictor attacker dir pos normal damage knockback dflags
        mod).1.entities[t]?.map (·.health) = some targ.health ∧
      (G_Damage env w (some t) inflictor attacker dir pos normal damage knockback dflags
        mod).1.entities[t]?.map (fun e => e.client.map (·.inventory)) =
          some (targ.client.map (·.inventory)) ∧
      dieCalls (G_Damage env w (some t) inflictor attacker dir pos normal damage knockback
        dflags mod).2 = 0) ∧
    (∀ g : g_gameplay_t,
      (G_Damage env (withGameplay w g) (some t) inflictor attacker dir pos normal damage
        knockback dflags mod).1.entities[t]?.map motion =
      (G_Damage env w (some t) inflictor attacker dir pos normal damage knockback dflags
        mod).1.entities[t]?.map motion) ∧
    (targ.take_damage = true → respawnProtected w.level targ = false →
      (G_Damage env w (some t) inflictor attacker dir pos normal damage knockback dflags
        mod).1.entities[t]?.map motion =
      some (motion (G_Damage_knockback env targ true (dir.getD vec3_origin)
        (G_Damage_multipliers env targ damage knockback).2))) ∧
    (w.level.gameplay = .GAME_DEATHMATCH ∨ w.level.gameplay = .GAME_DUEL →
      (G_Damage_rules env w t t targ targ damage knockback mod).damage =
        (G_Damage_multipliers env targ damage knockback).1) := by
  have ha : w.entities[attacker.getD 0]? = some targ := by rw [hself]; exact ht
  have hmotion : ∀ w' : World, w'.entities[t]? = some targ →
      respawnProtected w'.level targ = respawnProtected w.level targ →
      targ.take_damage = true → respawnProtected w.level targ = false →
      (G_Damage env w' (some t) inflictor attacker dir pos normal damage knockback dflags
        mod).1.entities[t]?.map motion =
      some (motion (G_Damage_knockback env targ true (dir.getD vec3_origin)
        (G_Damage_multipliers env targ damage knockback).2)) := by
    intro w' ht' hrp' htd hrp
    have ha' : w'.entities[attacker.getD 0]? = some targ := by rw [hself]; exact ht'
    rw [G_Damage_eq_apply env w' t targ targ inflictor attacker dir pos normal damage knockback
      dflags mod ht' htd (hrp'.trans hrp) ha', hself,
      G_Damage_apply_target env w' t t targ targ dir pos normal damage knockback dflags mod ht',
      Option.map_some', targetAfter_motion]
    simp only [decide_True]
    rfl
  refine ⟨?_, ?_, hmotion w ht rfl, ?_⟩
  · intro hg
    have hd : (G_Damage_rules env w t t targ targ damage knockback mod).damage = 0 := by
      rw [G_Damage_rules_self]
      rcases hg with hg | hg <;> rw [hg]
    refine ⟨hd, ?_⟩
    by_cases hguard : targ.take_damage = false ∨ respawnProtected w.level targ = true
    · rw [G_Damage_guard env w t targ inflictor attacker dir pos normal damage knockback dflags
        mod ht hguard]
      simp [ht, dieCalls]
    · have htd : targ.take_damage = true := by
        by_contra h
        exact hguard (Or.inl (by simpa using h))
      have hrp : respawnProtected w.level targ = false := by
        by_contra h
        exact hguard (Or.inr (by simpa using h))
      have hz := G_Damage_absorb_zero env targ (pos.getD targ.origin)
        (normal.getD vec3_origin) dflags hq0
      have hdh : damageHealth env w t t targ targ pos normal damage knockback dflags mod = 0 := by
        unfold damageHealth
        rw [hd]
        exact hz.2
      have hnf : ¬ isFatal targ 0 := fun h => h.1 rfl
      rw [G_Damage_eq_apply env w t targ targ inflictor attacker dir pos normal damage knockback
        dflags mod ht htd hrp ha, hself]
      refine ⟨?_, ?_, ?_⟩
      · rw [G_Damage_apply_target env w t _ targ targ dir pos normal damage knockback dflags mod
          ht, Option.map_some', targetAfter_health, hd, hz.2]
        simp
      · rw [G_Damage_apply_target env w t _ targ targ dir pos normal damage knockback dflags mod
          ht, Option.map_some', targetAfter_inventory, hd,
          G_Damage_absorb_zero_target env targ _ _ dflags hq0 hq1]
      · rw [G_Damage_apply_dieCalls, hdh, if_neg (fun h => hnf h.1)]
  · intro g
    by_cases hguard : targ.take_damage = false ∨ respawnProtected w.level targ = true
    · rw [G_Damage_guard env w t targ inflictor attacker dir pos normal damage knockback dflags
        mod ht hguard,
        G_Damage_guard env (withGameplay w g) t targ inflictor attacker dir pos normal damage
          knockback dflags mod ht hguard]
      rfl
    · have htd : targ.take_damage = true := by
        by_contra h
        exact hguard (Or.inl (by simpa using h))
      have hrp : respawnProtected w.level targ = false := by
        by_contra h
        exact hguard (Or.inr (by simpa using h))
      rw [hmotion w ht rfl htd hrp, hmotion (withGameplay w g) ht rfl htd hrp]
  · intro hg
    rw [G_Damage_rules_self]
    rcases hg with hg | hg <;> rw [hg]

/-- Witness for C30: the client of `w_instagib` hits itself for 60 damage and
100 knockback along the x axis: health and armor are unchanged, the velocity
change is that of knockback. -/
theorem G_Damage_self_damage_witness :
    w_instagib.entities[1]? = some client0 ∧ (some 1 : Option Nat).getD 0 = 1 ∧
    0 ≤ armorCharge env0 client0 ∧ armorCharge env0 client0 ≤ 32767 ∧
    w_instagib.level.gameplay = .GAME_INSTAGIB ∧
    (G_Damage env0 w_instagib (some 1) none (some 1) (some ⟨1, 0, 0⟩) none none 60 100 0
      0).1.entities[1]?.map (·.health) = some client0.health ∧
    (G_Damage env0 w_instagib (some 1) none (some 1) (some ⟨1, 0, 0⟩) none none 60 100 0
      0).1.entities[1]?.map (·.velocity) = some ⟨600, 0, 150⟩ :=
  ⟨rfl, rfl, by decide, by decide, rfl,
    ((G_Damage_self_damage env0 w_instagib 1 client0 none (some 1) (some ⟨1, 0, 0⟩) none none
      60 100 0 0 rfl rfl (by decide) (by decide)).1 (Or.inl rfl)).2.1,
    by decide!⟩

/-! ## `G_CheckMatchEnd` -/

/-- The clients of a list are on the good team, on the evil team, or on
neither. -/
theorem countGood_add_countEvil (w : World) (js : List Nat)
    (h : ∀ j ∈ js, ∀ e, w.entities[j]? = some e →
      (clientOf e).persistent.team = some TEAM_GOOD ∨
        (clientOf e).persistent.team = some TEAM_EVIL)
    (hin : ∀ j ∈ js, ∃ e, w.entities[j]? = some e) :
    countGood w js + countEvil w js = js.length := by
  induction js with
  | nil => rfl
  | cons j js ih =>
    have ih' := ih (fun i hi => h i (List.mem_cons_of_mem _ hi))
      (fun i hi => hin i (List.mem_cons_of_mem _ hi))
    obtain ⟨e, he⟩ := hin j (List.mem_cons_self _ _)
    unfold countGood countEvil at ih' ⊢
    rcases h j (List.mem_cons_self _ _) e he with hg | hg
    · simp only [List.filter_cons, he, hg, decide_True, if_true, List.length_cons]
      have : ¬ (some TEAM_GOOD = some TEAM_EVIL) := by decide
      simp only [this, decide_False, Bool.false_eq_true, if_false]
      omega
    · simp only [List.filter_cons, he, hg, decide_True, if_true, List.length_cons]
      have : ¬ (some TEAM_EVIL = some TEAM_GOOD) := by decide
      simp only [this, decide_False, Bool.false_eq_true, if_false]
      omega

/-- Every playing client is an entity of the world. -/
theorem activeClients_entity (w : World) :
    ∀ j ∈ activeClients w, ∃ e, w.entities[j]? = some e := by
  intro j hj
  unfold activeClients at hj
  rw [List.mem_filter] at hj
  rcases Option.eq_none_or_eq_some (w.entities[j]?) with h | ⟨e, h⟩
  · rw [h] at hj
    simp at hj
  · exact ⟨e, h⟩

/-- The number of clients on the good team is at most the number of clients. -/
theorem countGood_le (w : World) (js : List Nat) : countGood w js ≤ js.length := by
  unfold countGood
  exact List.length_filter_le _ _

/-- C29: `G_CheckMatchEnd` sets `match_time` to 0 if and only if match mode is
on, `0 < match_time <= time` and either no client in use is playing or, in team
or CTF mode, one of the two teams has no playing client; then nothing else in
the game state changes, and in every other case nothing changes at all and
nothing is called.  The only calls it ever makes are the two announcements that
players are lacking: it begins no intermission and declares no winner.  The
hypothesis `allOnTeams` concerns team and CTF mode only, where the code counts
every playing client that is not on the good team as one of the evil team; it
holds of every state outside these modes, whatever the teams of the clients. -/
theorem G_CheckMatchEnd_iff (w : World) (hteamed : allOnTeams w) :
    (matchEnded w →
      (G_CheckMatchEnd w).1 = { w with level := { w.level with match_time := 0 } }) ∧
    (¬ matchEnded w → G_CheckMatchEnd w = (w, [])) ∧
    ((G_CheckMatchEnd w).1.level.match_time = 0 ∧ w.level.match_time ≠ 0 ↔ matchEnded w) ∧
    (∀ ev ∈ (G_CheckMatchEnd w).2,
      ev = .BroadcastPrint "No players left\n" ∨
        ev = .BroadcastPrint "Not enough players left\n") ∧
    (G_CheckMatchEnd w).1.level.intermission_time = w.level.intermission_time := by
  have hsum := fun ht : w.level.teams = true ∨ w.level.ctf = true =>
    countGood_add_countEvil w (activeClients w) (hteamed ht) (activeClients_entity w)
  have hle := countGood_le w (activeClients w)
  have hyes : matchEnded w →
      (G_CheckMatchEnd w).1 = { w with level := { w.level with match_time := 0 } } ∧
      ∀ ev ∈ (G_CheckMatchEnd w).2,
        ev = .BroadcastPrint "No players left\n" ∨
          ev = .BroadcastPrint "Not enough players left\n" := by
    rintro ⟨hm, h0, h1, hc⟩
    unfold G_CheckMatchEnd
    rw [if_neg (by simp [hm]), if_neg (by omega)]
    dsimp only
    by_cases hz : ((activeClients w).length : Int) = 0
    · rw [if_pos hz]
      exact ⟨rfl, by simp⟩
    · rw [if_neg hz]
      rcases hc with hc | ⟨ht, hc⟩
      · rw [hc] at hz
        exact absurd rfl hz
      · have ht' : (w.level.teams = true ∨ w.level.ctf = true) := ht
        have hs := hsum ht'
        rw [if_pos]
        · exact ⟨rfl, by simp⟩
        · refine ⟨ht', ?_⟩
          simp only [if_pos ht']
          rcases hc with hc | hc
          · left; omega
          · right; omega
  have hno : ¬ matchEnded w → G_CheckMatchEnd w = (w, []) := by
    intro hn
    unfold G_CheckMatchEnd
    by_cases hm : w.level.«match» = true
    · rw [if_neg (by simp [hm])]
      by_cases hr : w.level.match_time = 0 ∨ w.level.match_time > w.level.time
      · rw [if_pos hr]
      · rw [if_neg hr]
        have h0 : 0 < w.level.match_time := by omega
        have h1 : w.level.match_time ≤ w.level.time := by omega
        dsimp only
        have hc : ¬ (activeClients w = [] ∨
            ((w.level.teams = true ∨ w.level.ctf = true) ∧
              (countGood w (activeClients w) = 0 ∨ countEvil w (activeClients w) = 0))) :=
          fun h => hn ⟨hm, h0, h1, h⟩
        rw [if_neg, if_neg]
        · rintro ⟨ht, hge⟩
          have hs := hsum ht
          apply hc
          right
          refine ⟨ht, ?_⟩
          simp only [if_pos ht] at hge
          rcases hge with hge | hge
          · left; omega
          · right; omega
        · intro hz
          apply hc
          left
          exact List.length_eq_zero.mp (by exact_mod_cast hz)
    · rw [if_pos (by simpa using hm)]
  refine ⟨fun h => (hyes h).1, hno, ?_, ?_, ?_⟩
  · constructor
    · rintro ⟨hz, hnz⟩
      by_contra hn
      rw [hno hn] at hz
      exact hnz hz
    · intro h
      rw [(hyes h).1]
      exact ⟨rfl, by have := h.2.1; omega⟩
  · by_cases h : matchEnded w
    · exact (hyes h).2
    · rw [hno h]
      simp
  · by_cases h : matchEnded w
    · rw [(hyes h).1]
    · rw [hno h]

/-- Witness for C29: a running match in team mode whose only playing client is
on the good team: the evil team is empty and the match time is cleared.  A
running free-for-all match with two playing clients, which have no team: the
call changes nothing and calls nothing.  A running free-for-all match without
clients: the match time is cleared. -/
theorem G_CheckMatchEnd_iff_witness :
    (allOnTeams w_match_end ∧ matchEnded w_match_end ∧
      (G_CheckMatchEnd w_match_end).1 =
        { w_match_end with level := { w_match_end.level with match_time := 0 } }) ∧
    (allOnTeams w_match_ffa ∧ ¬ matchEnded w_match_ffa ∧
      activeClients w_match_ffa = [1, 2] ∧
      G_CheckMatchEnd w_match_ffa = (w_match_ffa, [])) ∧
    (allOnTeams w_match_ffa_empty ∧ matchEnded w_match_ffa_empty ∧
      (G_CheckMatchEnd w_match_ffa_empty).1 =
        { w_match_ffa_empty with level := { w_match_ffa_empty.level with match_time := 0 } }) :=
  ⟨(fun (h : allOnTeams w_match_end) (hm : matchEnded w_match_end) =>
      ⟨h, hm, (G_CheckMatchEnd_iff w_match_end h).1 hm⟩)
      (by unfold allOnTeams; decide!)
      (by unfold matchEnded; decide!),
    (fun (h : allOnTeams w_match_ffa) (hm : ¬ matchEnded w_match_ffa) =>
      ⟨h, hm, by decide!, (G_CheckMatchEnd_iff w_match_ffa h).2.1 hm⟩)
      (by unfold allOnTeams; decide!)
      (by unfold matchEnded; decide!),
    (fun (h : allOnTeams w_match_ffa_empty) (hm : matchEnded w_match_ffa_empty) =>
      ⟨h, hm, (G_CheckMatchEnd_iff w_match_ffa_empty h).1 hm⟩)
      (by unfold allOnTeams; decide!)
      (by unfold matchEnded; decide!)⟩

/-! ## `Sv_InitGame` and `G_LoadGame` -/

/-- C25: `Sv_InitGame` calls `Init` if and only if no game was loaded, the
library load returned a table and the version of that table is
`GAME_API_VERSION`.  For a table of another version it ends with
`Com_Error(ERR_DROP, ...)` and `Init` is not called.  The table that `G_LoadGame`
returns has `api_version = GAME_API_VERSION` and `protocol = PROTOCOL_MINOR`, so
a server without a game that loads this module calls `Init`. -/
theorem Sv_InitGame_version (api : Int) (load : g_import_t → Option g_export_t)
    (svs : sv_static_t) :
    (SvEvent.Init ∈ (Sv_InitGame api load svs).2 ↔
      svs.game = none ∧ ∃ ge, load (Sv_InitGame_import svs) = some ge ∧ ge.api_version = api) ∧
    (∀ ge, svs.game = none → load (Sv_InitGame_import svs) = some ge → ge.api_version ≠ api →
      SvEvent.Init ∉ (Sv_InitGame api load svs).2 ∧
      (Sv_InitGame api load svs).2.getLast? =
        some (.Com_Error .ERR_DROP ("Game is version " ++ toString ge.api_version ++
          ", not " ++ toString api ++ "\n"))) ∧
    (∀ (imp : g_import_t) (w : World),
      (G_LoadGame api imp w).2.api_version = api ∧
      (G_LoadGame api imp w).2.protocol = PROTOCOL_MINOR) ∧
    (∀ w : World, svs.game = none →
      SvEvent.Init ∈ (Sv_InitGame api (fun imp => some (G_LoadGame api imp w).2) svs).2) := by
  have key : ∀ load' : g_import_t → Option g_export_t,
      (SvEvent.Init ∈ (Sv_InitGame api load' svs).2 ↔
        svs.game = none ∧ ∃ ge, load' (Sv_InitGame_import svs) = some ge ∧ ge.api_version = api) := by
    intro load'
    unfold Sv_InitGame
    rcases Option.eq_none_or_eq_some svs.game with hg | ⟨g0, hg⟩
    · rw [hg]
      simp only [Option.isSome_none, Bool.false_eq_true, if_false, true_and]
      rcases Option.eq_none_or_eq_some (load' (Sv_InitGame_import svs)) with hl | ⟨ge, hl⟩
      · simp [hl]
      · by_cases hv : ge.api_version = api
        · simp [hl, hv]
        · simp [hl, hv]
    · rw [hg]
      simp
  refine ⟨key load, ?_, fun imp w => ⟨rfl, rfl⟩, ?_⟩
  · intro ge hg hl hv
    refine ⟨fun h => hv ?_, ?_⟩
    · obtain ⟨_, ge', hl', hv'⟩ := (key load).mp h
      rw [hl] at hl'
      cases hl'
      exact hv'
    · unfold Sv_InitGame
      rw [hg]
      simp only [Option.isSome_none, Bool.false_eq_true, if_false]
      simp [hl, hv]
  · intro w hg
    exact (key _).mpr ⟨hg, _, rfl, rfl⟩

/-- Witness for C25: a server without a game loads the module of this
repository built for version 7: `Init` is called; for a module that reports
version 6 the load ends in an error. -/
theorem Sv_InitGame_version_witness :
    SvEvent.Init ∈ (Sv_InitGame 7 (fun imp => some (G_LoadGame 7 imp {}).2) svs0).2 ∧
    (SvEvent.Init ∉ (Sv_InitGame 7 (fun imp => some (G_LoadGame 6 imp {}).2) svs0).2 ∧
      (Sv_InitGame 7 (fun imp => some (G_LoadGame 6 imp {}).2) svs0).2.getLast? =
        some (.Com_Error .ERR_DROP "Game is version 6, not 7\n")) :=
  ⟨(Sv_InitGame_version 7 (fun imp => some (G_LoadGame 7 imp {}).2) svs0).2.2.2 {} rfl,
    (Sv_InitGame_version 7 (fun imp => some (G_LoadGame 6 imp {}).2) svs0).2.1 _ rfl rfl
      (by decide)⟩

/-! ## `Sv_ConfigString` -/

/-- C28: `Sv_ConfigString` with an index of at least `MAX_CONFIG_STRINGS` leaves
the server state as it is and only warns; with a valid index and a value equal
to the stored one (`NULL` read as the empty string) it changes nothing and
calls nothing.  A multicast is made only for a valid index, a value that
differs from the stored one and a server that is not loading, and then it
carries the command, the index and the value. -/
theorem Sv_ConfigString_unchanged (c : SvConsts) (sv : sv_server_t) (index : Nat)
    (val : Option String) :
    (index ≥ c.MAX_CONFIG_STRINGS →
      (Sv_ConfigString c sv index val).1 = sv ∧
      (Sv_ConfigString c sv index val).2 =
        [.Com_Warn ("Bad index " ++ toString index ++ "\n")]) ∧
    (index < c.MAX_CONFIG_STRINGS → sv.config_strings.getD index "" = val.getD "" →
      Sv_ConfigString c sv index val = (sv, [])) ∧
    (∀ ev ∈ (Sv_ConfigString c sv index val).2, ev.isMulticast = true →
      index < c.MAX_CONFIG_STRINGS ∧ sv.config_strings.getD index "" ≠ val.getD "" ∧
      sv.state ≠ c.SV_LOADING ∧
      ev = .Sv_Multicast [.Byte c.SV_CMD_CONFIG_STRING, .Short index, .String (val.getD "")]) ∧
    (index < c.MAX_CONFIG_STRINGS → sv.config_strings.getD index "" ≠ val.getD "" →
      sv.state ≠ c.SV_LOADING →
      (Sv_ConfigString c sv index val).2 =
        [.Sv_Multicast [.Byte c.SV_CMD_CONFIG_STRING, .Short index, .String (val.getD "")]] ∧
      (Sv_ConfigString c sv index val).1.config_strings =
        sv.config_strings.set index (g_strlcpy (val.getD "") c.MAX_STRING_CHARS)) := by
  unfold Sv_ConfigString
  by_cases hi : index ≥ c.MAX_CONFIG_STRINGS
  · rw [if_pos hi]
    refine ⟨fun _ => ⟨rfl, rfl⟩, fun h => absurd hi (Nat.not_le.mpr h), ?_,
      fun h => absurd hi (Nat.not_le.mpr h)⟩
    intro ev hev hm
    simp only [List.mem_singleton] at hev
    rw [hev] at hm
    cases hm
  · rw [if_neg hi]
    dsimp only
    by_cases hs : sv.config_strings.getD index "" = val.getD ""
    · rw [if_pos hs]
      refine ⟨fun h => absurd h hi, fun _ _ => rfl, ?_, fun _ h => absurd hs h⟩
      intro ev hev
      cases hev
    · rw [if_neg hs]
      by_cases hl : sv.state ≠ c.SV_LOADING
      · rw [if_pos hl]
        refine ⟨fun h => absurd h hi, fun _ h => absurd h hs, ?_, fun _ _ _ => ⟨rfl, rfl⟩⟩
        intro ev hev _
        simp only [List.mem_singleton] at hev
        exact ⟨Nat.not_le.mp hi, hs, hl, hev⟩
      · rw [if_neg hl]
        refine ⟨fun h => absurd h hi, fun _ h => absurd h hs, ?_, fun _ _ h => absurd h hl⟩
        intro ev hev
        cases hev

/-- Witness for C28: on a running server, index 4 of 4 is refused, the stored
value `c` at index 2 is not sent again, and a new value at index 2 is sent. -/
theorem Sv_ConfigString_unchanged_witness :
    (Sv_ConfigString svc0 sv0 4 (some "x")).1 = sv0 ∧
    Sv_ConfigString svc0 sv0 2 (some "c") = (sv0, []) ∧
    (Sv_ConfigString svc0 sv0 2 (some "x")).2 =
      [.Sv_Multicast [.Byte 13, .Short 2, .String "x"]] :=
  ⟨((Sv_ConfigString_unchanged svc0 sv0 4 (some "x")).1 (by decide)).1,
    (Sv_ConfigString_unchanged svc0 sv0 2 (some "c")).2.1 (by decide) (by decide),
    ((Sv_ConfigString_unchanged svc0 sv0 2 (some "x")).2.2.2 (by decide) (by decide)
      (by decide)).1⟩

/-! ## The cvar checks of `G_CheckRules` -/

/-- The cvar checks are the sequence `cvarBlocks`. -/
theorem G_CheckRules_reconcile_eq (genv : GameEnv) (w : World) :
    G_CheckRules_reconcile genv w = runBlocks (cvarBlocks genv) { world := w } := rfl

/-- Running two sequences of checks one after the other. -/
theorem runBlocks_append (Bs Cs : List (CvarPass → CvarPass)) (s : CvarPass) :
    runBlocks (Bs ++ Cs) s = runBlocks Cs (runBlocks Bs s) := by
  unfold runBlocks
  exact List.foldl_append _ _ _ _

/-- What every check of a sequence leaves alone, the sequence leaves alone. -/
theorem runBlocks_keep {α : Type} (p : CvarPass → α) (Bs : List (CvarPass → CvarPass))
    (h : ∀ B ∈ Bs, ∀ s, p (B s) = p s) (s : CvarPass) : p (runBlocks Bs s) = p s := by
  induction Bs generalizing s with
  | nil => rfl
  | cons B Bs ih =>
    show p (runBlocks Bs (B s)) = p s
    rw [ih (fun C hC => h C (List.mem_cons_of_mem _ hC)), h B (List.mem_cons_self _ _)]

/-- An invariant of every check of a sequence is an invariant of the sequence. -/
theorem runBlocks_inv (P : CvarPass → Prop) (Bs : List (CvarPass → CvarPass))
    (h : ∀ B ∈ Bs, ∀ s, P s → P (B s)) (s : CvarPass) (hs : P s) : P (runBlocks Bs s) := by
  induction Bs generalizing s with
  | nil => exact hs
  | cons B Bs ih =>
    exact ih (fun C hC => h C (List.mem_cons_of_mem _ hC)) (B s)
      (h B (List.mem_cons_self _ _) s hs)

/-- The cvar checks leave the entities, the clock, the timers and the frame
constants alone. -/
theorem cvarBlocks_plainView (genv : GameEnv) (s : CvarPass) :
    plainView (runBlocks (cvarBlocks genv) s).world = plainView s.world := by
  refine runBlocks_keep (fun t => plainView t.world) _ ?_ s
  unfold cvarBlocks
  simp only [List.forall_mem_cons, List.not_mem_nil, false_implies, implies_true, and_true]
  refine ⟨?_, ?_, ?_, ?_, ?_, ?_, ?_, ?_, ?_, ?_, ?_⟩
  all_goals intro t
  · unfold G_CheckRules_gameplay; dsimp only; split_ifs <;> rfl
  · unfold G_CheckRules_gravity; dsimp only; split_ifs <;> rfl
  · unfold G_CheckRules_teams; dsimp only; split_ifs <;> rfl
  · unfold G_CheckRules_ctf; dsimp only; split_ifs <;> rfl
  · unfold G_CheckRules_match; dsimp only; split_ifs <;> rfl
  · unfold G_CheckRules_rounds; dsimp only; split_ifs <;> rfl
  · unfold G_CheckRules_cheats; dsimp only; split_ifs <;> rfl
  · unfold G_CheckRules_frag_limit_cvar; dsimp only; split_ifs <;> rfl
  · unfold G_CheckRules_round_limit_cvar; dsimp only; split_ifs <;> rfl
  · unfold G_CheckRules_capture_limit_cvar; dsimp only; split_ifs <;> rfl
  · unfold G_CheckRules_time_limit_cvar; dsimp only; split_ifs <;> rfl

/-! ### What each cvar check leaves alone -/

/-- The check of `g_gravity` leaves the state of the team rule alone. -/
theorem G_CheckRules_gravity_teamsView (s : CvarPass) :
    teamsView (G_CheckRules_gravity s).world = teamsView s.world := by
  unfold G_CheckRules_gravity
  dsimp only
  split_ifs <;> rfl

/-- The check of `g_ctf` leaves the state of the team rule alone. -/
theorem G_CheckRules_ctf_teamsView (s : CvarPass) :
    teamsView (G_CheckRules_ctf s).world = teamsView s.world := by
  unfold G_CheckRules_ctf
  dsimp only
  split_ifs <;> rfl

/-- The check of `g_match` leaves the state of the team rule alone. -/
theorem G_CheckRules_match_teamsView (s : CvarPass) :
    teamsView (G_CheckRules_match s).world = teamsView s.world := by
  unfold G_CheckRules_match
  dsimp only
  split_ifs <;> rfl

/-- The check of `g_rounds` leaves the state of the team rule alone. -/
theorem G_CheckRules_rounds_teamsView (s : CvarPass) :
    teamsView (G_CheckRules_rounds s).world = teamsView s.world := by
  unfold G_CheckRules_rounds
  dsimp only
  split_ifs <;> rfl

/-- The check of `g_cheats` leaves the state of the team rule alone. -/
theorem G_CheckRules_cheats_teamsView (s : CvarPass) :
    teamsView (G_CheckRules_cheats s).world = teamsView s.world := by
  unfold G_CheckRules_cheats
  dsimp only
  split_ifs <;> rfl

/-- The check of `g_frag_limit` leaves the state of the team rule alone. -/
theorem G_CheckRules_frag_limit_cvar_teamsView (s : CvarPass) :
    teamsView (G_CheckRules_frag_limit_cvar s).world = teamsView s.world := by
  unfold G_CheckRules_frag_limit_cvar
  dsimp only
  split_ifs <;> rfl

/-- The check of `g_round_limit` leaves the state of the team rule alone. -/
theorem G_CheckRules_round_limit_cvar_teamsView (s : CvarPass) :
    teamsView (G_CheckRules_round_limit_cvar s).world = teamsView s.world := by
  unfold G_CheckRules_round_limit_cvar
  dsimp only
  split_ifs <;> rfl

/-- The check of `g_capture_limit` leaves the state of the team rule alone. -/
theorem G_CheckRules_capture_limit_cvar_teamsView (s : CvarPass) :
    teamsView (G_CheckRules_capture_limit_cvar s).world = teamsView s.world := by
  unfold G_CheckRules_capture_limit_cvar
  dsimp only
  split_ifs <;> rfl

/-- The check of `g_time_limit` leaves the state of the team rule alone. -/
theorem G_CheckRules_time_limit_cvar_teamsView (genv : GameEnv) (s : CvarPass) :
    teamsView (G_CheckRules_time_limit_cvar genv s).world = teamsView s.world := by
  unfold G_CheckRules_time_limit_cvar
  dsimp only
  split_ifs <;> rfl

/-- The check of `g_gravity` leaves the state of the match rule alone. -/
theorem G_CheckRules_gravity_matchView (s : CvarPass) :
    matchView (G_CheckRules_gravity s).world = matchView s.world := by
  unfold G_CheckRules_gravity
  dsimp only
  split_ifs <;> rfl

/-- The check of `g_teams` leaves the state of the match rule alone. -/
theorem G_CheckRules_teams_matchView (s : CvarPass) :
    matchView (G_CheckRules_teams s).world = matchView s.world := by
  unfold G_CheckRules_teams
  dsimp only
  split_ifs <;> rfl

/-- The check of `g_ctf` leaves the state of the match rule alone. -/
theorem G_CheckRules_ctf_matchView (s : CvarPass) :
    matchView (G_CheckRules_ctf s).world = matchView s.world := by
  unfold G_CheckRules_ctf
  dsimp only
  split_ifs <;> rfl

/-- The check of `g_rounds` leaves the state of the match rule alone. -/
theorem G_CheckRules_rounds_matchView (s : CvarPass) :
    matchView (G_CheckRules_rounds s).world = matchView s.world := by
  unfold G_CheckRules_rounds
  dsimp only
  split_ifs <;> rfl

/-- The check of `g_cheats` leaves the state of the match rule alone. -/
theorem G_CheckRules_cheats_matchView (s : CvarPass) :
    matchView (G_CheckRules_cheats s).world = matchView s.world := by
  unfold G_CheckRules_cheats
  dsimp only
  split_ifs <;> rfl

/-- The check of `g_frag_limit` leaves the state of the match rule alone. -/
theorem G_CheckRules_frag_limit_cvar_matchView (s : CvarPass) :
    matchView (G_CheckRules_frag_limit_cvar s).world = matchView s.world := by
  unfold G_CheckRules_frag_limit_cvar
  dsimp only
  split_ifs <;> rfl

/-- The check of `g_round_limit` leaves the state of the match rule alone. -/
theorem G_CheckRules_round_limit_cvar_matchView (s : CvarPass) :
    matchView (G_CheckRules_round_limit_cvar s).world = matchView s.world := by
  unfold G_CheckRules_round_limit_cvar
  dsimp only
  split_ifs <;> rfl

/-- The check of `g_capture_limit` leaves the state of the match rule alone. -/
theorem G_CheckRules_capture_limit_cvar_matchView (s : CvarPass) :
    matchView (G_CheckRules_capture_limit_cvar s).world = matchView s.world := by
  unfold G_CheckRules_capture_limit_cvar
  dsimp only
  split_ifs <;> rfl

/-- The check of `g_time_limit` leaves the state of the match rule alone. -/
theorem G_CheckRules_time_limit_cvar_matchView (genv : GameEnv) (s : CvarPass) :
    matchView (G_CheckRules_time_limit_cvar genv s).world = matchView s.world := by
  unfold G_CheckRules_time_limit_cvar
  dsimp only
  split_ifs <;> rfl

/-- The check of `g_gameplay` leaves the state of the CTF rule alone. -/
theorem G_CheckRules_gameplay_ctfView (genv : GameEnv) (s : CvarPass) :
    ctfView (G_CheckRules_gameplay genv s).world = ctfView s.world := by
  unfold G_CheckRules_gameplay
  dsimp only
  split_ifs <;> rfl

/-- The check of `g_gravity` leaves the state of the CTF rule alone. -/
theorem G_CheckRules_gravity_ctfView (s : CvarPass) :
    ctfView (G_CheckRules_gravity s).world = ctfView s.world := by
  unfold G_CheckRules_gravity
  dsimp only
  split_ifs <;> rfl

/-- The check of `g_teams` leaves the state of the CTF rule alone. -/
theorem G_CheckRules_teams_ctfView (s : CvarPass) :
    ctfView (G_CheckRules_teams s).world = ctfView s.world := by
  unfold G_CheckRules_teams
  dsimp only
  split_ifs <;> rfl

/-- The check of `g_match` leaves the state of the CTF rule alone. -/
theorem G_CheckRules_match_ctfView (s : CvarPass) :
    ctfView (G_CheckRules_match s).world = ctfView s.world := by
  unfold G_CheckRules_match
  dsimp only
  split_ifs <;> rfl

/-- The check of `g_rounds` leaves the state of the CTF rule alone. -/
theorem G_CheckRules_rounds_ctfView (s : CvarPass) :
    ctfView (G_CheckRules_rounds s).world = ctfView s.world := by
  unfold G_CheckRules_rounds
  dsimp only
  split_ifs <;> rfl

/-- The check of `g_cheats` leaves the state of the CTF rule alone. -/
theorem G_CheckRules_cheats_ctfView (s : CvarPass) :
    ctfView (G_CheckRules_cheats s).world = ctfView s.world := by
  unfold G_CheckRules_cheats
  dsimp only
  split_ifs <;> rfl

/-- The check of `g_frag_limit` leaves the state of the CTF rule alone. -/
theorem G_CheckRules_frag_limit_cvar_ctfView (s : CvarPass) :
    ctfView (G_CheckRules_frag_limit_cvar s).world = ctfView s.world := by
  unfold G_CheckRules_frag_limit_cvar
  dsimp only
  split_ifs <;> rfl

/-- The check of `g_round_limit` leaves the state of the CTF rule alone. -/
theorem G_CheckRules_round_limit_cvar_ctfView (s : CvarPass) :
    ctfView (G_CheckRules_round_limit_cvar s).world = ctfView s.world := by
  unfold G_CheckRules_round_limit_cvar
  dsimp only
  split_ifs <;> rfl

/-- The check of `g_capture_limit` leaves the state of the CTF rule alone. -/
theorem G_CheckRules_capture_limit_cvar_ctfView (s : CvarPass) :
    ctfView (G_CheckRules_capture_limit_cvar s).world = ctfView s.world := by
  unfold G_CheckRules_capture_limit_cvar
  dsimp only
  split_ifs <;> rfl

/-- The check of `g_time_limit` leaves the state of the CTF rule alone. -/
theorem G_CheckRules_time_limit_cvar_ctfView (genv : GameEnv) (s : CvarPass) :
    ctfView (G_CheckRules_time_limit_cvar genv s).world = ctfView s.world := by
  unfold G_CheckRules_time_limit_cvar
  dsimp only
  split_ifs <;> rfl

/-- The check of `g_gameplay` leaves the state of the rounds rule alone. -/
theorem G_CheckRules_gameplay_roundsView (genv : GameEnv) (s : CvarPass) :
    roundsView (G_CheckRules_gameplay genv s).world = roundsView s.world := by
  unfold G_CheckRules_gameplay
  dsimp only
  split_ifs <;> rfl

/-- The check of `g_gravity` leaves the state of the rounds rule alone. -/
theorem G_CheckRules_gravity_roundsView (s : CvarPass) :
    roundsView (G_CheckRules_gravity s).world = roundsView s.world := by
  unfold G_CheckRules_gravity
  dsimp only
  split_ifs <;> rfl

/-- The check of `g_teams` leaves the state of the rounds rule alone. -/
theorem G_CheckRules_teams_roundsView (s : CvarPass) :
    roundsView (G_CheckRules_teams s).world = roundsView s.world := by
  unfold G_CheckRules_teams
  dsimp only
  split_ifs <;> rfl

/-- The check of `g_ctf` leaves the state of the rounds rule alone. -/
theorem G_CheckRules_ctf_roundsView (s : CvarPass) :
    roundsView (G_CheckRules_ctf s).world = roundsView s.world := by
  unfold G_CheckRules_ctf
  dsimp only
  split_ifs <;> rfl

/-- The check of `g_match` leaves the state of the rounds rule alone. -/
theorem G_CheckRules_match_roundsView (s : CvarPass) :
    roundsView (G_CheckRules_match s).world = roundsView s.world := by
  unfold G_CheckRules_match
  dsimp only
  split_ifs <;> rfl

/-- The check of `g_cheats` leaves the state of the rounds rule alone. -/
theorem G_CheckRules_cheats_roundsView (s : CvarPass) :
    roundsView (G_CheckRules_cheats s).world = roundsView s.world := by
  unfold G_CheckRules_cheats
  dsimp only
  split_ifs <;> rfl

/-- The check of `g_frag_limit` leaves the state of the rounds rule alone. -/
theorem G_CheckRules_frag_limit_cvar_roundsView (s : CvarPass) :
    roundsView (G_CheckRules_frag_limit_cvar s).world = roundsView s.world := by
  unfold G_CheckRules_frag_limit_cvar
  dsimp only
  split_ifs <;> rfl

/-- The check of `g_round_limit` leaves the state of the rounds rule alone. -/
theorem G_CheckRules_round_limit_cvar_roundsView (s : CvarPass) :
    roundsView (G_CheckRules_round_limit_cvar s).world = roundsView s.world := by
  unfold G_CheckRules_round_limit_cvar
  dsimp only
  split_ifs <;> rfl

/-- The check of `g_capture_limit` leaves the state of the rounds rule alone. -/
theorem G_CheckRules_capture_limit_cvar_roundsView (s : CvarPass) :
    roundsView (G_CheckRules_capture_limit_cvar s).world = roundsView s.world := by
  unfold G_CheckRules_capture_limit_cvar
  dsimp only
  split_ifs <;> rfl

/-- The check of `g_time_limit` leaves the state of the rounds rule alone. -/
theorem G_CheckRules_time_limit_cvar_roundsView (genv : GameEnv) (s : CvarPass) :
    roundsView (G_CheckRules_time_limit_cvar genv s).world = roundsView s.world := by
  unfold G_CheckRules_time_limit_cvar
  dsimp only
  split_ifs <;> rfl

/-- The check of `g_gameplay` leaves the limits alone. -/
theorem G_CheckRules_gameplay_limitsView (genv : GameEnv) (s : CvarPass) :
    limitsView (G_CheckRules_gameplay genv s).world = limitsView s.world := by
  unfold G_CheckRules_gameplay
  dsimp only
  split_ifs <;> rfl

/-- The check of `g_gravity` leaves the limits alone. -/
theorem G_CheckRules_gravity_limitsView (s : CvarPass) :
    limitsView (G_CheckRules_gravity s).world = limitsView s.world := by
  unfold G_CheckRules_gravity
  dsimp only
  split_ifs <;> rfl

/-- The check of `g_teams` leaves the limits alone. -/
theorem G_CheckRules_teams_limitsView (s : CvarPass) :
    limitsView (G_CheckRules_teams s).world = limitsView s.world := by
  unfold G_CheckRules_teams
  dsimp only
  split_ifs <;> rfl

/-- The check of `g_ctf` leaves the limits alone. -/
theorem G_CheckRules_ctf_limitsView (s : CvarPass) :
    limitsView (G_CheckRules_ctf s).world = limitsView s.world := by
  unfold G_CheckRules_ctf
  dsimp only
  split_ifs <;> rfl

/-- The check of `g_match` leaves the limits alone. -/
theorem G_CheckRules_match_limitsView (s : CvarPass) :
    limitsView (G_CheckRules_match s).world = limitsView s.world := by
  unfold G_CheckRules_match
  dsimp only
  split_ifs <;> rfl

/-- The check of `g_rounds` leaves the limits alone. -/
theorem G_CheckRules_rounds_limitsView (s : CvarPass) :
    limitsView (G_CheckRules_rounds s).world = limitsView s.world := by
  unfold G_CheckRules_rounds
  dsimp only
  split_ifs <;> rfl

/-- The check of `g_cheats` leaves the limits alone. -/
theorem G_CheckRules_cheats_limitsView (s : CvarPass) :
    limitsView (G_CheckRules_cheats s).world = limitsView s.world := by
  unfold G_CheckRules_cheats
  dsimp only
  split_ifs <;> rfl

/-- The check of `g_gravity` leaves the local `restart` alone. -/
theorem G_CheckRules_gravity_restart (s : CvarPass) :
    (G_CheckRules_gravity s).restart = s.restart := by
  unfold G_CheckRules_gravity
  dsimp only
  split_ifs <;> rfl

/-- The check of `g_cheats` leaves the local `restart` alone. -/
theorem G_CheckRules_cheats_restart (s : CvarPass) :
    (G_CheckRules_cheats s).restart = s.restart := by
  unfold G_CheckRules_cheats
  dsimp only
  split_ifs <;> rfl

/-- The check of `g_frag_limit` leaves the local `restart` alone. -/
theorem G_CheckRules_frag_limit_cvar_restart (s : CvarPass) :
    (G_CheckRules_frag_limit_cvar s).restart = s.restart := by
  unfold G_CheckRules_frag_limit_cvar
  dsimp only
  split_ifs <;> rfl

/-- The check of `g_round_limit` leaves the local `restart` alone. -/
theorem G_CheckRules_round_limit_cvar_restart (s : CvarPass) :
    (G_CheckRules_round_limit_cvar s).restart = s.restart := by
  unfold G_CheckRules_round_limit_cvar
  dsimp only
  split_ifs <;> rfl

/-- The check of `g_capture_limit` leaves the local `restart` alone. -/
theorem G_CheckRules_capture_limit_cvar_restart (s : CvarPass) :
    (G_CheckRules_capture_limit_cvar s).restart = s.restart := by
  unfold G_CheckRules_capture_limit_cvar
  dsimp only
  split_ifs <;> rfl

/-- The check of `g_time_limit` leaves the local `restart` alone. -/
theorem G_CheckRules_time_limit_cvar_restart (genv : GameEnv) (s : CvarPass) :
    (G_CheckRules_time_limit_cvar genv s).restart = s.restart := by
  unfold G_CheckRules_time_limit_cvar
  dsimp only
  split_ifs <;> rfl

/-- The check of `g_gameplay` only adds prints, config strings and console commands to
the calls made. -/
theorem G_CheckRules_gameplay_events (genv : GameEnv) (s : CvarPass) :
    ∃ evs, (G_CheckRules_gameplay genv s).events = s.events ++ evs ∧ ∀ ev ∈ evs, ev.isNotice = true := by
  unfold G_CheckRules_gameplay
  dsimp only
  split_ifs
  all_goals first
    | exact ⟨[], (List.append_nil _).symm, by simp⟩
    | exact ⟨_, rfl, by simp [GameEvent.isNotice]⟩

/-- The check of `g_gravity` only adds prints, config strings and console commands to
the calls made. -/
theorem G_CheckRules_gravity_events (s : CvarPass) :
    ∃ evs, (G_CheckRules_gravity s).events = s.events ++ evs ∧ ∀ ev ∈ evs, ev.isNotice = true := by
  unfold G_CheckRules_gravity
  dsimp only
  split_ifs
  all_goals exact ⟨[], (List.append_nil _).symm, by simp⟩

/-- The check of `g_teams` only adds prints, config strings and console commands to
the calls made. -/
theorem G_CheckRules_teams_events (s : CvarPass) :
    ∃ evs, (G_CheckRules_teams s).events = s.events ++ evs ∧ ∀ ev ∈ evs, ev.isNotice = true := by
  unfold G_CheckRules_teams
  dsimp only
  split_ifs
  all_goals first
    | exact ⟨[], (List.append_nil _).symm, by simp⟩
    | exact ⟨_, rfl, by simp [GameEvent.isNotice]⟩

/-- The check of `g_ctf` only adds prints, config strings and console commands to
the calls made. -/
theorem G_CheckRules_ctf_events (s : CvarPass) :
    ∃ evs, (G_CheckRules_ctf s).events = s.events ++ evs ∧ ∀ ev ∈ evs, ev.isNotice = true := by
  unfold G_CheckRules_ctf
  dsimp only
  split_ifs
  all_goals first
    | exact ⟨[], (List.append_nil _).symm, by simp⟩
    | exact ⟨_, rfl, by simp [GameEvent.isNotice]⟩

/-- The check of `g_match` only adds prints, config strings and console commands to
the calls made. -/
theorem G_CheckRules_match_events (s : CvarPass) :
    ∃ evs, (G_CheckRules_match s).events = s.events ++ evs ∧ ∀ ev ∈ evs, ev.isNotice = true := by
  unfold G_CheckRules_match
  dsimp only
  split_ifs
  all_goals first
    | exact ⟨[], (List.append_nil _).symm, by simp⟩
    | exact ⟨_, rfl, by simp [GameEvent.isNotice]⟩

/-- The check of `g_rounds` only adds prints, config strings and console commands to
the calls made. -/
theorem G_CheckRules_rounds_events (s : CvarPass) :
    ∃ evs, (G_CheckRules_rounds s).events = s.events ++ evs ∧ ∀ ev ∈ evs, ev.isNotice = true := by
  unfold G_CheckRules_rounds
  dsimp only
  split_ifs
  all_goals first
    | exact ⟨[], (List.append_nil _).symm, by simp⟩
    | exact ⟨_, rfl, by simp [GameEvent.isNotice]⟩

/-- The check of `g_cheats` only adds prints, config strings and console commands to
the calls made. -/
theorem G_CheckRules_cheats_events (s : CvarPass) :
    ∃ evs, (G_CheckRules_cheats s).events = s.events ++ evs ∧ ∀ ev ∈ evs, ev.isNotice = true := by
  unfold G_CheckRules_cheats
  dsimp only
  split_ifs
  all_goals first
    | exact ⟨[], (List.append_nil _).symm, by simp⟩
    | exact ⟨_, rfl, by simp [GameEvent.isNotice]⟩

/-- The check of `g_frag_limit` only adds prints, config strings and console commands to
the calls made. -/
theorem G_CheckRules_frag_limit_cvar_events (s : CvarPass) :
    ∃ evs, (G_CheckRules_frag_limit_cvar s).events = s.events ++ evs ∧ ∀ ev ∈ evs, ev.isNotice = true := by
  unfold G_CheckRules_frag_limit_cvar
  dsimp only
  split_ifs
  all_goals first
    | exact ⟨[], (List.append_nil _).symm, by simp⟩
    | exact ⟨_, rfl, by simp [GameEvent.isNotice]⟩

/-- The check of `g_round_limit` only adds prints, config strings and console commands to
the calls made. -/
theorem G_CheckRules_round_limit_cvar_events (s : CvarPass) :
    ∃ evs, (G_CheckRules_round_limit_cvar s).events = s.events ++ evs ∧ ∀ ev ∈ evs, ev.isNotice = true := by
  unfold G_CheckRules_round_limit_cvar
  dsimp only
  split_ifs
  all_goals first
    | exact ⟨[], (List.append_nil _).symm, by simp⟩
    | exact ⟨_, rfl, by simp [GameEvent.isNotice]⟩

/-- The check of `g_capture_limit` only adds prints, config strings and console commands to
the calls made. -/
theorem G_CheckRules_capture_limit_cvar_events (s : CvarPass) :
    ∃ evs, (G_CheckRules_capture_limit_cvar s).events = s.events ++ evs ∧ ∀ ev ∈ evs, ev.isNotice = true := by
  unfold G_CheckRules_capture_limit_cvar
  dsimp only
  split_ifs
  all_goals first
    | exact ⟨[], (List.append_nil _).symm, by simp⟩
    | exact ⟨_, rfl, by simp [GameEvent.isNotice]⟩

/-- The check of `g_time_limit` only adds prints, config strings and console commands to
the calls made. -/
theorem G_CheckRules_time_limit_cvar_events (genv : GameEnv) (s : CvarPass) :
    ∃ evs, (G_CheckRules_time_limit_cvar genv s).events = s.events ++ evs ∧ ∀ ev ∈ evs, ev.isNotice = true := by
  unfold G_CheckRules_time_limit_cvar
  dsimp only
  split_ifs
  all_goals first
    | exact ⟨[], (List.append_nil _).symm, by simp⟩
    | exact ⟨_, rfl, by simp [GameEvent.isNotice]⟩

/-! ### The effect of the checks of `g_gameplay`, `g_teams` and `g_match` -/

/-- The check of `g_gameplay` on the state of the team rule. -/
theorem G_CheckRules_gameplay_teamsView (genv : GameEnv) (w : World) :
    teamsView (G_CheckRules_gameplay genv { world := w }).world =
      (forcedCvar genv w w.g_teams, w.level.teams, gameplayAfter genv w) := by
  unfold G_CheckRules_gameplay teamsView forcedCvar gameplayAfter
  dsimp only
  by_cases hm : w.g_gameplay.modified = true
  · simp only [hm, if_true, true_and]
    split_ifs <;> simp_all
  · simp [hm]

/-- The check of `g_gameplay` on the state of the match rule. -/
theorem G_CheckRules_gameplay_matchView (genv : GameEnv) (w : World) :
    matchView (G_CheckRules_gameplay genv { world := w }).world =
      (forcedCvar genv w w.g_match, w.level.«match», gameplayAfter genv w,
        w.level.match_status) := by
  unfold G_CheckRules_gameplay matchView forcedCvar gameplayAfter
  dsimp only
  by_cases hm : w.g_gameplay.modified = true
  · simp only [hm, if_true, true_and]
    split_ifs <;> simp_all
  · simp [hm]

/-- The check of `g_gameplay` sets `restart` exactly if the cvar was modified. -/
theorem G_CheckRules_gameplay_restart (genv : GameEnv) (w : World) :
    (G_CheckRules_gameplay genv { world := w }).restart = w.g_gameplay.modified := by
  unfold G_CheckRules_gameplay
  dsimp only
  by_cases hm : w.g_gameplay.modified = true
  · simp [hm]
  · simp [hm]

/-- The check of `g_teams` on the state it reads and writes. -/
theorem G_CheckRules_teams_teamsView (s : CvarPass) :
    teamsView (G_CheckRules_teams s).world = teamsStep (teamsView s.world) := by
  unfold G_CheckRules_teams teamsView teamsStep
  dsimp only
  split_ifs <;> rfl

/-- The check of `g_match` on the state it reads and writes. -/
theorem G_CheckRules_match_matchView (s : CvarPass) :
    matchView (G_CheckRules_match s).world = matchStep (matchView s.world) := by
  unfold G_CheckRules_match matchView matchStep
  dsimp only
  split_ifs <;> rfl

/-- The check of `g_teams` sets `restart` exactly if the modification is
accepted. -/
theorem G_CheckRules_teams_restart (s : CvarPass) :
    (G_CheckRules_teams s).restart = true ↔
      s.restart = true ∨ (s.world.g_teams.modified = true ∧
        ¬ (s.world.level.gameplay = .GAME_DUEL ∧ s.world.g_teams.integer = 0)) := by
  unfold G_CheckRules_teams
  dsimp only
  split_ifs <;> simp_all

/-- The check of `g_match` sets `restart` exactly if the modification is
accepted. -/
theorem G_CheckRules_match_restart (s : CvarPass) :
    (G_CheckRules_match s).restart = true ↔
      s.restart = true ∨ (s.world.g_match.modified = true ∧
        ¬ (s.world.level.gameplay = .GAME_DUEL ∧ s.world.g_match.integer = 0)) := by
  unfold G_CheckRules_match
  dsimp only
  split_ifs <;> simp_all

/-- The check of `g_ctf` sets `restart` exactly if the cvar was modified. -/
theorem G_CheckRules_ctf_restart (s : CvarPass) :
    (G_CheckRules_ctf s).restart = true ↔ s.restart = true ∨ s.world.g_ctf.modified = true := by
  unfold G_CheckRules_ctf
  dsimp only
  split_ifs <;> simp_all

/-- The check of `g_rounds` sets `restart` exactly if the cvar was modified. -/
theorem G_CheckRules_rounds_restart (s : CvarPass) :
    (G_CheckRules_rounds s).restart = true ↔
      s.restart = true ∨ s.world.g_rounds.modified = true := by
  unfold G_CheckRules_rounds
  dsimp only
  split_ifs <;> simp_all

/-! ### The cvar checks as a whole -/

/-- The state of the team rule after the cvar checks. -/
theorem G_CheckRules_reconcile_teamsView (genv : GameEnv) (w : World) :
    teamsView (G_CheckRules_reconcile genv w).world =
      teamsStep (forcedCvar genv w w.g_teams, w.level.teams, gameplayAfter genv w) := by
  unfold G_CheckRules_reconcile
  rw [G_CheckRules_time_limit_cvar_teamsView, G_CheckRules_capture_limit_cvar_teamsView,
    G_CheckRules_round_limit_cvar_teamsView, G_CheckRules_frag_limit_cvar_teamsView,
    G_CheckRules_cheats_teamsView, G_CheckRules_rounds_teamsView, G_CheckRules_match_teamsView,
    G_CheckRules_ctf_teamsView, G_CheckRules_teams_teamsView, G_CheckRules_gravity_teamsView,
    G_CheckRules_gameplay_teamsView]

/-- The state of the match rule after the cvar checks. -/
theorem G_CheckRules_reconcile_matchView (genv : GameEnv) (w : World) :
    matchView (G_CheckRules_reconcile genv w).world =
      matchStep (forcedCvar genv w w.g_match, w.level.«match», gameplayAfter genv w,
        w.level.match_status) := by
  unfold G_CheckRules_reconcile
  rw [G_CheckRules_time_limit_cvar_matchView, G_CheckRules_capture_limit_cvar_matchView,
    G_CheckRules_round_limit_cvar_matchView, G_CheckRules_frag_limit_cvar_matchView,
    G_CheckRules_cheats_matchView, G_CheckRules_rounds_matchView, G_CheckRules_match_matchView,
    G_CheckRules_ctf_matchView, G_CheckRules_teams_matchView, G_CheckRules_gravity_matchView,
    G_CheckRules_gameplay_matchView]

/-- The checks of the four limits on the state they read and write. -/
theorem G_CheckRules_limits_limitsView (genv : GameEnv) (s : CvarPass) :
    limitsView (G_CheckRules_time_limit_cvar genv (G_CheckRules_capture_limit_cvar
      (G_CheckRules_round_limit_cvar (G_CheckRules_frag_limit_cvar s)))).world =
      limitsStep (limitsView s.world) := by
  unfold G_CheckRules_time_limit_cvar G_CheckRules_capture_limit_cvar
    G_CheckRules_round_limit_cvar G_CheckRules_frag_limit_cvar limitsView limitsStep
  dsimp only
  split_ifs <;> simp_all

/-- The limits after the cvar checks. -/
theorem G_CheckRules_reconcile_limitsView (genv : GameEnv) (w : World) :
    limitsView (G_CheckRules_reconcile genv w).world = limitsStep (limitsView w) := by
  unfold G_CheckRules_reconcile
  rw [G_CheckRules_limits_limitsView, G_CheckRules_cheats_limitsView,
    G_CheckRules_rounds_limitsView, G_CheckRules_match_limitsView, G_CheckRules_ctf_limitsView,
    G_CheckRules_teams_limitsView, G_CheckRules_gravity_limitsView,
    G_CheckRules_gameplay_limitsView]

/-- The local `restart` after the cvar checks. -/
theorem G_CheckRules_reconcile_restart (genv : GameEnv) (w : World) :
    (G_CheckRules_reconcile genv w).restart = true ↔ restartNeeded genv w := by
  have hR : roundsView (G_CheckRules_match (G_CheckRules_ctf (G_CheckRules_teams
      (G_CheckRules_gravity (G_CheckRules_gameplay genv { world := w }))))).world =
      roundsView w := by
    rw [G_CheckRules_match_roundsView, G_CheckRules_ctf_roundsView,
      G_CheckRules_teams_roundsView, G_CheckRules_gravity_roundsView,
      G_CheckRules_gameplay_roundsView]
  have hM : matchView (G_CheckRules_ctf (G_CheckRules_teams
      (G_CheckRules_gravity (G_CheckRules_gameplay genv { world := w })))).world =
      (forcedCvar genv w w.g_match, w.level.«match», gameplayAfter genv w,
        w.level.match_status) := by
    rw [G_CheckRules_ctf_matchView, G_CheckRules_teams_matchView,
      G_CheckRules_gravity_matchView, G_CheckRules_gameplay_matchView]
  have hC : ctfView (G_CheckRules_teams
      (G_CheckRules_gravity (G_CheckRules_gameplay genv { world := w }))).world = ctfView w := by
    rw [G_CheckRules_teams_ctfView, G_CheckRules_gravity_ctfView, G_CheckRules_gameplay_ctfView]
  have hT : teamsView (G_CheckRules_gravity (G_CheckRules_gameplay genv { world := w })).world =
      (forcedCvar genv w w.g_teams, w.level.teams, gameplayAfter genv w) := by
    rw [G_CheckRules_gravity_teamsView, G_CheckRules_gameplay_teamsView]
  simp only [roundsView, matchView, ctfView, teamsView, Prod.mk.injEq] at hR hM hC hT
  unfold G_CheckRules_reconcile
  rw [G_CheckRules_time_limit_cvar_restart, G_CheckRules_capture_limit_cvar_restart,
    G_CheckRules_round_limit_cvar_restart, G_CheckRules_frag_limit_cvar_restart,
    G_CheckRules_cheats_restart, G_CheckRules_rounds_restart, G_CheckRules_match_restart,
    G_CheckRules_ctf_restart, G_CheckRules_teams_restart, G_CheckRules_gravity_restart,
    G_CheckRules_gameplay_restart, hR.1, hM.1, hM.2.2.1, hC.1, hT.1, hT.2.2]
  unfold restartNeeded accepted forcedCvar
  by_cases hg : w.g_gameplay.modified = true
  · simp [hg]
  · simp only [hg, false_and, if_false, false_or]
    tauto

/-! ### The `modified` flags -/

/-- After the check of `g_gameplay` the `modified` flags of the first 1 cvars are
false. -/
theorem G_CheckRules_gameplay_flags (genv : GameEnv) (s : CvarPass) :
    (modifiedFlags (G_CheckRules_gameplay genv s).world).take 1 = List.replicate 1 false := by
  unfold G_CheckRules_gameplay
  unfold modifiedFlags at *
  dsimp only
  split_ifs <;> simp_all [List.replicate]

/-- After the check of `g_gravity` the `modified` flags of the first 2 cvars are
false, if those before it were. -/
theorem G_CheckRules_gravity_flags (s : CvarPass)
    (h : (modifiedFlags s.world).take 1 = List.replicate 1 false) :
    (modifiedFlags (G_CheckRules_gravity s).world).take 2 = List.replicate 2 false := by
  unfold G_CheckRules_gravity
  unfold modifiedFlags at *
  dsimp only
  split_ifs <;> simp_all [List.replicate]

/-- After the check of `g_teams` the `modified` flags of the first 3 cvars are
false, if those before it were. -/
theorem G_CheckRules_teams_flags (s : CvarPass)
    (h : (modifiedFlags s.world).take 2 = List.replicate 2 false) :
    (modifiedFlags (G_CheckRules_teams s).world).take 3 = List.replicate 3 false := by
  unfold G_CheckRules_teams
  unfold modifiedFlags at *
  dsimp only
  split_ifs <;> simp_all [List.replicate]

/-- After the check of `g_ctf` the `modified` flags of the first 4 cvars are
false, if those before it were. -/
theorem G_CheckRules_ctf_flags (s : CvarPass)
    (h : (modifiedFlags s.world).take 3 = List.replicate 3 false) :
    (modifiedFlags (G_CheckRules_ctf s).world).take 4 = List.replicate 4 false := by
  unfold G_CheckRules_ctf
  unfold modifiedFlags at *
  dsimp only
  split_ifs <;> simp_all [List.replicate]

/-- After the check of `g_match` the `modified` flags of the first 5 cvars are
false, if those before it were. -/
theorem G_CheckRules_match_flags (s : CvarPass)
    (h : (modifiedFlags s.world).take 4 = List.replicate 4 false) :
    (modifiedFlags (G_CheckRules_match s).world).take 5 = List.replicate 5 false := by
  unfold G_CheckRules_match
  unfold modifiedFlags at *
  dsimp only
  split_ifs <;> simp_all [List.replicate]

/-- After the check of `g_rounds` the `modified` flags of the first 6 cvars are
false, if those before it were. -/
theorem G_CheckRules_rounds_flags (s : CvarPass)
    (h : (modifiedFlags s.world).take 5 = List.replicate 5 false) :
    (modifiedFlags (G_CheckRules_rounds s).world).take 6 = List.replicate 6 false := by
  unfold G_CheckRules_rounds
  unfold modifiedFlags at *
  dsimp only
  split_ifs <;> simp_all [List.replicate]

/-- After the check of `g_cheats` the `modified` flags of the first 7 cvars are
false, if those before it were. -/
theorem G_CheckRules_cheats_flags (s : CvarPass)
    (h : (modifiedFlags s.world).take 6 = List.replicate 6 false) :
    (modifiedFlags (G_CheckRules_cheats s).world).take 7 = List.replicate 7 false := by
  unfold G_CheckRules_cheats
  unfold modifiedFlags at *
  dsimp only
  split_ifs <;> simp_all [List.replicate]

/-- After the check of `g_frag_limit` the `modified` flags of the first 8 cvars are
false, if those before it were. -/
theorem G_CheckRules_frag_limit_cvar_flags (s : CvarPass)
    (h : (modifiedFlags s.world).take 7 = List.replicate 7 false) :
    (modifiedFlags (G_CheckRules_frag_limit_cvar s).world).take 8 = List.replicate 8 false := by
  unfold G_CheckRules_frag_limit_cvar
  unfold modifiedFlags at *
  dsimp only
  split_ifs <;> simp_all [List.replicate]

/-- After the check of `g_round_limit` the `modified` flags of the first 9 cvars are
false, if those before it were. -/
theorem G_CheckRules_round_limit_cvar_flags (s : CvarPass)
    (h : (modifiedFlags s.world).take 8 = List.replicate 8 false) :
    (modifiedFlags (G_CheckRules_round_limit_cvar s).world).take 9 = List.replicate 9 false := by
  unfold G_CheckRules_round_limit_cvar
  unfold modifiedFlags at *
  dsimp only
  split_ifs <;> simp_all [List.replicate]

/-- After the check of `g_capture_limit` the `modified` flags of the first 10 cvars are
false, if those before it were. -/
theorem G_CheckRules_capture_limit_cvar_flags (s : CvarPass)
    (h : (modifiedFlags s.world).take 9 = List.replicate 9 false) :
    (modifiedFlags (G_CheckRules_capture_limit_cvar s).world).take 10 = List.replicate 10 false := by
  unfold G_CheckRules_capture_limit_cvar
  unfold modifiedFlags at *
  dsimp only
  split_ifs <;> simp_all [List.replicate]

/-- After the check of `g_time_limit` the `modified` flags of the first 11 cvars are
false, if those before it were. -/
theorem G_CheckRules_time_limit_cvar_flags (genv : GameEnv) (s : CvarPass)
    (h : (modifiedFlags s.world).take 10 = List.replicate 10 false) :
    (modifiedFlags (G_CheckRules_time_limit_cvar genv s).world).take 11 = List.replicate 11 false := by
  unfold G_CheckRules_time_limit_cvar
  unfold modifiedFlags at *
  dsimp only
  split_ifs <;> simp_all [List.replicate]

/-- After the cvar checks every `modified` flag is false. -/
theorem G_CheckRules_reconcile_flags (genv : GameEnv) (w : World) :
    modifiedFlags (G_CheckRules_reconcile genv w).world = List.replicate 11 false := by
  have h := G_CheckRules_time_limit_cvar_flags genv _
    (G_CheckRules_capture_limit_cvar_flags _
      (G_CheckRules_round_limit_cvar_flags _
        (G_CheckRules_frag_limit_cvar_flags _
          (G_CheckRules_cheats_flags _
            (G_CheckRules_rounds_flags _
              (G_CheckRules_match_flags _
                (G_CheckRules_ctf_flags _
                  (G_CheckRules_teams_flags _
                    (G_CheckRules_gravity_flags _
                      (G_CheckRules_gameplay_flags genv { world := w }))))))))))
  have hl : (modifiedFlags (G_CheckRules_reconcile genv w).world).length = 11 := rfl
  rw [← List.take_length (modifiedFlags (G_CheckRules_reconcile genv w).world), hl]
  exact h

/-- With no `modified` flag set the cvar checks do nothing. -/
theorem G_CheckRules_reconcile_idle (genv : GameEnv) (w : World)
    (h : modifiedFlags w = List.replicate 11 false) :
    G_CheckRules_reconcile genv w = { world := w } := by
  simp only [modifiedFlags, List.replicate, List.cons.injEq, and_true] at h
  obtain ⟨h1, h2, h3, h4, h5, h6, h7, h8, h9, h10, h11⟩ := h
  unfold G_CheckRules_reconcile
  have e1 : G_CheckRules_gameplay genv { world := w } = { world := w } := by
    unfold G_CheckRules_gameplay; simp [h1]
  have e2 : G_CheckRules_gravity { world := w } = { world := w } := by
    unfold G_CheckRules_gravity; simp [h2]
  have e3 : G_CheckRules_teams { world := w } = { world := w } := by
    unfold G_CheckRules_teams; simp [h3]
  have e4 : G_CheckRules_ctf { world := w } = { world := w } := by
    unfold G_CheckRules_ctf; simp [h4]
  have e5 : G_CheckRules_match { world := w } = { world := w } := by
    unfold G_CheckRules_match; simp [h5]
  have e6 : G_CheckRules_rounds { world := w } = { world := w } := by
    unfold G_CheckRules_rounds; simp [h6]
  have e7 : G_CheckRules_cheats { world := w } = { world := w } := by
    unfold G_CheckRules_cheats; simp [h7]
  have e8 : G_CheckRules_frag_limit_cvar { world := w } = { world := w } := by
    unfold G_CheckRules_frag_limit_cvar; simp [h8]
  have e9 : G_CheckRules_round_limit_cvar { world := w } = { world := w } := by
    unfold G_CheckRules_round_limit_cvar; simp [h9]
  have e10 : G_CheckRules_capture_limit_cvar { world := w } = { world := w } := by
    unfold G_CheckRules_capture_limit_cvar; simp [h10]
  have e11 : G_CheckRules_time_limit_cvar genv { world := w } = { world := w } := by
    unfold G_CheckRules_time_limit_cvar; simp [h11]
  rw [e1, e2, e3, e4, e5, e6, e7, e8, e9, e10, e11]

/-- The calls of the cvar checks are prints, config strings and console
commands. -/
theorem G_CheckRules_reconcile_events (genv : GameEnv) (w : World) :
    ∀ ev ∈ (G_CheckRules_reconcile genv w).events, ev.isNotice = true := by
  have step : ∀ (B : CvarPass → CvarPass) (s : CvarPass),
      (∃ evs, (B s).events = s.events ++ evs ∧ ∀ ev ∈ evs, ev.isNotice = true) →
      (∀ ev ∈ s.events, ev.isNotice = true) → ∀ ev ∈ (B s).events, ev.isNotice = true := by
    rintro B s ⟨evs, he, hn⟩ hs ev hev
    rw [he, List.mem_append] at hev
    rcases hev with h | h
    · exact hs ev h
    · exact hn ev h
  unfold G_CheckRules_reconcile
  exact step _ _ (G_CheckRules_time_limit_cvar_events genv _)
    (step _ _ (G_CheckRules_capture_limit_cvar_events _)
      (step _ _ (G_CheckRules_round_limit_cvar_events _)
        (step _ _ (G_CheckRules_frag_limit_cvar_events _)
          (step _ _ (G_CheckRules_cheats_events _)
            (step _ _ (G_CheckRules_rounds_events _)
              (step _ _ (G_CheckRules_match_events _)
                (step _ _ (G_CheckRules_ctf_events _)
                  (step _ _ (G_CheckRules_teams_events _)
                    (step _ _ (G_CheckRules_gravity_events _)
                      (step _ _ (G_CheckRules_gameplay_events genv _)
                        (by intro ev hev; cases hev)))))))))))

/-! ### `G_RestartGame` -/

/-- The body of the client loop of `G_RestartGame` changes entities only. -/
theorem G_RestartGame_client_rest (genv : GameEnv) (teamz : Bool)
    (acc : World × List GameEvent) (j : Nat) :
    (G_RestartGame_client genv teamz acc j).1 =
      { acc.1 with entities := (G_RestartGame_client genv teamz acc j).1.entities } := by
  unfold G_RestartGame_client
  dsimp only
  split
  · rfl
  · rename_i ent _
    by_cases hu : (!ent.in_use) = true
    · rw [if_pos hu]
    · rw [if_neg hu]
      split <;> rfl

/-- The client loop of `G_RestartGame` changes entities only. -/
theorem G_RestartGame_loop_rest (genv : GameEnv) (teamz : Bool) (js : List Nat)
    (acc : World × List GameEvent) :
    (js.foldl (G_RestartGame_client genv teamz) acc).1 =
      { acc.1 with entities := (js.foldl (G_RestartGame_client genv teamz) acc).1.entities } := by
  induction js generalizing acc with
  | nil => rfl
  | cons j js ih =>
    rw [List.foldl_cons]
    have h1 := ih (G_RestartGame_client genv teamz acc j)
    have h2 := G_RestartGame_client_rest genv teamz acc j
    rw [h1]
    conv_lhs => rw [h2]

/-- The function `G_RestartGame` changes the entities, the match and round
numbers and times and the scores of the teams, and nothing else. -/
theorem G_RestartGame_rest (genv : GameEnv) (teamz : Bool) (w : World) :
    (G_RestartGame genv teamz w).1 =
      { w with
        entities := (G_RestartGame genv teamz w).1.entities
        level := restartedLevel w.level
        g_team_good := { w.g_team_good with score := 0, captures := 0 }
        g_team_evil := { w.g_team_evil with score := 0, captures := 0 } } := by
  unfold G_RestartGame G_ResetItems restartedLevel
  dsimp only
  rw [G_RestartGame_loop_rest]
  dsimp only
  split_ifs <;> rfl

/-- The function `G_RestartGame` leaves the rules, the limits, the cvars, the
clock and the match status alone. -/
theorem G_RestartGame_views (genv : GameEnv) (teamz : Bool) (w : World) :
    teamsView (G_RestartGame genv teamz w).1 = teamsView w ∧
    matchView (G_RestartGame genv teamz w).1 = matchView w ∧
    ctfView (G_RestartGame genv teamz w).1 = ctfView w ∧
    roundsView (G_RestartGame genv teamz w).1 = roundsView w ∧
    limitsView (G_RestartGame genv teamz w).1 = limitsView w ∧
    modifiedFlags (G_RestartGame genv teamz w).1 = modifiedFlags w ∧
    (G_RestartGame genv teamz w).1.level.time = w.level.time ∧
    (G_RestartGame genv teamz w).1.level.frame_num = w.level.frame_num ∧
    (G_RestartGame genv teamz w).1.level.intermission_time = w.level.intermission_time := by
  rw [G_RestartGame_rest]
  exact ⟨rfl, rfl, rfl, rfl, rfl, rfl, rfl, rfl, rfl⟩

/-- The world after the cvar checks and the restart, in terms of the world after
the cvar checks. -/
theorem G_CheckRules_cvars_world (genv : GameEnv) (w : World) :
    (G_CheckRules_cvars genv w).1 = (G_CheckRules_reconcile genv w).world ∨
    (G_CheckRules_cvars genv w).1 =
      (G_RestartGame genv true (G_CheckRules_reconcile genv w).world).1 := by
  unfold G_CheckRules_cvars
  dsimp only
  split_ifs
  · exact Or.inr rfl
  · exact Or.inl rfl

/-- The restart at the end of `G_CheckRules` leaves the rules, the limits and the
`modified` flags as the cvar checks left them. -/
theorem G_CheckRules_cvars_views (genv : GameEnv) (w : World) :
    teamsView (G_CheckRules_cvars genv w).1 = teamsView (G_CheckRules_reconcile genv w).world ∧
    matchView (G_CheckRules_cvars genv w).1 = matchView (G_CheckRules_reconcile genv w).world ∧
    limitsView (G_CheckRules_cvars genv w).1 =
      limitsView (G_CheckRules_reconcile genv w).world ∧
    modifiedFlags (G_CheckRules_cvars genv w).1 =
      modifiedFlags (G_CheckRules_reconcile genv w).world := by
  rcases G_CheckRules_cvars_world genv w with h | h
  · rw [h]
    exact ⟨rfl, rfl, rfl, rfl⟩
  · rw [h]
    have hv := G_RestartGame_views genv true (G_CheckRules_reconcile genv w).world
    exact ⟨hv.1, hv.2.1, hv.2.2.2.2.1, hv.2.2.2.2.2.1⟩

/-- The restart at the end of `G_CheckRules` is made exactly if the local
`restart` is set. -/
theorem G_CheckRules_cvars_restart_mem (genv : GameEnv) (w : World) :
    GameEvent.G_RestartGame true ∈ (G_CheckRules_cvars genv w).2 ↔
      (G_CheckRules_reconcile genv w).restart = true := by
  unfold G_CheckRules_cvars
  dsimp only
  by_cases h : (G_CheckRules_reconcile genv w).restart = true
  · rw [if_pos h]
    simp [G_RestartGame, h]
  · rw [if_neg h]
    constructor
    · intro hm
      have := G_CheckRules_reconcile_events genv w _ hm
      cases this
    · intro h'
      exact absurd h' h

/-- C26: at the end of the cvar checks of `G_CheckRules`, `G_RestartGame(true)`
is invoked if and only if at least one of `g_gameplay`, `g_teams`, `g_ctf`,
`g_match`, `g_rounds` was modified and its new value accepted.  A modified
`g_frag_limit`, `g_round_limit`, `g_capture_limit` or `g_time_limit` is copied
into `g_level` (the time limit in milliseconds), with no restart if nothing
else was modified: then only prints are made and the entities are untouched.
Every `modified` flag is false afterwards, and a second pass right after
changes nothing and calls nothing. -/
theorem G_CheckRules_cvars_restart (genv : GameEnv) (w : World) :
    (GameEvent.G_RestartGame true ∈ (G_CheckRules_cvars genv w).2 ↔ restartNeeded genv w) ∧
    ((G_CheckRules_cvars genv w).1.level.frag_limit =
        (if w.g_frag_limit.modified then w.g_frag_limit.integer else w.level.frag_limit) ∧
      (G_CheckRules_cvars genv w).1.level.round_limit =
        (if w.g_round_limit.modified then w.g_round_limit.integer else w.level.round_limit) ∧
      (G_CheckRules_cvars genv w).1.level.capture_limit =
        (if w.g_capture_limit.modified then w.g_capture_limit.integer
          else w.level.capture_limit) ∧
      (G_CheckRules_cvars genv w).1.level.time_limit =
        (if w.g_time_limit_modified then wrap32 (truncQ (w.g_time_limit * 60 * 1000))
          else w.level.time_limit)) ∧
    (¬ restartNeeded genv w →
      (G_CheckRules_cvars genv w).1.entities = w.entities ∧
      ∀ ev ∈ (G_CheckRules_cvars genv w).2, ev.isNotice = true) ∧
    modifiedFlags (G_CheckRules_cvars genv w).1 = List.replicate 11 false ∧
    G_CheckRules_cvars genv (G_CheckRules_cvars genv w).1 =
      ((G_CheckRules_cvars genv w).1, []) := by
  have hv := G_CheckRules_cvars_views genv w
  have hflags : modifiedFlags (G_CheckRules_cvars genv w).1 = List.replicate 11 false := by
    rw [hv.2.2.2, G_CheckRules_reconcile_flags]
  refine ⟨?_, ?_, ?_, hflags, ?_⟩
  · rw [G_CheckRules_cvars_restart_mem, G_CheckRules_reconcile_restart]
  · have hl := hv.2.2.1
    rw [G_CheckRules_reconcile_limitsView] at hl
    simp only [limitsView, limitsStep, Prod.mk.injEq] at hl
    obtain ⟨h1, h2, h3, h4⟩ := hl
    refine ⟨?_, ?_, ?_, ?_⟩
    · have := congrArg Prod.snd h1
      simp only [] at this
      rw [this]
      split_ifs <;> rfl
    · have := congrArg Prod.snd h2
      simp only [] at this
      rw [this]
      split_ifs <;> rfl
    · have := congrArg Prod.snd h3
      simp only [] at this
      rw [this]
      split_ifs <;> rfl
    · have := congrArg (fun v : Bool × ℚ × Nat => v.2.2) h4
      simp only [] at this
      rw [this]
      split_ifs <;> rfl
  · intro hn
    have hr : ¬ (G_CheckRules_reconcile genv w).restart = true :=
      fun h => hn ((G_CheckRules_reconcile_restart genv w).mp h)
    unfold G_CheckRules_cvars
    dsimp only
    rw [if_neg hr]
    refine ⟨?_, G_CheckRules_reconcile_events genv w⟩
    have := cvarBlocks_plainView genv { world := w }
    rw [← G_CheckRules_reconcile_eq] at this
    exact congrArg (fun v => v.1) this
  · have hidle := G_CheckRules_reconcile_idle genv _ hflags
    unfold G_CheckRules_cvars at hidle ⊢
    dsimp only at hidle ⊢
    rw [hidle]
    rfl

/-- Witness for C26: only `g_frag_limit` was modified, to 20: the frag limit of
the level becomes 20 and no restart is made. -/
theorem G_CheckRules_cvars_restart_witness :
    ¬ restartNeeded genv0 w_frag_cvar ∧
    GameEvent.G_RestartGame true ∉ (G_CheckRules_cvars genv0 w_frag_cvar).2 ∧
    (G_CheckRules_cvars genv0 w_frag_cvar).1.level.frag_limit = 20 ∧
    (G_CheckRules_cvars genv0 w_frag_cvar).1.entities = w_frag_cvar.entities :=
  (fun (hn : ¬ restartNeeded genv0 w_frag_cvar) =>
    ⟨hn, fun h => hn ((G_CheckRules_cvars_restart genv0 w_frag_cvar).1.mp h),
      (G_CheckRules_cvars_restart genv0 w_frag_cvar).2.1.1,
      ((G_CheckRules_cvars_restart genv0 w_frag_cvar).2.2.1 hn).1⟩)
    (by decide!)

/-! ### Duel mode -/

/-- C27 (the code at the failing input): the level has teams and match mode off
although the cvars `g_teams` and `g_match` are 1 and unmodified, and
`g_gameplay` is changed to duel.  The pass sets the gameplay to duel, finds both
cvars non-zero, forces nothing, and leaves `g_level.teams` and `g_level.match`
false, where the claim and the comments of the code (`force all requirements
for DUEL mode in a single server restart`, `teams are required for duel`)
require both to be true. -/
theorem G_CheckRules_cvars_duel_not_forced :
    w_duel_cvar.g_gameplay.modified = true ∧
    genv0.G_GameplayByName w_duel_cvar.g_gameplay.string = .GAME_DUEL ∧
    (G_CheckRules_cvars genv0 w_duel_cvar).1.level.gameplay = .GAME_DUEL ∧
    (G_CheckRules_cvars genv0 w_duel_cvar).1.g_teams.integer = 1 ∧
    (G_CheckRules_cvars genv0 w_duel_cvar).1.g_match.integer = 1 ∧
    (G_CheckRules_cvars genv0 w_duel_cvar).1.level.teams = false ∧
    (G_CheckRules_cvars genv0 w_duel_cvar).1.level.«match» = false := by
  decide!

/-- What the cvar checks do for duel mode in general.  When `g_gameplay` is
changed to duel, the same pass leaves
`g_teams` and `g_match` with a non-zero integer and restarts the game;
`g_level.teams` (`g_level.match`) is true afterwards if `g_teams` (`g_match`)
was 0 or modified at the start of the pass, and is unchanged otherwise.  While
the gameplay is duel and `g_gameplay` is not modified, a modification that sets
`g_teams` or `g_match` to 0 is not accepted and leaves `g_level.teams` or
`g_level.match` unchanged; the restart then depends on the other cvars
only. -/
theorem G_CheckRules_cvars_duel (genv : GameEnv) (w : World) :
    (w.g_gameplay.modified = true →
      genv.G_GameplayByName w.g_gameplay.string = .GAME_DUEL →
      (G_CheckRules_cvars genv w).1.level.gameplay = .GAME_DUEL ∧
      (G_CheckRules_cvars genv w).1.g_teams.integer ≠ 0 ∧
      (G_CheckRules_cvars genv w).1.g_match.integer ≠ 0 ∧
      (w.g_teams.integer = 0 ∨ w.g_teams.modified = true →
        (G_CheckRules_cvars genv w).1.level.teams = true) ∧
      (w.g_teams.integer ≠ 0 → w.g_teams.modified = false →
        (G_CheckRules_cvars genv w).1.level.teams = w.level.teams) ∧
      (w.g_match.integer = 0 ∨ w.g_match.modified = true →
        (G_CheckRules_cvars genv w).1.level.«match» = true) ∧
      (w.g_match.integer ≠ 0 → w.g_match.modified = false →
        (G_CheckRules_cvars genv w).1.level.«match» = w.level.«match») ∧
      GameEvent.G_RestartGame true ∈ (G_CheckRules_cvars genv w).2) ∧
    (w.g_gameplay.modified = false → w.level.gameplay = .GAME_DUEL →
      (w.g_teams.modified = true → w.g_teams.integer = 0 →
        (G_CheckRules_cvars genv w).1.level.teams = w.level.teams ∧
        ¬ accepted genv w w.g_teams) ∧
      (w.g_match.modified = true → w.g_match.integer = 0 →
        (G_CheckRules_cvars genv w).1.level.«match» = w.level.«match» ∧
        ¬ accepted genv w w.g_match) ∧
      (GameEvent.G_RestartGame true ∈ (G_CheckRules_cvars genv w).2 ↔
        accepted genv w w.g_teams ∨ w.g_ctf.modified = true ∨ accepted genv w w.g_match ∨
          w.g_rounds.modified = true)) := by
  have hv := G_CheckRules_cvars_views genv w
  have hT := hv.1
  have hM := hv.2.1
  rw [G_CheckRules_reconcile_teamsView] at hT
  rw [G_CheckRules_reconcile_matchView] at hM
  have hrestart := (G_CheckRules_cvars_restart_mem genv w).trans
    (G_CheckRules_reconcile_restart genv w)
  simp only [teamsView, matchView] at hT hM
  constructor
  · intro hg hd
    have hga : gameplayAfter genv w = .GAME_DUEL := by
      unfold gameplayAfter
      rw [if_pos hg, hd]
    rw [hga] at hT hM
    have hfT : (forcedCvar genv w w.g_teams).integer ≠ 0 ∧
        (forcedCvar genv w w.g_teams).modified =
          (w.g_teams.modified || decide (w.g_teams.integer = 0)) := by
      unfold forcedCvar
      by_cases h0 : w.g_teams.integer = 0
      · simp [hg, hd, h0]
      · simp [h0]
    have hfM : (forcedCvar genv w w.g_match).integer ≠ 0 ∧
        (forcedCvar genv w w.g_match).modified =
          (w.g_match.modified || decide (w.g_match.integer = 0)) := by
      unfold forcedCvar
      by_cases h0 : w.g_match.integer = 0
      · simp [hg, hd, h0]
      · simp [h0]
    have hT1 := congrArg (fun v : cvar_t × Bool × g_gameplay_t => v.1.integer) hT
    have hT2 := congrArg (fun v : cvar_t × Bool × g_gameplay_t => v.2.1) hT
    have hT3 := congrArg (fun v : cvar_t × Bool × g_gameplay_t => v.2.2) hT
    have hM1 := congrArg (fun v : cvar_t × Bool × g_gameplay_t × Nat => v.1.integer) hM
    have hM2 := congrArg (fun v : cvar_t × Bool × g_gameplay_t × Nat => v.2.1) hM
    simp only [] at hT1 hT2 hT3 hM1 hM2
    have e1 : ∀ v : cvar_t × Bool × g_gameplay_t, (teamsStep v).1.integer = v.1.integer := by
      intro v; unfold teamsStep; split_ifs <;> rfl
    have e2 : ∀ v : cvar_t × Bool × g_gameplay_t, (teamsStep v).2.2 = v.2.2 := by
      intro v; unfold teamsStep; split_ifs <;> rfl
    have e3 : ∀ v : cvar_t × Bool × g_gameplay_t × Nat,
        (matchStep v).1.integer = v.1.integer := by
      intro v; unfold matchStep; split_ifs <;> rfl
    rw [e1] at hT1
    rw [e2] at hT3
    rw [e3] at hM1
    refine ⟨hT3, by rw [hT1]; exact hfT.1, by rw [hM1]; exact hfM.1, ?_, ?_, ?_, ?_,
      hrestart.mpr (Or.inl hg)⟩
    · intro h
      rw [hT2]
      unfold teamsStep
      have hm : (forcedCvar genv w w.g_teams).modified = true := by
        rw [hfT.2]
        rcases h with h | h
        · simp [h]
        · simp [h]
      simp [hm, hfT.1]
    · intro h0 hm
      rw [hT2]
      unfold teamsStep
      have hm' : (forcedCvar genv w w.g_teams).modified = false := by
        rw [hfT.2]
        simp [hm, h0]
      simp [hm']
    · intro h
      rw [hM2]
      unfold matchStep
      have hm : (forcedCvar genv w w.g_match).modified = true := by
        rw [hfM.2]
        rcases h with h | h
        · simp [h]
        · simp [h]
      simp [hm, hfM.1]
    · intro h0 hm
      rw [hM2]
      unfold matchStep
      have hm' : (forcedCvar genv w w.g_match).modified = false := by
        rw [hfM.2]
        simp [hm, h0]
      simp [hm']
  · intro hg hd
    have hga : gameplayAfter genv w = .GAME_DUEL := by
      unfold gameplayAfter
      rw [if_neg (by simp [hg]), hd]
    have hf : ∀ c : cvar_t, forcedCvar genv w c = c := by
      intro c
      unfold forcedCvar
      simp [hg]
    rw [hga, hf] at hT hM
    have hT2 := congrArg (fun v : cvar_t × Bool × g_gameplay_t => v.2.1) hT
    have hM2 := congrArg (fun v : cvar_t × Bool × g_gameplay_t × Nat => v.2.1) hM
    simp only [] at hT2 hM2
    refine ⟨?_, ?_, ?_⟩
    · intro hm h0
      refine ⟨?_, fun h => h.2 ⟨hga, h0⟩⟩
      rw [hT2]
      unfold teamsStep
      simp [hm, h0]
    · intro hm h0
      refine ⟨?_, fun h => h.2 ⟨hga, h0⟩⟩
      rw [hM2]
      unfold matchStep
      simp [hm, h0]
    · rw [hrestart]
      unfold restartNeeded
      simp [hg]

/-- An instance of `G_CheckRules_cvars_duel`: a deathmatch with `g_teams` and
`g_match` at 0 in which `g_gameplay` is set to duel: teams and match mode are
on afterwards. -/
theorem G_CheckRules_cvars_duel_forced :
    w_duel_forced.g_gameplay.modified = true ∧
    genv0.G_GameplayByName w_duel_forced.g_gameplay.string = .GAME_DUEL ∧
    w_duel_forced.g_teams.integer = 0 ∧ w_duel_forced.g_match.integer = 0 ∧
    (G_CheckRules_cvars genv0 w_duel_forced).1.level.teams = true ∧
    (G_CheckRules_cvars genv0 w_duel_forced).1.level.«match» = true ∧
    (G_CheckRules_cvars genv0 w_duel_forced).1.g_teams.integer ≠ 0 :=
  (fun h => ⟨rfl, by decide, rfl, rfl, h.2.2.2.1 (Or.inl rfl), h.2.2.2.2.2.1 (Or.inl rfl),
      h.2.1⟩)
    ((G_CheckRules_cvars_duel genv0 w_duel_forced).1 rfl (by decide))

/-! ## What the checks of a frame leave alone -/

@[simp] theorem noFrameCalls_nil : noFrameCalls [] := by
  intro ev h
  cases h

@[simp] theorem noFrameCalls_cons (e : GameEvent) (l : List GameEvent) :
    noFrameCalls (e :: l) ↔ e.isFrameCall = false ∧ noFrameCalls l := by
  unfold noFrameCalls
  simp

@[simp] theorem noFrameCalls_append (a b : List GameEvent) :
    noFrameCalls (a ++ b) ↔ noFrameCalls a ∧ noFrameCalls b := by
  unfold noFrameCalls
  simp only [List.mem_append]
  constructor
  · intro h
    exact ⟨fun ev hev => h ev (Or.inl hev), fun ev hev => h ev (Or.inr hev)⟩
  · rintro ⟨h1, h2⟩ ev (hev | hev)
    · exact h1 ev hev
    · exact h2 ev hev

@[simp] theorem noFrameCalls_map_respawn (l : List Nat) :
    noFrameCalls (l.map GameEvent.G_ClientRespawn) := by
  intro ev h
  obtain ⟨j, _, rfl⟩ := List.mem_map.mp h
  rfl

@[simp] theorem noFrameCalls_map_intermission (l : List Nat) :
    noFrameCalls (l.map GameEvent.G_ClientToIntermission) := by
  intro ev h
  obtain ⟨j, _, rfl⟩ := List.mem_map.mp h
  rfl

/-- Prints, config strings and console commands are not calls of `G_Frame`. -/
theorem noFrameCalls_of_notices {evs : List GameEvent}
    (h : ∀ ev ∈ evs, ev.isNotice = true) : noFrameCalls evs := by
  intro ev hev
  have := h ev hev
  cases ev <;> first | rfl | cases this

theorem statusKept_refl (s : Nat) : statusKept s s := Or.inl rfl

theorem statusKept_trans {a b c : Nat} (h1 : statusKept a b) (h2 : statusKept b c) :
    statusKept a c := by
  unfold statusKept at *
  rcases h2 with h | h | h
  · rw [h]; exact h1
  · exact Or.inr (Or.inl h)
  · exact Or.inr (Or.inr h)

/-- A match status that is left alone, cleared or set to `MSTAT_PLAYING` stays
exclusive. -/
theorem exclusiveStatus_of_statusKept {a b : Nat} (h : statusKept a b)
    (ha : exclusiveStatus a) : exclusiveStatus b := by
  rcases h with h | h | h
  · rw [h]; exact ha
  · rw [h]; decide
  · rw [h]; decide

/-- The frame facts of `G_ResetVote`. -/
theorem G_ResetVote_frame (w : World) :
    (G_ResetVote w).1.level.time = w.level.time ∧ noFrameCalls (G_ResetVote w).2 := by
  refine ⟨rfl, ?_⟩
  unfold G_ResetVote
  simp [GameEvent.isFrameCall]

/-- The frame facts of `G_MuteClient`. -/
theorem G_MuteClient_frame (genv : GameEnv) (name : String) (mute : Bool) (w : World) :
    (G_MuteClient genv name mute w).1.level.time = w.level.time ∧
    noFrameCalls (G_MuteClient genv name mute w).2 := by
  unfold G_MuteClient
  split
  · exact ⟨rfl, by simp [GameEvent.isFrameCall]⟩
  · split
    · exact ⟨rfl, by simp [GameEvent.isFrameCall]⟩
    · exact ⟨rfl, by simp [GameEvent.isFrameCall]⟩

/-- The frame facts of `G_BeginIntermission`. -/
theorem G_BeginIntermission_frame (genv : GameEnv) (map : Option String) (w : World) :
    (G_BeginIntermission genv map w).1.level.match_status = w.level.match_status ∧
    noFrameCalls (G_BeginIntermission genv map w).2 := by
  unfold G_BeginIntermission
  by_cases h : w.level.intermission_time ≠ 0
  · rw [if_pos h]
    exact ⟨rfl, by simp [GameEvent.isFrameCall]⟩
  · rw [if_neg h]
    dsimp only [mapClients]
    refine ⟨?_, by simp [GameEvent.isFrameCall]⟩
    split <;> rfl

/-- The frame facts of `G_EndLevel`. -/
theorem G_EndLevel_frame (genv : GameEnv) (w : World) :
    (G_EndLevel genv w).1.level.match_status = 0 ∧ noFrameCalls (G_EndLevel genv w).2 := by
  have h := fun map => G_BeginIntermission_frame genv map
    { w with level := { w.level with match_status := 0 } }
  unfold G_EndLevel
  dsimp only
  split
  · split
    · exact ⟨(h _).1, by simp [GameEvent.isFrameCall, (h _).2]⟩
    · exact ⟨(h _).1, by simp [GameEvent.isFrameCall, (h _).2]⟩
  · exact ⟨(h _).1, by simp [GameEvent.isFrameCall, (h _).2]⟩

/-- The calls of `G_ResetItems` are not calls of `G_Frame`. -/
theorem G_ResetItems_frame (genv : GameEnv) (w : World) :
    noFrameCalls (G_ResetItems genv w).2 := by
  unfold G_ResetItems
  dsimp only
  intro ev hev
  rw [List.mem_flatten] at hev
  obtain ⟨l, hl, hev⟩ := hev
  rw [List.mem_iff_getElem] at hl
  obtain ⟨i, hi, rfl⟩ := hl
  rw [List.getElem_mapIdx] at hev
  split_ifs at hev
  · simp only [List.mem_singleton] at hev
    rw [hev]
    rfl
  · simp only [List.mem_singleton] at hev
    rw [hev]
    rfl
  · cases hev

/-- The body of the client loop of `G_RestartGame` makes no call of `G_Frame`. -/
theorem G_RestartGame_client_frame (genv : GameEnv) (teamz : Bool)
    (acc : World × List GameEvent) (j : Nat) (h : noFrameCalls acc.2) :
    noFrameCalls (G_RestartGame_client genv teamz acc j).2 := by
  unfold G_RestartGame_client
  dsimp only
  split
  · exact h
  · rename_i ent _
    by_cases hu : (!ent.in_use) = true
    · rw [if_pos hu]
      exact h
    · rw [if_neg hu]
      split
      · exact h
      · dsimp only
        simp only [noFrameCalls_append, noFrameCalls_cons, noFrameCalls_nil, and_true]
        refine ⟨⟨h, ?_⟩, rfl⟩
        split_ifs <;> simp [GameEvent.isFrameCall]

/-- The client loop of `G_RestartGame` makes no call of `G_Frame`. -/
theorem G_RestartGame_loop_frame (genv : GameEnv) (teamz : Bool) (js : List Nat)
    (acc : World × List GameEvent) (h : noFrameCalls acc.2) :
    noFrameCalls (js.foldl (G_RestartGame_client genv teamz) acc).2 := by
  induction js generalizing acc with
  | nil => exact h
  | cons j js ih =>
    rw [List.foldl_cons]
    exact ih _ (G_RestartGame_client_frame genv teamz acc j h)

/-- The function `G_RestartGame` makes no call of `G_Frame`. -/
theorem G_RestartGame_frame (genv : GameEnv) (teamz : Bool) (w : World) :
    noFrameCalls (G_RestartGame genv teamz w).2 := by
  unfold G_RestartGame
  dsimp only
  simp only [noFrameCalls_append, noFrameCalls_cons, noFrameCalls_nil, and_true]
  exact ⟨⟨⟨rfl, G_RestartGame_loop_frame genv teamz _ _ noFrameCalls_nil⟩,
    G_ResetItems_frame genv _⟩, rfl, rfl⟩

/-- The frame facts of the action of a passed vote. -/
theorem G_CheckVote_action_frame (genv : GameEnv) (w : World) :
    (G_CheckVote_action genv w).1.level.time = w.level.time ∧
    noFrameCalls (G_CheckVote_action genv w).2 := by
  unfold G_CheckVote_action
  dsimp only
  split_ifs
  · exact ⟨(G_BeginIntermission_time genv _ w).1, (G_BeginIntermission_frame genv _ w).2⟩
  · exact ⟨(G_EndLevel_time genv w).1, (G_EndLevel_frame genv w).2⟩
  · exact ⟨(G_RestartGame_views genv false w).2.2.2.2.2.2.1, G_RestartGame_frame genv false w⟩
  · exact G_MuteClient_frame genv _ true w
  · exact G_MuteClient_frame genv _ false w
  · exact ⟨rfl, by simp [GameEvent.isFrameCall]⟩

/-- The frame facts of `G_CheckVote`. -/
theorem G_CheckVote_frame (genv : GameEnv) (w : World) :
    (G_CheckVote genv w).1.level.time = w.level.time ∧
    noFrameCalls (G_CheckVote genv w).2 := by
  have ha := G_CheckVote_action_frame genv w
  have hr := fun w' => G_ResetVote_frame w'
  unfold G_CheckVote G_CheckVote_tally G_CheckVote_expire G_CheckVote_pass G_CheckVote_fail
  dsimp only
  split_ifs
  · exact ⟨rfl, noFrameCalls_nil⟩
  · exact ⟨rfl, noFrameCalls_nil⟩
  · exact ⟨(hr w).1, by simp [GameEvent.isFrameCall, (hr w).2]⟩
  · exact ⟨(hr _).1.trans ha.1, by simp [GameEvent.isFrameCall, (hr _).2, ha.2]⟩
  · exact ⟨(hr w).1, by simp [GameEvent.isFrameCall, (hr w).2]⟩
  · exact ⟨rfl, noFrameCalls_nil⟩

/-- The frame facts of `G_CheckRoundStart`. -/
theorem G_CheckRoundStart_frame (w : World) :
    (G_CheckRoundStart w).1.level.time = w.level.time ∧
    noFrameCalls (G_CheckRoundStart w).2 := by
  unfold G_CheckRoundStart
  dsimp only
  split_ifs <;> exact ⟨rfl, by simp [GameEvent.isFrameCall]⟩

/-- The frame facts of `G_CheckMatchEnd`. -/
theorem G_CheckMatchEnd_frame (w : World) :
    (G_CheckMatchEnd w).1.level.time = w.level.time ∧
    noFrameCalls (G_CheckMatchEnd w).2 := by
  unfold G_CheckMatchEnd
  dsimp only
  split_ifs <;> exact ⟨rfl, by simp [GameEvent.isFrameCall]⟩

/-- The frame facts of the body of the client loop of `G_CheckRoundLimit`. -/
theorem G_CheckRoundLimit_client_frame (genv : GameEnv) (acc : World × List GameEvent)
    (j : Nat) :
    (G_CheckRoundLimit_client genv acc j).1.level = acc.1.level ∧
    (noFrameCalls acc.2 → noFrameCalls (G_CheckRoundLimit_client genv acc j).2) := by
  unfold G_CheckRoundLimit_client
  dsimp only
  split
  · exact ⟨rfl, id⟩
  · rename_i ent _
    by_cases hu : (!ent.in_use) = true
    · rw [if_pos hu]
      exact ⟨rfl, id⟩
    · rw [if_neg hu]
      split_ifs
      · exact ⟨rfl, id⟩
      · refine ⟨rfl, fun h => ?_⟩
        simp [GameEvent.isFrameCall, h]
      · refine ⟨rfl, fun h => ?_⟩
        simp [GameEvent.isFrameCall, h]

/-- The frame facts of the client loop of `G_CheckRoundLimit`. -/
theorem G_CheckRoundLimit_loop_frame (genv : GameEnv) (js : List Nat)
    (acc : World × List GameEvent) :
    (js.foldl (G_CheckRoundLimit_client genv) acc).1.level = acc.1.level ∧
    (noFrameCalls acc.2 → noFrameCalls (js.foldl (G_CheckRoundLimit_client genv) acc).2) := by
  induction js generalizing acc with
  | nil => exact ⟨rfl, id⟩
  | cons j js ih =>
    rw [List.foldl_cons]
    have h1 := ih (G_CheckRoundLimit_client genv acc j)
    have h2 := G_CheckRoundLimit_client_frame genv acc j
    exact ⟨h1.1.trans h2.1, fun h => h1.2 (h2.2 h)⟩

/-- The frame facts of `G_CheckRoundLimit`. -/
theorem G_CheckRoundLimit_frame (genv : GameEnv) (w : World) :
    (G_CheckRoundLimit genv w).1.level.time = w.level.time ∧
    noFrameCalls (G_CheckRoundLimit genv w).2 := by
  unfold G_CheckRoundLimit
  split_ifs
  · exact ⟨(G_EndLevel_time genv w).1, by simp [GameEvent.isFrameCall, (G_EndLevel_frame genv w).2]⟩
  · have h := G_CheckRoundLimit_loop_frame genv
      ((List.range w.sv_max_clients.toNat).map (· + 1)) (w, [])
    exact ⟨congrArg (fun l => l.time) h.1, h.2 noFrameCalls_nil⟩

/-- The function `G_CheckRoundEnd` either does nothing or clears the round time,
makes one announcement and calls `G_CheckRoundLimit`. -/
theorem G_CheckRoundEnd_cases (genv : GameEnv) (w : World) :
    G_CheckRoundEnd genv w = (w, []) ∨
    ∃ msg, G_CheckRoundEnd genv w =
      ((G_CheckRoundLimit genv { w with level := { w.level with round_time := 0 } }).1,
        GameEvent.BroadcastPrint msg ::
          (G_CheckRoundLimit genv { w with level := { w.level with round_time := 0 } }).2) := by
  unfold G_CheckRoundEnd
  dsimp only
  by_cases h1 : (!w.level.rounds) = true
  · rw [if_pos h1]
    exact Or.inl rfl
  · rw [if_neg h1]
    by_cases h2 : w.level.round_time = 0 ∨ w.level.round_time > w.level.time
    · rw [if_pos h2]
      exact Or.inl rfl
    · rw [if_neg h2]
      rcases (activeClients w).getLast? with _ | winner
      · exact Or.inr ⟨_, rfl⟩
      · dsimp only
        split_ifs <;> first | exact Or.inl rfl | exact Or.inr ⟨_, rfl⟩

/-- The frame facts of `G_CheckRoundEnd`. -/
theorem G_CheckRoundEnd_frame (genv : GameEnv) (w : World) :
    (G_CheckRoundEnd genv w).1.level.time = w.level.time ∧
    noFrameCalls (G_CheckRoundEnd genv w).2 := by
  have h := G_CheckRoundLimit_frame genv { w with level := { w.level with round_time := 0 } }
  rcases G_CheckRoundEnd_cases genv w with hc | ⟨msg, hc⟩
  · rw [hc]
    exact ⟨rfl, noFrameCalls_nil⟩
  · rw [hc]
    exact ⟨h.1, by simp [GameEvent.isFrameCall, h.2]⟩

/-- The frame facts of the time update of `G_RunTimers`. -/
theorem G_RunTimers_update_frame (genv : GameEnv) (w : World) (time : Nat) :
    statusKept w.level.match_status (G_RunTimers_update genv w time).1.level.match_status ∧
    noFrameCalls (G_RunTimers_update genv w time).2 := by
  unfold G_RunTimers_update
  dsimp only
  split_ifs
  all_goals first
    | exact ⟨Or.inl rfl, by simp [GameEvent.isFrameCall, G_RunTimers_announce]⟩
    | exact ⟨Or.inr (Or.inr rfl),
        by simp [GameEvent.isFrameCall, G_RunTimers_announce, G_CallTimeIn]⟩

/-- The frame facts of `G_RunTimers`. -/
theorem G_RunTimers_frame (genv : GameEnv) (w : World) :
    statusKept w.level.match_status (G_RunTimers genv w).1.level.match_status ∧
    noFrameCalls (G_RunTimers genv w).2 := by
  unfold G_RunTimers
  dsimp only
  by_cases h : w.level.time_limit ≠ 0 ∧ G_RunTimers_time w.level ≥ w.level.time_limit
  · rw [if_pos h]
    exact ⟨Or.inr (Or.inl (G_EndLevel_frame genv w).1),
      by simp [GameEvent.isFrameCall, (G_EndLevel_frame genv w).2]⟩
  · rw [if_neg h]
    exact G_RunTimers_update_frame genv w _

/-- The frame facts of lines 571-608 of `G_CheckRules`. -/
theorem G_CheckRules_start_frame (genv : GameEnv) (w : World) :
    statusKept w.level.match_status (G_CheckRules_start genv w).1.level.match_status ∧
    noFrameCalls (G_CheckRules_start genv w).2 := by
  unfold G_CheckRules_start G_CheckRules_startRound G_CheckRules_startMatch G_CheckRules_respawn
  dsimp only
  split_ifs
  all_goals first
    | exact ⟨Or.inl rfl, by simp [GameEvent.isFrameCall]⟩
    | exact ⟨Or.inr (Or.inr rfl), by simp [GameEvent.isFrameCall]⟩

/-- The frame facts of lines 564-643 of `G_CheckRules`. -/
theorem G_CheckRules_limits_frame (genv : GameEnv) (w : World) :
    (G_CheckRules_limits genv w).1.level.time = w.level.time ∧
    statusKept w.level.match_status (G_CheckRules_limits genv w).1.level.match_status ∧
    noFrameCalls (G_CheckRules_limits genv w).2.1 := by
  have ht := G_CheckRules_timers_facts genv w
  have hs := G_CheckRules_start_frame genv w
  have hr := G_RunTimers_frame genv (G_CheckRules_start genv w).1
  have htimers : statusKept w.level.match_status
      (G_CheckRules_timers genv w).1.level.match_status ∧
      noFrameCalls (G_CheckRules_timers genv w).2 := by
    unfold G_CheckRules_timers
    dsimp only
    exact ⟨statusKept_trans hs.1 hr.1, by simp [hs.2, hr.2]⟩
  have he := G_EndLevel_frame genv (G_CheckRules_timers genv w).1
  have het := G_EndLevel_time genv (G_CheckRules_timers genv w).1
  unfold G_CheckRules_limits
  dsimp only
  split_ifs
  · exact ⟨rfl, Or.inl rfl, noFrameCalls_nil⟩
  · exact ⟨het.1.trans ht.2.2.2.1, Or.inr (Or.inl he.1),
      by simp [GameEvent.isFrameCall, htimers.2, he.2]⟩
  · exact ⟨het.1.trans ht.2.2.2.1, Or.inr (Or.inl he.1),
      by simp [GameEvent.isFrameCall, htimers.2, he.2]⟩
  · exact ⟨ht.2.2.2.1, htimers.1, htimers.2⟩

/-- The frame facts of the cvar checks of `G_CheckRules`. -/
theorem G_CheckRules_cvars_frame (genv : GameEnv) (w : World) :
    (G_CheckRules_cvars genv w).1.level.time = w.level.time ∧
    statusKept w.level.match_status (G_CheckRules_cvars genv w).1.level.match_status ∧
    noFrameCalls (G_CheckRules_cvars genv w).2 := by
  have hp := cvarBlocks_plainView genv { world := w }
  rw [← G_CheckRules_reconcile_eq] at hp
  have htime : (G_CheckRules_reconcile genv w).world.level.time = w.level.time :=
    congrArg (fun v => v.2.1) hp
  have hm := G_CheckRules_reconcile_matchView genv w
  have hstatus : statusKept w.level.match_status
      (G_CheckRules_reconcile genv w).world.level.match_status := by
    have h4 := congrArg (fun v : cvar_t × Bool × g_gameplay_t × Nat => v.2.2.2) hm
    simp only [matchView] at h4
    rw [h4]
    unfold matchStep
    dsimp only
    split_ifs
    · exact Or.inl rfl
    · exact Or.inr (Or.inl rfl)
    · exact Or.inl rfl
  have hev := noFrameCalls_of_notices (G_CheckRules_reconcile_events genv w)
  have hv := G_RestartGame_views genv true (G_CheckRules_reconcile genv w).world
  unfold G_CheckRules_cvars
  dsimp only
  split_ifs
  · refine ⟨hv.2.2.2.2.2.2.1.trans htime, ?_, by simp [hev, G_RestartGame_frame]⟩
    have h4 := congrArg (fun v : cvar_t × Bool × g_gameplay_t × Nat => v.2.2.2) hv.2.1
    simp only [matchView] at h4
    rw [h4]
    exact hstatus
  · exact ⟨htime, hstatus, hev⟩

/-- The frame facts of `G_CheckRules`. -/
theorem G_CheckRules_frame (genv : GameEnv) (w : World) :
    (G_CheckRules genv w).1.level.time = w.level.time ∧
    statusKept w.level.match_status (G_CheckRules genv w).1.level.match_status ∧
    noFrameCalls (G_CheckRules genv w).2 := by
  have hl := G_CheckRules_limits_frame genv w
  have hc := G_CheckRules_cvars_frame genv (G_CheckRules_limits genv w).1
  unfold G_CheckRules
  dsimp only
  split_ifs
  · exact hl
  · exact ⟨hc.1.trans hl.1, statusKept_trans hl.2.1 hc.2.1, by simp [hl.2.2, hc.2.2]⟩
/-! ## `match_status` -/

theorem exclusiveStatus_or_timeout (s : Nat) :
    exclusiveStatus (s ||| MSTAT_TIMEOUT) ↔ s &&& (MSTAT_PLAYING ||| MSTAT_COUNTDOWN) = 0 := by
  have e1 : (s ||| 2) &&& 7 = (s &&& 7) ||| 2 := by
    rw [Nat.and_comm, Nat.and_or_distrib_left, Nat.and_comm 7 s]
    rfl
  have e2 : s &&& 5 = (s &&& 7) &&& 5 := by
    rw [Nat.and_assoc]
    rfl
  have h : s &&& 7 < 8 := Nat.and_lt_two_pow s (by norm_num : 7 < 2 ^ 3)
  show ((s ||| 2) &&& 7 = 0 ∨ (s ||| 2) &&& 7 = 1 ∨ (s ||| 2) &&& 7 = 2 ∨
    (s ||| 2) &&& 7 = 4) ↔ s &&& 5 = 0
  rw [e1, e2]
  generalize s &&& 7 = k at h ⊢
  interval_cases k <;> decide

theorem G_CallTimeOut_status (genv : GameEnv) (ent : Nat) (w : World) :
    (G_CallTimeOut genv ent w).1.level.match_status =
      if w.g_timeout_time = 0 then w.level.match_status
      else w.level.match_status ||| MSTAT_TIMEOUT := by
  unfold G_CallTimeOut
  dsimp only
  split_ifs <;> rfl

/-- C22, counterexample.  In the world `w_timeout` only the bit `MSTAT_PLAYING`
of `match_status` is set; after `G_CallTimeOut` the bits `MSTAT_PLAYING` and
`MSTAT_TIMEOUT` are both set. -/
theorem G_CallTimeOut_status_counterexample :
    exclusiveStatus w_timeout.level.match_status ∧
    (G_CallTimeOut genv0 1 w_timeout).1.level.match_status = MSTAT_PLAYING ||| MSTAT_TIMEOUT ∧
    ¬ exclusiveStatus (G_CallTimeOut genv0 1 w_timeout).1.level.match_status := by
  decide!

/-- C22, amended.  From a state in which at most one of the bits
`MSTAT_PLAYING`, `MSTAT_TIMEOUT` and `MSTAT_COUNTDOWN` of `match_status` is set,
`G_EndLevel` clears the status, `G_CallTimeIn` sets it to `MSTAT_PLAYING` and
`G_CheckRules` leaves it alone, clears it or sets it to `MSTAT_PLAYING`, so that
at most one of the bits is set after each of them.  `G_CallTimeOut` leaves the
status alone if timeouts are disabled and otherwise sets the bit `MSTAT_TIMEOUT`
in addition to the bits that are set, so that at most one of the three bits is
set after it exactly if timeouts are disabled or neither `MSTAT_PLAYING` nor
`MSTAT_COUNTDOWN` was set before. -/
theorem match_status_exclusive (genv : GameEnv) (ent : Nat) (w : World)
    (h : exclusiveStatus w.level.match_status) :
    (G_EndLevel genv w).1.level.match_status = 0 ∧
    (G_CallTimeIn genv w).1.level.match_status = MSTAT_PLAYING ∧
    statusKept w.level.match_status (G_CheckRules genv w).1.level.match_status ∧
    exclusiveStatus (G_EndLevel genv w).1.level.match_status ∧
    exclusiveStatus (G_CallTimeIn genv w).1.level.match_status ∧
    exclusiveStatus (G_CheckRules genv w).1.level.match_status ∧
    (G_CallTimeOut genv ent w).1.level.match_status =
      (if w.g_timeout_time = 0 then w.level.match_status
       else w.level.match_status ||| MSTAT_TIMEOUT) ∧
    (exclusiveStatus (G_CallTimeOut genv ent w).1.level.match_status ↔
      w.g_timeout_time = 0 ∨
        w.level.match_status &&& (MSTAT_PLAYING ||| MSTAT_COUNTDOWN) = 0) := by
  have he := (G_EndLevel_frame genv w).1
  have hr := (G_CheckRules_frame genv w).2.1
  have hin : exclusiveStatus (G_CallTimeIn genv w).1.level.match_status := by
    show exclusiveStatus MSTAT_PLAYING
    decide
  refine ⟨he, rfl, hr, ?_, hin, exclusiveStatus_of_statusKept hr h,
    G_CallTimeOut_status genv ent w, ?_⟩
  · rw [he]
    decide
  · rw [G_CallTimeOut_status]
    by_cases ht : w.g_timeout_time = 0
    · rw [if_pos ht]
      exact ⟨fun _ => Or.inl ht, fun _ => h⟩
    · rw [if_neg ht, exclusiveStatus_or_timeout]
      exact ⟨fun hs => Or.inr hs, fun hs => hs.resolve_left ht⟩

theorem match_status_exclusive_witness :
    exclusiveStatus w_timeout.level.match_status ∧
    (G_EndLevel genv0 w_timeout).1.level.match_status = 0 ∧
    (G_CallTimeIn genv0 w_timeout).1.level.match_status = MSTAT_PLAYING ∧
    statusKept w_timeout.level.match_status
      (G_CheckRules genv0 w_timeout).1.level.match_status ∧
    exclusiveStatus (G_EndLevel genv0 w_timeout).1.level.match_status ∧
    exclusiveStatus (G_CallTimeIn genv0 w_timeout).1.level.match_status ∧
    exclusiveStatus (G_CheckRules genv0 w_timeout).1.level.match_status ∧
    (G_CallTimeOut genv0 1 w_timeout).1.level.match_status =
      (if w_timeout.g_timeout_time = 0 then w_timeout.level.match_status
       else w_timeout.level.match_status ||| MSTAT_TIMEOUT) ∧
    (exclusiveStatus (G_CallTimeOut genv0 1 w_timeout).1.level.match_status ↔
      w_timeout.g_timeout_time = 0 ∨
        w_timeout.level.match_status &&& (MSTAT_PLAYING ||| MSTAT_COUNTDOWN) = 0) :=
  ⟨by decide, match_status_exclusive genv0 1 w_timeout (by decide)⟩

/-! ## The entity loop of `G_Frame` -/

theorem passes_append (a b : List GameEvent) : passes (a ++ b) = passes a ++ passes b := by
  unfold passes
  exact List.filterMap_append _ _ _

theorem passOf_mem {w : World} {k : Nat} {ev : GameEvent} (h : ev ∈ passOf w k) :
    ev.passIndex = some k ∧ k < w.num_entities := by
  unfold passOf at h
  by_cases hlt : k < w.num_entities
  · rw [if_pos hlt] at h
    split at h
    · cases h
    · split_ifs at h
      · cases h
      · rw [List.mem_singleton] at h
        subst h
        exact ⟨rfl, hlt⟩
      · rw [List.mem_singleton] at h
        subst h
        exact ⟨rfl, hlt⟩
  · rw [if_neg hlt] at h
    cases h

theorem passes_passOf (w : World) (k : Nat) :
    passes (passOf w k) = [] ∨ passes (passOf w k) = [k] := by
  unfold passOf
  split_ifs
  · split
    · exact Or.inl rfl
    · split_ifs
      · exact Or.inl rfl
      · exact Or.inr rfl
      · exact Or.inr rfl
  · exact Or.inl rfl

/-- The entity `i` receives a pass exactly if the index is below
`ge.num_entities` and the entity is in use. -/
theorem mem_passes_passOf (w : World) (i : Nat) :
    i ∈ passes (passOf w i) ↔
      i < w.num_entities ∧ ∃ ent, w.entities[i]? = some ent ∧ ent.in_use = true := by
  unfold passOf
  by_cases hlt : i < w.num_entities
  · rw [if_pos hlt]
    cases hent : w.entities[i]? with
    | none => simp [passes]
    | some ent =>
      dsimp only
      cases hu : ent.in_use
      · simp [passes, hlt, hu]
      · cases hc : ent.client.isSome <;> simp [passes, hlt, GameEvent.passIndex, hu]
  · rw [if_neg hlt]
    simp [passes, hlt]

theorem passes_step (w : World) (k bound : Nat) (rest : List GameEvent)
    (hw : w.num_entities ≤ bound)
    (hrest : ∀ ev ∈ rest, ∃ j, ev.passIndex = some j ∧ k < j ∧ j < bound)
    (hs : (passes rest).Pairwise (· < ·)) :
    (∀ ev ∈ passOf w k ++ rest, ∃ j, ev.passIndex = some j ∧ k ≤ j ∧ j < bound) ∧
    (passes (passOf w k ++ rest)).Pairwise (· < ·) := by
  have hmem : ∀ j ∈ passes rest, k < j := by
    intro j hj
    obtain ⟨ev, hev, hj'⟩ := List.mem_filterMap.1 hj
    obtain ⟨j', h1, h2, _⟩ := hrest ev hev
    rw [h1] at hj'
    cases hj'
    exact h2
  constructor
  · intro ev hev
    rcases List.mem_append.1 hev with h | h
    · obtain ⟨h1, h2⟩ := passOf_mem h
      exact ⟨k, h1, le_refl _, by omega⟩
    · obtain ⟨j, h1, h2, h3⟩ := hrest ev h
      exact ⟨j, h1, by omega, h3⟩
  · rw [passes_append]
    rcases passes_passOf w k with h | h <;> rw [h]
    · simpa using hs
    · simp only [List.singleton_append, List.pairwise_cons]
      exact ⟨hmem, hs⟩

/-- The entity loop of `G_Frame` ends if `ge.num_entities` stays within the
range of its index and `fuel` exceeds the bound; what it calls from index `i` on
is the frame function of entity `i`, if it is due one, followed by frame
functions of entities of strictly ascending higher indices.  A property `P` of
the world that the frame functions keep holds at the end. -/
theorem G_Frame_entities_spec (genv : GameEnv) (bound : Nat) (hb : bound ≤ 65535)
    (hn : entitiesBounded genv bound) (P : World → Prop)
    (hP : ∀ (i : Nat) (w : World), P w →
      P (genv.G_ClientBeginFrame i w) ∧ P (genv.G_RunEntity i w)) :
    ∀ (fuel i : Nat) (acc : World × List GameEvent),
      acc.1.num_entities ≤ bound → i ≤ bound → bound < fuel + i → P acc.1 →
      ∃ r rest, G_Frame_entities genv fuel i acc = some r ∧ P r.1 ∧
        r.2 = acc.2 ++ (passOf acc.1 i ++ rest) ∧
        (∀ ev ∈ rest, ∃ j, ev.passIndex = some j ∧ i < j ∧ j < bound) ∧
        (passes rest).Pairwise (· < ·) := by
  intro fuel
  induction fuel with
  | zero =>
    intro i acc _ hi hf _
    omega
  | succ fuel ih =>
    intro i acc hacc hi hf hp
    rw [G_Frame_entities]
    by_cases hlt : i < acc.1.num_entities
    · have hmod : (i + 1) % 65536 = i + 1 := Nat.mod_eq_of_lt (by omega)
      rw [if_pos hlt]
      dsimp only
      rw [hmod]
      have key : ∀ acc1 : World × List GameEvent, acc1.1.num_entities ≤ bound → P acc1.1 →
          acc1.2 = acc.2 ++ passOf acc.1 i →
          ∃ r rest, G_Frame_entities genv fuel (i + 1) acc1 = some r ∧ P r.1 ∧
            r.2 = acc.2 ++ (passOf acc.1 i ++ rest) ∧
            (∀ ev ∈ rest, ∃ j, ev.passIndex = some j ∧ i < j ∧ j < bound) ∧
            (passes rest).Pairwise (· < ·) := by
        intro acc1 hacc1 hp1 hev
        obtain ⟨r, rest1, hr, hpr, hr2, hrest, hsorted⟩ :=
          ih (i + 1) acc1 hacc1 (by omega) (by omega) hp1
        have hstep := passes_step acc1.1 (i + 1) bound rest1 hacc1 hrest hsorted
        refine ⟨r, passOf acc1.1 (i + 1) ++ rest1, hr, hpr, ?_, ?_, hstep.2⟩
        · rw [hr2, hev, List.append_assoc]
        · intro ev hev1
          obtain ⟨j, hj, hle, hlt1⟩ := hstep.1 ev hev1
          exact ⟨j, hj, by omega, hlt1⟩
      cases hent : acc.1.entities[i]? with
      | none =>
        exact key acc hacc hp (by simp [passOf, hlt, hent])
      | some ent =>
        dsimp only
        by_cases hu : (!ent.in_use) = true
        · rw [if_pos hu]
          exact key acc hacc hp (by simp [passOf, hlt, hent, hu])
        · rw [if_neg hu]
          by_cases hc : ent.client.isSome = true
          · rw [if_pos hc]
            exact key _ (hn i acc.1 hacc).1 (hP i acc.1 hp).1 (by simp [passOf, hlt, hent, hu, hc])
          · rw [if_neg hc]
            exact key _ (hn i acc.1 hacc).2 (hP i acc.1 hp).2 (by simp [passOf, hlt, hent, hu, hc])
    · rw [if_neg hlt]
      exact ⟨acc, [], rfl, hp, by simp [passOf, hlt], by simp, by simp [passes]⟩
/-! ## `G_Frame` -/

theorem frameCalls_append (a b : List GameEvent) :
    frameCalls (a ++ b) = frameCalls a ++ frameCalls b := by
  unfold frameCalls
  exact List.filter_append _ _

theorem frameCalls_of_noFrameCalls {evs : List GameEvent} (h : noFrameCalls evs) :
    frameCalls evs = [] := by
  unfold frameCalls
  rw [List.filter_eq_nil_iff]
  intro ev hev
  rw [h ev hev]
  decide

/-- The frame calls of the checks of `G_Frame`, in order. -/
theorem G_Frame_checks_calls (genv : GameEnv) (w : World) :
    frameCalls (G_Frame_checks genv w).2 =
      [.G_CheckVote, .G_CheckRules, .G_CheckMatchEnd, .G_CheckRoundStart, .G_CheckRoundEnd,
        .G_EndClientFrames] := by
  unfold G_Frame_checks
  dsimp only
  simp only [frameCalls_append, frameCalls_of_noFrameCalls (G_CheckVote_frame genv _).2,
    frameCalls_of_noFrameCalls (G_CheckRules_frame genv _).2.2,
    frameCalls_of_noFrameCalls (G_CheckMatchEnd_frame _).2,
    frameCalls_of_noFrameCalls (G_CheckRoundStart_frame _).2,
    frameCalls_of_noFrameCalls (G_CheckRoundEnd_frame genv _).2]
  rfl

/-- The checks of `G_Frame` leave the level clock alone if `G_EndClientFrames`
does. -/
theorem G_Frame_checks_time (genv : GameEnv) (hc : clockKept genv) (w : World) :
    (G_Frame_checks genv w).1.level.time = w.level.time := by
  unfold G_Frame_checks
  dsimp only
  rw [(hc _).1, (G_CheckRoundEnd_frame genv _).1, (G_CheckRoundStart_frame _).1,
    (G_CheckMatchEnd_frame _).1, (G_CheckRules_frame genv _).1, (G_CheckVote_frame genv _).1]

/-- A frame that exits the level. -/
theorem G_Frame_exit (genv : GameEnv) (fuel : Nat) (w : World) (h : exitsLevel w) :
    G_Frame genv fuel w = some (G_ExitLevel genv (G_Frame_clock w)) := by
  unfold exitsLevel at h
  unfold G_Frame
  dsimp only
  rw [if_pos h]

/-- A frame that does not exit the level returns if `ge.num_entities` stays
within the range of the loop index and `fuel` exceeds the bound: it makes the
calls `loop` of the entity loop, with the world `r1` as the result, and then the
checks.  The calls of the loop are frame functions of entities of strictly
ascending indices: none during a timeout, and otherwise the one of entity 0, if
it is due one, followed by those of higher entities. -/
theorem G_Frame_run (genv : GameEnv) (fuel bound : Nat) (w : World) (hb : bound ≤ 65535)
    (hf : bound < fuel) (hn : entitiesBounded genv bound) (hw : w.num_entities ≤ bound)
    (P : World → Prop)
    (hP : ∀ (i : Nat) (w : World), P w →
      P (genv.G_ClientBeginFrame i w) ∧ P (genv.G_RunEntity i w))
    (hPw : P (G_Frame_clock w)) (h : ¬ exitsLevel w) :
    ∃ r1 loop, G_Frame genv fuel w =
        some ((G_Frame_checks genv r1).1, loop ++ (G_Frame_checks genv r1).2) ∧ P r1 ∧
      (∀ ev ∈ loop, ∃ j, ev.passIndex = some j ∧ j < bound) ∧
      (passes loop).Pairwise (· < ·) ∧
      (if G_TIMEOUT w then loop = []
       else ∃ rest, loop = passOf w 0 ++ rest ∧ ∀ j ∈ passes rest, 0 < j) := by
  unfold exitsLevel at h
  unfold G_Frame
  dsimp only
  rw [if_neg h]
  have ht : G_TIMEOUT (G_Frame_clock w) = G_TIMEOUT w := rfl
  rw [ht]
  cases htime : G_TIMEOUT w
  · obtain ⟨r, rest, hr, hpr, hr2, hrest, hsorted⟩ :=
      G_Frame_entities_spec genv bound hb hn P hP fuel 0 (G_Frame_clock w, []) hw
        (Nat.zero_le _) (by omega) hPw
    have hstep := passes_step (G_Frame_clock w) 0 bound rest hw hrest hsorted
    have hpass : passOf (G_Frame_clock w) 0 = passOf w 0 := rfl
    rw [hpass] at hstep hr2
    rw [List.nil_append] at hr2
    refine ⟨r.1, passOf w 0 ++ rest, ?_, hpr, ?_, hstep.2, ?_⟩
    · simp [hr, hr2]
    · intro ev hev
      obtain ⟨j, h1, _, h3⟩ := hstep.1 ev hev
      exact ⟨j, h1, h3⟩
    · refine ⟨rest, rfl, ?_⟩
      intro j hj
      obtain ⟨ev, hev, hj1⟩ := List.mem_filterMap.1 hj
      obtain ⟨j1, h1, h2, _⟩ := hrest ev hev
      rw [h1] at hj1
      cases hj1
      exact h2
  · refine ⟨G_Frame_clock w, [], ?_, hPw, ?_, ?_, ?_⟩
    · simp
    · intro ev hev
      cases hev
    · simp [passes]
    · simp

theorem wrap32_natCast (n : Nat) (h : n < 4294967296) : wrap32 (n : Int) = n := by
  unfold wrap32
  omega

/-- Without overflow the clock of the next frame is not below the clock of
this frame. -/
theorem G_Frame_clock_mono (F M : Nat) (h : (F + 1) * M < 4294967296) :
    wrap32 ((F : Int) * (M : Int)) ≤ wrap32 ((wrap32 ((F : Int) + 1) : Int) * (M : Int)) := by
  rcases Nat.eq_zero_or_pos M with hM | hM
  · subst hM
    simp
  · have h1 : F + 1 ≤ (F + 1) * M := Nat.le_mul_of_pos_right _ hM
    have h2 : F * M ≤ (F + 1) * M := Nat.mul_le_mul_right M (Nat.le_succ F)
    have e1 : wrap32 ((F : Int) + 1) = F + 1 := by
      have := wrap32_natCast (F + 1) (by omega)
      rwa [Nat.cast_add, Nat.cast_one] at this
    have e2 : wrap32 (((F + 1 : Nat) : Int) * (M : Int)) = (F + 1) * M := by
      rw [← Nat.cast_mul]
      exact wrap32_natCast _ h
    have e3 : wrap32 ((F : Int) * (M : Int)) = F * M := by
      rw [← Nat.cast_mul]
      exact wrap32_natCast _ (by omega)
    rw [e1, e2, e3]
    exact h2

/-- C24, counterexample.  One frame after client 1 of the world `w_short` has
called a timeout, the world entity is in use and the frame does not exit the
level, but `G_Frame` runs the frame function of no entity, the world entity
included.  In the world `w_no_world`, which is not in a timeout, the world
entity is not in use, and `G_Frame` passes it over. -/
theorem G_Frame_order_counterexample :
    (G_Frame genv0 4 (G_CallTimeOut genv0 1 w_short).1).map Prod.fst = some w_paused ∧
    ¬ exitsLevel w_paused ∧ G_TIMEOUT w_paused = true ∧ w_paused.num_entities = 3 ∧
    (w_paused.entities[0]?).map (fun ent => ent.in_use) = some true ∧
    (G_Frame genv0 4 w_paused).map (fun r => passes r.2) = some [] ∧
    ¬ exitsLevel w_no_world ∧ G_TIMEOUT w_no_world = false ∧ w_no_world.num_entities = 3 ∧
    (w_no_world.entities[0]?).map (fun ent => ent.in_use) = some false ∧
    (G_Frame genv0 4 w_no_world).map (fun r => passes r.2) = some [1, 2] := by
  decide!

/-- C24, amended.  A `G_Frame` that does not exit the level returns, provided
that `ge.num_entities` stays within the range of the loop index.  Its calls are
those of the entity loop followed by those of the checks.  The calls of the loop
are frame functions of entities (`G_ClientBeginFrame` or `G_RunEntity`) with
strictly ascending indices below the bound of `ge.num_entities`, so each entity
receives at most one pass.  During a timeout the loop makes no call; otherwise
it begins with the pass of entity 0, if that entity is below `ge.num_entities`
and in use (`G_ClientBeginFrame` for a client, `G_RunEntity` otherwise), and
goes on with higher entities.  Hence the world entity receives a pass exactly if
there is no timeout, `ge.num_entities` is positive and the world entity is in
use.  Afterwards the checks run in the order `G_CheckVote`, `G_CheckRules`,
`G_CheckMatchEnd`, `G_CheckRoundStart`, `G_CheckRoundEnd`, and
`G_EndClientFrames` comes last. -/
theorem G_Frame_order (genv : GameEnv) (fuel bound : Nat) (w : World) (hb : bound ≤ 65535)
    (hf : bound < fuel) (hn : entitiesBounded genv bound) (hw : w.num_entities ≤ bound)
    (h : ¬ exitsLevel w) :
    ∃ r loop checks, G_Frame genv fuel w = some r ∧ r.2 = loop ++ checks ∧
      (∀ ev ∈ loop, ∃ j, ev.passIndex = some j ∧ j < bound) ∧
      (passes loop).Pairwise (· < ·) ∧
      (G_TIMEOUT w = true → loop = []) ∧
      (G_TIMEOUT w = false → ∃ rest, loop = passOf w 0 ++ rest ∧ ∀ j ∈ passes rest, 0 < j) ∧
      (0 ∈ passes loop ↔ G_TIMEOUT w = false ∧ 0 < w.num_entities ∧
        ∃ ent, w.entities[0]? = some ent ∧ ent.in_use = true) ∧
      frameCalls checks =
        [.G_CheckVote, .G_CheckRules, .G_CheckMatchEnd, .G_CheckRoundStart,
          .G_CheckRoundEnd, .G_EndClientFrames] := by
  obtain ⟨r1, loop, hr, _, hloop, hsorted, hcase⟩ :=
    G_Frame_run genv fuel bound w hb hf hn hw (fun _ => True) (fun _ _ _ => ⟨trivial, trivial⟩)
      trivial h
  refine ⟨_, loop, (G_Frame_checks genv r1).2, hr, rfl, hloop, hsorted, ?_, ?_, ?_,
    G_Frame_checks_calls genv r1⟩
  · intro ht
    rw [if_pos ht] at hcase
    exact hcase
  · intro ht
    rw [if_neg (by rw [ht]; decide)] at hcase
    exact hcase
  · cases ht : G_TIMEOUT w
    · rw [if_neg (by rw [ht]; decide)] at hcase
      obtain ⟨rest, hl, hrest⟩ := hcase
      rw [hl, passes_append, List.mem_append, mem_passes_passOf]
      constructor
      · rintro (h0 | h0)
        · exact ⟨rfl, h0⟩
        · exact absurd (hrest 0 h0) (Nat.lt_irrefl 0)
      · rintro ⟨_, h0⟩
        exact Or.inl h0
    · rw [if_pos ht] at hcase
      rw [hcase]
      simp [passes]

theorem G_Frame_order_witness :
    (3 ≤ 65535 ∧ 3 < 4 ∧ entitiesBounded genv0 3 ∧ w_short.num_entities ≤ 3 ∧
      ¬ exitsLevel w_short) ∧
    ∃ r loop checks, G_Frame genv0 4 w_short = some r ∧ r.2 = loop ++ checks ∧
      (∀ ev ∈ loop, ∃ j, ev.passIndex = some j ∧ j < 3) ∧
      (passes loop).Pairwise (· < ·) ∧
      (G_TIMEOUT w_short = true → loop = []) ∧
      (G_TIMEOUT w_short = false →
        ∃ rest, loop = passOf w_short 0 ++ rest ∧ ∀ j ∈ passes rest, 0 < j) ∧
      (0 ∈ passes loop ↔ G_TIMEOUT w_short = false ∧ 0 < w_short.num_entities ∧
        ∃ ent, w_short.entities[0]? = some ent ∧ ent.in_use = true) ∧
      frameCalls checks =
        [.G_CheckVote, .G_CheckRules, .G_CheckMatchEnd, .G_CheckRoundStart,
          .G_CheckRoundEnd, .G_EndClientFrames] :=
  ⟨⟨by decide, by decide, fun _ _ hw => ⟨hw, hw⟩, by decide, by decide!⟩,
    G_Frame_order genv0 4 3 w_short (by decide) (by decide) (fun _ _ hw => ⟨hw, hw⟩)
      (by decide) (by decide!)⟩

/-- C21, counterexample.  Client 1 of the world `w_short` (clock 5000, frame
50, frames of 100 milliseconds) calls a timeout of one second.  After the tenth
`G_Frame` that follows the clock is 6000 and `G_CallTimeIn`, called by the
checks of that frame, has set the frame number back to 50; after the eleventh
`G_Frame` the clock is 5100. -/
theorem G_Frame_time_counterexample :
    (G_Frame_repeat genv0 4 10 (G_CallTimeOut genv0 1 w_short).1).map
      (fun w => (w.level.time, w.level.frame_num)) = some (6000, 50) ∧
    (G_Frame_repeat genv0 4 11 (G_CallTimeOut genv0 1 w_short).1).map
      (fun w => (w.level.time, w.level.frame_num)) = some (5100, 51) := by
  decide!

/-- C21, amended.  `G_Frame` returns, provided that `ge.num_entities` stays
within the range of the loop index, and if the frame functions of the entities
and `G_EndClientFrames` leave the level clock alone, the clock after it is the
frame number before it plus one, times the frame length, both modulo `2 ^ 32`.
So the clock after a `G_Frame` is not below the clock before it if that one was
the product of the frame number and the frame length and the new product does
not overflow.  `G_CallTimeIn` sets the frame number back to `timeout_frame`, the
frame number at which the timeout was called. -/
theorem G_Frame_time (genv : GameEnv) (fuel bound : Nat) (w : World) (hb : bound ≤ 65535)
    (hf : bound < fuel) (hn : entitiesBounded genv bound) (hw : w.num_entities ≤ bound)
    (hc : clockKept genv) :
    ∃ r, G_Frame genv fuel w = some r ∧
      r.1.level.time = wrap32 (wrap32 (w.level.frame_num + 1) * w.frame_millis) ∧
      (w.level.time = wrap32 (w.level.frame_num * w.frame_millis) →
        (w.level.frame_num + 1) * w.frame_millis < 4294967296 →
        w.level.time ≤ r.1.level.time) ∧
      (G_CallTimeIn genv w).1.level.frame_num = w.level.timeout_frame := by
  have key : ∃ r, G_Frame genv fuel w = some r ∧
      r.1.level.time = wrap32 (wrap32 (w.level.frame_num + 1) * w.frame_millis) := by
    by_cases h : exitsLevel w
    · refine ⟨_, G_Frame_exit genv fuel w h, ?_⟩
      unfold G_ExitLevel
      dsimp only
      rw [(hc _).1]
      rfl
    · obtain ⟨r1, loop, hr, hp, _⟩ :=
        G_Frame_run genv fuel bound w hb hf hn hw
          (fun v => v.level.time = (G_Frame_clock w).level.time)
          (fun i v hv => ⟨((hc v).2 i).1.trans hv, ((hc v).2 i).2.trans hv⟩) rfl h
      refine ⟨_, hr, ?_⟩
      rw [G_Frame_checks_time genv hc, hp]
      rfl
  obtain ⟨r, hr, ht⟩ := key
  refine ⟨r, hr, ht, ?_, rfl⟩
  intro h1 h2
  rw [ht, h1]
  exact G_Frame_clock_mono _ _ h2

theorem G_Frame_time_witness :
    (3 ≤ 65535 ∧ 3 < 4 ∧ entitiesBounded genv0 3 ∧ w_short.num_entities ≤ 3 ∧
      clockKept genv0) ∧
    (w_short.level.time = wrap32 (w_short.level.frame_num * w_short.frame_millis) ∧
      (w_short.level.frame_num + 1) * w_short.frame_millis < 4294967296) ∧
    ∃ r, G_Frame genv0 4 w_short = some r ∧
      r.1.level.time = wrap32 (wrap32 (w_short.level.frame_num + 1) * w_short.frame_millis) ∧
      (w_short.level.time = wrap32 (w_short.level.frame_num * w_short.frame_millis) →
        (w_short.level.frame_num + 1) * w_short.frame_millis < 4294967296 →
        w_short.level.time ≤ r.1.level.time) ∧
      (G_CallTimeIn genv0 w_short).1.level.frame_num = w_short.level.timeout_frame :=
  ⟨⟨by decide, by decide, fun _ _ hw => ⟨hw, hw⟩, by decide,
      fun _ => ⟨rfl, fun _ => ⟨rfl, rfl⟩⟩⟩, by decide,
    G_Frame_time genv0 4 3 w_short (by decide) (by decide) (fun _ _ hw => ⟨hw, hw⟩)
      (by decide) (fun _ => ⟨rfl, fun _ => ⟨rfl, rfl⟩⟩)⟩
/-! ## The temp entities of `G_SpawnDamage` -/

theorem toInt16_intCast {n : Int} (h1 : -32768 ≤ n) (h2 : n ≤ 32767) : toInt16 (n : ℚ) = n := by
  unfold toInt16
  rw [truncQ_intCast, wrap16_eq_self h1 h2]

theorem G_SpawnDamage_loop_multicasts (type : g_temp_entity_t) (pos : Vec3)
    (normal : Option Vec3) (count : Nat) :
    multicasts (G_SpawnDamage_loop type pos normal count) = count := by
  induction count with
  | zero => rfl
  | succ n ih =>
    unfold multicasts at ih ⊢
    simp only [G_SpawnDamage_loop, List.cons_append, List.nil_append, List.countP_cons, ih]
    simp

theorem G_SpawnDamage_loop_length (type : g_temp_entity_t) (pos : Vec3)
    (normal : Option Vec3) (count : Nat) :
    (G_SpawnDamage_loop type pos normal count).length = 5 * count := by
  induction count with
  | zero => rfl
  | succ n ih =>
    simp only [G_SpawnDamage_loop, List.cons_append, List.nil_append, List.length_cons, ih]
    omega

/-- The local `count` of `G_SpawnDamage` for a damage of at least 1. -/
theorem G_SpawnDamage_count (damage : Int) (h : 1 ≤ damage) :
    toInt16 (Clamp ((Int.tdiv damage 50 : Int) : ℚ) 1 4) = max 1 (min 4 (damage / 50)) := by
  have hq : Int.tdiv damage 50 = damage / 50 := Int.tdiv_eq_ediv (by omega) (by norm_num)
  rw [hq]
  unfold Clamp
  split_ifs with a b
  · have a1 : damage / 50 < 1 := by exact_mod_cast a
    have e : (1 : ℚ) = ((1 : Int) : ℚ) := by norm_num
    rw [e, toInt16_intCast (by norm_num) (by norm_num)]
    omega
  · have b1 : 4 < damage / 50 := by exact_mod_cast b
    have e : (4 : ℚ) = ((4 : Int) : ℚ) := by norm_num
    rw [e, toInt16_intCast (by norm_num) (by norm_num)]
    omega
  · have a1 : ¬ damage / 50 < 1 := by exact_mod_cast a
    have b1 : ¬ 4 < damage / 50 := by exact_mod_cast b
    rw [toInt16_intCast (by omega) (by omega)]
    omega

/-- C33: `G_SpawnDamage` makes no call for a damage below 1.  For a damage of at
least 1 it runs the five calls of its loop body `clamp(damage / 50, 1, 4)`
times (integer division), so it emits that many temp-entity multicasts: one for
a damage below 100, four for a damage of 200 or more, and never more than four.
The model of the loop is a total function: the loop ends. -/
theorem G_SpawnDamage_multicasts (type : g_temp_entity_t) (pos : Vec3) (normal : Option Vec3)
    (damage : Int) :
    (damage < 1 → G_SpawnDamage type pos normal damage = []) ∧
    (1 ≤ damage →
      G_SpawnDamage type pos normal damage =
        G_SpawnDamage_loop type pos normal (max 1 (min 4 (damage / 50))).toNat ∧
      (multicasts (G_SpawnDamage type pos normal damage) : Int) = max 1 (min 4 (damage / 50))) ∧
    (1 ≤ damage → damage < 100 → multicasts (G_SpawnDamage type pos normal damage) = 1) ∧
    (200 ≤ damage → multicasts (G_SpawnDamage type pos normal damage) = 4) ∧
    multicasts (G_SpawnDamage type pos normal damage) ≤ 4 ∧
    (G_SpawnDamage type pos normal damage).length =
      5 * multicasts (G_SpawnDamage type pos normal damage) := by
  have hlow : damage < 1 → G_SpawnDamage type pos normal damage = [] := by
    intro h
    unfold G_SpawnDamage
    rw [if_pos h]
  have hrun : 1 ≤ damage → G_SpawnDamage type pos normal damage =
      G_SpawnDamage_loop type pos normal (max 1 (min 4 (damage / 50))).toNat := by
    intro h
    unfold G_SpawnDamage
    rw [if_neg (by omega)]
    dsimp only
    rw [G_SpawnDamage_count damage h]
  have hnum : 1 ≤ damage → (multicasts (G_SpawnDamage type pos normal damage) : Int) =
      max 1 (min 4 (damage / 50)) := by
    intro h
    rw [hrun h, G_SpawnDamage_loop_multicasts]
    omega
  refine ⟨hlow, fun h => ⟨hrun h, hnum h⟩, ?_, ?_, ?_, ?_⟩
  · intro h1 h2
    have := hnum h1
    omega
  · intro h
    have := hnum (by omega)
    omega
  · rcases lt_or_le damage 1 with h | h
    · rw [hlow h]
      decide
    · have := hnum h
      omega
  · rcases lt_or_le damage 1 with h | h
    · rw [hlow h]
      rfl
    · rw [hrun h, G_SpawnDamage_loop_length, G_SpawnDamage_loop_multicasts]

/-- Witness for C33: a damage of 120 gives two multicasts, a damage of 0 none. -/
theorem G_SpawnDamage_multicasts_witness :
    multicasts (G_SpawnDamage .TE_BLOOD ⟨0, 0, 0⟩ none 120) = 2 ∧
    G_SpawnDamage .TE_BLOOD ⟨0, 0, 0⟩ none 0 = [] ∧
    multicasts (G_SpawnDamage .TE_BLOOD ⟨0, 0, 0⟩ none 30) = 1 ∧
    multicasts (G_SpawnDamage .TE_BLOOD ⟨0, 0, 0⟩ none 1000) = 4 :=
  ⟨by
      have h := ((G_SpawnDamage_multicasts .TE_BLOOD ⟨0, 0, 0⟩ none 120).2.1 (by decide)).2
      have e : max (1 : Int) (min 4 (120 / 50)) = 2 := by decide
      rw [e] at h
      exact_mod_cast h,
    (G_SpawnDamage_multicasts .TE_BLOOD ⟨0, 0, 0⟩ none 0).1 (by decide),
    (G_SpawnDamage_multicasts .TE_BLOOD ⟨0, 0, 0⟩ none 30).2.2.1 (by decide) (by decide),
    (G_SpawnDamage_multicasts .TE_BLOOD ⟨0, 0, 0⟩ none 1000).2.2.2.1 (by decide)⟩
/-! ## The velocity change due to knockback -/

theorem G_Damage_knockback_velocity_eq (env : Env) (targ : g_entity_t) (self : Bool)
    (dir : Vec3) (k : Int) (h : k ≠ 0 ∧ targ.move_type ≥ MOVE_TYPE_WALK) :
    (G_Damage_knockback env targ self dir k).velocity =
      VectorAdd targ.velocity (VectorScale (knockbackDir env dir)
        ((if self then 1200 else 800) * (k : ℚ) / Clamp targ.mass 1 1000)) := by
  unfold G_Damage_knockback knockbackDir
  rw [if_pos h]

theorem G_Damage_knockback_avelocity_eq (env : Env) (targ : g_entity_t) (self : Bool)
    (dir : Vec3) (k : Int) :
    (G_Damage_knockback env targ self dir k).avelocity =
      if k ≠ 0 ∧ targ.move_type ≥ MOVE_TYPE_WALK ∧
          (targ.client = none ∨ ∃ c, targ.client = some c ∧
            c.pm_state.flags &&& env.PMF_GIBLET ≠ 0) then
        VectorMA targ.avelocity (100 / Clamp targ.mass 1 1000)
          ⟨(k : ℚ), (k : ℚ), (k : ℚ)⟩
      else targ.avelocity := by
  unfold G_Damage_knockback
  by_cases h : k ≠ 0 ∧ targ.move_type ≥ MOVE_TYPE_WALK
  · rw [if_pos h]
    dsimp only
    cases hc : targ.client with
    | none => simp [h.1, h.2]
    | some c =>
      by_cases hg : c.pm_state.flags &&& env.PMF_GIBLET ≠ 0
      · simp [h.1, h.2, hg]
      · simp [h.1, h.2, hg]
  · rw [if_neg h, if_neg (fun h1 => h ⟨h1.1, h1.2.1⟩)]

/-- The velocity and the angular velocity of the target after `G_Damage`: those
that the knockback of lines 236-270 gives if the call passes the initial
guards, and those before the call otherwise. -/
theorem G_Damage_motion (env : Env) (w : World) (t : Nat) (targ att : g_entity_t)
    (inflictor attacker : Option Nat) (dir pos normal : Option Vec3)
    (damage knockback : Int) (dflags mod : Nat)
    (ht : w.entities[t]? = some targ) (ha : w.entities[attacker.getD 0]? = some att) :
    (G_Damage env w (some t) inflictor attacker dir pos normal damage knockback dflags
      mod).1.entities[t]?.map motion =
      some (motion (if targ.take_damage = true ∧ respawnProtected w.level targ = false then
        G_Damage_knockback env targ (decide (t = attacker.getD 0)) (dir.getD vec3_origin)
          (G_Damage_multipliers env att damage knockback).2
        else targ)) := by
  by_cases h : targ.take_damage = true ∧ respawnProtected w.level targ = false
  · rw [if_pos h, G_Damage_eq_apply env w t targ att inflictor attacker dir pos normal damage
      knockback dflags mod ht h.1 h.2 ha, G_Damage_apply_target env w t _ targ att dir pos
      normal damage knockback dflags mod ht, Option.map_some', targetAfter_motion]
    rfl
  · rw [if_neg h, G_Damage_guard env w t targ inflictor attacker dir pos normal damage
      knockback dflags mod ht (by
        by_cases h1 : targ.take_damage = true
        · right
          cases h2 : respawnProtected w.level targ
          · exact absurd ⟨h1, h2⟩ h
          · rfl
        · left
          simpa using h1), ht]
    rfl

theorem G_Damage_multipliers_knockback_zero (env : Env) (att : g_entity_t) (damage : Int) :
    (G_Damage_multipliers env att damage 0).2 = 0 := by
  unfold G_Damage_multipliers
  cases att.client with
  | none => rfl
  | some ac =>
    dsimp only
    split_ifs
    · show toInt16 (((0 : Int) : ℚ) * QUAD_KNOCKBACK_FACTOR) = 0
      rw [Int.cast_zero, zero_mul]
      exact toInt16_intCast (n := 0) (by norm_num) (by norm_num) |>.symm ▸ rfl
    · rfl

theorem G_Damage_multipliers_knockback_plain (env : Env) (att : g_entity_t)
    (damage knockback : Int)
    (h : att.client = none ∨
      ∃ ac, att.client = some ac ∧ ac.inventory.getD env.quad_damage 0 = 0) :
    (G_Damage_multipliers env att damage knockback).2 = knockback := by
  unfold G_Damage_multipliers
  rcases h with h | ⟨ac, h, hq⟩
  · rw [h]
  · rw [h]
    dsimp only
    rw [if_neg (fun hne => hne hq)]

/-- C31: the target of a `G_Damage` call, `targ` before and `targ1` after it,
with `k` the knockback in force at line 237 (the argument, doubled if the
attacker holds the quad damage item; it is the argument itself otherwise and is
zero if the argument is).  The velocity changes only if `k` is non-zero and the
move type is at least `MOVE_TYPE_WALK`; a call that passes the initial guards
then adds exactly `ndir * (scale * k / clamp(mass, 1, 1000))`, with the scale
1200 if the target is the attacker and 800 otherwise and `ndir` the adjusted
direction of lines 240-247.  The angular velocity changes only if, in addition,
the target has no client or its client has `PMF_GIBLET` set. -/
theorem G_Damage_knockback_impulse (env : Env) (w : World) (t : Nat)
    (targ att targ1 : g_entity_t) (inflictor attacker : Option Nat)
    (dir pos normal : Option Vec3) (damage knockback : Int) (dflags mod : Nat)
    (ht : w.entities[t]? = some targ) (ha : w.entities[attacker.getD 0]? = some att)
    (ht1 : (G_Damage env w (some t) inflictor attacker dir pos normal damage knockback dflags
      mod).1.entities[t]? = some targ1) :
    (targ1.velocity ≠ targ.velocity →
      (G_Damage_multipliers env att damage knockback).2 ≠ 0 ∧
        targ.move_type ≥ MOVE_TYPE_WALK) ∧
    (targ.take_damage = true → respawnProtected w.level targ = false →
      (G_Damage_multipliers env att damage knockback).2 ≠ 0 →
      targ.move_type ≥ MOVE_TYPE_WALK →
      targ1.velocity = VectorAdd targ.velocity
        (VectorScale (knockbackDir env (dir.getD vec3_origin))
          ((if t = attacker.getD 0 then 1200 else 800) *
            ((G_Damage_multipliers env att damage knockback).2 : ℚ) /
              Clamp targ.mass 1 1000))) ∧
    (targ1.avelocity ≠ targ.avelocity →
      (G_Damage_multipliers env att damage knockback).2 ≠ 0 ∧
        targ.move_type ≥ MOVE_TYPE_WALK ∧
        (targ.client = none ∨
          ∃ c, targ.client = some c ∧ c.pm_state.flags &&& env.PMF_GIBLET ≠ 0)) ∧
    ((G_Damage_multipliers env att damage knockback).2 ≠ 0 → knockback ≠ 0) ∧
    (att.client = none ∨
        (∃ ac, att.client = some ac ∧ ac.inventory.getD env.quad_damage 0 = 0) →
      (G_Damage_multipliers env att damage knockback).2 = knockback) := by
  have hm := G_Damage_motion env w t targ att inflictor attacker dir pos normal damage
    knockback dflags mod ht ha
  rw [ht1, Option.map_some', Option.some.injEq] at hm
  have hv := congrArg Prod.fst hm
  have hav := congrArg Prod.snd hm
  simp only [motion] at hv hav
  refine ⟨?_, ?_, ?_, ?_, G_Damage_multipliers_knockback_plain env att damage knockback⟩
  · intro hne
    by_contra hk
    apply hne
    rw [hv]
    split_ifs
    · rw [G_Damage_knockback_of_not env targ _ _ _ hk]
    · rfl
  · intro htd hrp hk hmt
    rw [hv, if_pos ⟨htd, hrp⟩, G_Damage_knockback_velocity_eq env targ _ _ _ ⟨hk, hmt⟩]
    by_cases hself : t = attacker.getD 0
    · simp [hself]
    · simp [hself]
  · intro hne
    by_contra hk
    apply hne
    rw [hav]
    split_ifs
    · rw [G_Damage_knockback_avelocity_eq, if_neg hk]
    · rfl
  · intro hk h0
    apply hk
    rw [h0]
    exact G_Damage_multipliers_knockback_zero env att damage

/-- Witness for C31: the client of `w0` (mass 200, walking) is hit by the world
with knockback 100 along the x axis: its velocity becomes (400, 0, 100). -/
theorem G_Damage_knockback_impulse_witness :
    w0.entities[1]? = some client0 ∧ w0.entities[(none : Option Nat).getD 0]? = some {} ∧
    (G_Damage env0 w0 (some 1) none none (some ⟨1, 0, 0⟩) none none 0 100 0 0).1.entities[1]? =
      some client0Pushed ∧
    client0Pushed.velocity = VectorAdd client0.velocity
      (VectorScale (knockbackDir env0 ⟨1, 0, 0⟩)
        ((if 1 = (none : Option Nat).getD 0 then 1200 else 800) *
          ((G_Damage_multipliers env0 {} 0 100).2 : ℚ) / Clamp client0.mass 1 1000)) ∧
    client0Pushed.velocity = ⟨400, 0, 100⟩ :=
  ⟨rfl, rfl, by decide!,
    (G_Damage_knockback_impulse env0 w0 1 client0 {} client0Pushed none none (some ⟨1, 0, 0⟩)
      none none 0 100 0 0 rfl rfl (by decide!)).2.1 (by decide) (by decide) (by decide)
      (by decide),
    by decide!⟩

/-! ## The upward bias of knockback -/

theorem Clamp_mass_pos (m : ℚ) : 0 < Clamp m 1 1000 :=
  lt_of_lt_of_le one_pos (Clamp_range (x := m) (by norm_num : (1 : ℚ) ≤ 1000)).1

theorem MAX_quarter_le (z : ℚ) : 1 / 4 ≤ MAX (1 / 4) z := by
  unfold MAX
  split_ifs with h
  · exact le_refl _
  · exact not_lt.mp h

theorem G_Damage_multipliers_knockback_pos (env : Env) (att : g_entity_t)
    (damage knockback : Int) (h0 : 0 < knockback) (h1 : knockback ≤ 16383) :
    0 < (G_Damage_multipliers env att damage knockback).2 := by
  unfold G_Damage_multipliers
  cases att.client with
  | none => exact h0
  | some ac =>
    dsimp only
    split_ifs
    · show 0 < toInt16 ((knockback : ℚ) * QUAD_KNOCKBACK_FACTOR)
      have e : (knockback : ℚ) * QUAD_KNOCKBACK_FACTOR = ((2 * knockback : Int) : ℚ) := by
        unfold QUAD_KNOCKBACK_FACTOR
        push_cast
        ring
      rw [e, toInt16_intCast (by omega) (by omega)]
      omega
    · exact h0

/-- C32: `VectorNormalize` scales a vector by a positive factor, and the call
passes the initial guards on a target with a move type of at least
`MOVE_TYPE_WALK` with a knockback `0 < knockback <= 16383` (so that its double,
used if the attacker holds the quad damage item, fits the `int16_t`).  Then the
knockback in force is positive.  If the z component of the normalized
direction is at least -0.25, it is raised to at least 0.25 before the direction
is normalized again, the direction used has a positive z component and the z
component of the velocity of the target grows strictly.  If it is below -0.25
the normalized direction is used unchanged. -/
theorem G_Damage_knockback_upward (env : Env) (w : World) (t : Nat)
    (targ att targ1 : g_entity_t) (inflictor attacker : Option Nat)
    (dir pos normal : Option Vec3) (damage knockback : Int) (dflags mod : Nat)
    (hnorm : ∀ v : Vec3, ∃ s : ℚ, 0 < s ∧ env.VectorNormalize v = VectorScale v s)
    (ht : w.entities[t]? = some targ) (ha : w.entities[attacker.getD 0]? = some att)
    (htd : targ.take_damage = true) (hrp : respawnProtected w.level targ = false)
    (hk0 : 0 < knockback) (hk1 : knockback ≤ 16383)
    (hmt : targ.move_type ≥ MOVE_TYPE_WALK)
    (ht1 : (G_Damage env w (some t) inflictor attacker dir pos normal damage knockback dflags
      mod).1.entities[t]? = some targ1) :
    0 < (G_Damage_multipliers env att damage knockback).2 ∧
    ((env.VectorNormalize (dir.getD vec3_origin)).z ≥ -(1 / 4) →
      1 / 4 ≤ MAX (1 / 4) (env.VectorNormalize (dir.getD vec3_origin)).z ∧
      knockbackDir env (dir.getD vec3_origin) =
        env.VectorNormalize { env.VectorNormalize (dir.getD vec3_origin) with
          z := MAX (1 / 4) (env.VectorNormalize (dir.getD vec3_origin)).z } ∧
      0 < (knockbackDir env (dir.getD vec3_origin)).z ∧
      targ.velocity.z < targ1.velocity.z) ∧
    ((env.VectorNormalize (dir.getD vec3_origin)).z < -(1 / 4) →
      knockbackDir env (dir.getD vec3_origin) = env.VectorNormalize (dir.getD vec3_origin)) := by
  have hm := G_Damage_motion env w t targ att inflictor attacker dir pos normal damage
    knockback dflags mod ht ha
  rw [ht1, Option.map_some', Option.some.injEq, if_pos ⟨htd, hrp⟩] at hm
  have hv := congrArg Prod.fst hm
  simp only [motion] at hv
  have hk := G_Damage_multipliers_knockback_pos env att damage knockback hk0 hk1
  rw [G_Damage_knockback_velocity_eq env targ _ _ _ ⟨ne_of_gt hk, hmt⟩] at hv
  refine ⟨hk, ?_, ?_⟩
  · intro hz
    have hdir : knockbackDir env (dir.getD vec3_origin) =
        env.VectorNormalize { env.VectorNormalize (dir.getD vec3_origin) with
          z := MAX (1 / 4) (env.VectorNormalize (dir.getD vec3_origin)).z } := by
      unfold knockbackDir
      rw [if_pos hz]
    have hraised := MAX_quarter_le (env.VectorNormalize (dir.getD vec3_origin)).z
    have hpos : 0 < (knockbackDir env (dir.getD vec3_origin)).z := by
      rw [hdir]
      obtain ⟨s, hs, he⟩ := hnorm { env.VectorNormalize (dir.getD vec3_origin) with
        z := MAX (1 / 4) (env.VectorNormalize (dir.getD vec3_origin)).z }
      rw [he]
      show 0 < MAX (1 / 4) (env.VectorNormalize (dir.getD vec3_origin)).z * s
      have : (0 : ℚ) < MAX (1 / 4) (env.VectorNormalize (dir.getD vec3_origin)).z := by
        linarith
      positivity
    refine ⟨hraised, hdir, hpos, ?_⟩
    rw [hv]
    show targ.velocity.z < targ.velocity.z + (knockbackDir env (dir.getD vec3_origin)).z *
      ((if decide (t = attacker.getD 0) = true then 1200 else 800) *
        ((G_Damage_multipliers env att damage knockback).2 : ℚ) / Clamp targ.mass 1 1000)
    have hkq : (0 : ℚ) < ((G_Damage_multipliers env att damage knockback).2 : ℚ) := by
      exact_mod_cast hk
    have hmass := Clamp_mass_pos targ.mass
    have hscale : (0 : ℚ) < (if decide (t = attacker.getD 0) = true then 1200 else 800) := by
      split_ifs <;> norm_num
    have : 0 < (knockbackDir env (dir.getD vec3_origin)).z *
        ((if decide (t = attacker.getD 0) = true then 1200 else 800) *
          ((G_Damage_multipliers env att damage knockback).2 : ℚ) / Clamp targ.mass 1 1000) := by
      positivity
    linarith
  · intro hz
    unfold knockbackDir
    rw [if_neg (not_le.mpr hz)]

/-- Witness for C32: the client of `w0` is hit by the world with knockback 100
along the x axis: the z component of the direction is raised from 0 to 0.25
and the z component of its velocity grows from 0 to 100. -/
theorem G_Damage_knockback_upward_witness :
    (∀ v : Vec3, ∃ s : ℚ, 0 < s ∧ env0.VectorNormalize v = VectorScale v s) ∧
    w0.entities[1]? = some client0 ∧ client0.take_damage = true ∧
    respawnProtected w0.level client0 = false ∧
    (0 : Int) < 100 ∧ (100 : Int) ≤ 16383 ∧ client0.move_type ≥ MOVE_TYPE_WALK ∧
    (env0.VectorNormalize ⟨1, 0, 0⟩).z ≥ -(1 / 4) ∧
    client0.velocity.z < client0Pushed.velocity.z ∧
    client0.velocity.z = 0 ∧ client0Pushed.velocity.z = 100 :=
  ⟨fun v => ⟨1, one_pos, by simp [env0, VectorScale]⟩, rfl, rfl, rfl, by decide, by decide,
    by decide, by decide!,
    ((G_Damage_knockback_upward env0 w0 1 client0 {} client0Pushed none none (some ⟨1, 0, 0⟩)
      none none 0 100 0 0 (fun v => ⟨1, one_pos, by simp [env0, VectorScale]⟩) rfl rfl rfl rfl
      (by decide) (by decide) (by decide) (by decide!)).2.1 (by decide!)).2.2.2,
    by decide!, by decide!⟩
/-! ## Distant blasts -/

/-- C37: the code at the failing input.  A blast of damage 10 and knockback 100
at the origin reaches the crate, 50 units away, and the client, 60 units away:
the attenuated knockback is positive (75 and 70) and the attenuated damage is
negative (-15 and -20), so neither entity is passed over as too far away.
`G_Damage` is handed the negative damage and subtracts it from the health: the
crate goes from 20 to 35 health and the client from 100 to 120. -/
theorem G_RadiusDamage_heals :
    (G_RadiusDamage env0 geoClear w_far 0 none none 10 100 200 0 [1, 2]).calls.map
      (fun c => (c.target, c.damage, c.knockback)) = [(1, -15, 75), (2, -20, 70)] ∧
    w_far.entities.map (fun e => e.health) = [0, 20, 100] ∧
    (G_RadiusDamage env0 geoClear w_far 0 none none 10 100 200 0 [1, 2]).world.entities.map
      (fun e => e.health) = [0, 35, 120] := by
  decide!
/-! ## `G_BeginIntermission` during an intermission -/

/-- C39: once an intermission is active (`intermission_time` is not 0), a call
of `G_BeginIntermission` changes nothing and calls nothing: the intermission
time, origin and angles, the map to change to and every entity are as before,
and no client is respawned or moved.  This covers the call made for a passed
`map` vote; `G_EndLevel`, which the limit checks call, then only clears
`match_status`, and its only calls are its own invocation and that of
`G_BeginIntermission`. -/
theorem G_BeginIntermission_idempotent (genv : GameEnv) (map : Option String) (w : World)
    (h : w.level.intermission_time ≠ 0) :
    G_BeginIntermission genv map w = (w, [.G_BeginIntermission map]) ∧
    (G_EndLevel genv w).1 = { w with level := { w.level with match_status := 0 } } ∧
    (∃ m, (G_EndLevel genv w).2 = [.G_EndLevel, .G_BeginIntermission m]) ∧
    (G_EndLevel genv w).1.level.intermission_time = w.level.intermission_time ∧
    (G_EndLevel genv w).1.level.intermission_origin = w.level.intermission_origin ∧
    (G_EndLevel genv w).1.level.intermission_angle = w.level.intermission_angle ∧
    (G_EndLevel genv w).1.level.changemap = w.level.changemap ∧
    (G_EndLevel genv w).1.entities = w.entities := by
  have hb : ∀ (m : Option String) (v : World), v.level.intermission_time ≠ 0 →
      G_BeginIntermission genv m v = (v, [.G_BeginIntermission m]) := by
    intro m v hv
    unfold G_BeginIntermission
    rw [if_pos hv]
  have he : (G_EndLevel genv w).1 = { w with level := { w.level with match_status := 0 } } ∧
      ∃ m, (G_EndLevel genv w).2 = [.G_EndLevel, .G_BeginIntermission m] := by
    have h1 := fun m => hb m { w with level := { w.level with match_status := 0 } } h
    unfold G_EndLevel
    dsimp only
    split
    · split
      · rw [h1]
        exact ⟨rfl, _, rfl⟩
      · rw [h1]
        exact ⟨rfl, _, rfl⟩
    · rw [h1]
      exact ⟨rfl, _, rfl⟩
  refine ⟨hb map w h, he.1, he.2, ?_, ?_, ?_, ?_, ?_⟩ <;> rw [he.1]

/-- Witness for C39: a level in intermission since 4000 ms. -/
theorem G_BeginIntermission_idempotent_witness :
    w_intermission.level.intermission_time ≠ 0 ∧
    G_BeginIntermission genv0 (some "q2dm1") w_intermission =
      (w_intermission, [.G_BeginIntermission (some "q2dm1")]) ∧
    (G_EndLevel genv0 w_intermission).1.level.changemap = some "edge" :=
  ⟨by decide,
    (G_BeginIntermission_idempotent genv0 (some "q2dm1") w_intermission (by decide)).1,
    (G_BeginIntermission_idempotent genv0 (some "q2dm1") w_intermission
      (by decide)).2.2.2.2.2.2.1⟩

/-! ## `G_CheckVote`: a vote without yes votes -/

/-- C38, counterexample.  Voting is enabled, a vote for `g_match 1` was called
10 seconds ago, nobody has voted and none of the three client slots is in use.
The count of clients is 0, the test `votes[VOTE_YES] >= count * VOTE_MAJORITY`
holds, and `G_CheckVote` announces the vote as passed and executes the
command. -/
theorem G_CheckVote_no_yes_counterexample :
    w_vote_empty.g_voting ≠ 0 ∧ yesVotes w_vote_empty = 0 ∧ clientCount w_vote_empty = 0 ∧
    (G_CheckVote genv0 w_vote_empty).2 =
      [.BroadcastPrint "Vote \"g_match 1\" passed\n", .AddCommandString "g_match 1",
        .ConfigString CS_VOTE none] := by
  decide!

/-- C38, amended.  A vote without yes votes: if at least one client slot is in
use, `G_CheckVote` does not execute the vote command: it either does nothing,
or expires the vote, or announces it as failed, and its only calls are those
announcements and the reset of the vote.  If no client slot is in use, voting
is enabled and a vote is active and no older than 60000 ms, the vote passes and
the command is executed. -/
theorem G_CheckVote_no_yes (genv : GameEnv) (w : World) (hyes : yesVotes w = 0) :
    (0 < clientCount w →
      (G_CheckVote genv w = (w, []) ∨ G_CheckVote genv w = G_CheckVote_expire w ∨
        G_CheckVote genv w = G_CheckVote_fail w) ∧
      (G_CheckVote genv w).2.head? ≠ some (passedMessage w) ∧
      ∀ ev ∈ (G_CheckVote genv w).2,
        ev = expiredMessage w ∨ ev = failedMessage w ∨ ev = .ConfigString CS_VOTE none) ∧
    (clientCount w = 0 → w.g_voting ≠ 0 → w.level.vote_time ≠ 0 →
      wrap32 ((w.level.time : Int) - w.level.vote_time) ≤ MAX_VOTE_TIME →
      G_CheckVote genv w = G_CheckVote_pass genv w) := by
  constructor
  · intro hc
    have hno : ¬ ((w.level.votes.getD g_vote_t.VOTE_YES.index 0 : Nat) : ℚ) ≥
        (clientCount w : ℚ) * VOTE_MAJORITY := by
      have hy : w.level.votes.getD g_vote_t.VOTE_YES.index 0 = 0 := hyes
      rw [hy]
      have hq : (0 : ℚ) < (clientCount w : ℚ) := by exact_mod_cast hc
      have : (0 : ℚ) < (clientCount w : ℚ) * VOTE_MAJORITY := by
        unfold VOTE_MAJORITY
        positivity
      push_cast
      linarith
    have hcases : G_CheckVote genv w = (w, []) ∨ G_CheckVote genv w = G_CheckVote_expire w ∨
        G_CheckVote genv w = G_CheckVote_fail w := by
      unfold G_CheckVote G_CheckVote_tally
      dsimp only
      rw [if_neg hno]
      split_ifs
      all_goals first
        | exact Or.inl rfl
        | exact Or.inr (Or.inl rfl)
        | exact Or.inr (Or.inr rfl)
    refine ⟨hcases, ?_, ?_⟩
    · rcases hcases with h | h | h <;> rw [h]
      · simp
      · simp only [G_CheckVote_expire, List.head?_cons, ne_eq, Option.some.injEq, passedMessage,
          GameEvent.BroadcastPrint.injEq]
        intro h1
        have h2 := congrArg String.data h1
        simp only [String.data_append, List.append_assoc] at h2
        have h3 := List.append_cancel_left (List.append_cancel_left h2)
        revert h3
        decide
      · simp only [G_CheckVote_fail, List.head?_cons, ne_eq, Option.some.injEq, passedMessage,
          GameEvent.BroadcastPrint.injEq]
        exact vote_message_ne _
    · rcases hcases with h | h | h <;> rw [h]
      · intro ev hev
        cases hev
      · intro ev hev
        simp only [G_CheckVote_expire, G_ResetVote, List.mem_cons, List.mem_singleton,
          List.not_mem_nil, or_false] at hev
        rcases hev with h1 | h1
        · exact Or.inl h1
        · exact Or.inr (Or.inr h1)
      · intro ev hev
        simp only [G_CheckVote_fail, G_ResetVote, List.mem_cons, List.mem_singleton,
          List.not_mem_nil, or_false] at hev
        rcases hev with h1 | h1
        · exact Or.inr (Or.inl h1)
        · exact Or.inr (Or.inr h1)
  · intro hc hv ht he
    unfold G_CheckVote G_CheckVote_tally
    rw [if_neg hv, if_neg ht, if_neg (Nat.not_lt.mpr he)]
    dsimp only
    rw [if_pos (by rw [hc]; simp)]

/-- Witness for C38 (amended): three clients in use, none of whom has voted:
`G_CheckVote` does nothing. -/
theorem G_CheckVote_no_yes_witness :
    yesVotes w_vote_idle = 0 ∧ 0 < clientCount w_vote_idle ∧
    (G_CheckVote genv0 w_vote_idle).2.head? ≠ some (passedMessage w_vote_idle) ∧
    G_CheckVote genv0 w_vote_idle = (w_vote_idle, []) :=
  ⟨by decide, by decide,
    ((G_CheckVote_no_yes genv0 w_vote_idle (by decide)).1 (by decide)).2.1, by decide!⟩
/-! ## `G_CheckVote`: the action of a passed vote -/

theorem toList_append_eq (p name : String) :
    (p ++ name).toList = p.toList ++ name.toList := by
  simp only [String.toList, String.data_append]

theorem isPrefixOf_append_self (p name : String) :
    p.toList.isPrefixOf (p ++ name).toList = true := by
  rw [toList_append_eq, List.isPrefixOf_iff_prefix]
  exact List.prefix_append _ _

theorem drop_append_self (p name : String) :
    String.mk ((p ++ name).toList.drop p.toList.length) = name := by
  rw [toList_append_eq, List.drop_left]
  rfl

theorem append_of_isPrefixOf (p cmd : String) (h : p.toList.isPrefixOf cmd.toList = true) :
    ∃ name, cmd = p ++ name := by
  rw [List.isPrefixOf_iff_prefix] at h
  obtain ⟨t, ht⟩ := h
  refine ⟨String.mk t, ?_⟩
  apply String.ext
  rw [String.data_append]
  exact ht.symm

theorem toList_map : "map ".toList = ['m', 'a', 'p', ' '] := rfl

theorem toList_mute : "mute ".toList = ['m', 'u', 't', 'e', ' '] := rfl

theorem toList_unmute : "unmute ".toList = ['u', 'n', 'm', 'u', 't', 'e', ' '] := rfl

theorem toList_next_map : "next_map".toList = ['n', 'e', 'x', 't', '_', 'm', 'a', 'p'] := rfl

theorem toList_restart : "restart".toList = ['r', 'e', 's', 't', 'a', 'r', 't'] := rfl

/-- The action of a passed vote for `map <name>`. -/
theorem G_CheckVote_action_map (genv : GameEnv) (w : World) (name : String)
    (h : w.level.vote_cmd = "map " ++ name) :
    G_CheckVote_action genv w = G_BeginIntermission genv (some name) w := by
  unfold G_CheckVote_action
  dsimp only
  rw [h, if_pos (isPrefixOf_append_self _ _)]
  have := drop_append_self "map " name
  rw [toList_map] at this
  simp only [List.length_cons, List.length_nil] at this
  rw [this]

/-- The action of a passed vote for `next_map`. -/
theorem G_CheckVote_action_next_map (genv : GameEnv) (w : World)
    (h : w.level.vote_cmd = "next_map") : G_CheckVote_action genv w = G_EndLevel genv w := by
  unfold G_CheckVote_action
  dsimp only
  rw [h, if_neg (by decide), if_pos rfl]

/-- The action of a passed vote for `restart`. -/
theorem G_CheckVote_action_restart (genv : GameEnv) (w : World)
    (h : w.level.vote_cmd = "restart") :
    G_CheckVote_action genv w = G_RestartGame genv false w := by
  unfold G_CheckVote_action
  dsimp only
  rw [h, if_neg (by decide), if_neg (by decide), if_pos rfl]

theorem mute_ne (name : String) (s : String)
    (hs : s.toList.head? ≠ some 'm') : "mute " ++ name ≠ s := by
  intro h
  apply hs
  rw [← h, toList_append_eq, toList_mute]
  rfl

theorem unmute_ne (name : String) (s : String)
    (hs : s.toList.head? ≠ some 'u') : "unmute " ++ name ≠ s := by
  intro h
  apply hs
  rw [← h, toList_append_eq, toList_unmute]
  rfl

/-- The action of a passed vote for `mute <name>`. -/
theorem G_CheckVote_action_mute (genv : GameEnv) (w : World) (name : String)
    (h : w.level.vote_cmd = "mute " ++ name) :
    G_CheckVote_action genv w = G_MuteClient genv name true w := by
  have h1 : ¬ ("map ".toList.isPrefixOf ("mute " ++ name).toList = true) := by
    rw [toList_append_eq, toList_map, toList_mute]
    simp [List.isPrefixOf]
  unfold G_CheckVote_action
  dsimp only
  rw [h, if_neg h1, if_neg (mute_ne name _ (by decide)), if_neg (mute_ne name _ (by decide)),
    if_pos (isPrefixOf_append_self _ _)]
  have := drop_append_self "mute " name
  rw [toList_mute] at this
  simp only [List.length_cons, List.length_nil] at this
  rw [this]

/-- The action of a passed vote for `unmute <name>`. -/
theorem G_CheckVote_action_unmute (genv : GameEnv) (w : World) (name : String)
    (h : w.level.vote_cmd = "unmute " ++ name) :
    G_CheckVote_action genv w = G_MuteClient genv name false w := by
  have h1 : ¬ ("map ".toList.isPrefixOf ("unmute " ++ name).toList = true) := by
    rw [toList_append_eq, toList_map, toList_unmute]
    simp [List.isPrefixOf]
  have h2 : ¬ ("mute ".toList.isPrefixOf ("unmute " ++ name).toList = true) := by
    rw [toList_append_eq, toList_mute, toList_unmute]
    simp [List.isPrefixOf]
  unfold G_CheckVote_action
  dsimp only
  rw [h, if_neg h1, if_neg (unmute_ne name _ (by decide)),
    if_neg (unmute_ne name _ (by decide)), if_neg h2, if_pos (isPrefixOf_append_self _ _)]
  have := drop_append_self "unmute " name
  rw [toList_unmute] at this
  simp only [List.length_cons, List.length_nil] at this
  rw [this]

/-- The action of a passed vote for any other command. -/
theorem G_CheckVote_action_command (genv : GameEnv) (w : World)
    (hmap : ∀ name, w.level.vote_cmd ≠ "map " ++ name)
    (hnext : w.level.vote_cmd ≠ "next_map") (hrestart : w.level.vote_cmd ≠ "restart")
    (hmute : ∀ name, w.level.vote_cmd ≠ "mute " ++ name)
    (hunmute : ∀ name, w.level.vote_cmd ≠ "unmute " ++ name) :
    G_CheckVote_action genv w = (w, [.AddCommandString w.level.vote_cmd]) := by
  unfold G_CheckVote_action
  dsimp only
  rw [if_neg (fun h => by obtain ⟨n, hn⟩ := append_of_isPrefixOf _ _ h; exact hmap n hn),
    if_neg hnext, if_neg hrestart,
    if_neg (fun h => by obtain ⟨n, hn⟩ := append_of_isPrefixOf _ _ h; exact hmute n hn),
    if_neg (fun h => by obtain ⟨n, hn⟩ := append_of_isPrefixOf _ _ h; exact hunmute n hn)]

/-- The map to change to and the start of the intermission after
`G_BeginIntermission` outside an intermission. -/
theorem G_BeginIntermission_changemap (genv : GameEnv) (map : Option String) (w : World)
    (h : w.level.intermission_time = 0) :
    (G_BeginIntermission genv map w).1.level.changemap = some (map.getD w.level.name) ∧
    (G_BeginIntermission genv map w).1.level.intermission_time = w.level.time := by
  unfold G_BeginIntermission
  rw [if_neg (by simp [h])]
  dsimp only
  unfold mapClients
  dsimp only
  split <;> exact ⟨rfl, rfl⟩

/-- C34: `G_CheckVote` on a vote that passes (voting enabled, the vote active
and no older than 60000 ms, `votes[VOTE_YES] >= count * VOTE_MAJORITY`).  It
announces the vote as passed, takes the one action that the command selects and
then resets the vote.  The action is `G_BeginIntermission` with the named map
for `map <name>` (which begins the intermission to that map unless one is
active), `G_EndLevel` for `next_map`, `G_RestartGame(false)` for `restart`,
`G_MuteClient` with the name and `true` or `false` for `mute <name>` or
`unmute <name>`, and `gi.AddCommandString` with the unchanged command for
every other command. -/
theorem G_CheckVote_dispatch (genv : GameEnv) (w : World)
    (hv : w.g_voting ≠ 0) (ht : w.level.vote_time ≠ 0)
    (he : wrap32 ((w.level.time : Int) - w.level.vote_time) ≤ MAX_VOTE_TIME)
    (hp : (yesVotes w : ℚ) ≥ (clientCount w : ℚ) * VOTE_MAJORITY) :
    (G_CheckVote genv w).1 = (G_ResetVote (G_CheckVote_action genv w).1).1 ∧
    (G_CheckVote genv w).2 =
      passedMessage w :: ((G_CheckVote_action genv w).2 ++ [.ConfigString CS_VOTE none]) ∧
    ((G_CheckVote genv w).1.level.votes = [0, 0, 0] ∧
      (G_CheckVote genv w).1.level.vote_cmd = "" ∧
      (G_CheckVote genv w).1.level.vote_time = 0) ∧
    (∀ name, w.level.vote_cmd = "map " ++ name →
      G_CheckVote_action genv w = G_BeginIntermission genv (some name) w ∧
      (w.level.intermission_time = 0 →
        (G_CheckVote genv w).1.level.changemap = some name ∧
        (G_CheckVote genv w).1.level.intermission_time = w.level.time)) ∧
    (w.level.vote_cmd = "next_map" → G_CheckVote_action genv w = G_EndLevel genv w) ∧
    (w.level.vote_cmd = "restart" →
      G_CheckVote_action genv w = G_RestartGame genv false w) ∧
    (∀ name, w.level.vote_cmd = "mute " ++ name →
      G_CheckVote_action genv w = G_MuteClient genv name true w) ∧
    (∀ name, w.level.vote_cmd = "unmute " ++ name →
      G_CheckVote_action genv w = G_MuteClient genv name false w) ∧
    ((∀ name, w.level.vote_cmd ≠ "map " ++ name) → w.level.vote_cmd ≠ "next_map" →
      w.level.vote_cmd ≠ "restart" → (∀ name, w.level.vote_cmd ≠ "mute " ++ name) →
      (∀ name, w.level.vote_cmd ≠ "unmute " ++ name) →
      G_CheckVote_action genv w = (w, [.AddCommandString w.level.vote_cmd])) := by
  have hpass : G_CheckVote genv w = G_CheckVote_pass genv w := by
    unfold G_CheckVote G_CheckVote_tally
    rw [if_neg hv, if_neg ht, if_neg (Nat.not_lt.mpr he)]
    dsimp only
    exact if_pos hp
  refine ⟨by rw [hpass]; rfl, by rw [hpass]; rfl, by rw [hpass]; exact ⟨rfl, rfl, rfl⟩, ?_,
    G_CheckVote_action_next_map genv w, G_CheckVote_action_restart genv w,
    G_CheckVote_action_mute genv w, G_CheckVote_action_unmute genv w,
    G_CheckVote_action_command genv w⟩
  intro name hname
  refine ⟨G_CheckVote_action_map genv w name hname, fun h0 => ?_⟩
  have hc := G_BeginIntermission_changemap genv (some name) w h0
  rw [← G_CheckVote_action_map genv w name hname] at hc
  rw [hpass]
  exact hc

/-- Witness for C34: three clients in use who all voted yes for `mute bob`:
the vote passes, `G_MuteClient` is called with `bob` and `true`, and the vote
is reset. -/
theorem G_CheckVote_dispatch_witness :
    (w_vote_cmd "mute bob").g_voting ≠ 0 ∧ (w_vote_cmd "mute bob").level.vote_time ≠ 0 ∧
    wrap32 (((w_vote_cmd "mute bob").level.time : Int) - (w_vote_cmd "mute bob").level.vote_time)
      ≤ MAX_VOTE_TIME ∧
    (yesVotes (w_vote_cmd "mute bob") : ℚ) ≥
      (clientCount (w_vote_cmd "mute bob") : ℚ) * VOTE_MAJORITY ∧
    G_CheckVote_action genv0 (w_vote_cmd "mute bob") =
      G_MuteClient genv0 "bob" true (w_vote_cmd "mute bob") ∧
    (G_CheckVote genv0 (w_vote_cmd "mute bob")).2 =
      [.BroadcastPrint "Vote \"mute bob\" passed\n", .G_MuteClient "bob" true,
        .ConfigString CS_VOTE none] :=
  ⟨by decide!, by decide, by decide, by decide!,
    (G_CheckVote_dispatch genv0 (w_vote_cmd "mute bob") (by decide!) (by decide) (by decide)
      (by decide!)).2.2.2.2.2.2.1 "bob" (by decide),
    by decide!⟩
/-! ## The projectile scan of `G_CheckRoundEnd` -/

theorem G_CheckRoundEnd_scan_reads_any (w : World) (winner : Nat) (winnerEnt : g_entity_t)
    (n : Nat) : ∀ i : Nat, (G_CheckRoundEnd_scan_reads w winner winnerEnt i n).2 =
      (List.range' i n).any (G_CheckRoundEnd_scan_body w winner winnerEnt) := by
  induction n with
  | zero => intro i; rfl
  | succ n ih =>
    intro i
    rw [G_CheckRoundEnd_scan_reads, List.range'_succ, List.any_cons]
    cases h : G_CheckRoundEnd_scan_body w winner winnerEnt i
    · simp only [Bool.false_eq_true, if_false, Bool.false_or]
      exact ih (i + 1)
    · simp

/-- The scan with its reads returns from the function exactly if the scan of
`G_CheckRoundEnd` does. -/
theorem G_CheckRoundEnd_scan_reads_eq (w : World) (winner : Nat) (winnerEnt : g_entity_t) :
    (G_CheckRoundEnd_scan_reads w winner winnerEnt 0 w.num_entities).2 =
      G_CheckRoundEnd_scan w winner winnerEnt := by
  rw [G_CheckRoundEnd_scan_reads_any, ← List.range_eq_range']
  rfl

/-- A scan that does not return from the function reads the entities `i + 1` to
`i + n`. -/
theorem G_CheckRoundEnd_scan_reads_all (w : World) (winner : Nat) (winnerEnt : g_entity_t)
    (n : Nat) : ∀ i : Nat, (G_CheckRoundEnd_scan_reads w winner winnerEnt i n).2 = false →
      (G_CheckRoundEnd_scan_reads w winner winnerEnt i n).1 = List.range' (i + 1) n := by
  induction n with
  | zero => intro i _; rfl
  | succ n ih =>
    intro i
    rw [G_CheckRoundEnd_scan_reads, List.range'_succ]
    cases h : G_CheckRoundEnd_scan_body w winner winnerEnt i
    · simp only [Bool.false_eq_true, if_false]
      intro h2
      rw [ih (i + 1) h2]
    · simp

/-- C40: the code at the failing input, and in general.  In the world `w_scan`
three entities are in use, `ge.num_entities` is 3 and the entity list has
length 3.  The round has one client left, so `G_CheckRoundEnd` reaches the
projectile scan; the scan reads the entities 1, 2 and 3, not 0, 1 and 2, does
not return from the function, and the round is won.  Entity 3 is outside the
range `[0, ge.num_entities - 1]` and the lookup in the list fails.  In every
world with `ge.num_entities > 0`, a scan that runs to its end has read the
entity `ge.num_entities` and has not read the entity 0. -/
theorem G_CheckRoundEnd_scan_out_of_range :
    w_scan.num_entities = 3 ∧ w_scan.entities.length = 3 ∧
    activeClients w_scan = [1] ∧
    G_CheckRoundEnd_scan_reads w_scan 1 (player none 0) 0 w_scan.num_entities =
      ([1, 2, 3], false) ∧
    w_scan.entities[3]? = none ∧
    (G_CheckRoundEnd genv0 w_scan).2 = [.BroadcastPrint " wins!\n", .G_ClientRespawn 1] ∧
    ∀ (w : World) (winner : Nat) (winnerEnt : g_entity_t), 0 < w.num_entities →
      G_CheckRoundEnd_scan w winner winnerEnt = false →
      w.num_entities ∈ (G_CheckRoundEnd_scan_reads w winner winnerEnt 0 w.num_entities).1 ∧
      0 ∉ (G_CheckRoundEnd_scan_reads w winner winnerEnt 0 w.num_entities).1 := by
  refine ⟨rfl, rfl, by decide!, by decide!, rfl, by decide!, ?_⟩
  intro w winner winnerEnt hn hs
  rw [← G_CheckRoundEnd_scan_reads_eq] at hs
  rw [G_CheckRoundEnd_scan_reads_all w winner winnerEnt _ 0 hs]
  simp only [List.mem_range'_1]
  omega

/-! ## `G_RunTimers`: the time limit -/

theorem G_RunTimers_hit (genv : GameEnv) (w : World)
    (h : w.level.time_limit ≠ 0 ∧ G_RunTimers_time w.level ≥ w.level.time_limit) :
    endLevelCalls (G_RunTimers genv w).2 = 1 := by
  unfold G_RunTimers
  dsimp only
  rw [if_pos h]
  have := G_EndLevel_endLevelCalls genv w
  unfold endLevelCalls at this ⊢
  rw [List.count_cons_of_ne (by simp), this]

theorem G_RunTimers_miss (genv : GameEnv) (w : World)
    (h : ¬ (w.level.time_limit ≠ 0 ∧ G_RunTimers_time w.level ≥ w.level.time_limit)) :
    G_RunTimers genv w = G_RunTimers_update genv w
      (if w.level.time_limit ≠ 0 then wrap32 (w.level.time_limit - w.level.time)
        else G_RunTimers_time w.level) ∧
    endLevelCalls (G_RunTimers genv w).2 = 0 := by
  have e : G_RunTimers genv w = G_RunTimers_update genv w
      (if w.level.time_limit ≠ 0 then wrap32 (w.level.time_limit - w.level.time)
        else G_RunTimers_time w.level) := by
    unfold G_RunTimers
    dsimp only
    rw [if_neg h]
  exact ⟨e, by rw [e]; exact G_RunTimers_update_endLevelCalls genv w _⟩

/-- The local `time` of `G_RunTimers` in a running match with a time limit: the
time that remains, modulo `2 ^ 32`. -/
theorem G_RunTimers_time_match (l : g_level_t) (hr : l.rounds = false) (hm : l.«match» = true)
    (h0 : l.match_time ≠ 0) (h1 : l.match_time ≤ l.time) (hL : l.time_limit ≠ 0) :
    G_RunTimers_time l = wrap32 (l.time_limit - l.time) := by
  unfold G_RunTimers_time
  rw [hr, hm]
  simp only [Bool.false_eq_true, if_false, if_true]
  rw [if_neg (by omega), if_pos h0, if_pos hL]

theorem G_RunTimers_time_plain (l : g_level_t) (hr : l.rounds = false) (hm : l.«match» = false) :
    G_RunTimers_time l = l.time := by
  unfold G_RunTimers_time
  rw [hr, hm]
  simp

/-- C35 (the code at the failing input): arena mode between two rounds, no
intermission, a time limit of 1000 ms and a level time of 5000 ms.  The local
`time` of `G_RunTimers` is 0, the test `time >= time_limit` under the comment
`check time_limit` fails and `G_EndLevel` is not invoked, where the claim
requires it; the remaining time of the line commented `count down` is computed
as `1000 - 5000`, which wraps around to 4294963296, and is sent to the clients
as 71582 minutes and 43 seconds. -/
theorem G_RunTimers_rounds_time_limit :
    w_round_limit.level.intermission_time = 0 ∧ w_round_limit.level.time_limit ≠ 0 ∧
    w_round_limit.level.time ≥ w_round_limit.level.time_limit ∧
    G_RunTimers_time w_round_limit.level = 0 ∧
    endLevelCalls (G_RunTimers genv0 w_round_limit).2 = 0 ∧
    wrap32 ((w_round_limit.level.time_limit : Int) - w_round_limit.level.time) = 4294963296 ∧
    (G_RunTimers genv0 w_round_limit).2 = [.ConfigString CS_TIME (some "^771582:43")] := by
  decide!

/-- In a running match whose level time equals the time limit the local `time`
is the remaining time 0, and `G_EndLevel` is not invoked in that frame. -/
theorem G_RunTimers_match_limit_frame :
    w_match_limit.level.intermission_time = 0 ∧ w_match_limit.level.time_limit ≠ 0 ∧
    w_match_limit.level.time ≥ w_match_limit.level.time_limit ∧
    endLevelCalls (G_RunTimers genv0 w_match_limit).2 = 0 := by
  decide!

/-- The time limit outside arena mode.  With a time limit set (and level time
and time limit within `uint32_t`), `G_RunTimers` invokes `G_EndLevel`, once, exactly if its local
`time` is at least the time limit; that local is the level time only outside
match and arena mode.  Outside match and arena mode the level ends exactly if
the level time has reached the time limit.  In a running match the local is the
remaining time modulo `2 ^ 32`, and the level ends exactly if the level time
exceeds the time limit.  In both cases, when the level does not end, the
remaining time `time_limit - g_level.time` that is computed does not wrap
around. -/
theorem G_RunTimers_time_limit (genv : GameEnv) (w : World)
    (hL : w.level.time_limit ≠ 0) (ht : w.level.time < 4294967296)
    (hl : w.level.time_limit < 4294967296) :
    (endLevelCalls (G_RunTimers genv w).2 = 1 ↔
      G_RunTimers_time w.level ≥ w.level.time_limit) ∧
    (endLevelCalls (G_RunTimers genv w).2 = 0 ↔
      G_RunTimers_time w.level < w.level.time_limit) ∧
    (w.level.rounds = false → w.level.«match» = false →
      (endLevelCalls (G_RunTimers genv w).2 = 1 ↔ w.level.time ≥ w.level.time_limit) ∧
      (w.level.time < w.level.time_limit →
        G_RunTimers genv w =
          G_RunTimers_update genv w (w.level.time_limit - w.level.time))) ∧
    (w.level.rounds = false → w.level.«match» = true → w.level.match_time ≠ 0 →
      w.level.match_time ≤ w.level.time →
      (endLevelCalls (G_RunTimers genv w).2 = 1 ↔ w.level.time > w.level.time_limit) ∧
      (w.level.time ≤ w.level.time_limit →
        G_RunTimers genv w =
          G_RunTimers_update genv w (w.level.time_limit - w.level.time))) := by
  have hone : endLevelCalls (G_RunTimers genv w).2 = 1 ↔
      G_RunTimers_time w.level ≥ w.level.time_limit := by
    constructor
    · intro h
      by_contra hc
      have := (G_RunTimers_miss genv w (fun h1 => hc h1.2)).2
      omega
    · intro h
      exact G_RunTimers_hit genv w ⟨hL, h⟩
  have hzero : endLevelCalls (G_RunTimers genv w).2 = 0 ↔
      G_RunTimers_time w.level < w.level.time_limit := by
    constructor
    · intro h
      by_contra hc
      have := G_RunTimers_hit genv w ⟨hL, not_lt.mp hc⟩
      omega
    · intro h
      exact (G_RunTimers_miss genv w (fun h1 => absurd h1.2 (not_le.mpr h))).2
  have hnowrap : w.level.time ≤ w.level.time_limit →
      wrap32 ((w.level.time_limit : Int) - w.level.time) =
        w.level.time_limit - w.level.time := by
    intro h
    unfold wrap32
    omega
  have hupdate : G_RunTimers_time w.level < w.level.time_limit →
      w.level.time ≤ w.level.time_limit →
      G_RunTimers genv w = G_RunTimers_update genv w (w.level.time_limit - w.level.time) := by
    intro h1 h2
    have := (G_RunTimers_miss genv w (fun h3 => absurd h3.2 (not_le.mpr h1))).1
    rw [if_pos hL, hnowrap h2] at this
    exact this
  refine ⟨hone, hzero, ?_, ?_⟩
  · intro hr hm
    have e := G_RunTimers_time_plain w.level hr hm
    rw [e] at hone hupdate
    exact ⟨hone, fun h => hupdate h (le_of_lt h)⟩
  · intro hr hm h0 h1
    have e := G_RunTimers_time_match w.level hr hm h0 h1 hL
    have hwrap : wrap32 ((w.level.time_limit : Int) - w.level.time) ≥ w.level.time_limit ↔
        w.level.time > w.level.time_limit := by
      unfold wrap32
      omega
    rw [e] at hone hupdate
    refine ⟨hone.trans hwrap, fun h => hupdate ?_ h⟩
    by_contra hc
    have := hwrap.mp (not_lt.mp hc)
    omega

/-- An instance of `G_RunTimers_time_limit`: no match or arena mode, a time
limit of one minute and a level time of 5 seconds: the level does not end and
the remaining time is 55 seconds. -/
theorem G_RunTimers_time_limit_plain :
    w_plain_limit.level.time_limit ≠ 0 ∧ w_plain_limit.level.time < 4294967296 ∧
    w_plain_limit.level.time_limit < 4294967296 ∧
    G_RunTimers genv0 w_plain_limit = G_RunTimers_update genv0 w_plain_limit 55000 ∧
    (G_RunTimers genv0 w_plain_limit).2 = [.ConfigString CS_TIME (some "^7 0:55")] :=
  ⟨by decide, by decide, by decide,
    ((G_RunTimers_time_limit genv0 w_plain_limit (by decide) (by decide) (by decide)).2.2.1
      rfl rfl).2 (by decide),
    by decide!⟩

/-! ## `Cl_Location` -/

/-- The loop of `Cl_Location`: the final `mindist` is a lower bound of the
distances, and either no location was closer than the initial `mindist`, and
the state is unchanged, or `j` is the first index at which the least distance
is attained, and that distance is below the initial `mindist`. -/
theorem Cl_Location_loop_spec (VL : Vec3 → ℚ) (nearto : Vec3) :
    ∀ (ls : List loc_t) (i : Nat) (st : ℚ × Nat),
      (∀ (k : Nat) (l : loc_t), ls[k]? = some l →
        (Cl_Location_loop VL nearto ls i st).1 ≤ locDist VL nearto l) ∧
      ((Cl_Location_loop VL nearto ls i st = st ∧
          ∀ (k : Nat) (l : loc_t), ls[k]? = some l → st.1 ≤ locDist VL nearto l) ∨
        ∃ (k : Nat) (l : loc_t), ls[k]? = some l ∧
          (Cl_Location_loop VL nearto ls i st).2 = i + k ∧
          (Cl_Location_loop VL nearto ls i st).1 = locDist VL nearto l ∧
          locDist VL nearto l < st.1 ∧
          ∀ (k1 : Nat) (l1 : loc_t), k1 < k → ls[k1]? = some l1 →
            locDist VL nearto l < locDist VL nearto l1) := by
  intro ls
  induction ls with
  | nil =>
    intro i st
    refine ⟨fun k l h => by simp at h, Or.inl ⟨rfl, fun k l h => by simp at h⟩⟩
  | cons a rest ih =>
    intro i st
    rw [Cl_Location_loop]
    by_cases hlt : VL (VectorSubtract nearto a.loc) < st.1
    · rw [if_pos hlt]
      obtain ⟨hlow, hcase⟩ := ih (i + 1) (VL (VectorSubtract nearto a.loc), i)
      have hle : (Cl_Location_loop VL nearto rest (i + 1)
          (VL (VectorSubtract nearto a.loc), i)).1 ≤ locDist VL nearto a := by
        rcases hcase with ⟨he, _⟩ | ⟨k, l, hk, _, h1, h2, _⟩
        · rw [he]
          exact le_refl _
        · rw [h1]
          exact le_of_lt h2
      refine ⟨?_, Or.inr ?_⟩
      · intro k l hk
        cases k with
        | zero =>
          simp only [List.getElem?_cons_zero, Option.some.injEq] at hk
          rw [← hk]
          exact hle
        | succ k =>
          rw [List.getElem?_cons_succ] at hk
          exact hlow k l hk
      · rcases hcase with ⟨he, _⟩ | ⟨k, l, hk, hj, h1, h2, hfirst⟩
        · refine ⟨0, a, List.getElem?_cons_zero, ?_, ?_, hlt,
            fun k1 l1 hk1 => absurd hk1 (Nat.not_lt_zero _)⟩
          · rw [he]
            rfl
          · rw [he]
            rfl
        · refine ⟨k + 1, l, by rw [List.getElem?_cons_succ]; exact hk, by rw [hj]; omega, h1,
            lt_trans h2 hlt, ?_⟩
          intro k1 l1 hk1 hl1
          cases k1 with
          | zero =>
            simp only [List.getElem?_cons_zero, Option.some.injEq] at hl1
            rw [← hl1]
            exact h2
          | succ k1 =>
            rw [List.getElem?_cons_succ] at hl1
            exact hfirst k1 l1 (by omega) hl1
    · rw [if_neg hlt]
      obtain ⟨hlow, hcase⟩ := ih (i + 1) st
      have hge : st.1 ≤ locDist VL nearto a := not_lt.mp hlt
      have hle : (Cl_Location_loop VL nearto rest (i + 1) st).1 ≤ st.1 := by
        rcases hcase with ⟨he, _⟩ | ⟨k, l, hk, _, h1, h2, _⟩
        · rw [he]
        · rw [h1]
          exact le_of_lt h2
      refine ⟨?_, ?_⟩
      · intro k l hk
        cases k with
        | zero =>
          simp only [List.getElem?_cons_zero, Option.some.injEq] at hk
          rw [← hk]
          exact le_trans hle hge
        | succ k =>
          rw [List.getElem?_cons_succ] at hk
          exact hlow k l hk
      · rcases hcase with ⟨he, hall⟩ | ⟨k, l, hk, hj, h1, h2, hfirst⟩
        · refine Or.inl ⟨he, ?_⟩
          intro k l hk
          cases k with
          | zero =>
            simp only [List.getElem?_cons_zero, Option.some.injEq] at hk
            rw [← hk]
            exact hge
          | succ k =>
            rw [List.getElem?_cons_succ] at hk
            exact hall k l hk
        · refine Or.inr ⟨k + 1, l, by rw [List.getElem?_cons_succ]; exact hk, by rw [hj]; omega,
            h1, h2, ?_⟩
          intro k1 l1 hk1 hl1
          cases k1 with
          | zero =>
            simp only [List.getElem?_cons_zero, Option.some.injEq] at hl1
            rw [← hl1]
            exact lt_of_lt_of_le h2 hge
          | succ k1 =>
            rw [List.getElem?_cons_succ] at hl1
            exact hfirst k1 l1 (by omega) hl1

/-- C36 (the code at the failing input): two locations are stored, on the x
axis two million and one million units from the query point, the farther one
first.  Both distances are at least 999999, the initial `mindist`, so the loop
never updates `j` and `Cl_Location` returns the description of location 0, the
farther one, where the claim and the comments of the function (`Returns the
description of the location nearest nearto`, `find closest loc`) require the
description `near` of location 1. -/
theorem Cl_Location_beyond_sentinel :
    locs_far.map (fun l => l.desc) = ["far", "near"] ∧
    locs_far.map (locDist geoClear.VectorLength ⟨0, 0, 0⟩) = [2000000, 1000000] ∧
    Cl_Location_loop geoClear.VectorLength ⟨0, 0, 0⟩ locs_far 0 (999999, 0) = (999999, 0) ∧
    Cl_Location geoClear.VectorLength locs_far ⟨0, 0, 0⟩ = "far" := by
  decide!

/-- What `Cl_Location` returns in general.  It returns the empty string when
no locations are stored.  Otherwise, if some stored location is closer to the query point
than 999999, it returns the description of the stored location of least
distance, the lowest index winning ties; and if every stored location is at
least 999999 away, it returns the description of location 0.  The distance is
what `VectorLength` returns for the difference of the two points. -/
theorem Cl_Location_nearest (VL : Vec3 → ℚ) (locations : List loc_t) (nearto : Vec3) :
    (locations = [] → Cl_Location VL locations nearto = "") ∧
    (locations ≠ [] →
      ((∃ l ∈ locations, locDist VL nearto l < 999999) →
        ∃ (j : Nat) (l : loc_t), locations[j]? = some l ∧
          Cl_Location VL locations nearto = l.desc ∧
          (∀ l1 ∈ locations, locDist VL nearto l ≤ locDist VL nearto l1) ∧
          ∀ (k : Nat) (l1 : loc_t), k < j → locations[k]? = some l1 →
            locDist VL nearto l < locDist VL nearto l1) ∧
      ((∀ l ∈ locations, 999999 ≤ locDist VL nearto l) →
        locations.head?.map (fun l => l.desc) = some (Cl_Location VL locations nearto))) := by
  constructor
  · intro h
    rw [h]
    rfl
  · intro hne
    have hlen : ¬ locations.length = 0 := by
      intro h
      exact hne (List.length_eq_zero.mp h)
    obtain ⟨hlow, hcase⟩ := Cl_Location_loop_spec VL nearto locations 0 (999999, 0)
    constructor
    · rintro ⟨l0, hl0, hd0⟩
      rcases hcase with ⟨_, hall⟩ | ⟨k, l, hk, hj, h1, _, hfirst⟩
      · obtain ⟨k0, hk0⟩ := List.mem_iff_getElem?.mp hl0
        have := hall k0 l0 hk0
        exact absurd hd0 (not_lt.mpr this)
      · refine ⟨k, l, hk, ?_, ?_, hfirst⟩
        · unfold Cl_Location
          rw [if_neg hlen]
          dsimp only
          rw [hj, Nat.zero_add, hk]
          rfl
        · intro l1 hl1
          obtain ⟨k1, hk1⟩ := List.mem_iff_getElem?.mp hl1
          rw [← h1]
          exact hlow k1 l1 hk1
    · intro hall
      have he : Cl_Location_loop VL nearto locations 0 (999999, 0) = (999999, 0) := by
        rcases hcase with ⟨he, _⟩ | ⟨k, l, hk, _, _, h2, _⟩
        · exact he
        · exact absurd h2 (not_lt.mpr (hall l (List.mem_iff_getElem?.mpr ⟨k, hk⟩)))
      unfold Cl_Location
      rw [if_neg hlen]
      dsimp only
      rw [he]
      cases locations with
      | nil => exact absurd rfl hne
      | cons a rest => simp

/-- An instance of `Cl_Location_nearest`: three locations at distances 10, 3
and 3: the description of the first of the two nearest is returned. -/
theorem Cl_Location_nearest_tie :
    locs_near ≠ [] ∧ (∃ l ∈ locs_near, locDist geoClear.VectorLength ⟨0, 0, 0⟩ l < 999999) ∧
    locs_near.map (locDist geoClear.VectorLength ⟨0, 0, 0⟩) = [10, 3, 3] ∧
    Cl_Location geoClear.VectorLength locs_near ⟨0, 0, 0⟩ = "door" ∧
    ∃ (j : Nat) (l : loc_t), locs_near[j]? = some l ∧
      Cl_Location geoClear.VectorLength locs_near ⟨0, 0, 0⟩ = l.desc ∧
      (∀ l1 ∈ locs_near, locDist geoClear.VectorLength ⟨0, 0, 0⟩ l ≤
        locDist geoClear.VectorLength ⟨0, 0, 0⟩ l1) ∧
      ∀ (k : Nat) (l1 : loc_t), k < j → locs_near[k]? = some l1 →
        locDist geoClear.VectorLength ⟨0, 0, 0⟩ l < locDist geoClear.VectorLength ⟨0, 0, 0⟩ l1 :=
  ⟨by decide, ⟨{ loc := ⟨10, 0, 0⟩, desc := "hall" }, by decide, by decide!⟩, by decide!,
    by decide!,
    ((Cl_Location_nearest geoClear.VectorLength locs_near ⟨0, 0, 0⟩).2 (by decide)).1
      ⟨{ loc := ⟨10, 0, 0⟩, desc := "hall" }, by decide, by decide!⟩⟩

end Quetoo
